import Mathlib

/-!
# OpenSMTPD outbound session (`smtpd/mta_session.c`)

A shallow embedding of the outbound SMTP session of OpenSMTPD and the
properties of its specification.

Conventions of the embedding

* a byte is a natural number; a C string is the list of its bytes before the
  terminating NUL; `str` turns a literal into such a list;
* `FILE` is a stdio stream over a byte content, with a position and the
  end-of-file and error indicators;
* the session is the record `mta_session`; every function of the source that
  takes `struct mta_session *` is a function from sessions to sessions.
-/

namespace OpenSMTPD

/-! ## Bytes and C strings -/

/-- Bytes of a string literal. -/
def str (s : String) : List Nat := s.toList.map Char.toNat

/-- The line feed byte. -/
def LF : Nat := 10

/-- The carriage return byte. -/
def CR : Nat := 13

/-- The two bytes that end a line on the wire. -/
def CRLF : List Nat := [13, 10]

/-- The C string held by a buffer: the bytes before the first NUL. -/
def cstr (buf : List Nat) : List Nat := buf.takeWhile (fun c => c != 0)

/-- Function `isspace` of the C locale. -/
def isspace (c : Nat) : Bool :=
  c == 32 || c == 9 || c == 10 || c == 11 || c == 12 || c == 13

/-- Function `tolower` of the C locale. -/
def tolower (c : Nat) : Nat := if 65 ≤ c ∧ c ≤ 90 then c + 32 else c

/-- Function `strchr(s, c) != NULL` on a C string. -/
def strchr (s : List Nat) (c : Nat) : Bool := s.contains c

/-- Function `strncasecmp` on C strings: zero when the first `n` bytes agree
up to case, the difference of the first two bytes that differ otherwise. The
byte after the end of a string is its NUL. -/
def strncasecmp : List Nat → List Nat → Nat → Int
  | _, _, 0 => 0
  | s1, s2, n + 1 =>
    let c1 := tolower (s1.headD 0)
    let c2 := tolower (s2.headD 0)
    if c1 ≠ c2 then (c1 : Int) - (c2 : Int)
    else if c1 = 0 then 0
    else strncasecmp s1.tail s2.tail n

/-! ## stdio streams -/

/-- A stdio stream opened for reading. `data` is the content that can be
read, `pos` the position, `eof` and `err` the two indicators. `broken` is
not a field of stdio: it says that the medium fails once `data` has been
read, so that the read after the last byte raises the error indicator
instead of end-of-file. -/
structure FILE where
  data : List Nat
  pos : Nat
  eof : Bool
  err : Bool
  broken : Bool
deriving DecidableEq, Repr

/-- A stream just opened on a content (`fdopen`). -/
def fdopen (content : List Nat) (broken : Bool) : FILE :=
  { data := content, pos := 0, eof := false, err := false, broken := broken }

/-- Constant `SEEK_SET` of stdio. -/
def SEEK_SET : Nat := 0

/-- Function `fseek(fp, offset, whence)`; only the whence `SEEK_SET` (0) is
used by the source. It clears the end-of-file indicator. -/
def fseek (fp : FILE) (offset : Nat) (whence : Nat) : FILE :=
  if whence = SEEK_SET then { fp with pos := offset, eof := false } else fp

/-- Function `fgetln`: the next line of the stream, its newline included, or
what is left before the end of the file; `none` (NULL) when nothing is
left, which raises the end-of-file indicator, or the error indicator on a
broken medium. A last line without newline meets the end of the file while
it is read. -/
def fgetln (fp : FILE) : Option (List Nat) × FILE :=
  let rest := fp.data.drop fp.pos
  if rest = [] then
    (none, if fp.broken then { fp with err := true } else { fp with eof := true })
  else
    let body := rest.takeWhile (fun c => c != LF)
    if body.length < rest.length then
      (some (body ++ [LF]), { fp with pos := fp.pos + body.length + 1 })
    else if fp.broken then
      (some body, { fp with pos := fp.pos + body.length, err := true })
    else
      (some body, { fp with pos := fp.pos + body.length, eof := true })

/-! ## Loop detector -/

/-- Modelled from the spec: the hop cap `MAX_HOPS_COUNT` is defined in
`smtpd.h`, which is not part of the sources at hand; the specification gives
its usual value. -/
def MAX_HOPS_COUNT : Nat := 100

/-- The `while` loop of `mta_check_loop`. `fuel` bounds the number of
iterations (each one consumes at least one byte), `rcvcount` is the
`uint32_t` counter. The result is `ret` and the stream.

The buffer returned by `fgetln` gets its final newline replaced by NUL; a
last line without newline is copied and NUL-terminated. In both cases the C
string seen by `strchr`, `isspace` and `strncasecmp` is `cstr` of the line
without its newline. -/
def mta_check_loop_scan (hops : Nat) : Nat → FILE → Nat → Int × FILE
  | 0, fp, _ => (0, fp)
  | fuel + 1, fp, rcvcount =>
    match fgetln fp with
    | (none, fp1) => (0, fp1)
    | (some ln, fp1) =>
      let buf := cstr (if ln.getLast? = some LF then ln.dropLast else ln)
      if strchr buf 58 = false ∧ isspace (buf.headD 0) = false then (0, fp1)
      else if strncasecmp (str "Received: ") buf 10 = 0 then
        let rcvcount1 := (rcvcount + 1) % 2 ^ 32
        if rcvcount1 = hops then (1, fp1)
        else mta_check_loop_scan hops fuel fp1 rcvcount1
      else mta_check_loop_scan hops fuel fp1 rcvcount

/-- Function `mta_check_loop`, with the hop cap as a parameter. The final
call is `fseek(fp, SEEK_SET, 0)` as the source writes it: the offset is
`SEEK_SET` and the whence is 0. -/
def mta_check_loop (hops : Nat) (fp : FILE) : Int × FILE :=
  let r := mta_check_loop_scan hops (fp.data.length + 1) fp 0
  (r.1, fseek r.2 SEEK_SET 0)

/-! ## Session data -/

/-- Constant `MAX_MAIL`: messages per session. -/
def MAX_MAIL : Nat := 100

/-- Constant `MTA_HIWAT`: high-water mark of the output queue. -/
def MTA_HIWAT : Nat := 65535

/-- States of the dialog (`enum mta_state`). -/
inductive mta_state
  | MTA_INIT
  | MTA_BANNER
  | MTA_EHLO
  | MTA_HELO
  | MTA_STARTTLS
  | MTA_AUTH
  | MTA_READY
  | MTA_MAIL
  | MTA_RCPT
  | MTA_DATA
  | MTA_BODY
  | MTA_EOM
  | MTA_RSET
  | MTA_QUIT
deriving DecidableEq, Repr

open mta_state

def MTA_FORCE_ANYSSL : Nat := 0x0001
def MTA_FORCE_SMTPS : Nat := 0x0002
def MTA_FORCE_TLS : Nat := 0x0004
def MTA_FORCE_PLAIN : Nat := 0x0008
def MTA_WANT_SECURE : Nat := 0x0010
def MTA_USE_AUTH : Nat := 0x0020
def MTA_USE_CERT : Nat := 0x0040
def MTA_TLS_TRIED : Nat := 0x0080
def MTA_TLS : Nat := 0x0100
def MTA_VERIFIED : Nat := 0x0200

def MTA_EXT_STARTTLS : Nat := 0x01
def MTA_EXT_AUTH : Nat := 0x02
def MTA_EXT_PIPELINING : Nat := 0x04

/-- Values of `errno` read by the source (`errno.h` of OpenBSD). -/
def EADDRNOTAVAIL : Nat := 49

def ETIMEDOUT : Nat := 60

def ECONNREFUSED : Nat := 61

/-- Modelled from the spec: the maximum length of a reply line,
`SMTP_LINE_MAX` of `smtpd.h`, "commonly 4096 bytes". -/
def SMTP_LINE_MAX : Nat := 4096

/-- Delivery verdicts sent to the queue (`IMSG_DELIVERY_*`). -/
inductive delivery
  | IMSG_DELIVERY_OK
  | IMSG_DELIVERY_TEMPFAIL
  | IMSG_DELIVERY_PERMFAIL
  | IMSG_DELIVERY_LOOP
deriving DecidableEq, Repr

open delivery

/-- The fields of `struct envelope` the session reads or writes. -/
structure envelope where
  id : Nat
  dest_user : List Nat
  dest_domain : List Nat
  errorline : List Nat
deriving DecidableEq, Repr

/-- A task (`struct mta_task`): message id, sender, and the tail queue of
envelopes as a list. -/
structure mta_task where
  msgid : Nat
  sender_user : List Nat
  sender_domain : List Nat
  envelopes : List envelope
deriving DecidableEq, Repr

/-- The fields of `struct mta_relay` the session reads. `secret` and `cert`
are pointers: `none` is NULL. -/
structure mta_relay where
  flags : Nat
  port : Nat
  secret : Option (List Nat)
  cert : Option (List Nat)
deriving DecidableEq, Repr

/-- Values of the `RELAY_*` flags of `smtpd.h`, which is not part of the
sources at hand: they are a parameter of `mta_session_spawn`. -/
structure relay_flag_values where
  RELAY_SSL : Nat
  RELAY_SMTPS : Nat
  RELAY_STARTTLS : Nat
  RELAY_TLS_OPTIONAL : Nat
  RELAY_AUTH : Nat
deriving DecidableEq, Repr

/-- Events the byte stream delivers to `mta_io`. -/
inductive io_event
  | IO_CONNECTED
  | IO_TLSREADY
  | IO_TLSVERIFIED
  | IO_DATAIN
  | IO_LOWAT
  | IO_TIMEOUT
  | IO_ERROR
  | IO_DISCONNECTED
deriving DecidableEq, Repr

open io_event

/-- What the session does to the outside, and ghost marks of calls, in the
order of execution. -/
inductive Effect
  /-- the `log_trace` of `mta_enter_state`: old and new state -/
  | log_trace (old new : mta_state)
  /-- a command queued by `mta_send`, without its CR LF -/
  | send (cmd : List Nat)
  /-- body bytes queued by one call of `mta_queue_data` -/
  | body (bytes : List Nat)
  | mta_route_ok
  | mta_route_error (msg : List Nat)
  | mta_source_error (msg : List Nat)
  | mta_route_collect
  /-- the call of `mta_route_next_task` and what it returned -/
  | mta_route_next_task (t : Option mta_task)
  /-- request of the content handle, `IMSG_QUEUE_MESSAGE_FD` -/
  | queue_message_fd (msgid : Nat)
  /-- verdict of one envelope forwarded to the queue -/
  | queue_delivery (d : delivery) (e : envelope)
  | log_envelope (e : envelope) (pfx : List Nat) (status : List Nat)
  /-- ghost: a call of `mta_flush_task` -/
  | flush_task (d : delivery) (error : List Nat)
  | dns_query_ptr
  | lka_ssl_init (name : List Nat)
  | lka_ssl_verify
  | io_connect (portno : Nat)
  | io_start_tls
  /-- ghost: an event received by `mta_io` -/
  | event (e : io_event)
deriving DecidableEq, Repr

/-- Modelled from the spec: the phases of the byte stream (section 4.2),
whose code (`ioev.c`) is not part of the sources at hand. `down`: no
connection; `connect`: connection in progress; `connect_ssl`: TLS handshake
in progress; `up`: data can flow. -/
inductive io_state
  | down
  | connect
  | connect_ssl
  | up
deriving DecidableEq, Repr

/-- How far the session object got. `alive`: in use. `freed`: `mta_free`
returned. `fatal`: the process was ended by `fatalx`, `errx` or `fatal`.
`undefined`: the C code did something without defined behaviour (NULL
dereference, use after free, unterminated string). -/
inductive session_status
  | alive
  | freed
  | fatal (why : String)
  | undefined (why : String)
deriving DecidableEq, Repr

/-- The session (`struct mta_session`), with
* the input and output sides of `iobuf` as byte lists,
* the phase of `io`,
* membership of the session id in the four wait trees,
* `errno`,
* `hostname`, the `env->sc_hostname` of the configuration,
* the status of the object and the history of effects. -/
structure mta_session where
  relay : mta_relay
  hostname : List Nat
  flags : Nat
  attempt : Nat
  use_smtps : Nat
  use_starttls : Nat
  use_smtp_tls : Nat
  ready : Nat
  iobuf_in : List Nat
  iobuf_out : List Nat
  io : io_state
  ext : Nat
  msgcount : Nat
  state : mta_state
  task : Option mta_task
  currevp : Option Nat
  datafp : Option FILE
  errno : Nat
  wait_ptr : Bool
  wait_fd : Bool
  wait_ssl_init : Bool
  wait_ssl_verify : Bool
  status : session_status
  hist : List Effect
deriving DecidableEq, Repr

/-- Answers of the environment while one event is handled. -/
structure World where
  /-- value of `errno` when the handler starts -/
  errno : Nat
  /-- result of `io_connect`: `none` for success, `some e` for failure with
  `errno = e` -/
  io_connect : Option Nat
  /-- text of `io.error` -/
  io_error : List Nat
  /-- whether `SSL_get_peer_certificate` returns a certificate -/
  peer_cert : Bool
  /-- what `mta_route_next_task` returns -/
  next_task : Option mta_task
  /-- number of queued output bytes the byte stream has written to the
  socket since the previous event -/
  written : Nat
deriving DecidableEq, Repr

/-! ## Task flush, errors, teardown -/

/-- Modelled from the spec: `envelope_set_errormsg` (`envelope.c`, not part
of the sources at hand) stamps the envelope with the error text. -/
def envelope_set_errormsg (e : envelope) (msg : List Nat) : envelope :=
  { e with errorline := msg }

/-- The log prefix chosen by the `switch` of `mta_flush_task`. -/
def mta_flush_task_pfx : delivery → List Nat
  | IMSG_DELIVERY_OK => str "Ok"
  | IMSG_DELIVERY_TEMPFAIL => str "TempFail"
  | IMSG_DELIVERY_PERMFAIL => str "PermFail"
  | IMSG_DELIVERY_LOOP => str "PermFail"

/-- The `while` loop of `mta_flush_task` on the envelopes of the task, after
the ghost mark of the call: each envelope is stamped with the error text,
logged with the prefix, and forwarded to the queue with the verdict. -/
def mta_flush_task_effects (t : mta_task) (d : delivery) (error : List Nat) : List Effect :=
  Effect.flush_task d error ::
    t.envelopes.flatMap (fun e =>
      [Effect.log_envelope (envelope_set_errormsg e error) (mta_flush_task_pfx d) error,
       Effect.queue_delivery d (envelope_set_errormsg e error)])

/-- Function `mta_flush_task`: every envelope of the task is removed,
stamped with the error text, logged and forwarded to the queue with the
verdict; the task is freed and the slot cleared. The statistics counters are
not part of the embedding. Neither `currevp` nor `datafp` is touched. -/
def mta_flush_task (s : mta_session) (d : delivery) (error : List Nat) : mta_session :=
  if s.status ≠ .alive then s else
  match s.task with
  | none => { s with status := .undefined "mta_flush_task: s->task is NULL" }
  | some t => { s with task := none, hist := s.hist ++ mta_flush_task_effects t d error }

/-- Function `mta_envelope_fail`: the log record and the verdict of one
envelope. The status text is `RemoteError (...)` around the error line from
its fifth byte on. -/
def mta_envelope_fail (evp : envelope) (d : delivery) : List Effect :=
  [Effect.log_envelope evp
      (if d = IMSG_DELIVERY_TEMPFAIL then str "TempFail" else str "PermFail")
      (str "RemoteError (" ++ evp.errorline.drop 4 ++ str ")"),
   Effect.queue_delivery d evp]

/-- Function `mta_error`, called with the formatted message. -/
def mta_error (s : mta_session) (error : List Nat) : mta_session :=
  if s.status ≠ .alive then s else
  if s.state = MTA_INIT ∧ (s.errno = ETIMEDOUT ∨ s.errno = ECONNREFUSED) then s
  else
    let s1 := { s with hist := s.hist ++ [Effect.mta_route_error error] }
    if s1.task.isSome then mta_flush_task s1 IMSG_DELIVERY_TEMPFAIL error else s1

/-- Function `mta_free`. -/
def mta_free (s : mta_session) : mta_session :=
  if s.status ≠ .alive then s else
  let s1 := { s with io := io_state.down, iobuf_in := [], iobuf_out := [] }
  if s1.task.isSome then
    { s1 with status := .fatal "current task should have been deleted already" }
  else
    { s1 with datafp := none, status := .freed, hist := s1.hist ++ [Effect.mta_route_collect] }

/-- Function `mta_send`, called with the formatted command. -/
def mta_send (s : mta_session) (cmd : List Nat) : mta_session :=
  if s.status ≠ .alive then s else
  { s with iobuf_out := s.iobuf_out ++ (cmd ++ CRLF), hist := s.hist ++ [Effect.send cmd] }

/-! ## Body streamer -/

/-- The `while` loop of `mta_queue_data` on the output queue and the content
stream. `fuel` bounds the number of iterations. A line that ends with a
newline has it replaced by NUL, and `%s` prints the C string of the buffer.
A last line without newline is not NUL-terminated by the source: `%s` stops
at a NUL inside the line if there is one and otherwise reads past the end of
the buffer, for which the result is `none`. -/
def mta_queue_data_loop : Nat → List Nat → FILE → Option (List Nat × FILE)
  | 0, out, fp => some (out, fp)
  | fuel + 1, out, fp =>
    if ¬ out.length < MTA_HIWAT then some (out, fp) else
    match fgetln fp with
    | (none, fp1) => some (out, fp1)
    | (some ln, fp1) =>
      let dot : List Nat := if ln.headD 0 = 46 then [46] else []
      if ln.getLast? = some LF then
        mta_queue_data_loop fuel (out ++ (dot ++ cstr ln.dropLast ++ CRLF)) fp1
      else if 0 ∈ ln then
        mta_queue_data_loop fuel (out ++ (dot ++ cstr ln ++ CRLF)) fp1
      else none

/-- Function `mta_queue_data`: the return value and the session. -/
def mta_queue_data (s : mta_session) : Int × mta_session :=
  if s.status ≠ .alive then (0, s) else
  match s.datafp with
  | none => (0, { s with status := .undefined "mta_queue_data: s->datafp is NULL" })
  | some fp =>
    match mta_queue_data_loop (fp.data.length + 1) s.iobuf_out fp with
    | none => (0, { s with status := .undefined "mta_queue_data: line without NUL" })
    | some (out, fp1) =>
      let s1 := { s with
        iobuf_out := out
        datafp := some fp1
        hist := s.hist ++ [Effect.body (out.drop s.iobuf_out.length)] }
      if fp1.err then
        (-1, mta_flush_task s1 IMSG_DELIVERY_TEMPFAIL (str "Error reading content file"))
      else if fp1.eof then
        ((out.length : Int) - s.iobuf_out.length, { s1 with datafp := none })
      else
        ((out.length : Int) - s.iobuf_out.length, s1)

/-! ## Connection -/

/-- The head of `mta_enter_state`: the trace record and the assignment of
the new state. -/
def mta_enter_state_head (s : mta_session) (newstate : mta_state) : mta_session :=
  { s with state := newstate, hist := s.hist ++ [Effect.log_trace s.state newstate] }

/-- The `switch (s->attempt)` of `mta_connect`: the session with the mode
indicators set, or `none` for `goto fail`. -/
def mta_connect_mode (s : mta_session) : Option mta_session :=
  if s.attempt = 0 then
    if s.flags &&& MTA_FORCE_SMTPS ≠ 0 then some { s with use_smtps := 1 }
    else if s.flags &&& (MTA_FORCE_TLS ||| MTA_FORCE_ANYSSL) ≠ 0 then
      some { s with use_starttls := 1 }
    else if s.flags &&& MTA_FORCE_PLAIN = 0 then some { s with use_smtp_tls := 1 }
    else some s
  else if s.attempt = 1 then
    if s.flags &&& MTA_FORCE_ANYSSL ≠ 0 then some { s with use_smtps := 1 }
    else none
  else none

/-- Function `mta_connect`. The call `mta_enter_state(s, MTA_INIT)` only
runs the head of `mta_enter_state`. -/
def mta_connect (w : World) (s : mta_session) : mta_session :=
  if s.status ≠ .alive then s else
  let s0 := { s with
    io := io_state.down, iobuf_in := [], iobuf_out := []
    use_smtps := 0, use_starttls := 0, use_smtp_tls := 0 }
  match mta_connect_mode s0 with
  | none => mta_free (mta_error s0 (str "Could not connect"))
  | some s1 =>
    let portno := if s1.relay.port ≠ 0 then s1.relay.port
      else if s1.use_smtps ≠ 0 then 465 else 25
    let s2 := mta_enter_state_head { s1 with attempt := s1.attempt + 1 } MTA_INIT
    let s3 := { s2 with hist := s2.hist ++ [Effect.io_connect portno] }
    match w.io_connect with
    | none => { s3 with io := io_state.connect }
    | some e =>
      let s4 := { s3 with errno := e }
      if e = EADDRNOTAVAIL then
        mta_free { s4 with hist := s4.hist ++ [Effect.mta_source_error w.io_error] }
      else
        mta_free (mta_error s4 (str "Connection failed: " ++ w.io_error))

/-- Function `mta_on_ptr`. -/
def mta_on_ptr (w : World) (s : mta_session) : mta_session := mta_connect w s

/-! ## State entry

`mta_enter_state` chains state entries with `goto again`. The chains are
`STARTTLS → AUTH → READY → QUIT` and `BODY → EOM`; the embedding gives one
function to each target of a `goto` and lets `mta_enter_state` dispatch. -/

/-- Modelled from the spec: `tree_xset` (`tree.c`, not part of the sources
at hand) installs the entry of the session in a wait tree and ends the
process when the id is already there. -/
def tree_xset (present : Bool) (why : String) (s : mta_session) (k : mta_session) :
    mta_session :=
  if present then { s with status := .fatal why } else k

/-- Case `MTA_QUIT` of `mta_enter_state`. -/
def mta_enter_state_quit (s : mta_session) : mta_session :=
  if s.status ≠ .alive then s else
  mta_send (mta_enter_state_head s MTA_QUIT) (str "QUIT")

/-- Case `MTA_READY` of `mta_enter_state`. -/
def mta_enter_state_ready (w : World) (s : mta_session) : mta_session :=
  if s.status ≠ .alive then s else
  let s0 := mta_enter_state_head s MTA_READY
  let s1 := if s0.ready = 0 then
      { s0 with ready := 1, hist := s0.hist ++ [Effect.mta_route_ok] }
    else s0
  if s1.msgcount ≥ MAX_MAIL then mta_enter_state_quit s1
  else
    let s2 := { s1 with
      task := w.next_task
      hist := s1.hist ++ [Effect.mta_route_next_task w.next_task] }
    match w.next_task with
    | none => mta_enter_state_quit s2
    | some t =>
      let s3 := { s2 with hist := s2.hist ++ [Effect.queue_message_fd t.msgid] }
      tree_xset s3.wait_fd "tree_xset(wait_fd)" s3 { s3 with wait_fd := true }

/-- Case `MTA_AUTH` of `mta_enter_state`. -/
def mta_enter_state_auth (w : World) (s : mta_session) : mta_session :=
  if s.status ≠ .alive then s else
  let s0 := mta_enter_state_head s MTA_AUTH
  match s0.relay.secret with
  | some secret =>
    if s0.flags &&& MTA_TLS ≠ 0 then mta_send s0 (str "AUTH PLAIN " ++ secret)
    else mta_connect w (mta_error s0 (str "Refuse to AUTH over unsecure channel"))
  | none => mta_enter_state_ready w s0

/-- Case `MTA_STARTTLS` of `mta_enter_state`. -/
def mta_enter_state_starttls (w : World) (s : mta_session) : mta_session :=
  if s.status ≠ .alive then s else
  let s0 := mta_enter_state_head s MTA_STARTTLS
  if s0.flags &&& MTA_TLS ≠ 0 then mta_enter_state_auth w s0
  else if s0.ext &&& MTA_EXT_STARTTLS = 0 then
    if s0.flags &&& MTA_FORCE_TLS ≠ 0 ∨ s0.flags &&& MTA_WANT_SECURE ≠ 0 then
      mta_connect w (mta_error s0 (str "TLS required but not supported by remote host"))
    else mta_enter_state_auth w s0
  else mta_send s0 (str "STARTTLS")

/-- Case `MTA_EOM` of `mta_enter_state`. -/
def mta_enter_state_eom (s : mta_session) : mta_session :=
  if s.status ≠ .alive then s else
  mta_send (mta_enter_state_head s MTA_EOM) (str ".")

/-- Case `MTA_BODY` of `mta_enter_state`. -/
def mta_enter_state_body (s : mta_session) : mta_session :=
  if s.status ≠ .alive then s else
  let s0 := mta_enter_state_head s MTA_BODY
  match s0.datafp with
  | none => mta_enter_state_eom s0
  | some _ =>
    let r := mta_queue_data s0
    if r.1 = -1 then mta_free r.2 else r.2

/-- Function `mta_enter_state`. -/
def mta_enter_state (w : World) (s : mta_session) (newstate : mta_state) : mta_session :=
  if s.status ≠ .alive then s else
  match newstate with
  | MTA_INIT => mta_enter_state_head s MTA_INIT
  | MTA_BANNER => mta_enter_state_head s MTA_BANNER
  | MTA_EHLO =>
    let s0 := mta_enter_state_head s MTA_EHLO
    mta_send { s0 with ext := 0 } (str "EHLO " ++ s0.hostname)
  | MTA_HELO =>
    let s0 := mta_enter_state_head s MTA_HELO
    mta_send { s0 with ext := 0 } (str "HELO " ++ s0.hostname)
  | MTA_STARTTLS => mta_enter_state_starttls w s
  | MTA_AUTH => mta_enter_state_auth w s
  | MTA_READY => mta_enter_state_ready w s
  | MTA_MAIL =>
    let s0 := mta_enter_state_head s MTA_MAIL
    match s0.task with
    | none => { s0 with status := .undefined "mta_enter_state: s->task is NULL" }
    | some t =>
      if t.sender_user.headD 0 ≠ 0 ∧ t.sender_domain.headD 0 ≠ 0 then
        mta_send s0 (str "MAIL FROM: <" ++ t.sender_user ++ str "@" ++ t.sender_domain ++ str ">")
      else mta_send s0 (str "MAIL FROM: <>")
  | MTA_RCPT =>
    let s0 := mta_enter_state_head s MTA_RCPT
    match s0.task with
    | none => { s0 with status := .undefined "mta_enter_state: s->task is NULL" }
    | some t =>
      let s1 := if s0.currevp = none then
          { s0 with currevp := if t.envelopes = [] then none else some 0 }
        else s0
      match s1.currevp.bind (fun i => t.envelopes.get? i) with
      | none => { s1 with status := .undefined "mta_enter_state: s->currevp is NULL" }
      | some evp =>
        mta_send s1 (str "RCPT TO: <" ++ evp.dest_user ++ str "@" ++ evp.dest_domain ++ str ">")
  | MTA_DATA =>
    let s0 := mta_enter_state_head s MTA_DATA
    match s0.datafp with
    | none => { s0 with status := .undefined "mta_enter_state: s->datafp is NULL" }
    | some fp => mta_send { s0 with datafp := some (fseek fp 0 SEEK_SET) } (str "DATA")
  | MTA_BODY => mta_enter_state_body s
  | MTA_EOM => mta_enter_state_eom s
  | MTA_RSET => mta_send (mta_enter_state_head s MTA_RSET) (str "RSET")
  | MTA_QUIT => mta_enter_state_quit s

/-! ## TLS -/

/-- Function `mta_start_tls`. -/
def mta_start_tls (s : mta_session) : mta_session :=
  if s.status ≠ .alive then s else
  match s.relay.cert with
  | some name =>
    let s0 := { s with hist := s.hist ++ [Effect.lka_ssl_init name] }
    tree_xset s0.wait_ssl_init "tree_xset(wait_ssl_init)" s0 { s0 with wait_ssl_init := true }
  | none =>
    { s with io := io_state.connect_ssl, hist := s.hist ++ [Effect.io_start_tls] }

/-- Function `mta_verify_certificate`: the return value and the session. -/
def mta_verify_certificate (w : World) (s : mta_session) : Bool × mta_session :=
  if w.peer_cert = false then (false, s)
  else
    (true, tree_xset s.wait_ssl_verify "tree_xset(wait_ssl_verify)" s
      { s with wait_ssl_verify := true, hist := s.hist ++ [Effect.lka_ssl_verify] })

/-! ## Replies -/

/-- The verdict for a rejected command: `IMSG_DELIVERY_PERMFAIL` when the
line starts with `5`, `IMSG_DELIVERY_TEMPFAIL` otherwise. -/
def mta_response_delivery (line : List Nat) : delivery :=
  if line.headD 0 = 53 then IMSG_DELIVERY_PERMFAIL else IMSG_DELIVERY_TEMPFAIL

/-- Case `MTA_RCPT` of `mta_response`. The cursor `currevp` is an index in
the list of envelopes; `TAILQ_NEXT` of the last element is NULL; after
`TAILQ_REMOVE` of the element at `i` the element that followed it is at
`i`. -/
def mta_response_rcpt (w : World) (s : mta_session) (line : List Nat) : mta_session :=
  match s.task, s.currevp with
  | some t, some i =>
    match t.envelopes.get? i with
    | none => { s with status := .undefined "mta_response: s->currevp is dangling" }
    | some evp =>
      let next : Option Nat := if i + 1 < t.envelopes.length then some (i + 1) else none
      let s0 := { s with currevp := next }
      if line.headD 0 ≠ 50 then
        let d := mta_response_delivery line
        let evp1 := envelope_set_errormsg evp line
        let s1 := { s0 with
          task := some { t with envelopes := t.envelopes.eraseIdx i }
          currevp := next.map (fun _ => i)
          hist := s0.hist ++ mta_envelope_fail evp1 d }
        if t.envelopes.eraseIdx i = [] then
          mta_enter_state w (mta_flush_task s1 IMSG_DELIVERY_OK (str "No envelope")) MTA_RSET
        else if s1.currevp = none then mta_enter_state w s1 MTA_DATA
        else mta_enter_state w s1 MTA_RCPT
      else if s0.currevp = none then mta_enter_state w s0 MTA_DATA
      else mta_enter_state w s0 MTA_RCPT
  | _, _ => { s with status := .undefined "mta_response: s->currevp or s->task is NULL" }

/-- Function `mta_response`; `line` is the C string of the reply line. -/
def mta_response (w : World) (s : mta_session) (line : List Nat) : mta_session :=
  if s.status ≠ .alive then s else
  match s.state with
  | MTA_BANNER => mta_enter_state w s MTA_EHLO
  | MTA_EHLO =>
    if line.headD 0 ≠ 50 then
      if s.flags &&& MTA_USE_AUTH ≠ 0 ∨ s.flags &&& MTA_WANT_SECURE ≠ 0 then
        mta_free (mta_error s (str "EHLO rejected: " ++ line))
      else mta_enter_state w s MTA_HELO
    else if s.flags &&& MTA_FORCE_PLAIN = 0 then mta_enter_state w s MTA_STARTTLS
    else mta_enter_state w s MTA_READY
  | MTA_HELO =>
    if line.headD 0 ≠ 50 then mta_free (mta_error s (str "HELO rejected: " ++ line))
    else mta_enter_state w s MTA_READY
  | MTA_STARTTLS =>
    if line.headD 0 ≠ 50 then
      if s.flags &&& MTA_WANT_SECURE = 0 then mta_enter_state w s MTA_AUTH
      else mta_free (mta_error s (str "STARTTLS rejected: " ++ line))
    else mta_start_tls s
  | MTA_AUTH =>
    if line.headD 0 ≠ 50 then mta_free (mta_error s (str "AUTH rejected: " ++ line))
    else mta_enter_state w s MTA_READY
  | MTA_MAIL =>
    if line.headD 0 ≠ 50 then
      mta_enter_state w (mta_flush_task s (mta_response_delivery line) line) MTA_RSET
    else mta_enter_state w s MTA_RCPT
  | MTA_RCPT => mta_response_rcpt w s line
  | MTA_DATA =>
    if line.headD 0 = 50 ∨ line.headD 0 = 51 then mta_enter_state w s MTA_BODY
    else mta_enter_state w (mta_flush_task s (mta_response_delivery line) line) MTA_RSET
  | MTA_EOM =>
    if line.headD 0 = 50 then
      mta_enter_state w
        (mta_flush_task { s with msgcount := s.msgcount + 1 } IMSG_DELIVERY_OK line) MTA_READY
    else
      mta_enter_state w (mta_flush_task s (mta_response_delivery line) line) MTA_READY
  | MTA_RSET => mta_enter_state w s MTA_READY
  | _ => { s with status := .fatal "mta_response() bad state" }

/-! ## Events of the byte stream -/

/-- Modelled from the spec: `iobuf_getline` (`iobuf.c`, not part of the
sources at hand), "return next complete CRLF-terminated line from input, or
nothing": the line without its terminator and the rest of the input. -/
def iobuf_getline : List Nat → Option (List Nat × List Nat)
  | [] => none
  | c :: tl =>
    if c = CR ∧ tl.head? = some LF then some ([], tl.tail)
    else (iobuf_getline tl).map (fun r => (c :: r.1, r.2))

/-- Function `isdigit` of the C locale. -/
def isdigit (c : Nat) : Bool := decide (48 ≤ c ∧ c ≤ 57)

/-- Modelled from the spec: `parse_smtp_response` (`util.c`, not part of the
sources at hand) accepts a line of the form `DDD<SP|-><text>` shorter than
the maximum; the result is the text and the continuation flag, or an error
message. -/
def parse_smtp_response (line : List Nat) : Except (List Nat) (List Nat × Bool) :=
  if SMTP_LINE_MAX ≤ line.length then .error (str "line too long")
  else
    match line with
    | d1 :: d2 :: d3 :: sep :: text =>
      if isdigit d1 ∧ isdigit d2 ∧ isdigit d3 ∧ (sep = 32 ∨ sep = 45) then
        .ok (text, decide (sep = 45))
      else .error (str "invalid reply")
    | _ => .error (str "line too short")

/-- The `read extensions` block of `mta_io`. -/
def mta_io_ext (s : mta_session) (msg : List Nat) : mta_session :=
  if s.state = MTA_EHLO then
    if msg = str "STARTTLS" then { s with ext := s.ext ||| MTA_EXT_STARTTLS }
    else if msg.take 4 = str "AUTH" then { s with ext := s.ext ||| MTA_EXT_AUTH }
    else if msg = str "PIPELINING" then { s with ext := s.ext ||| MTA_EXT_PIPELINING }
    else s
  else s

/-- Case `IO_DATAIN` of `mta_io`, from the label `nextline`. `fuel` bounds
the number of lines read. After `mta_response` the source reads `s->iobuf`
again: when the session was freed by `mta_response` this is a use after
free. -/
def mta_io_datain : Nat → World → mta_session → mta_session
  | 0, _, s => s
  | fuel + 1, w, s =>
    match iobuf_getline s.iobuf_in with
    | none =>
      if SMTP_LINE_MAX ≤ s.iobuf_in.length then mta_free (mta_error s (str "Input too long"))
      else s
    | some (line, rest) =>
      let s0 := { s with iobuf_in := rest }
      match parse_smtp_response line with
      | .error e => mta_free (mta_error s0 (str "Bad response: " ++ e))
      | .ok (msg, cont) =>
        let s1 := mta_io_ext s0 (cstr msg)
        if cont then mta_io_datain fuel w s1
        else if s1.state = MTA_QUIT then mta_free s1
        else
          let s2 := mta_response w s1 (cstr line)
          match s2.status with
          | .alive =>
            if s2.iobuf_in ≠ [] then
              mta_free (mta_error s2 (str "Remote host sent too much data"))
            else s2
          | .freed => { s2 with status := .undefined "mta_io: use after free" }
          | _ => s2

/-- Case `IO_TLSVERIFIED` of `mta_io`, also reached from `IO_TLSREADY`. -/
def mta_io_tlsverified (w : World) (s : mta_session) : mta_session :=
  if s.use_smtps ≠ 0 then mta_enter_state w s MTA_BANNER
  else mta_enter_state w s MTA_EHLO

/-- The three cases `IO_TIMEOUT`, `IO_ERROR`, `IO_DISCONNECTED` of `mta_io`,
with their message. -/
def mta_io_fail (w : World) (s : mta_session) (msg : List Nat) : mta_session :=
  let s0 := mta_error s msg
  if s0.ready = 0 then mta_connect w s0 else mta_free s0

/-- The `switch (evt)` of `mta_io`. The direction hints `io_set_read`,
`io_set_write` and the pause of the input are not part of the embedding. -/
def mta_io_switch (w : World) (s : mta_session) (evt : io_event) : mta_session :=
  match evt with
  | IO_CONNECTED =>
    if s.use_smtps ≠ 0 then mta_start_tls s else mta_enter_state w s MTA_BANNER
  | IO_TLSREADY =>
    let r := mta_verify_certificate w { s with flags := s.flags ||| MTA_TLS }
    if r.1 then r.2 else mta_io_tlsverified w r.2
  | IO_TLSVERIFIED => mta_io_tlsverified w s
  | IO_DATAIN => mta_io_datain (s.iobuf_in.length + 1) w s
  | IO_LOWAT =>
    let s1 := if s.state = MTA_BODY then mta_enter_state w s MTA_BODY else s
    match s1.status with
    | .freed => { s1 with status := .undefined "mta_io: use after free" }
    | _ => s1
  | IO_TIMEOUT => mta_io_fail w s (str "Connection timeout")
  | IO_ERROR => mta_io_fail w s (str "IO Error: " ++ w.io_error)
  | IO_DISCONNECTED => mta_io_fail w s (str "Connection closed unexpectedly")

/-- Function `mta_io`: the ghost mark of the event, then the `switch`. -/
def mta_io (w : World) (s : mta_session) (evt : io_event) : mta_session :=
  if s.status ≠ .alive then s
  else mta_io_switch w { s with hist := s.hist ++ [Effect.event evt] } evt

/-! ## Messages of the helper processes -/

/-- Messages handled by `mta_session_imsg`. The content handle is `none`
for the descriptor -1, or the content of the message and whether the medium
is broken. The two TLS replies carry their status. -/
inductive imsg
  | IMSG_QUEUE_MESSAGE_FD (fd : Option (List Nat × Bool))
  | IMSG_DNS_PTR
  | IMSG_LKA_SSL_INIT (ok : Bool)
  | IMSG_LKA_SSL_VERIFY (ok : Bool)
deriving DecidableEq, Repr

open imsg

/-- Modelled from the spec: `tree_xpop` (`tree.c`, not part of the sources
at hand) removes and returns the entry of the session from a wait tree; a
reply that matches no entry ends the process. The entry of a session that
was freed while it waited is a dangling pointer. -/
def tree_xpop (present : Bool) (why : String) (s : mta_session)
    (k : mta_session → mta_session) : mta_session :=
  if present = false then { s with status := .fatal why }
  else if s.status = .freed then { s with status := .undefined "use after free" }
  else k s

/-- Function `mta_session_imsg`, for the session the message is about. -/
def mta_session_imsg (w : World) (s : mta_session) (m : imsg) : mta_session :=
  match m with
  | IMSG_QUEUE_MESSAGE_FD fd =>
    match fd with
    | none => { s with status := .fatal "mta: cannot obtain msgfd" }
    | some (content, broken) =>
      tree_xpop s.wait_fd "tree_xpop(wait_fd)" s fun s =>
        let s0 := { s with wait_fd := false }
        let r := mta_check_loop MAX_HOPS_COUNT (fdopen content broken)
        if r.1 ≠ 0 then
          mta_enter_state w
            (mta_flush_task { s0 with datafp := none } IMSG_DELIVERY_LOOP (str "Loop detected"))
            MTA_READY
        else mta_enter_state w { s0 with datafp := some r.2 } MTA_MAIL
  | IMSG_DNS_PTR =>
    tree_xpop s.wait_ptr "tree_xpop(wait_ptr)" s fun s =>
      mta_on_ptr w { s with wait_ptr := false }
  | IMSG_LKA_SSL_INIT ok =>
    tree_xpop s.wait_ssl_init "tree_xpop(wait_ssl_init)" s fun s =>
      let s0 := { s with wait_ssl_init := false }
      if ok = false then mta_free s0
      else { s0 with io := io_state.connect_ssl, hist := s0.hist ++ [Effect.io_start_tls] }
  | IMSG_LKA_SSL_VERIFY ok =>
    tree_xpop s.wait_ssl_verify "tree_xpop(wait_ssl_verify)" s fun s =>
      let s0 := { s with wait_ssl_verify := false }
      let s1 := if ok then { s0 with flags := s0.flags ||| MTA_VERIFIED } else s0
      mta_io w s1 IO_TLSVERIFIED

/-! ## Session start and runs -/

/-- Function `mta_session` of the source, which creates the session: the
flags from the relay, then the connection at once when the PTR of the
destination is known, or the PTR query. -/
def mta_session_spawn (k : relay_flag_values) (relay : mta_relay) (hostname : List Nat)
    (ptr_known : Bool) (w : World) : mta_session :=
  let f0 : Nat :=
    if relay.flags &&& k.RELAY_SSL ≠ 0 ∧ relay.flags &&& k.RELAY_AUTH ≠ 0 then MTA_USE_AUTH
    else 0
  let f1 : Nat := if relay.cert.isSome then f0 ||| MTA_USE_CERT else f0
  let sel := relay.flags &&& (k.RELAY_SSL ||| k.RELAY_TLS_OPTIONAL)
  let f2 : Nat :=
    if sel = k.RELAY_SSL then f1 ||| MTA_FORCE_ANYSSL ||| MTA_WANT_SECURE
    else if sel = k.RELAY_SMTPS then f1 ||| MTA_FORCE_SMTPS ||| MTA_WANT_SECURE
    else if sel = k.RELAY_STARTTLS then f1 ||| MTA_FORCE_TLS ||| MTA_WANT_SECURE
    else if sel = k.RELAY_TLS_OPTIONAL then f1
    else f1 ||| MTA_FORCE_PLAIN
  let s : mta_session :=
    { relay := relay, hostname := hostname, flags := f2, attempt := 0
      use_smtps := 0, use_starttls := 0, use_smtp_tls := 0, ready := 0
      iobuf_in := [], iobuf_out := [], io := io_state.down, ext := 0, msgcount := 0
      state := MTA_INIT, task := none, currevp := none, datafp := none
      errno := w.errno
      wait_ptr := false, wait_fd := false, wait_ssl_init := false, wait_ssl_verify := false
      status := .alive, hist := [] }
  if ptr_known then mta_on_ptr w s
  else { s with wait_ptr := true, hist := [Effect.dns_query_ptr] }

/-- What can happen to a session: an event of its byte stream (with the
bytes received, for `IO_DATAIN`) or a message of a helper process. -/
inductive Event
  | io (e : io_event) (input : List Nat)
  | msg (m : imsg)
deriving DecidableEq, Repr

/-- Modelled from the spec: when the byte stream (section 4.2) delivers its
events. `IO_CONNECTED` ends a connection in progress and `IO_TLSREADY` a
handshake in progress; data events need an established stream; timeout,
error and disconnection need a stream. `IO_TLSVERIFIED` is only raised by
`mta_session_imsg`. While a request to the certificate helper is
outstanding the stream is idle (the input is paused and nothing is queued):
the reply of the helper comes first. Messages of helpers are always
handled. -/
def enabled (s : mta_session) : Event → Bool
  | Event.io e _ =>
    !s.wait_ssl_init && !s.wait_ssl_verify &&
    match e with
    | IO_CONNECTED => decide (s.io = io_state.connect)
    | IO_TLSREADY => decide (s.io = io_state.connect_ssl)
    | IO_TLSVERIFIED => false
    | IO_DATAIN => decide (s.io = io_state.up)
    | IO_LOWAT => decide (s.io = io_state.up)
    | _ => decide (s.io ≠ io_state.down)
  | Event.msg _ => true

/-- One event on a session. Nothing happens after the end of the process. An
event starts with the value of `errno` and the output queue as the
environment left them; the stream is established by `IO_CONNECTED` and
`IO_TLSREADY`, and `IO_DATAIN` comes with new bytes in the input buffer. -/
def step (s : mta_session) (we : World × Event) : mta_session :=
  match s.status with
  | .fatal _ => s
  | .undefined _ => s
  | _ =>
    if enabled s we.2 = false then s
    else
      let s0 := { s with errno := we.1.errno, iobuf_out := s.iobuf_out.drop we.1.written }
      match we.2 with
      | Event.io e input =>
        let s1 :=
          match e with
          | IO_CONNECTED => { s0 with io := io_state.up }
          | IO_TLSREADY => { s0 with io := io_state.up }
          | IO_DATAIN => { s0 with iobuf_in := s0.iobuf_in ++ input }
          | _ => s0
        mta_io we.1 s1 e
      | Event.msg m => mta_session_imsg we.1 s0 m

/-- A run: the events in order, each with the answers of the environment. -/
def run (s : mta_session) (evs : List (World × Event)) : mta_session :=
  evs.foldl step s

/-! ## Vocabulary of the specification

Definitions that follow the words of the specification, to be compared with
the functions of the source, and observations on the history of a
session. -/

/-- The lines of a content: cut after each newline, the newline dropped; what
follows the last newline is a line when it is not empty. -/
def lines_of : List Nat → List (List Nat)
  | [] => []
  | c :: cs =>
    if c = LF then [] :: lines_of cs
    else
      match lines_of cs with
      | [] => [[c]]
      | l :: ls => (c :: l) :: ls

/-- A line of the header region: it starts with whitespace or contains a
colon. -/
def is_header_line (l : List Nat) : Bool := isspace (l.headD 0) || l.contains 58

/-- A line that begins with `Received: `, compared without case. -/
def is_received_line (l : List Nat) : Bool := (l.take 10).map tolower == str "received: "

/-- Number of `Received: ` lines in the header region of a content: the lines
before the first line that is not a header line. -/
def received_count (content : List Nat) : Nat :=
  (((lines_of content).takeWhile is_header_line).filter is_received_line).length

/-- The loop of the loop detector on the lines of the content: the result
after the counter `c`. -/
def scan_lines (hops : Nat) : List (List Nat) → Nat → Int
  | [], _ => 0
  | l :: ls, c =>
    if is_header_line l = false then 0
    else if is_received_line l then
      if c + 1 = hops then 1 else scan_lines hops ls (c + 1)
    else scan_lines hops ls c

/-- Dot-stuffing of a line: a line whose first byte is `.` gets one more. -/
def stuff (l : List Nat) : List Nat := if l.head? = some 46 then 46 :: l else l

/-- The lines as they go on the wire: each one stuffed and ended by CR LF. -/
def smtp_encode (ls : List (List Nat)) : List Nat := ls.flatMap (fun l => stuff l ++ CRLF)

/-- A content made of newline-terminated lines. -/
def unlines (ls : List (List Nat)) : List Nat := ls.flatMap (fun l => l ++ [LF])

/-- The receiver cuts the stream at each CR LF; `acc` is the line being
read. Bytes after the last CR LF are not a line. -/
def split_crlf_go : List Nat → List Nat → List (List Nat)
  | [], _ => []
  | c :: cs, acc =>
    if c = LF ∧ acc.getLast? = some CR then acc.dropLast :: split_crlf_go cs []
    else split_crlf_go cs (acc ++ [c])

/-- The lines a receiver sees in a stream of bytes. -/
def split_crlf (bytes : List Nat) : List (List Nat) := split_crlf_go bytes []

/-- The receiver drops one leading `.` of a line. -/
def unstuff (l : List Nat) : List Nat := if l.head? = some 46 then l.tail else l

/-- What an SMTP receiver makes of the body bytes. -/
def smtp_decode (bytes : List Nat) : List (List Nat) := (split_crlf bytes).map unstuff

/-- The body phase: `mta_queue_data` is called once on entering `MTA_BODY`
and once for each `IO_LOWAT` while the content handle is open. Here each
call finds the output queue drained by the byte stream; the result is all
the bytes queued, in order. `fuel` bounds the number of calls. -/
def mta_body_stream : Nat → mta_session → List Nat
  | 0, _ => []
  | fuel + 1, s =>
    match s.datafp with
    | none => []
    | some _ =>
      let r := mta_queue_data { s with iobuf_out := [] }
      if r.1 = -1 then r.2.iobuf_out else r.2.iobuf_out ++ mta_body_stream fuel r.2

/-- The verdicts forwarded to the queue, in order. -/
def verdicts (h : List Effect) : List (delivery × envelope) :=
  h.filterMap fun e =>
    match e with
    | Effect.queue_delivery d evp => some (d, evp)
    | _ => none

/-- The commands queued by `mta_send`, in order. -/
def sends (h : List Effect) : List (List Nat) :=
  h.filterMap fun e =>
    match e with
    | Effect.send cmd => some cmd
    | _ => none

/-- The command `RCPT TO` for an envelope, as `mta_enter_state` formats it. -/
def rcpt_cmd (e : envelope) : List Nat :=
  str "RCPT TO: <" ++ e.dest_user ++ str "@" ++ e.dest_domain ++ str ">"

/-- Effects of `mta_flush_task` on the task slot: none when it is empty. -/
def mta_flush_slot_effects (o : Option mta_task) (d : delivery) (error : List Nat) :
    List Effect :=
  match o with
  | none => []
  | some t => mta_flush_task_effects t d error

/-- The test at the head of `mta_error`: the error is ignored. -/
def mta_error_ignored (s : mta_session) : Prop :=
  s.state = MTA_INIT ∧ (s.errno = ETIMEDOUT ∨ s.errno = ECONNREFUSED)

instance (s : mta_session) : Decidable (mta_error_ignored s) := by
  unfold mta_error_ignored
  exact inferInstance

/-- States before the first `MTA_READY`. -/
def pre_state : mta_state → Bool
  | MTA_INIT | MTA_BANNER | MTA_EHLO | MTA_HELO | MTA_STARTTLS | MTA_AUTH => true
  | _ => false

/-- States in which a task is attached. -/
def task_state : mta_state → Bool
  | MTA_READY | MTA_MAIL | MTA_RCPT | MTA_DATA | MTA_BODY | MTA_EOM => true
  | _ => false

/-- The structural invariant of a session in use. Before the first
`MTA_READY` the state is one of the negotiation states; after it the state
is one of the delivery states, the stream is established and no request to
the certificate helper is outstanding. A task is attached exactly in the
states from `MTA_READY` to `MTA_EOM`, and then fewer than `MAX_MAIL`
messages have been delivered; the content handle is awaited exactly in
`MTA_READY`. -/
def G (s : mta_session) : Prop :=
  (s.ready = 0 → pre_state s.state = true) ∧
  (s.ready ≠ 0 → pre_state s.state = false ∧ s.io = io_state.up ∧
    s.wait_ssl_init = false ∧ s.wait_ssl_verify = false) ∧
  (s.task.isSome = task_state s.state) ∧
  (s.wait_fd = decide (s.state = MTA_READY)) ∧
  (task_state s.state = true → s.msgcount < MAX_MAIL) ∧
  (s.msgcount ≤ MAX_MAIL) ∧
  (s.wait_ptr = true → s.io = io_state.down ∧ s.wait_ssl_init = false ∧
    s.wait_ssl_verify = false)

/-! ## Observations on the history of a session -/

/-- The envelope as the route manager handed it over, before any error text
was stamped on it. -/
def envelope_clear (e : envelope) : envelope := { e with errorline := [] }

/-- The envelopes of the tasks the route manager handed to the session, in
order. -/
def acquired (h : List Effect) : List envelope :=
  h.flatMap fun e =>
    match e with
    | Effect.mta_route_next_task (some t) => t.envelopes
    | _ => []

/-- Whether the effect is a verdict for the envelope `e`: 1 or 0. -/
def verdict_weight (e : envelope) : Effect → Nat
  | Effect.queue_delivery _ evp => if envelope_clear evp = e then 1 else 0
  | _ => 0

/-- Number of verdicts of the history for the envelope `e`. -/
def verdict_count (e : envelope) (h : List Effect) : Nat := (h.map (verdict_weight e)).sum

/-- How often the effect hands the envelope `e` to the session. -/
def acquire_weight (e : envelope) : Effect → Nat
  | Effect.mta_route_next_task (some t) => (t.envelopes.map envelope_clear).count e
  | _ => 0

/-- How often the history hands the envelope `e` to the session. -/
def acquire_count (e : envelope) (h : List Effect) : Nat := (h.map (acquire_weight e)).sum

/-- How often the envelope `e` is in the task slot. -/
def attached_count (e : envelope) (o : Option mta_task) : Nat :=
  match o with
  | none => 0
  | some t => (t.envelopes.map envelope_clear).count e

/-- Whether the effect is the end of a task with the verdict Ok: 1 or 0. -/
def ok_flush_weight : Effect → Nat
  | Effect.flush_task IMSG_DELIVERY_OK _ => 1
  | _ => 0

/-- Number of tasks of the history that `mta_flush_task` ended with the
verdict Ok. -/
def ok_flush_count (h : List Effect) : Nat := (h.map ok_flush_weight).sum

/-- Whether the effect is the end of a task with the verdict Ok and a text
other than `No envelope`: 1 or 0. -/
def delivered_weight : Effect → Nat
  | Effect.flush_task IMSG_DELIVERY_OK err => if err = str "No envelope" then 0 else 1
  | _ => 0

/-- Number of tasks of the history that `mta_flush_task` ended with the
verdict Ok and a text other than `No envelope`. -/
def delivered_count (h : List Effect) : Nat := (h.map delivered_weight).sum

/-- Whether the command is `AUTH PLAIN` with its argument. -/
def is_auth_cmd (cmd : List Nat) : Bool := cmd.take 11 == str "AUTH PLAIN "

/-- Whether the effect queues the command `AUTH PLAIN`. -/
def auth_effect : Effect → Bool
  | Effect.send cmd => is_auth_cmd cmd
  | _ => false

/-- Whether the history queues the command `AUTH PLAIN`. -/
def auth_sent (h : List Effect) : Bool := h.any auth_effect

/-- Whether every `AUTH PLAIN` of the history comes after an `IO_TLSREADY`
event; `seen` tells whether such an event came before the history. -/
def auth_guard : Bool → List Effect → Bool
  | _, [] => true
  | _, Effect.event IO_TLSREADY :: h => auth_guard true h
  | seen, Effect.send cmd :: h => (!is_auth_cmd cmd || seen) && auth_guard seen h
  | seen, _ :: h => auth_guard seen h

/-- What the history says about the task slot, the delivered count and the
flags of a session that is in use or not:
* every envelope handed over is in the task slot or has its verdict, once;
* a session handed back to the route manager is gone with its slot empty;
* the delivered count is the number of tasks ended with Ok on a reply;
* `AUTH PLAIN` was queued only with `MTA_TLS` set, which is set only after
  `IO_TLSREADY`;
* the delivered count is at most `MAX_MAIL`;
* every `AUTH PLAIN` of the history comes after an `IO_TLSREADY` event. -/
def Kc (hist : List Effect) (task : Option mta_task) (msgcount flags : Nat) (inuse : Prop) :
    Prop :=
  (∀ e, verdict_count e hist + attached_count e task = acquire_count e hist) ∧
  (Effect.mta_route_collect ∈ hist → task = none ∧ ¬ inuse) ∧
  (msgcount = delivered_count hist) ∧
  (auth_sent hist = true → flags &&& MTA_TLS ≠ 0) ∧
  (flags &&& MTA_TLS ≠ 0 → Effect.event IO_TLSREADY ∈ hist) ∧
  (msgcount ≤ MAX_MAIL) ∧
  (auth_guard false hist = true)

/-- The invariant `Kc` on the fields of a session. -/
@[reducible]
def K (s : mta_session) : Prop :=
  Kc s.hist s.task s.msgcount s.flags (s.status = .alive)

/-- Effects that change none of the observations of `K`. -/
def neutral : Effect → Bool
  | Effect.queue_delivery _ _ => false
  | Effect.mta_route_next_task _ => false
  | Effect.flush_task IMSG_DELIVERY_OK err => decide (err = str "No envelope")
  | Effect.send cmd => !is_auth_cmd cmd
  | Effect.mta_route_collect => false
  | _ => true

/-- The process was ended by the `fatalx` of `mta_free`: the session was
torn down with a task still attached. -/
def free_aborted (s : mta_session) : Prop :=
  s.status = .fatal "current task should have been deleted already"

/-! ## Scenarios -/

/-- The replies of the server to the recipient commands, handled one after
the other by `mta_response`, each with the answers of the environment. -/
def rcpt_replies (s : mta_session) (replies : List (World × List Nat)) : mta_session :=
  replies.foldl (fun s r => mta_response r.1 s r.2) s

/-! ## Sample sessions -/

/-- Values for the `RELAY_*` flags. -/
def demo_flag_values : relay_flag_values :=
  { RELAY_SSL := 1, RELAY_SMTPS := 2, RELAY_STARTTLS := 4, RELAY_TLS_OPTIONAL := 8,
    RELAY_AUTH := 16 }

/-- A relay on the default port, without credentials and without TLS. -/
def demo_relay : mta_relay := { flags := 0, port := 0, secret := none, cert := none }

/-- A relay that wants TLS and has credentials. -/
def demo_relay_auth : mta_relay :=
  { flags := 17, port := 0, secret := some (str "AGJvYgBwdw=="), cert := none }

/-- An envelope for `bob@example.org`. -/
def demo_envelope : envelope :=
  { id := 7, dest_user := str "bob", dest_domain := str "example.org", errorline := [] }

/-- An envelope for `carol@example.org`. -/
def demo_envelope2 : envelope :=
  { id := 8, dest_user := str "carol", dest_domain := str "example.org", errorline := [] }

/-- A task with one envelope. -/
def demo_task : mta_task :=
  { msgid := 1, sender_user := str "alice", sender_domain := str "example.com",
    envelopes := [demo_envelope] }

/-- A task with two envelopes. -/
def demo_task2 : mta_task :=
  { msgid := 2, sender_user := str "alice", sender_domain := str "example.com",
    envelopes := [demo_envelope, demo_envelope2] }

/-- The environment: connections succeed, the peer shows no certificate, the
output is written at once, and the route manager answers with `nt`. -/
def demo_world (nt : Option mta_task) : World :=
  { errno := 0, io_connect := none, io_error := [], peer_cert := false, next_task := nt,
    written := 100000 }

/-- A session whose only recipient is rejected: banner, `EHLO`, a task with
one envelope, its content, `MAIL` accepted, `RCPT` rejected with 550, `RSET`
accepted, no further task, `QUIT` answered. -/
def demo_rejected : List (World × Event) :=
  [ (demo_world none, Event.io IO_CONNECTED []),
    (demo_world none, Event.io IO_DATAIN (str "220 mx ready" ++ CRLF)),
    (demo_world (some demo_task), Event.io IO_DATAIN (str "250 mx" ++ CRLF)),
    (demo_world none,
      Event.msg (IMSG_QUEUE_MESSAGE_FD (some (str "Subject: x\n\nhello\n", false)))),
    (demo_world none, Event.io IO_DATAIN (str "250 sender ok" ++ CRLF)),
    (demo_world none, Event.io IO_DATAIN (str "550 no such user" ++ CRLF)),
    (demo_world none, Event.io IO_DATAIN (str "250 reset" ++ CRLF)),
    (demo_world none, Event.io IO_DATAIN (str "221 bye" ++ CRLF)) ]

/-- The session of `demo_rejected` from its creation. -/
def demo_rejected_run : mta_session :=
  run (mta_session_spawn demo_flag_values demo_relay (str "mail.example.com") true
    (demo_world none)) demo_rejected

/-- A session that authenticates: banner, `EHLO` answered with the
`STARTTLS` extension, `STARTTLS` accepted, the handshake, `EHLO` again. -/
def demo_auth : List (World × Event) :=
  [ (demo_world none, Event.io IO_CONNECTED []),
    (demo_world none, Event.io IO_DATAIN (str "220 mx ready" ++ CRLF)),
    (demo_world none,
      Event.io IO_DATAIN (str "250-STARTTLS" ++ CRLF ++ str "250 mx" ++ CRLF)),
    (demo_world none, Event.io IO_DATAIN (str "220 go ahead" ++ CRLF)),
    (demo_world none, Event.io IO_TLSREADY []),
    (demo_world none, Event.io IO_DATAIN (str "250 mx" ++ CRLF)) ]

/-- The session of `demo_auth` from its creation. -/
def demo_auth_run : mta_session :=
  run (mta_session_spawn demo_flag_values demo_relay_auth (str "mail.example.com") true
    (demo_world none)) demo_auth

/-- A session in the middle of a delivery: established, in the state `st`,
with the task `t`, the cursor `cur`, the content `content` opened and
`n` messages delivered. -/
def demo_delivery (st : mta_state) (t : mta_task) (cur : Option Nat) (content : List Nat)
    (n : Nat) : mta_session :=
  { relay := demo_relay, hostname := str "mail.example.com", flags := MTA_FORCE_PLAIN
    attempt := 1, use_smtps := 0, use_starttls := 0, use_smtp_tls := 0, ready := 1
    iobuf_in := [], iobuf_out := [], io := io_state.up, ext := 0, msgcount := n
    state := st, task := some t, currevp := cur, datafp := some (fdopen content false)
    errno := 0, wait_ptr := false, wait_fd := false, wait_ssl_init := false
    wait_ssl_verify := false, status := .alive, hist := [] }

/-! ## Connection modes of the specification -/

/-- The connection modes of section 4.5 of the specification. -/
inductive connection_mode
  | implicit_smtps
  | required_starttls
  | opportunistic_starttls
  | cleartext
deriving DecidableEq, Repr

open connection_mode

/-- The mode that the specification selects from the flags and the attempt
counter: at attempt 0 implicit SMTPS with `MTA_FORCE_SMTPS`, else required
STARTTLS with `MTA_FORCE_TLS` or `MTA_FORCE_ANYSSL`, else opportunistic
STARTTLS without `MTA_FORCE_PLAIN`, else cleartext; at attempt 1 implicit
SMTPS with `MTA_FORCE_ANYSSL`; no mode otherwise. -/
def select_mode (flags attempt : Nat) : Option connection_mode :=
  if attempt = 0 then
    if flags &&& MTA_FORCE_SMTPS ≠ 0 then some implicit_smtps
    else if flags &&& MTA_FORCE_TLS ≠ 0 ∨ flags &&& MTA_FORCE_ANYSSL ≠ 0 then
      some required_starttls
    else if flags &&& MTA_FORCE_PLAIN = 0 then some opportunistic_starttls
    else some cleartext
  else if attempt = 1 then
    if flags &&& MTA_FORCE_ANYSSL ≠ 0 then some implicit_smtps else none
  else none

/-- The indicators `use_smtps`, `use_starttls` and `use_smtp_tls` of a
mode. -/
def mode_indicators : connection_mode → Nat × Nat × Nat
  | implicit_smtps => (1, 0, 0)
  | required_starttls => (0, 1, 0)
  | opportunistic_starttls => (0, 0, 1)
  | cleartext => (0, 0, 0)

/-- The port of a mode: the port of the relay when it names one, else 465
for implicit SMTPS and 25 for the other modes. -/
def connect_port (relay : mta_relay) (m : connection_mode) : Nat :=
  if relay.port ≠ 0 then relay.port else if m = implicit_smtps then 465 else 25

/-! ## Sample sessions of the negotiation -/

/-- The session of the relay `relay` from its creation, after the events
`evs`, in the environment of `demo_world`. -/
def demo_run (relay : mta_relay) (evs : List (World × Event)) : mta_session :=
  run (mta_session_spawn demo_flag_values relay (str "mail.example.com") true
    (demo_world none)) evs

/-- The connection is established and the server greets with a refusal. -/
def demo_banner_refused : List (World × Event) :=
  [ (demo_world none, Event.io IO_CONNECTED []),
    (demo_world none, Event.io IO_DATAIN (str "554 no service" ++ CRLF)) ]

/-- Banner and `EHLO` are answered and the route manager hands over a task:
the session waits for the content of the message. -/
def demo_await_content : List (World × Event) :=
  [ (demo_world none, Event.io IO_CONNECTED []),
    (demo_world none, Event.io IO_DATAIN (str "220 mx ready" ++ CRLF)),
    (demo_world (some demo_task), Event.io IO_DATAIN (str "250 mx" ++ CRLF)) ]

/-- While the session waits for the content the server closes the dialog
with a line of its own. -/
def demo_unsolicited : List (World × Event) :=
  demo_await_content ++
    [ (demo_world none, Event.io IO_DATAIN (str "421 closing connection" ++ CRLF)) ]

/-- The sender of the first message is refused, the dialog is reset and a
second task arrives with its content. -/
def demo_second_task : List (World × Event) :=
  demo_await_content ++
    [ (demo_world none,
        Event.msg (IMSG_QUEUE_MESSAGE_FD (some (str "Subject: one\n\nfirst\n", false)))),
      (demo_world none, Event.io IO_DATAIN (str "550 sender refused" ++ CRLF)),
      (demo_world (some demo_task2), Event.io IO_DATAIN (str "250 reset" ++ CRLF)),
      (demo_world none,
        Event.msg (IMSG_QUEUE_MESSAGE_FD (some (str "Subject: two\n\nsecond\n", false)))) ]

/-- The connection is established and the banner was answered: the session
has queued `EHLO`. -/
def demo_greeted : List (World × Event) :=
  [ (demo_world none, Event.io IO_CONNECTED []),
    (demo_world none, Event.io IO_DATAIN (str "220 mx ready" ++ CRLF)) ]

/-- The server advertises `STARTTLS` in its reply to `EHLO`: the session has
queued `STARTTLS`. -/
def demo_starttls_sent : List (World × Event) :=
  demo_greeted ++
    [ (demo_world none,
        Event.io IO_DATAIN (str "250-STARTTLS" ++ CRLF ++ str "250 mx" ++ CRLF)) ]

/-! ## The input buffer of a new connection -/

/-- A session in use that is in `MTA_INIT` has an empty input buffer:
`mta_connect` cleared it. -/
def init_quiet (s : mta_session) : Prop :=
  s.status = .alive → s.state = MTA_INIT → s.iobuf_in = []

/-- The server accepts `STARTTLS` and sends a second reply in the same
segment, before the handshake. -/
def demo_starttls_injection : List (World × Event) :=
  demo_starttls_sent ++
    [ (demo_world none,
        Event.io IO_DATAIN (str "220 go ahead" ++ CRLF ++ str "250 injected" ++ CRLF)) ]

/-! ## Observations on the route manager and the flags -/

/-- Whether the effect is the signal `mta_route_ok`: 1 or 0. -/
def route_ok_weight : Effect → Nat
  | Effect.mta_route_ok => 1
  | _ => 0

/-- How often the history signals `mta_route_ok`. -/
def route_ok_count (h : List Effect) : Nat := (h.map route_ok_weight).sum

/-- Whether the effect is the trace of an entry into `MTA_READY`. -/
def is_ready_trace : Effect → Bool
  | Effect.log_trace _ MTA_READY => true
  | _ => false

/-- Every `mta_route_ok` of the history comes right after the trace of an
entry into `MTA_READY`; `prev` tells whether what precedes the history is
such a trace. -/
def route_ok_guard : Bool → List Effect → Bool
  | _, [] => true
  | prev, Effect.mta_route_ok :: tl => prev && route_ok_guard false tl
  | _, e :: tl => route_ok_guard (is_ready_trace e) tl

/-- The flags below `MTA_TLS`: the policy and the credentials of the
session, set when it is created. -/
def policy_mask : Nat := 255

/-- The invariant of the route signal and of the policy flags, on the fields
of a session it is about:
* `mta_route_ok` was signalled once when `ready` is set and never before;
* every `mta_route_ok` follows the trace of an entry into `MTA_READY`;
* the policy flags are `policy`. -/
def Wc (hist : List Effect) (ready flags policy : Nat) : Prop :=
  route_ok_count hist = (if ready = 0 then 0 else 1) ∧
  route_ok_guard false hist = true ∧
  flags &&& policy_mask = policy

/-- The invariant `Wc` on the fields of a session. -/
@[reducible]
def W (policy : Nat) (s : mta_session) : Prop := Wc s.hist s.ready s.flags policy

/-- A relay that requires a secured channel, by any of the two ways. -/
def demo_relay_secure : mta_relay := { flags := 1, port := 0, secret := none, cert := none }

/-! ## Sample content with a loop -/

/-- A content whose header holds `MAX_HOPS_COUNT` lines `Received: x`. -/
def demo_loop_content : List Nat :=
  (List.replicate 100 (str "Received: x\n")).flatMap id ++ str "\nbody\n"

/-! ## Observations on the connection attempts -/

/-- Whether the effect is a mark of `mta_connect`: the trace of the entry
into `MTA_INIT`, which only `mta_connect` makes, or the connection attempt. -/
def is_connect_mark : Effect → Bool
  | Effect.log_trace _ MTA_INIT => true
  | Effect.io_connect _ => true
  | _ => false

/-- No mark of `mta_connect` follows an `mta_route_ok` in the history; `seen`
tells whether an `mta_route_ok` precedes the history. -/
def connect_guard : Bool → List Effect → Bool
  | _, [] => true
  | _, Effect.mta_route_ok :: tl => connect_guard true tl
  | seen, e :: tl => !(seen && is_connect_mark e) && connect_guard seen tl

/-- Effects that are neither `mta_route_ok` nor a mark of `mta_connect`. -/
def connect_neutral (e : Effect) : Bool :=
  decide (route_ok_weight e = 0) && !is_connect_mark e

/-- The invariant of the connection attempts, on the fields of a session it
is about: `mta_route_ok` was signalled once when `ready` is set and never
before, and no mark of `mta_connect` follows it. -/
def Xc (hist : List Effect) (ready : Nat) : Prop :=
  route_ok_count hist = (if ready = 0 then 0 else 1) ∧ connect_guard false hist = true

/-- The invariant `Xc` on the fields of a session. -/
@[reducible]
def X (s : mta_session) : Prop := Xc s.hist s.ready

/-! ## Complete replies -/

/-- The end of the case `IO_DATAIN` of `mta_io`, from the test of `MTA_QUIT`
on: what `mta_io` does with the last line of a reply. It is the part of
`mta_io_datain` that follows the test of the continuation flag. -/
def mta_io_reply (w : World) (s1 : mta_session) (line : List Nat) : mta_session :=
  if s1.state = MTA_QUIT then mta_free s1
  else
    let s2 := mta_response w s1 (cstr line)
    match s2.status with
    | .alive =>
      if s2.iobuf_in ≠ [] then
        mta_free (mta_error s2 (str "Remote host sent too much data"))
      else s2
    | .freed => { s2 with status := .undefined "mta_io: use after free" }
    | _ => s2

/-- The complete reply at the head of an input buffer, if there is one:
continuation lines and a last line, all well formed. The result is the texts
of the lines in order (as C strings), the last line and the rest of the
input. `fuel` bounds the number of lines. -/
def complete_reply : Nat → List Nat → Option (List (List Nat) × List Nat × List Nat)
  | 0, _ => none
  | fuel + 1, buf =>
    match iobuf_getline buf with
    | none => none
    | some (line, rest) =>
      match parse_smtp_response line with
      | .error _ => none
      | .ok (msg, cont) =>
        if cont then (complete_reply fuel rest).map (fun r => (cstr msg :: r.1, r.2))
        else some ([cstr msg], line, rest)

/-! # The table backend process (`smtpd/table_proc.c`)

The backend talks to a helper process over a pipe with the `imsg` library.
The embedding has the flag `running` of the private data, the messages sent,
and a script with the answers of the library calls. -/

/-- The message types that `table_proc.c` names. -/
inductive proc_table_msg
  | PROC_TABLE_OK
  | PROC_TABLE_FAIL
  | PROC_TABLE_OPEN
  | PROC_TABLE_CLOSE
  | PROC_TABLE_UPDATE
  | PROC_TABLE_CHECK
  | PROC_TABLE_LOOKUP
  | PROC_TABLE_FETCH
deriving DecidableEq, Repr

open proc_table_msg

/-- Structure `table_proc_priv`: the flag `running`, and as a ghost field
the messages composed on the pipe, each with the service and the key. -/
structure table_proc_priv where
  running : Bool
  sent : List (proc_table_msg × Nat × Option (List Nat))
deriving DecidableEq, Repr

/-- One turn of the loop of `table_proc_call` as the `imsg` library answers
it: `imsg_get` fails, or returns a message with its type and payload, or
returns 0 and then `imsg_read` fails, finds the pipe closed, or reads
something. -/
inductive imsg_step
  | get_error
  | get_msg (type : proc_table_msg) (payload : List Nat)
  | read_error
  | read_closed
  | read_more
deriving DecidableEq, Repr

/-- The `while (1)` loop of `table_proc_call`: the payload of the message
accepted, or `none` after a `break`; the outer `none` when the script of
answers ends while the loop still waits. `expected` is `none` for
`(size_t)-1`. -/
def table_proc_call_loop (expected : Option Nat) :
    List imsg_step → Option (Option (List Nat))
  | [] => none
  | imsg_step.get_error :: _ => some none
  | imsg_step.get_msg type payload :: _ =>
    if type = PROC_TABLE_OK then
      if expected = none ∨ expected = some payload.length then some (some payload)
      else some none
    else some none
  | imsg_step.read_error :: _ => some none
  | imsg_step.read_closed :: _ => some none
  | imsg_step.read_more :: tl => table_proc_call_loop expected tl

/-- Function `table_proc_call`: the return value, the private data and the
payload of the message left in the static `imsg`. `flush_ok` says whether
`imsg_flush` succeeds. -/
def table_proc_call (priv : table_proc_priv) (expected : Option Nat) (flush_ok : Bool)
    (script : List imsg_step) : Option (Int × table_proc_priv × List Nat) :=
  if flush_ok = false then some (0, { priv with running := false }, [])
  else
    match table_proc_call_loop expected script with
    | none => none
    | some (some payload) => some (1, priv, payload)
    | some none => some (0, { priv with running := false }, [])

/-- The `int` that `memmove(&r, data, sizeof(r))` reads from four bytes, on a
little-endian machine with 32-bit `int`. -/
def int_of_bytes (b : List Nat) : Int :=
  let u := b.getD 0 0 % 256 + 256 * (b.getD 1 0 % 256) + 65536 * (b.getD 2 0 % 256)
    + 16777216 * (b.getD 3 0 % 256)
  if u < 2147483648 then (u : Int) else (u : Int) - 4294967296

/-- The message type that `table_proc_lookup` chooses from the key and the
result slot, or `none` where it returns -1 at once. -/
def table_proc_lookup_msg (k : Option (List Nat)) (lk : Bool) : Option proc_table_msg :=
  match k with
  | some _ => if lk then some PROC_TABLE_LOOKUP else some PROC_TABLE_CHECK
  | none => if lk = false then none else some PROC_TABLE_FETCH

/-- Function `table_proc_lookup`. `k` is the key or `none` for NULL, `lk`
says whether a result slot is given, and `parse` stands for
`table_parse_lookup` of `table.c`, which is not part of the sources at hand,
applied to the service, the key and the payload. The result is the return
value and the private data; `none` when the script of answers ends while
`table_proc_call` still waits. -/
def table_proc_lookup (parse : Nat → Option (List Nat) → List Nat → Int)
    (priv : table_proc_priv) (k : Option (List Nat)) (s : Nat) (lk : Bool)
    (flush_ok : Bool) (script : List imsg_step) : Option (Int × table_proc_priv) :=
  if priv.running = false then some (-1, priv)
  else
    match table_proc_lookup_msg k lk with
    | none => some (-1, priv)
    | some m =>
      let priv1 := { priv with sent := priv.sent ++ [(m, s, k)] }
      match table_proc_call priv1 none flush_ok script with
      | none => none
      | some (ret, priv2, payload) =>
        if ret = 0 then some (-1, priv2)
        else if payload.length < 4 then some (-1, priv2)
        else
          let r := int_of_bytes payload
          let data := payload.drop 4
          if r = 1 ∧ lk = true then
            if data.length = 0 then some (-1, priv2)
            else if data.getLast? ≠ some 0 then some (-1, priv2)
            else some (parse s k data, priv2)
          else some (r, priv2)

/-! # Theorems -/

set_option linter.unusedTactic false
set_option linter.unreachableTactic false
set_option linter.unnecessarySeqFocus false
set_option linter.unusedVariables false

/-! ## Loop detector and body streamer -/

theorem lines_of_append_LF (l r : List Nat) (hl : LF ∉ l) :
    lines_of (l ++ LF :: r) = l :: lines_of r := by
  induction l with
  | nil => simp [lines_of]
  | cons c l ih =>
    simp only [List.mem_cons, not_or] at hl
    have hc : c ≠ LF := fun h => hl.1 h.symm
    simp [lines_of, hc, ih hl.2]

theorem lines_of_no_LF (l : List Nat) (hl : LF ∉ l) (hne : l ≠ []) : lines_of l = [l] := by
  induction l with
  | nil => exact absurd rfl hne
  | cons c l ih =>
    simp only [List.mem_cons, not_or] at hl
    have hc : c ≠ LF := fun h => hl.1 h.symm
    cases l with
    | nil => simp [lines_of, hc]
    | cons d l => rw [lines_of, if_neg hc, ih hl.2 (by simp)]

theorem split_first_LF (rest : List Nat) :
    LF ∉ rest.takeWhile (fun c => c != LF) ∧
    (((rest.takeWhile (fun c => c != LF)).length < rest.length ∧
        ∃ r, rest = rest.takeWhile (fun c => c != LF) ++ LF :: r) ∨
      rest.takeWhile (fun c => c != LF) = rest) := by
  refine ⟨?_, ?_⟩
  · intro h
    have := List.mem_takeWhile_imp h
    simp at this
  · induction rest with
    | nil => right; rfl
    | cons c cs ih =>
      by_cases hc : c = LF
      · left; subst hc; simp
      · simp only [List.takeWhile_cons, bne_iff_ne, ne_eq, hc, not_false_eq_true, decide_True,
          ite_true, List.length_cons, List.cons_append, List.cons.injEq, true_and]
        rcases ih with ⟨h1, r, h2⟩ | h
        · left; exact ⟨by omega, r, h2⟩
        · right; exact h

theorem tolower_eq_zero (c : Nat) : tolower c = 0 ↔ c = 0 := by
  unfold tolower; split <;> omega

theorem strncasecmp_eq_zero (n : Nat) : ∀ (p b : List Nat), 0 ∉ p → 0 ∉ b →
    (strncasecmp p b n = 0 ↔ (p.take n).map tolower = (b.take n).map tolower) := by
  induction n with
  | zero => intro p b _ _; simp [strncasecmp]
  | succ n ih =>
    intro p b hp hb
    cases p with
    | nil =>
      cases b with
      | nil => simp [strncasecmp, tolower]
      | cons y ys =>
        have hy : y ≠ 0 := fun h => hb (by simp [h])
        have : tolower y ≠ 0 := fun h => hy ((tolower_eq_zero y).1 h)
        have h0 : tolower 0 = 0 := by simp [tolower]
        simp [strncasecmp, h0]
        omega
    | cons x xs =>
      have hx : x ≠ 0 := fun h => hp (by simp [h])
      have hx2 : tolower x ≠ 0 := fun h => hx ((tolower_eq_zero x).1 h)
      cases b with
      | nil =>
        simp [strncasecmp]
        simp [tolower] at hx2 ⊢
        omega
      | cons y ys =>
        have hp2 : 0 ∉ xs := fun h => hp (List.mem_cons_of_mem _ h)
        have hb2 : 0 ∉ ys := fun h => hb (List.mem_cons_of_mem _ h)
        by_cases hxy : tolower x = tolower y
        · have hy2 : tolower y ≠ 0 := hxy ▸ hx2
          simp [strncasecmp, hxy, ih xs ys hp2 hb2, hy2]
        · simp [strncasecmp, hxy]
          omega

theorem scan_lines_spec (hops : Nat) : ∀ (ls : List (List Nat)) (c : Nat), c < hops →
    scan_lines hops ls c =
      if hops ≤ c + ((ls.takeWhile is_header_line).filter is_received_line).length then 1
      else 0 := by
  intro ls
  induction ls with
  | nil => intro c hc; simp [scan_lines]; omega
  | cons l ls ih =>
    intro c hc
    unfold scan_lines
    by_cases hh : is_header_line l = true
    · by_cases hr : is_received_line l = true
      · by_cases he : c + 1 = hops
        · simp [hh, hr, he, List.takeWhile_cons, List.filter_cons]
          omega
        · have hc2 : c + 1 < hops := by omega
          simp only [hh, hr, he, List.takeWhile_cons, List.filter_cons, ite_true, ite_false,
            List.length_cons, Bool.true_eq_false]
          rw [ih (c + 1) hc2]
          congr 1
          apply propext
          constructor <;> intro h <;> omega
      · simp only [Bool.not_eq_true] at hr
        simp [hh, hr, List.takeWhile_cons, List.filter_cons, ih c hc]
    · simp only [Bool.not_eq_true] at hh
      simp [hh, List.takeWhile_cons]
      omega

theorem fgetln_spec (fp : FILE) :
    (fp.data.drop fp.pos = [] ∧ (fgetln fp).1 = none ∧ (fgetln fp).2.data = fp.data) ∨
    (∃ l r, LF ∉ l ∧ fp.data.drop fp.pos = l ++ LF :: r ∧
      fgetln fp = (some (l ++ [LF]), { fp with pos := fp.pos + l.length + 1 }) ∧
      fp.data.drop (fp.pos + l.length + 1) = r) ∨
    (∃ l, LF ∉ l ∧ l ≠ [] ∧ fp.data.drop fp.pos = l ∧ (fgetln fp).1 = some l ∧
      (fgetln fp).2.data = fp.data ∧ (fgetln fp).2.pos = fp.pos + l.length ∧
      (fgetln fp).2.broken = fp.broken ∧
      ((fgetln fp).2.err = (fp.err || fp.broken)) ∧
      fp.data.drop (fp.pos + l.length) = []) := by
  by_cases h0 : fp.data.drop fp.pos = []
  · left
    refine ⟨h0, ?_, ?_⟩
    · simp only [fgetln, h0, if_true]
    · simp only [fgetln, h0, if_true]; split <;> rfl
  · right
    obtain ⟨hLF, hs⟩ := split_first_LF (fp.data.drop fp.pos)
    have hf : fgetln fp =
        if ((fp.data.drop fp.pos).takeWhile (fun c => c != LF)).length
            < (fp.data.drop fp.pos).length then
          (some ((fp.data.drop fp.pos).takeWhile (fun c => c != LF) ++ [LF]),
            { fp with pos := fp.pos
                + ((fp.data.drop fp.pos).takeWhile (fun c => c != LF)).length + 1 })
        else if fp.broken then
          (some ((fp.data.drop fp.pos).takeWhile (fun c => c != LF)),
            { fp with pos := fp.pos
                + ((fp.data.drop fp.pos).takeWhile (fun c => c != LF)).length, err := true })
        else
          (some ((fp.data.drop fp.pos).takeWhile (fun c => c != LF)),
            { fp with pos := fp.pos
                + ((fp.data.drop fp.pos).takeWhile (fun c => c != LF)).length, eof := true }) := by
      simp only [fgetln, h0, if_false]
    generalize (fp.data.drop fp.pos).takeWhile (fun c => c != LF) = body at hLF hs hf
    rcases hs with ⟨hlen, r, hr⟩ | hall
    · left
      refine ⟨body, r, hLF, hr, ?_, ?_⟩
      · rw [hf, if_pos hlen]
      · have : fp.data.drop (fp.pos + body.length + 1)
            = (fp.data.drop fp.pos).drop (body.length + 1) := by
          rw [List.drop_drop, Nat.add_assoc]
        rw [this, hr]
        simp
    · right
      have hlen : ¬ body.length < (fp.data.drop fp.pos).length := by rw [← hall]; omega
      rw [if_neg hlen] at hf
      refine ⟨body, hLF, hall ▸ h0, hall.symm, ?_, ?_, ?_, ?_, ?_, ?_⟩
      · rw [hf]; split <;> rfl
      · rw [hf]; split <;> rfl
      · rw [hf]; split <;> rfl
      · rw [hf]; split <;> rfl
      · rw [hf]; split <;> simp_all
      · have : fp.data.drop (fp.pos + body.length)
            = (fp.data.drop fp.pos).drop body.length := by
          rw [List.drop_drop]
        rw [this, ← hall]; simp

theorem cstr_of_nul_free (l : List Nat) (h : 0 ∉ l) : cstr l = l := by
  unfold cstr
  rw [List.takeWhile_eq_self_iff]
  intro x hx
  have : x ≠ 0 := fun h0 => h (h0 ▸ hx)
  simpa using this

theorem is_received_iff (l : List Nat) (h : 0 ∉ l) :
    strncasecmp (str "Received: ") l 10 = 0 ↔ is_received_line l = true := by
  rw [strncasecmp_eq_zero 10 _ _ (by decide) h]
  unfold is_received_line
  have : List.map tolower (List.take 10 (str "Received: ")) = str "received: " := by decide
  rw [this]
  simp only [beq_iff_eq]
  exact eq_comm

theorem header_cond_iff (l : List Nat) :
    (strchr l 58 = false ∧ isspace (l.headD 0) = false) ↔ is_header_line l = false := by
  unfold strchr is_header_line
  cases h1 : l.contains 58 <;> cases h2 : isspace (l.headD 0) <;> simp

theorem mta_check_loop_scan_eq (hops : Nat) (hh : hops < 2 ^ 32) :
    ∀ (fuel : Nat) (fp : FILE) (c : Nat), 0 ∉ fp.data → c < hops →
      (fp.data.drop fp.pos).length < fuel →
      (mta_check_loop_scan hops fuel fp c).1
          = scan_lines hops (lines_of (fp.data.drop fp.pos)) c ∧
        (mta_check_loop_scan hops fuel fp c).2.data = fp.data := by
  intro fuel
  induction fuel with
  | zero => intro fp c _ _ h; omega
  | succ fuel ih =>
    intro fp c h0 hc hlen
    rcases fgetln_spec fp with ⟨hnil, hnone, hdata⟩ | ⟨l, r, hLF, hrest, hf, hdrop⟩ |
        ⟨l, hLF, hne, hrest, hsome, hdata, hpos, _, _, hdrop⟩
    · -- end of file
      have hf : fgetln fp = (none, (fgetln fp).2) := by rw [← hnone]
      rw [mta_check_loop_scan, hf, hnil]
      exact ⟨by simp [lines_of, scan_lines], hdata⟩
    · -- a complete line
      have hl0 : 0 ∉ l := fun h =>
        h0 (List.mem_of_mem_drop (hrest ▸ List.mem_append_left _ h))
      have hlast : (l ++ [LF]).getLast? = some LF := by simp
      rw [mta_check_loop_scan, hf, hrest, lines_of_append_LF l r hLF]
      simp only [hlast, if_true, List.dropLast_concat, cstr_of_nul_free l hl0, header_cond_iff,
        is_received_iff l hl0]
      have hlen2 : (List.drop ({ fp with pos := fp.pos + l.length + 1 } : FILE).pos
          ({ fp with pos := fp.pos + l.length + 1 } : FILE).data).length < fuel := by
        simp only [hdrop]
        rw [hrest] at hlen
        simp at hlen
        omega
      have hmod : (c + 1) % 2 ^ 32 = c + 1 := Nat.mod_eq_of_lt (by omega)
      rw [scan_lines]
      by_cases hh1 : is_header_line l = false
      · simp [hh1]
      · simp only [hh1, if_false]
        by_cases hr : is_received_line l = true
        · simp only [hr, if_true, hmod]
          by_cases he : c + 1 = hops
          · simp [he]
          · simp only [he, if_false]
            have := ih { fp with pos := fp.pos + l.length + 1 } (c + 1) h0 (by omega) hlen2
            simpa [hdrop] using this
        · simp only [hr, if_false]
          have := ih { fp with pos := fp.pos + l.length + 1 } c h0 hc hlen2
          simpa [hdrop] using this
    · -- a last line without newline
      have hl0 : 0 ∉ l := fun h => h0 (List.mem_of_mem_drop (hrest ▸ h))
      have hf : fgetln fp = (some l, (fgetln fp).2) := by rw [← hsome]
      have hlast : ¬ l.getLast? = some LF := by
        intro h
        exact hLF (List.mem_of_getLast?_eq_some h)
      have h02 : 0 ∉ (fgetln fp).2.data := by rw [hdata]; exact h0
      have hrest2 : List.drop (fgetln fp).2.pos (fgetln fp).2.data = [] := by
        rw [hdata, hpos]; exact hdrop
      have hlen2 : (List.drop (fgetln fp).2.pos (fgetln fp).2.data).length < fuel := by
        rw [hrest2]
        rw [hrest] at hlen
        have : 0 < l.length := List.length_pos.2 hne
        simp
        omega
      rw [mta_check_loop_scan, hf, hrest, lines_of_no_LF l hLF hne]
      simp only [hlast, if_false, cstr_of_nul_free l hl0, header_cond_iff,
        is_received_iff l hl0]
      have hmod : (c + 1) % 2 ^ 32 = c + 1 := Nat.mod_eq_of_lt (by omega)
      rw [scan_lines]
      by_cases hh1 : is_header_line l = false
      · simp [hh1, hdata]
      · simp only [hh1, if_false]
        by_cases hr : is_received_line l = true
        · simp only [hr, if_true, hmod]
          by_cases he : c + 1 = hops
          · simp [he, hdata]
          · simp only [he, if_false]
            have := ih (fgetln fp).2 (c + 1) h02 (by omega) hlen2
            rw [hrest2, hdata] at this
            simpa [lines_of, scan_lines] using this
        · simp only [hr, if_false]
          have := ih (fgetln fp).2 c h02 hc hlen2
          rw [hrest2, hdata] at this
          simpa [lines_of, scan_lines] using this

theorem mta_check_loop_spec (content : List Nat) (broken : Bool) (hops : Nat)
    (hnul : 0 ∉ content) (h0 : 0 < hops) (h32 : hops < 2 ^ 32) :
    (mta_check_loop hops (fdopen content broken)).1
        = (if hops ≤ received_count content then 1 else 0) ∧
      (mta_check_loop hops (fdopen content broken)).2.pos = 0 ∧
      (mta_check_loop hops (fdopen content broken)).2.data = content := by
  have h := mta_check_loop_scan_eq hops h32 (content.length + 1) (fdopen content broken) 0
    hnul h0 (by simp [fdopen])
  have hs := scan_lines_spec hops (lines_of content) 0 h0
  simp only [fdopen, List.drop_zero, Nat.zero_add] at h hs
  refine ⟨?_, ?_, ?_⟩
  · simp only [mta_check_loop, fdopen, h.1, hs, received_count]
  · simp [mta_check_loop, fseek, SEEK_SET]
  · simp only [mta_check_loop, fseek, SEEK_SET, if_true]
    exact h.2

theorem takeWhile_line (l r : List Nat) (hLF : LF ∉ l) :
    (l ++ LF :: r).takeWhile (fun c => c != LF) = l := by
  induction l with
  | nil => simp
  | cons c l ih =>
    simp only [List.mem_cons, not_or] at hLF
    have hc : c ≠ LF := fun h => hLF.1 h.symm
    simp [List.takeWhile_cons, hc, ih hLF.2]

theorem fgetln_line (fp : FILE) (l r : List Nat) (hLF : LF ∉ l)
    (h : fp.data.drop fp.pos = l ++ LF :: r) :
    fgetln fp = (some (l ++ [LF]), { fp with pos := fp.pos + l.length + 1 }) ∧
      fp.data.drop (fp.pos + l.length + 1) = r := by
  constructor
  · simp [fgetln, h, takeWhile_line l r hLF]
  · have : fp.data.drop (fp.pos + l.length + 1) = (fp.data.drop fp.pos).drop (l.length + 1) := by
      rw [List.drop_drop, Nat.add_assoc]
    rw [this, h]
    simp

theorem dot_stuff (l : List Nat) (h0 : 0 ∉ l) :
    (if (l ++ [LF]).headD 0 = 46 then [46] else []) ++ cstr l = stuff l := by
  rw [cstr_of_nul_free l h0]
  cases l with
  | nil => simp [stuff, LF]
  | cons c l => by_cases hc : c = 46 <;> simp [stuff, hc]

theorem mta_queue_data_loop_spec : ∀ (ls : List (List Nat)) (fuel : Nat) (out : List Nat)
    (fp : FILE), (∀ l ∈ ls, LF ∉ l ∧ 0 ∉ l) → fp.data.drop fp.pos = unlines ls →
    fp.broken = false → fp.err = false → fp.eof = false → ls.length < fuel →
    ∃ k fp1, k ≤ ls.length ∧
      mta_queue_data_loop fuel out fp = some (out ++ smtp_encode (ls.take k), fp1) ∧
      fp1.data = fp.data ∧ fp1.data.drop fp1.pos = unlines (ls.drop k) ∧
      fp1.err = false ∧ fp1.broken = false ∧
      (fp1.eof = true ↔ (k = ls.length ∧ (out ++ smtp_encode ls).length < MTA_HIWAT)) ∧
      (k < ls.length → MTA_HIWAT ≤ (out ++ smtp_encode (ls.take k)).length) ∧
      (∀ j, j < k → (out ++ smtp_encode (ls.take j)).length < MTA_HIWAT) := by
  intro ls
  induction ls with
  | nil =>
    intro fuel out fp _ hrest hb he hf hfuel
    obtain ⟨fuel, rfl⟩ : ∃ n, fuel = n + 1 := ⟨fuel - 1, by simp at hfuel; omega⟩
    by_cases hq : out.length < MTA_HIWAT
    · refine ⟨0, { fp with eof := true }, le_refl _, ?_, rfl, ?_, he, hb, ?_, ?_, ?_⟩
      · simp [mta_queue_data_loop, hq, fgetln, hrest, unlines, hb, smtp_encode]
      · simpa using hrest
      · simp [smtp_encode, hq]
      · simp
      · simp
    · refine ⟨0, fp, le_refl _, ?_, rfl, ?_, he, hb, ?_, ?_, ?_⟩
      · simp [mta_queue_data_loop, hq, smtp_encode]
      · simpa using hrest
      · simp [smtp_encode, hq, hf]
      · simp
      · simp
  | cons l ls ih =>
    intro fuel out fp hls hrest hb he hf hfuel
    obtain ⟨fuel, rfl⟩ : ∃ n, fuel = n + 1 := ⟨fuel - 1, by simp at hfuel; omega⟩
    have hl := hls l (List.mem_cons_self _ _)
    by_cases hq : out.length < MTA_HIWAT
    · have hrest2 : fp.data.drop fp.pos = l ++ LF :: unlines ls := by
        rw [hrest]; simp [unlines]
      obtain ⟨hg, hdrop⟩ := fgetln_line fp l (unlines ls) hl.1 hrest2
      obtain ⟨k, fp1, hk, hloop, hdata, hrem, herr, hbr, heof, hhi, hlo⟩ :=
        ih fuel (out ++ (stuff l ++ CRLF)) { fp with pos := fp.pos + l.length + 1 }
          (fun x hx => hls x (List.mem_cons_of_mem _ hx)) hdrop hb he hf
          (by simp at hfuel; omega)
      refine ⟨k + 1, fp1, by simp; omega, ?_, hdata, ?_, herr, hbr, ?_, ?_, ?_⟩
      · rw [mta_queue_data_loop]
        simp only [hq, not_true_eq_false, if_false, hg]
        have hlast : (l ++ [LF]).getLast? = some LF := by simp
        simp only [hlast, if_true, List.dropLast_concat]
        rw [dot_stuff l hl.2, hloop]
        simp [smtp_encode, List.append_assoc]
      · simpa using hrem
      · rw [heof]
        simp [smtp_encode, List.append_assoc]
      · intro hlt
        have := hhi (by simp at hlt; omega)
        simpa [smtp_encode, List.append_assoc] using this
      · intro j hj
        cases j with
        | zero => simpa [smtp_encode] using hq
        | succ j =>
          have := hlo j (by omega)
          simpa [smtp_encode, List.append_assoc] using this
    · refine ⟨0, fp, Nat.zero_le _, ?_, rfl, ?_, he, hb, ?_, ?_, ?_⟩
      · simp [mta_queue_data_loop, hq, smtp_encode]
      · simpa using hrest
      · simp [hf]
      · intro _; simp [smtp_encode]; omega
      · simp

theorem mta_queue_data_stuffs (s : mta_session) (fp : FILE) (ls : List (List Nat))
    (halive : s.status = .alive) (hfp : s.datafp = some fp)
    (hls : ∀ l ∈ ls, LF ∉ l ∧ 0 ∉ l)
    (hrest : fp.data.drop fp.pos = unlines ls)
    (hb : fp.broken = false) (he : fp.err = false) (hf : fp.eof = false) :
    ∃ k, k ≤ ls.length ∧
      (mta_queue_data s).2.iobuf_out = s.iobuf_out ++ smtp_encode (ls.take k) ∧
      (mta_queue_data s).1 = ((smtp_encode (ls.take k)).length : Int) ∧
      (mta_queue_data s).2.hist = s.hist ++ [Effect.body (smtp_encode (ls.take k))] ∧
      (mta_queue_data s).2.status = .alive ∧
      (∀ j, j < k → (s.iobuf_out ++ smtp_encode (ls.take j)).length < MTA_HIWAT) ∧
      (k < ls.length → MTA_HIWAT ≤ (s.iobuf_out ++ smtp_encode (ls.take k)).length) ∧
      ((mta_queue_data s).2.datafp = none ↔
        (k = ls.length ∧ (s.iobuf_out ++ smtp_encode ls).length < MTA_HIWAT)) ∧
      (∀ fp1, (mta_queue_data s).2.datafp = some fp1 →
        fp1.data.drop fp1.pos = unlines (ls.drop k) ∧ fp1.data = fp.data ∧
          fp1.eof = false ∧ fp1.err = false ∧ fp1.broken = false) := by
  have hlen : ls.length < fp.data.length + 1 := by
    have h1 : (fp.data.drop fp.pos).length ≤ fp.data.length := by simp
    have h2 : ls.length ≤ (unlines ls).length := by
      clear hls hrest
      induction ls with
      | nil => simp
      | cons l ls ih => simp [unlines] at ih ⊢; omega
    rw [hrest] at h1
    omega
  obtain ⟨k, fp1, hk, hloop, hdata, hrem, herr, hbr, heof, hhi, hlo⟩ :=
    mta_queue_data_loop_spec ls (fp.data.length + 1) s.iobuf_out fp hls hrest hb he hf hlen
  refine ⟨k, hk, ?_⟩
  have hq : mta_queue_data s =
      (if fp1.eof then
        (((s.iobuf_out ++ smtp_encode (ls.take k)).length : Int) - s.iobuf_out.length,
          { s with
            iobuf_out := s.iobuf_out ++ smtp_encode (ls.take k)
            datafp := none
            hist := s.hist ++ [Effect.body
              ((s.iobuf_out ++ smtp_encode (ls.take k)).drop s.iobuf_out.length)] })
      else
        (((s.iobuf_out ++ smtp_encode (ls.take k)).length : Int) - s.iobuf_out.length,
          { s with
            iobuf_out := s.iobuf_out ++ smtp_encode (ls.take k)
            datafp := some fp1
            hist := s.hist ++ [Effect.body
              ((s.iobuf_out ++ smtp_encode (ls.take k)).drop s.iobuf_out.length)] })) := by
    simp only [mta_queue_data, halive, hfp, hloop, herr]
    simp
  rw [hq]
  by_cases hE : fp1.eof = true
  · rw [if_pos hE]
    refine ⟨rfl, by simp, by simp, halive, hlo, hhi, ?_, ?_⟩
    · simpa using heof.1 hE
    · intro fp2 h; simp at h
  · rw [if_neg hE]
    refine ⟨rfl, by simp, by simp, halive, hlo, hhi, ?_, ?_⟩
    · simp only [false_iff, reduceCtorEq]
      exact fun h => hE (heof.2 h)
    · intro fp2 h
      simp only [Option.some.injEq] at h
      subst h
      exact ⟨hrem, hdata, by simpa using hE, herr, hbr⟩

theorem split_crlf_go_append (x : List Nat) : ∀ (y acc : List Nat), LF ∉ x →
    split_crlf_go (x ++ y) acc = split_crlf_go y (acc ++ x) := by
  induction x with
  | nil => intro y acc _; simp
  | cons c x ih =>
    intro y acc h
    simp only [List.mem_cons, not_or] at h
    have hc : c ≠ LF := fun e => h.1 e.symm
    simp [split_crlf_go, hc, ih y (acc ++ [c]) h.2]

theorem stuff_no_LF (l : List Nat) (h : LF ∉ l) : LF ∉ stuff l := by
  unfold stuff
  split
  · simp only [List.mem_cons, not_or]; exact ⟨by decide, h⟩
  · exact h

theorem split_crlf_encode (ls : List (List Nat)) (h : ∀ l ∈ ls, LF ∉ l) :
    split_crlf (smtp_encode ls) = ls.map stuff := by
  unfold split_crlf
  induction ls with
  | nil => simp [smtp_encode, split_crlf_go]
  | cons l ls ih =>
    have hl := stuff_no_LF l (h l (List.mem_cons_self _ _))
    have ih2 := ih (fun x hx => h x (List.mem_cons_of_mem _ hx))
    simp only [smtp_encode, CRLF, List.flatMap_cons, List.append_assoc, List.map_cons] at ih2 ⊢
    rw [split_crlf_go_append _ _ _ hl]
    simp only [List.nil_append, List.cons_append]
    rw [split_crlf_go]
    have h1 : ¬ ((13 : Nat) = LF ∧ (stuff l).getLast? = some CR) := by
      intro hh; exact absurd hh.1 (by decide)
    rw [if_neg h1, split_crlf_go]
    have h2 : (10 : Nat) = LF ∧ (stuff l ++ [13]).getLast? = some CR := by
      simp [LF, CR]
    rw [if_pos h2]
    simp [ih2]

theorem unstuff_stuff (l : List Nat) : unstuff (stuff l) = l := by
  unfold unstuff stuff
  by_cases h : l.head? = some 46
  · simp [h]
  · simp [h]

theorem stuff_ne_dot (l : List Nat) : stuff l ≠ [46] := by
  unfold stuff
  cases l with
  | nil => simp
  | cons c l => by_cases hc : c = 46 <;> simp [hc]

theorem smtp_decode_encode (ls : List (List Nat)) (h : ∀ l ∈ ls, LF ∉ l) :
    smtp_decode (smtp_encode ls) = ls := by
  unfold smtp_decode
  rw [split_crlf_encode ls h, List.map_map]
  have : unstuff ∘ stuff = id := funext unstuff_stuff
  rw [this, List.map_id]

theorem smtp_encode_append (a b : List (List Nat)) :
    smtp_encode (a ++ b) = smtp_encode a ++ smtp_encode b := by
  simp [smtp_encode]

theorem mta_body_stream_succ (fuel : Nat) (s : mta_session) (fp : FILE)
    (h : s.datafp = some fp) :
    mta_body_stream (fuel + 1) s =
      if (mta_queue_data { s with iobuf_out := [] }).1 = -1 then
        (mta_queue_data { s with iobuf_out := [] }).2.iobuf_out
      else (mta_queue_data { s with iobuf_out := [] }).2.iobuf_out
        ++ mta_body_stream fuel (mta_queue_data { s with iobuf_out := [] }).2 := by
  rw [mta_body_stream]
  split
  · rename_i h2; rw [h] at h2; exact absurd h2 (by simp)
  · rfl

theorem mta_body_stream_eq : ∀ (fuel : Nat) (s : mta_session) (fp : FILE)
    (ls : List (List Nat)), s.status = .alive → s.datafp = some fp →
    (∀ l ∈ ls, LF ∉ l ∧ 0 ∉ l) → fp.data.drop fp.pos = unlines ls →
    fp.broken = false → fp.err = false → fp.eof = false → ls.length < fuel →
    mta_body_stream fuel s = smtp_encode ls := by
  intro fuel
  induction fuel with
  | zero => intro s fp ls _ _ _ _ _ _ _ h; omega
  | succ fuel ih =>
    intro s fp ls halive hfp hls hrest hb he hf hfuel
    obtain ⟨k, hk, hout, hret, _, hal, _, hhi, hnone, hsome⟩ :=
      mta_queue_data_stuffs { s with iobuf_out := [] } fp ls halive hfp hls hrest hb he hf
    simp only [List.nil_append] at hout hhi hnone
    rw [mta_body_stream_succ fuel s fp hfp]
    generalize mta_queue_data { s with iobuf_out := [] } = r at hout hret hal hnone hsome ⊢
    have hneg : ¬ r.1 = -1 := by
      rw [hret]; omega
    simp only [hneg, if_false, hout]
    have hpos : 0 < MTA_HIWAT := by decide
    cases hd : r.2.datafp with
    | none =>
      have : mta_body_stream fuel r.2 = [] := by
        cases fuel with
        | zero => rfl
        | succ n => rw [mta_body_stream]; simp [hd]
      rw [this, (hnone.1 hd).1]
      simp
    | some fp1 =>
      obtain ⟨hrem, _, heof, herr, hbr⟩ := hsome fp1 hd
      have hk0 : 0 < k := by
        by_contra h0
        have hk0 : k = 0 := by omega
        subst hk0
        by_cases hne : ls = []
        · subst hne
          have := hnone.2 ⟨rfl, by simpa [smtp_encode] using hpos⟩
          rw [hd] at this
          exact absurd this (by simp)
        · have := hhi (List.length_pos.2 hne)
          simp [smtp_encode] at this
          omega
      have hlen2 : (ls.drop k).length < fuel := by
        simp; omega
      have := ih r.2 fp1 (ls.drop k) hal hd
        (fun x hx => hls x (List.mem_of_mem_drop hx)) hrem hbr herr heof hlen2
      rw [this, ← smtp_encode_append, List.take_append_drop]

theorem mta_body_round_trip (s : mta_session) (ls : List (List Nat))
    (halive : s.status = .alive)
    (hfp : s.datafp = some (fdopen (unlines ls) false))
    (hls : ∀ l ∈ ls, LF ∉ l ∧ 0 ∉ l) :
    smtp_decode (mta_body_stream (ls.length + 1) s) = ls ∧
      ∀ x ∈ split_crlf (mta_body_stream (ls.length + 1) s), x ≠ [46] := by
  have h := mta_body_stream_eq (ls.length + 1) s (fdopen (unlines ls) false) ls halive hfp hls
    (by simp [fdopen]) rfl rfl rfl (Nat.lt_succ_self _)
  have hLF : ∀ l ∈ ls, LF ∉ l := fun l hl => (hls l hl).1
  rw [h]
  refine ⟨smtp_decode_encode ls hLF, ?_⟩
  rw [split_crlf_encode ls hLF]
  intro x hx
  obtain ⟨l, _, rfl⟩ := List.mem_map.1 hx
  exact stuff_ne_dot l

/-! ## Fields left alone by the basic functions -/

@[simp]
theorem mta_send_relay (s : mta_session) (cmd : List Nat) : (mta_send s cmd).relay = s.relay := by
  unfold mta_send; split <;> rfl

@[simp]
theorem mta_send_hostname (s : mta_session) (cmd : List Nat) : (mta_send s cmd).hostname = s.hostname := by
  unfold mta_send; split <;> rfl

@[simp]
theorem mta_send_flags (s : mta_session) (cmd : List Nat) : (mta_send s cmd).flags = s.flags := by
  unfold mta_send; split <;> rfl

@[simp]
theorem mta_send_attempt (s : mta_session) (cmd : List Nat) : (mta_send s cmd).attempt = s.attempt := by
  unfold mta_send; split <;> rfl

@[simp]
theorem mta_send_use_smtps (s : mta_session) (cmd : List Nat) : (mta_send s cmd).use_smtps = s.use_smtps := by
  unfold mta_send; split <;> rfl

@[simp]
theorem mta_send_use_starttls (s : mta_session) (cmd : List Nat) : (mta_send s cmd).use_starttls = s.use_starttls := by
  unfold mta_send; split <;> rfl

@[simp]
theorem mta_send_use_smtp_tls (s : mta_session) (cmd : List Nat) : (mta_send s cmd).use_smtp_tls = s.use_smtp_tls := by
  unfold mta_send; split <;> rfl

@[simp]
theorem mta_send_ready (s : mta_session) (cmd : List Nat) : (mta_send s cmd).ready = s.ready := by
  unfold mta_send; split <;> rfl

@[simp]
theorem mta_send_iobuf_in (s : mta_session) (cmd : List Nat) : (mta_send s cmd).iobuf_in = s.iobuf_in := by
  unfold mta_send; split <;> rfl

@[simp]
theorem mta_send_io (s : mta_session) (cmd : List Nat) : (mta_send s cmd).io = s.io := by
  unfold mta_send; split <;> rfl

@[simp]
theorem mta_send_ext (s : mta_session) (cmd : List Nat) : (mta_send s cmd).ext = s.ext := by
  unfold mta_send; split <;> rfl

@[simp]
theorem mta_send_msgcount (s : mta_session) (cmd : List Nat) : (mta_send s cmd).msgcount = s.msgcount := by
  unfold mta_send; split <;> rfl

@[simp]
theorem mta_send_state (s : mta_session) (cmd : List Nat) : (mta_send s cmd).state = s.state := by
  unfold mta_send; split <;> rfl

@[simp]
theorem mta_send_task (s : mta_session) (cmd : List Nat) : (mta_send s cmd).task = s.task := by
  unfold mta_send; split <;> rfl

@[simp]
theorem mta_send_currevp (s : mta_session) (cmd : List Nat) : (mta_send s cmd).currevp = s.currevp := by
  unfold mta_send; split <;> rfl

@[simp]
theorem mta_send_datafp (s : mta_session) (cmd : List Nat) : (mta_send s cmd).datafp = s.datafp := by
  unfold mta_send; split <;> rfl

@[simp]
theorem mta_send_errno (s : mta_session) (cmd : List Nat) : (mta_send s cmd).errno = s.errno := by
  unfold mta_send; split <;> rfl

@[simp]
theorem mta_send_wait_ptr (s : mta_session) (cmd : List Nat) : (mta_send s cmd).wait_ptr = s.wait_ptr := by
  unfold mta_send; split <;> rfl

@[simp]
theorem mta_send_wait_fd (s : mta_session) (cmd : List Nat) : (mta_send s cmd).wait_fd = s.wait_fd := by
  unfold mta_send; split <;> rfl

@[simp]
theorem mta_send_wait_ssl_init (s : mta_session) (cmd : List Nat) : (mta_send s cmd).wait_ssl_init = s.wait_ssl_init := by
  unfold mta_send; split <;> rfl

@[simp]
theorem mta_send_wait_ssl_verify (s : mta_session) (cmd : List Nat) : (mta_send s cmd).wait_ssl_verify = s.wait_ssl_verify := by
  unfold mta_send; split <;> rfl

@[simp]
theorem mta_send_status (s : mta_session) (cmd : List Nat) : (mta_send s cmd).status = s.status := by
  unfold mta_send; split <;> rfl

@[simp]
theorem mta_enter_state_head_relay (s : mta_session) (st : mta_state) : (mta_enter_state_head s st).relay = s.relay := by
  rfl

@[simp]
theorem mta_enter_state_head_hostname (s : mta_session) (st : mta_state) : (mta_enter_state_head s st).hostname = s.hostname := by
  rfl

@[simp]
theorem mta_enter_state_head_flags (s : mta_session) (st : mta_state) : (mta_enter_state_head s st).flags = s.flags := by
  rfl

@[simp]
theorem mta_enter_state_head_attempt (s : mta_session) (st : mta_state) : (mta_enter_state_head s st).attempt = s.attempt := by
  rfl

@[simp]
theorem mta_enter_state_head_use_smtps (s : mta_session) (st : mta_state) : (mta_enter_state_head s st).use_smtps = s.use_smtps := by
  rfl

@[simp]
theorem mta_enter_state_head_use_starttls (s : mta_session) (st : mta_state) : (mta_enter_state_head s st).use_starttls = s.use_starttls := by
  rfl

@[simp]
theorem mta_enter_state_head_use_smtp_tls (s : mta_session) (st : mta_state) : (mta_enter_state_head s st).use_smtp_tls = s.use_smtp_tls := by
  rfl

@[simp]
theorem mta_enter_state_head_ready (s : mta_session) (st : mta_state) : (mta_enter_state_head s st).ready = s.ready := by
  rfl

@[simp]
theorem mta_enter_state_head_iobuf_in (s : mta_session) (st : mta_state) : (mta_enter_state_head s st).iobuf_in = s.iobuf_in := by
  rfl

@[simp]
theorem mta_enter_state_head_iobuf_out (s : mta_session) (st : mta_state) : (mta_enter_state_head s st).iobuf_out = s.iobuf_out := by
  rfl

@[simp]
theorem mta_enter_state_head_io (s : mta_session) (st : mta_state) : (mta_enter_state_head s st).io = s.io := by
  rfl

@[simp]
theorem mta_enter_state_head_ext (s : mta_session) (st : mta_state) : (mta_enter_state_head s st).ext = s.ext := by
  rfl

@[simp]
theorem mta_enter_state_head_msgcount (s : mta_session) (st : mta_state) : (mta_enter_state_head s st).msgcount = s.msgcount := by
  rfl

@[simp]
theorem mta_enter_state_head_task (s : mta_session) (st : mta_state) : (mta_enter_state_head s st).task = s.task := by
  rfl

@[simp]
theorem mta_enter_state_head_currevp (s : mta_session) (st : mta_state) : (mta_enter_state_head s st).currevp = s.currevp := by
  rfl

@[simp]
theorem mta_enter_state_head_datafp (s : mta_session) (st : mta_state) : (mta_enter_state_head s st).datafp = s.datafp := by
  rfl

@[simp]
theorem mta_enter_state_head_errno (s : mta_session) (st : mta_state) : (mta_enter_state_head s st).errno = s.errno := by
  rfl

@[simp]
theorem mta_enter_state_head_wait_ptr (s : mta_session) (st : mta_state) : (mta_enter_state_head s st).wait_ptr = s.wait_ptr := by
  rfl

@[simp]
theorem mta_enter_state_head_wait_fd (s : mta_session) (st : mta_state) : (mta_enter_state_head s st).wait_fd = s.wait_fd := by
  rfl

@[simp]
theorem mta_enter_state_head_wait_ssl_init (s : mta_session) (st : mta_state) : (mta_enter_state_head s st).wait_ssl_init = s.wait_ssl_init := by
  rfl

@[simp]
theorem mta_enter_state_head_wait_ssl_verify (s : mta_session) (st : mta_state) : (mta_enter_state_head s st).wait_ssl_verify = s.wait_ssl_verify := by
  rfl

@[simp]
theorem mta_enter_state_head_status (s : mta_session) (st : mta_state) : (mta_enter_state_head s st).status = s.status := by
  rfl

@[simp]
theorem mta_flush_task_relay (s : mta_session) (d : delivery) (e : List Nat) : (mta_flush_task s d e).relay = s.relay := by
  unfold mta_flush_task; split <;> [rfl; (split <;> rfl)]

@[simp]
theorem mta_flush_task_hostname (s : mta_session) (d : delivery) (e : List Nat) : (mta_flush_task s d e).hostname = s.hostname := by
  unfold mta_flush_task; split <;> [rfl; (split <;> rfl)]

@[simp]
theorem mta_flush_task_flags (s : mta_session) (d : delivery) (e : List Nat) : (mta_flush_task s d e).flags = s.flags := by
  unfold mta_flush_task; split <;> [rfl; (split <;> rfl)]

@[simp]
theorem mta_flush_task_attempt (s : mta_session) (d : delivery) (e : List Nat) : (mta_flush_task s d e).attempt = s.attempt := by
  unfold mta_flush_task; split <;> [rfl; (split <;> rfl)]

@[simp]
theorem mta_flush_task_use_smtps (s : mta_session) (d : delivery) (e : List Nat) : (mta_flush_task s d e).use_smtps = s.use_smtps := by
  unfold mta_flush_task; split <;> [rfl; (split <;> rfl)]

@[simp]
theorem mta_flush_task_use_starttls (s : mta_session) (d : delivery) (e : List Nat) : (mta_flush_task s d e).use_starttls = s.use_starttls := by
  unfold mta_flush_task; split <;> [rfl; (split <;> rfl)]

@[simp]
theorem mta_flush_task_use_smtp_tls (s : mta_session) (d : delivery) (e : List Nat) : (mta_flush_task s d e).use_smtp_tls = s.use_smtp_tls := by
  unfold mta_flush_task; split <;> [rfl; (split <;> rfl)]

@[simp]
theorem mta_flush_task_ready (s : mta_session) (d : delivery) (e : List Nat) : (mta_flush_task s d e).ready = s.ready := by
  unfold mta_flush_task; split <;> [rfl; (split <;> rfl)]

@[simp]
theorem mta_flush_task_iobuf_in (s : mta_session) (d : delivery) (e : List Nat) : (mta_flush_task s d e).iobuf_in = s.iobuf_in := by
  unfold mta_flush_task; split <;> [rfl; (split <;> rfl)]

@[simp]
theorem mta_flush_task_iobuf_out (s : mta_session) (d : delivery) (e : List Nat) : (mta_flush_task s d e).iobuf_out = s.iobuf_out := by
  unfold mta_flush_task; split <;> [rfl; (split <;> rfl)]

@[simp]
theorem mta_flush_task_io (s : mta_session) (d : delivery) (e : List Nat) : (mta_flush_task s d e).io = s.io := by
  unfold mta_flush_task; split <;> [rfl; (split <;> rfl)]

@[simp]
theorem mta_flush_task_ext (s : mta_session) (d : delivery) (e : List Nat) : (mta_flush_task s d e).ext = s.ext := by
  unfold mta_flush_task; split <;> [rfl; (split <;> rfl)]

@[simp]
theorem mta_flush_task_msgcount (s : mta_session) (d : delivery) (e : List Nat) : (mta_flush_task s d e).msgcount = s.msgcount := by
  unfold mta_flush_task; split <;> [rfl; (split <;> rfl)]

@[simp]
theorem mta_flush_task_state (s : mta_session) (d : delivery) (e : List Nat) : (mta_flush_task s d e).state = s.state := by
  unfold mta_flush_task; split <;> [rfl; (split <;> rfl)]

@[simp]
theorem mta_flush_task_currevp (s : mta_session) (d : delivery) (e : List Nat) : (mta_flush_task s d e).currevp = s.currevp := by
  unfold mta_flush_task; split <;> [rfl; (split <;> rfl)]

@[simp]
theorem mta_flush_task_datafp (s : mta_session) (d : delivery) (e : List Nat) : (mta_flush_task s d e).datafp = s.datafp := by
  unfold mta_flush_task; split <;> [rfl; (split <;> rfl)]

@[simp]
theorem mta_flush_task_errno (s : mta_session) (d : delivery) (e : List Nat) : (mta_flush_task s d e).errno = s.errno := by
  unfold mta_flush_task; split <;> [rfl; (split <;> rfl)]

@[simp]
theorem mta_flush_task_wait_ptr (s : mta_session) (d : delivery) (e : List Nat) : (mta_flush_task s d e).wait_ptr = s.wait_ptr := by
  unfold mta_flush_task; split <;> [rfl; (split <;> rfl)]

@[simp]
theorem mta_flush_task_wait_fd (s : mta_session) (d : delivery) (e : List Nat) : (mta_flush_task s d e).wait_fd = s.wait_fd := by
  unfold mta_flush_task; split <;> [rfl; (split <;> rfl)]

@[simp]
theorem mta_flush_task_wait_ssl_init (s : mta_session) (d : delivery) (e : List Nat) : (mta_flush_task s d e).wait_ssl_init = s.wait_ssl_init := by
  unfold mta_flush_task; split <;> [rfl; (split <;> rfl)]

@[simp]
theorem mta_flush_task_wait_ssl_verify (s : mta_session) (d : delivery) (e : List Nat) : (mta_flush_task s d e).wait_ssl_verify = s.wait_ssl_verify := by
  unfold mta_flush_task; split <;> [rfl; (split <;> rfl)]

@[simp]
theorem mta_error_relay (s : mta_session) (e : List Nat) : (mta_error s e).relay = s.relay := by
  unfold mta_error mta_flush_task; dsimp only; (repeat' split) <;> rfl

@[simp]
theorem mta_error_hostname (s : mta_session) (e : List Nat) : (mta_error s e).hostname = s.hostname := by
  unfold mta_error mta_flush_task; dsimp only; (repeat' split) <;> rfl

@[simp]
theorem mta_error_flags (s : mta_session) (e : List Nat) : (mta_error s e).flags = s.flags := by
  unfold mta_error mta_flush_task; dsimp only; (repeat' split) <;> rfl

@[simp]
theorem mta_error_attempt (s : mta_session) (e : List Nat) : (mta_error s e).attempt = s.attempt := by
  unfold mta_error mta_flush_task; dsimp only; (repeat' split) <;> rfl

@[simp]
theorem mta_error_use_smtps (s : mta_session) (e : List Nat) : (mta_error s e).use_smtps = s.use_smtps := by
  unfold mta_error mta_flush_task; dsimp only; (repeat' split) <;> rfl

@[simp]
theorem mta_error_use_starttls (s : mta_session) (e : List Nat) : (mta_error s e).use_starttls = s.use_starttls := by
  unfold mta_error mta_flush_task; dsimp only; (repeat' split) <;> rfl

@[simp]
theorem mta_error_use_smtp_tls (s : mta_session) (e : List Nat) : (mta_error s e).use_smtp_tls = s.use_smtp_tls := by
  unfold mta_error mta_flush_task; dsimp only; (repeat' split) <;> rfl

@[simp]
theorem mta_error_ready (s : mta_session) (e : List Nat) : (mta_error s e).ready = s.ready := by
  unfold mta_error mta_flush_task; dsimp only; (repeat' split) <;> rfl

@[simp]
theorem mta_error_iobuf_in (s : mta_session) (e : List Nat) : (mta_error s e).iobuf_in = s.iobuf_in := by
  unfold mta_error mta_flush_task; dsimp only; (repeat' split) <;> rfl

@[simp]
theorem mta_error_iobuf_out (s : mta_session) (e : List Nat) : (mta_error s e).iobuf_out = s.iobuf_out := by
  unfold mta_error mta_flush_task; dsimp only; (repeat' split) <;> rfl

@[simp]
theorem mta_error_io (s : mta_session) (e : List Nat) : (mta_error s e).io = s.io := by
  unfold mta_error mta_flush_task; dsimp only; (repeat' split) <;> rfl

@[simp]
theorem mta_error_ext (s : mta_session) (e : List Nat) : (mta_error s e).ext = s.ext := by
  unfold mta_error mta_flush_task; dsimp only; (repeat' split) <;> rfl

@[simp]
theorem mta_error_msgcount (s : mta_session) (e : List Nat) : (mta_error s e).msgcount = s.msgcount := by
  unfold mta_error mta_flush_task; dsimp only; (repeat' split) <;> rfl

@[simp]
theorem mta_error_state (s : mta_session) (e : List Nat) : (mta_error s e).state = s.state := by
  unfold mta_error mta_flush_task; dsimp only; (repeat' split) <;> rfl

@[simp]
theorem mta_error_currevp (s : mta_session) (e : List Nat) : (mta_error s e).currevp = s.currevp := by
  unfold mta_error mta_flush_task; dsimp only; (repeat' split) <;> rfl

@[simp]
theorem mta_error_datafp (s : mta_session) (e : List Nat) : (mta_error s e).datafp = s.datafp := by
  unfold mta_error mta_flush_task; dsimp only; (repeat' split) <;> rfl

@[simp]
theorem mta_error_errno (s : mta_session) (e : List Nat) : (mta_error s e).errno = s.errno := by
  unfold mta_error mta_flush_task; dsimp only; (repeat' split) <;> rfl

@[simp]
theorem mta_error_wait_ptr (s : mta_session) (e : List Nat) : (mta_error s e).wait_ptr = s.wait_ptr := by
  unfold mta_error mta_flush_task; dsimp only; (repeat' split) <;> rfl

@[simp]
theorem mta_error_wait_fd (s : mta_session) (e : List Nat) : (mta_error s e).wait_fd = s.wait_fd := by
  unfold mta_error mta_flush_task; dsimp only; (repeat' split) <;> rfl

@[simp]
theorem mta_error_wait_ssl_init (s : mta_session) (e : List Nat) : (mta_error s e).wait_ssl_init = s.wait_ssl_init := by
  unfold mta_error mta_flush_task; dsimp only; (repeat' split) <;> rfl

@[simp]
theorem mta_error_wait_ssl_verify (s : mta_session) (e : List Nat) : (mta_error s e).wait_ssl_verify = s.wait_ssl_verify := by
  unfold mta_error mta_flush_task; dsimp only; (repeat' split) <;> rfl

@[simp]
theorem mta_free_relay (s : mta_session) : (mta_free s).relay = s.relay := by
  unfold mta_free; dsimp only; (repeat' split) <;> rfl

@[simp]
theorem mta_free_hostname (s : mta_session) : (mta_free s).hostname = s.hostname := by
  unfold mta_free; dsimp only; (repeat' split) <;> rfl

@[simp]
theorem mta_free_flags (s : mta_session) : (mta_free s).flags = s.flags := by
  unfold mta_free; dsimp only; (repeat' split) <;> rfl

@[simp]
theorem mta_free_attempt (s : mta_session) : (mta_free s).attempt = s.attempt := by
  unfold mta_free; dsimp only; (repeat' split) <;> rfl

@[simp]
theorem mta_free_use_smtps (s : mta_session) : (mta_free s).use_smtps = s.use_smtps := by
  unfold mta_free; dsimp only; (repeat' split) <;> rfl

@[simp]
theorem mta_free_use_starttls (s : mta_session) : (mta_free s).use_starttls = s.use_starttls := by
  unfold mta_free; dsimp only; (repeat' split) <;> rfl

@[simp]
theorem mta_free_use_smtp_tls (s : mta_session) : (mta_free s).use_smtp_tls = s.use_smtp_tls := by
  unfold mta_free; dsimp only; (repeat' split) <;> rfl

@[simp]
theorem mta_free_ready (s : mta_session) : (mta_free s).ready = s.ready := by
  unfold mta_free; dsimp only; (repeat' split) <;> rfl

@[simp]
theorem mta_free_ext (s : mta_session) : (mta_free s).ext = s.ext := by
  unfold mta_free; dsimp only; (repeat' split) <;> rfl

@[simp]
theorem mta_free_msgcount (s : mta_session) : (mta_free s).msgcount = s.msgcount := by
  unfold mta_free; dsimp only; (repeat' split) <;> rfl

@[simp]
theorem mta_free_state (s : mta_session) : (mta_free s).state = s.state := by
  unfold mta_free; dsimp only; (repeat' split) <;> rfl

@[simp]
theorem mta_free_task (s : mta_session) : (mta_free s).task = s.task := by
  unfold mta_free; dsimp only; (repeat' split) <;> rfl

@[simp]
theorem mta_free_currevp (s : mta_session) : (mta_free s).currevp = s.currevp := by
  unfold mta_free; dsimp only; (repeat' split) <;> rfl

@[simp]
theorem mta_free_errno (s : mta_session) : (mta_free s).errno = s.errno := by
  unfold mta_free; dsimp only; (repeat' split) <;> rfl

@[simp]
theorem mta_free_wait_ptr (s : mta_session) : (mta_free s).wait_ptr = s.wait_ptr := by
  unfold mta_free; dsimp only; (repeat' split) <;> rfl

@[simp]
theorem mta_free_wait_fd (s : mta_session) : (mta_free s).wait_fd = s.wait_fd := by
  unfold mta_free; dsimp only; (repeat' split) <;> rfl

@[simp]
theorem mta_free_wait_ssl_init (s : mta_session) : (mta_free s).wait_ssl_init = s.wait_ssl_init := by
  unfold mta_free; dsimp only; (repeat' split) <;> rfl

@[simp]
theorem mta_free_wait_ssl_verify (s : mta_session) : (mta_free s).wait_ssl_verify = s.wait_ssl_verify := by
  unfold mta_free; dsimp only; (repeat' split) <;> rfl

@[simp]
theorem mta_queue_data_relay (s : mta_session) : ((mta_queue_data s).2).relay = s.relay := by
  unfold mta_queue_data mta_flush_task; dsimp only; (repeat' split) <;> rfl

@[simp]
theorem mta_queue_data_hostname (s : mta_session) : ((mta_queue_data s).2).hostname = s.hostname := by
  unfold mta_queue_data mta_flush_task; dsimp only; (repeat' split) <;> rfl

@[simp]
theorem mta_queue_data_flags (s : mta_session) : ((mta_queue_data s).2).flags = s.flags := by
  unfold mta_queue_data mta_flush_task; dsimp only; (repeat' split) <;> rfl

@[simp]
theorem mta_queue_data_attempt (s : mta_session) : ((mta_queue_data s).2).attempt = s.attempt := by
  unfold mta_queue_data mta_flush_task; dsimp only; (repeat' split) <;> rfl

@[simp]
theorem mta_queue_data_use_smtps (s : mta_session) : ((mta_queue_data s).2).use_smtps = s.use_smtps := by
  unfold mta_queue_data mta_flush_task; dsimp only; (repeat' split) <;> rfl

@[simp]
theorem mta_queue_data_use_starttls (s : mta_session) : ((mta_queue_data s).2).use_starttls = s.use_starttls := by
  unfold mta_queue_data mta_flush_task; dsimp only; (repeat' split) <;> rfl

@[simp]
theorem mta_queue_data_use_smtp_tls (s : mta_session) : ((mta_queue_data s).2).use_smtp_tls = s.use_smtp_tls := by
  unfold mta_queue_data mta_flush_task; dsimp only; (repeat' split) <;> rfl

@[simp]
theorem mta_queue_data_ready (s : mta_session) : ((mta_queue_data s).2).ready = s.ready := by
  unfold mta_queue_data mta_flush_task; dsimp only; (repeat' split) <;> rfl

@[simp]
theorem mta_queue_data_iobuf_in (s : mta_session) : ((mta_queue_data s).2).iobuf_in = s.iobuf_in := by
  unfold mta_queue_data mta_flush_task; dsimp only; (repeat' split) <;> rfl

@[simp]
theorem mta_queue_data_io (s : mta_session) : ((mta_queue_data s).2).io = s.io := by
  unfold mta_queue_data mta_flush_task; dsimp only; (repeat' split) <;> rfl

@[simp]
theorem mta_queue_data_ext (s : mta_session) : ((mta_queue_data s).2).ext = s.ext := by
  unfold mta_queue_data mta_flush_task; dsimp only; (repeat' split) <;> rfl

@[simp]
theorem mta_queue_data_msgcount (s : mta_session) : ((mta_queue_data s).2).msgcount = s.msgcount := by
  unfold mta_queue_data mta_flush_task; dsimp only; (repeat' split) <;> rfl

@[simp]
theorem mta_queue_data_state (s : mta_session) : ((mta_queue_data s).2).state = s.state := by
  unfold mta_queue_data mta_flush_task; dsimp only; (repeat' split) <;> rfl

@[simp]
theorem mta_queue_data_currevp (s : mta_session) : ((mta_queue_data s).2).currevp = s.currevp := by
  unfold mta_queue_data mta_flush_task; dsimp only; (repeat' split) <;> rfl

@[simp]
theorem mta_queue_data_errno (s : mta_session) : ((mta_queue_data s).2).errno = s.errno := by
  unfold mta_queue_data mta_flush_task; dsimp only; (repeat' split) <;> rfl

@[simp]
theorem mta_queue_data_wait_ptr (s : mta_session) : ((mta_queue_data s).2).wait_ptr = s.wait_ptr := by
  unfold mta_queue_data mta_flush_task; dsimp only; (repeat' split) <;> rfl

@[simp]
theorem mta_queue_data_wait_fd (s : mta_session) : ((mta_queue_data s).2).wait_fd = s.wait_fd := by
  unfold mta_queue_data mta_flush_task; dsimp only; (repeat' split) <;> rfl

@[simp]
theorem mta_queue_data_wait_ssl_init (s : mta_session) : ((mta_queue_data s).2).wait_ssl_init = s.wait_ssl_init := by
  unfold mta_queue_data mta_flush_task; dsimp only; (repeat' split) <;> rfl

@[simp]
theorem mta_queue_data_wait_ssl_verify (s : mta_session) : ((mta_queue_data s).2).wait_ssl_verify = s.wait_ssl_verify := by
  unfold mta_queue_data mta_flush_task; dsimp only; (repeat' split) <;> rfl

/-! ## Fields changed by the basic functions -/

@[simp]
theorem mta_send_iobuf_out (s : mta_session) (cmd : List Nat) :
    (mta_send s cmd).iobuf_out
      = s.iobuf_out ++ (if s.status = .alive then cmd ++ CRLF else []) := by
  unfold mta_send; split <;> simp_all

@[simp]
theorem mta_send_hist (s : mta_session) (cmd : List Nat) :
    (mta_send s cmd).hist = s.hist ++ (if s.status = .alive then [Effect.send cmd] else []) := by
  unfold mta_send; split <;> simp_all

@[simp]
theorem mta_enter_state_head_state (s : mta_session) (st : mta_state) :
    (mta_enter_state_head s st).state = st := rfl

@[simp]
theorem mta_enter_state_head_hist (s : mta_session) (st : mta_state) :
    (mta_enter_state_head s st).hist = s.hist ++ [Effect.log_trace s.state st] := rfl

@[simp]
theorem mta_flush_task_status (s : mta_session) (d : delivery) (e : List Nat) :
    (mta_flush_task s d e).status =
      if s.status = .alive ∧ s.task = none then
        .undefined "mta_flush_task: s->task is NULL"
      else s.status := by
  unfold mta_flush_task
  split
  · simp_all
  · split <;> simp_all

@[simp]
theorem mta_flush_task_task (s : mta_session) (d : delivery) (e : List Nat) :
    (mta_flush_task s d e).task = if s.status = .alive then none else s.task := by
  unfold mta_flush_task
  split
  · simp_all
  · split <;> simp_all

@[simp]
theorem mta_flush_task_hist (s : mta_session) (d : delivery) (e : List Nat) :
    (mta_flush_task s d e).hist =
      s.hist ++ (if s.status = .alive then mta_flush_slot_effects s.task d e else []) := by
  unfold mta_flush_task mta_flush_slot_effects
  split
  · simp_all
  · split <;> simp_all

@[simp]
theorem mta_error_status (s : mta_session) (e : List Nat) : (mta_error s e).status = s.status := by
  unfold mta_error
  dsimp only
  split
  · rfl
  · split
    · rfl
    · split
      · rename_i h; simp only [mta_flush_task_status]
        split
        · rename_i h2; simp [h2.2] at h
        · rfl
      · rfl

@[simp]
theorem mta_error_task (s : mta_session) (e : List Nat) :
    (mta_error s e).task = if s.status = .alive ∧ ¬ mta_error_ignored s then none else s.task := by
  unfold mta_error mta_error_ignored
  dsimp only
  split
  · simp_all
  · split
    · simp_all
    · split
      · simp_all
      · rename_i h1 h2 h3
        cases ht : s.task with
        | none => simp_all
        | some t => simp [ht] at h3

@[simp]
theorem mta_error_hist (s : mta_session) (e : List Nat) :
    (mta_error s e).hist =
      s.hist ++ (if s.status = .alive ∧ ¬ mta_error_ignored s then
        Effect.mta_route_error e :: mta_flush_slot_effects s.task IMSG_DELIVERY_TEMPFAIL e
      else []) := by
  unfold mta_error mta_error_ignored mta_flush_slot_effects
  dsimp only
  split
  · simp_all
  · split
    · simp_all
    · rename_i h1 h2
      have ha : s.status = .alive := by simpa using h1
      cases ht : s.task with
      | none => simp [ht, ha, h2]
      | some t => simp [ht, ha, h2, mta_flush_slot_effects]

@[simp]
theorem mta_free_status (s : mta_session) :
    (mta_free s).status =
      if s.status = .alive then
        (if s.task.isSome then .fatal "current task should have been deleted already"
        else .freed)
      else s.status := by
  unfold mta_free
  dsimp only
  split
  · simp_all
  · split <;> simp_all

theorem mta_free_not_alive (s : mta_session) (h : (mta_free s).status = .alive) : False := by
  rw [mta_free_status] at h
  split at h
  · split at h <;> simp at h
  · rename_i h2; exact h2 h

@[simp]
theorem mta_free_io (s : mta_session) :
    (mta_free s).io = if s.status = .alive then io_state.down else s.io := by
  unfold mta_free
  dsimp only
  split
  · simp_all
  · split <;> simp_all

@[simp]
theorem mta_free_hist (s : mta_session) :
    (mta_free s).hist =
      s.hist ++ (if s.status = .alive ∧ s.task = none then [Effect.mta_route_collect] else []) := by
  unfold mta_free
  dsimp only
  split
  · simp_all
  · split
    · rename_i h1 h2
      have : s.task ≠ none := by
        intro h; rw [h] at h2; simp at h2
      simp_all
    · rename_i h1 h2
      cases ht : s.task with
      | none => simp_all
      | some t => simp [ht] at h2

theorem mta_queue_data_loop_append : ∀ (fuel : Nat) (out : List Nat) (fp : FILE)
    (out1 : List Nat) (fp1 : FILE),
    mta_queue_data_loop fuel out fp = some (out1, fp1) → ∃ b, out1 = out ++ b := by
  intro fuel
  induction fuel with
  | zero =>
    intro out fp out1 fp1 h
    simp only [mta_queue_data_loop, Option.some.injEq, Prod.mk.injEq] at h
    exact ⟨[], by simp [h.1]⟩
  | succ fuel ih =>
    intro out fp out1 fp1 h
    rw [mta_queue_data_loop] at h
    split at h
    · simp only [Option.some.injEq, Prod.mk.injEq] at h
      exact ⟨[], by simp [h.1]⟩
    · split at h
      · simp only [Option.some.injEq, Prod.mk.injEq] at h
        exact ⟨[], by simp [h.1]⟩
      · dsimp only at h
        split at h
        · obtain ⟨b, hb⟩ := ih _ _ _ _ h
          exact ⟨_, by rw [hb, List.append_assoc]⟩
        · split at h
          · obtain ⟨b, hb⟩ := ih _ _ _ _ h
            exact ⟨_, by rw [hb, List.append_assoc]⟩
          · exact absurd h (by simp)

theorem mta_queue_data_cases (s : mta_session) (ha : s.status = .alive) :
    (mta_queue_data s).2.status = .alive →
      (∃ b, (mta_queue_data s).1 ≠ -1 ∧ (mta_queue_data s).2.task = s.task ∧
        (mta_queue_data s).2.hist = s.hist ++ [Effect.body b]) ∨
      (∃ b, (mta_queue_data s).1 = -1 ∧ (mta_queue_data s).2.task = none ∧
        (mta_queue_data s).2.hist = s.hist ++ Effect.body b ::
          mta_flush_slot_effects s.task IMSG_DELIVERY_TEMPFAIL (str "Error reading content file"))
      := by
  unfold mta_queue_data
  simp only [ha, ne_eq, not_true_eq_false, if_false]
  cases hd : s.datafp with
  | none => simp
  | some fp =>
    simp only
    cases hl : mta_queue_data_loop (fp.data.length + 1) s.iobuf_out fp with
    | none => simp
    | some r =>
      obtain ⟨out, fp1⟩ := r
      obtain ⟨b, hb⟩ := mta_queue_data_loop_append _ _ _ _ _ hl
      subst hb
      simp only
      by_cases he : fp1.err = true
      · simp only [he, if_true]
        intro _
        right
        refine ⟨b, trivial, by simp, by simp⟩
      · simp only [he, if_false]
        have hne : ¬ (((s.iobuf_out ++ b).length : Int) - (s.iobuf_out.length : Int) = -1) := by
          simp only [List.length_append, Nat.cast_add]
          omega
        by_cases hf : fp1.eof = true
        · simp only [hf, if_true]
          intro _
          left
          exact ⟨b, hne, rfl, by simp⟩
        · simp only [hf, if_false]
          intro _
          left
          exact ⟨b, hne, rfl, by simp⟩

/-! ## The structural invariant -/

theorem G_enter_ready (w : World) (s : mta_session) (ha : s.status = .alive)
    (ht : s.task = none) (hfd : s.wait_fd = false) (hio : s.io = io_state.up)
    (h1 : s.wait_ssl_init = false) (h2 : s.wait_ssl_verify = false)
    (hm : s.msgcount ≤ MAX_MAIL) (hp : s.wait_ptr = false) :
    (mta_enter_state_ready w s).status = .alive → G (mta_enter_state_ready w s) := by
  unfold mta_enter_state_ready mta_enter_state_quit tree_xset G
  simp only [ha, ne_eq, not_true_eq_false, if_false]
  cases hn : w.next_task <;> simp only [] <;> split_ifs <;>
    simp_all [pre_state, task_state]

theorem G_connect (w : World) (s : mta_session) (ha : s.status = .alive)
    (hr : s.ready = 0) (ht : s.task = none) (hfd : s.wait_fd = false)
    (hm : s.msgcount ≤ MAX_MAIL) (hp : s.wait_ptr = false) :
    (mta_connect w s).status = .alive → G (mta_connect w s) := by
  unfold mta_connect mta_connect_mode G
  simp only [ha, ne_eq, not_true_eq_false, if_false]
  intro hal
  split_ifs at hal ⊢
  all_goals first
    | exact absurd hal (fun h => mta_free_not_alive _ h)
    | skip
  all_goals (
    simp only [] at hal ⊢
    cases hc : w.io_connect <;> simp only [hc] at hal ⊢)
  all_goals first
    | (split_ifs at hal <;> exact absurd hal (fun h => mta_free_not_alive _ h))
    | simp_all [pre_state, task_state]

theorem G_enter_auth (w : World) (s : mta_session) (ha : s.status = .alive)
    (hr : s.ready = 0) (ht : s.task = none) (hfd : s.wait_fd = false)
    (hio : s.io = io_state.up) (h1 : s.wait_ssl_init = false)
    (h2 : s.wait_ssl_verify = false) (hm : s.msgcount ≤ MAX_MAIL) (hp : s.wait_ptr = false) :
    (mta_enter_state_auth w s).status = .alive → G (mta_enter_state_auth w s) := by
  unfold mta_enter_state_auth
  simp only [ha, ne_eq, not_true_eq_false, if_false, mta_enter_state_head_relay]
  cases hsec : s.relay.secret with
  | some secret =>
    simp only []
    split_ifs
    all_goals first
      | exact G_connect w _ (by simp [ha]) (by simp [hr]) (by simp [ht])
          (by simp [hfd]) (by simp [hm]) (by simp [hp])
      | (intro _; unfold G; simp_all [pre_state, task_state])
  | none =>
    simp only []
    exact G_enter_ready w _ (by simp [ha]) (by simp [ht]) (by simp [hfd]) (by simp [hio])
      (by simp [h1]) (by simp [h2]) (by simp [hm]) (by simp [hp])

theorem G_enter_starttls (w : World) (s : mta_session) (ha : s.status = .alive)
    (hr : s.ready = 0) (ht : s.task = none) (hfd : s.wait_fd = false)
    (hio : s.io = io_state.up) (h1 : s.wait_ssl_init = false)
    (h2 : s.wait_ssl_verify = false) (hm : s.msgcount ≤ MAX_MAIL) (hp : s.wait_ptr = false) :
    (mta_enter_state_starttls w s).status = .alive → G (mta_enter_state_starttls w s) := by
  unfold mta_enter_state_starttls
  simp only [ha, ne_eq, not_true_eq_false, if_false]
  split_ifs
  all_goals first
    | exact G_enter_auth w _ (by simp [ha]) (by simp [hr]) (by simp [ht]) (by simp [hfd])
        (by simp [hio]) (by simp [h1]) (by simp [h2]) (by simp [hm]) (by simp [hp])
    | exact G_connect w _ (by simp [ha]) (by simp [hr]) (by simp [ht])
        (by simp [hfd]) (by simp [hm]) (by simp [hp])
    | (intro _; unfold G; simp_all [pre_state, task_state])

/-- Conditions under which a delivery state is entered. -/
theorem G_enter_body (s : mta_session) (ha : s.status = .alive)
    (ht : s.task.isSome = true) (hr : s.ready ≠ 0) (hfd : s.wait_fd = false)
    (hio : s.io = io_state.up) (h1 : s.wait_ssl_init = false)
    (h2 : s.wait_ssl_verify = false) (hm : s.msgcount < MAX_MAIL) (hp : s.wait_ptr = false) :
    (mta_enter_state_body s).status = .alive → G (mta_enter_state_body s) := by
  unfold mta_enter_state_body mta_enter_state_eom
  simp only [ha, ne_eq, not_true_eq_false, if_false, mta_enter_state_head_datafp,
    mta_enter_state_head_status]
  cases hd : s.datafp with
  | none =>
    simp only []
    intro _; unfold G; simp_all [pre_state, task_state]; omega
  | some fp =>
    simp only []
    split_ifs with hq
    · intro hal; exact absurd hal (fun h => mta_free_not_alive _ h)
    · intro hal
      rcases mta_queue_data_cases (mta_enter_state_head s MTA_BODY) (by simp [ha]) hal with
        ⟨b, _, htk, _⟩ | ⟨b, hneg, _, _⟩
      · unfold G
        simp only [mta_queue_data_ready, mta_queue_data_state, mta_queue_data_io,
          mta_queue_data_wait_ssl_init, mta_queue_data_wait_ssl_verify, htk,
          mta_queue_data_wait_fd, mta_queue_data_msgcount, mta_queue_data_wait_ptr]
        simp_all [pre_state, task_state]
        omega
      · exact absurd hneg hq

theorem G_enter_state_pre (w : World) (s : mta_session) (st : mta_state)
    (ha : s.status = .alive) (hr : s.ready = 0) (ht : s.task = none) (hfd : s.wait_fd = false)
    (hm : s.msgcount ≤ MAX_MAIL)
    (hp : s.wait_ptr = true → s.io = io_state.down ∧ s.wait_ssl_init = false ∧
      s.wait_ssl_verify = false)
    (hst : st = MTA_INIT ∨ st = MTA_BANNER ∨ st = MTA_EHLO ∨ st = MTA_HELO) :
    (mta_enter_state w s st).status = .alive → G (mta_enter_state w s st) := by
  unfold mta_enter_state
  simp only [ha, ne_eq, not_true_eq_false, if_false]
  rcases hst with h | h | h | h <;> subst h <;> simp only [] <;> intro _ <;> unfold G <;>
    simp_all [pre_state, task_state]

theorem G_enter_state_neg (w : World) (s : mta_session) (st : mta_state)
    (ha : s.status = .alive)
    (hr : s.ready = 0) (ht : s.task = none) (hfd : s.wait_fd = false)
    (hio : s.io = io_state.up) (h1 : s.wait_ssl_init = false)
    (h2 : s.wait_ssl_verify = false) (hm : s.msgcount ≤ MAX_MAIL) (hp : s.wait_ptr = false)
    (hst : st = MTA_STARTTLS ∨ st = MTA_AUTH) :
    (mta_enter_state w s st).status = .alive → G (mta_enter_state w s st) := by
  unfold mta_enter_state
  simp only [ha, ne_eq, not_true_eq_false, if_false]
  rcases hst with h | h <;> subst h <;> simp only []
  · exact G_enter_starttls w s ha hr ht hfd hio h1 h2 hm hp
  · exact G_enter_auth w s ha hr ht hfd hio h1 h2 hm hp

theorem G_enter_state_ready (w : World) (s : mta_session) (ha : s.status = .alive)
    (ht : s.task = none) (hfd : s.wait_fd = false) (hio : s.io = io_state.up)
    (h1 : s.wait_ssl_init = false) (h2 : s.wait_ssl_verify = false)
    (hm : s.msgcount ≤ MAX_MAIL) (hp : s.wait_ptr = false) :
    (mta_enter_state w s MTA_READY).status = .alive → G (mta_enter_state w s MTA_READY) := by
  unfold mta_enter_state
  simp only [ha, ne_eq, not_true_eq_false, if_false]
  exact G_enter_ready w s ha ht hfd hio h1 h2 hm hp

theorem G_enter_state_task (w : World) (s : mta_session) (st : mta_state)
    (ha : s.status = .alive)
    (ht : s.task.isSome = true) (hr : s.ready ≠ 0) (hfd : s.wait_fd = false)
    (hio : s.io = io_state.up) (h1 : s.wait_ssl_init = false)
    (h2 : s.wait_ssl_verify = false) (hm : s.msgcount < MAX_MAIL) (hp : s.wait_ptr = false)
    (hst : st = MTA_MAIL ∨ st = MTA_RCPT ∨ st = MTA_DATA ∨ st = MTA_BODY ∨ st = MTA_EOM) :
    (mta_enter_state w s st).status = .alive → G (mta_enter_state w s st) := by
  unfold mta_enter_state
  simp only [ha, ne_eq, not_true_eq_false, if_false]
  rcases hst with h | h | h | h | h <;> subst h <;> simp only []
  · cases htk : s.task with
    | none => simp [htk] at ht
    | some t =>
      simp only [mta_enter_state_head_task, htk]
      split_ifs <;> intro _ <;> unfold G <;> simp_all [pre_state, task_state] <;> omega
  · cases htk : s.task with
    | none => simp [htk] at ht
    | some t =>
      simp only [mta_enter_state_head_task, htk]
      split
      · simp
      · intro _; unfold G
        simp only [mta_send_ready, mta_send_state, mta_send_io, mta_send_wait_ssl_init,
          mta_send_wait_ssl_verify, mta_send_task, mta_send_wait_fd, mta_send_msgcount,
          mta_send_wait_ptr]
        split_ifs <;> simp_all [pre_state, task_state] <;> omega
  · cases hd : s.datafp with
    | none => simp [hd]
    | some fp =>
      simp only [mta_enter_state_head_datafp, hd]
      intro _; unfold G; simp_all [pre_state, task_state]; omega
  · exact G_enter_body s ha ht hr hfd hio h1 h2 hm hp
  · unfold mta_enter_state_eom
    simp only [ha, ne_eq, not_true_eq_false, if_false]
    intro _; unfold G; simp_all [pre_state, task_state]; omega

theorem G_enter_state_rset (w : World) (s : mta_session) (ha : s.status = .alive)
    (ht : s.task = none) (hr : s.ready ≠ 0) (hfd : s.wait_fd = false)
    (hio : s.io = io_state.up) (h1 : s.wait_ssl_init = false)
    (h2 : s.wait_ssl_verify = false) (hm : s.msgcount ≤ MAX_MAIL) (hp : s.wait_ptr = false) :
    (mta_enter_state w s MTA_RSET).status = .alive → G (mta_enter_state w s MTA_RSET) := by
  unfold mta_enter_state
  simp only [ha, ne_eq, not_true_eq_false, if_false]
  intro _; unfold G; simp_all [pre_state, task_state]

theorem G_start_tls (s : mta_session) (ha : s.status = .alive) (hg : G s)
    (hr : s.ready = 0) (hp : s.wait_ptr = false) :
    (mta_start_tls s).status = .alive → G (mta_start_tls s) := by
  unfold mta_start_tls tree_xset
  simp only [ha, ne_eq, not_true_eq_false, if_false]
  unfold G at hg ⊢
  cases hc : s.relay.cert <;> simp only [] <;> (try split_ifs) <;> intro _ <;> simp_all

theorem G_facts (s : mta_session) (hg : G s) (hio : s.io = io_state.up) :
    s.wait_ptr = false ∧ s.msgcount ≤ MAX_MAIL ∧
    (pre_state s.state = true → s.ready = 0 ∧ s.task = none ∧ s.wait_fd = false) ∧
    (task_state s.state = true → s.state ≠ MTA_READY → s.ready ≠ 0 ∧ s.task.isSome = true ∧
      s.wait_fd = false ∧ s.msgcount < MAX_MAIL ∧ s.wait_ssl_init = false ∧
      s.wait_ssl_verify = false) ∧
    (s.state = MTA_RSET → s.ready ≠ 0 ∧ s.task = none ∧ s.wait_fd = false ∧
      s.wait_ssl_init = false ∧ s.wait_ssl_verify = false) := by
  unfold G at hg
  obtain ⟨g1, g2, g3, g4, g5, g6, g7⟩ := hg
  have hp : s.wait_ptr = false := by
    cases h : s.wait_ptr with
    | false => rfl
    | true => have := (g7 h).1; rw [hio] at this; exact absurd this (by simp)
  refine ⟨hp, g6, ?_, ?_, ?_⟩
  · intro h
    have hr : s.ready = 0 := by
      by_contra hne
      have := (g2 hne).1
      rw [h] at this
      exact absurd this (by simp)
    refine ⟨hr, ?_, ?_⟩
    · cases hs : s.state <;> simp_all [pre_state, task_state]
    · cases hs : s.state <;> simp_all [pre_state, task_state]
  · intro h hne
    have hr : s.ready ≠ 0 := by
      intro h0
      have := g1 h0
      cases hs : s.state <;> simp_all [pre_state, task_state]
    obtain ⟨_, _, h1, h2⟩ := g2 hr
    refine ⟨hr, ?_, ?_, g5 h, h1, h2⟩
    · rw [g3, h]
    · rw [g4]; simpa using hne
  · intro h
    have hr : s.ready ≠ 0 := by
      intro h0
      have := g1 h0
      simp [h, pre_state] at this
    obtain ⟨_, _, h1, h2⟩ := g2 hr
    refine ⟨hr, ?_, ?_, h1, h2⟩
    · cases ht : s.task with
      | none => rfl
      | some t => rw [ht, h] at g3; simp [task_state] at g3
    · rw [g4, h]; simp

theorem mta_enter_state_dead (w : World) (s : mta_session) (st : mta_state)
    (h : s.status ≠ .alive) : mta_enter_state w s st = s := by
  unfold mta_enter_state
  simp [h]

theorem G_mta_response_rcpt (w : World) (s : mta_session) (line : List Nat)
    (ha : s.status = .alive) (hg : G s) (hio : s.io = io_state.up) (hs : s.state = MTA_RCPT) :
    (mta_response_rcpt w s line).status = .alive → G (mta_response_rcpt w s line) := by
  obtain ⟨hp, hcap, _, hT, _⟩ := G_facts s hg hio
  obtain ⟨hr, htk, hfd, hm, h1, h2⟩ := hT (by simp [hs, task_state]) (by simp [hs])
  unfold mta_response_rcpt
  cases ht : s.task with
  | none => simp [ht] at htk
  | some t =>
    cases hc : s.currevp with
    | none => simp
    | some i =>
      simp only []
      cases he : t.envelopes.get? i with
      | none => simp
      | some evp =>
        simp only []
        split_ifs
        all_goals first
          | (refine G_enter_state_task w _ _ ?_ ?_ ?_ ?_ ?_ ?_ ?_ ?_ ?_ ?_ <;> first | assumption | omega | (simp [*]; done) | (simp [*] <;> omega))
          | (refine G_enter_state_rset w _ ?_ ?_ ?_ ?_ ?_ ?_ ?_ ?_ ?_ <;> first | assumption | omega | (simp [*]; done) | (simp [*] <;> omega))

set_option maxHeartbeats 1000000 in
theorem G_mta_response (w : World) (s : mta_session) (line : List Nat)
    (ha : s.status = .alive) (hg : G s) (hio : s.io = io_state.up)
    (h1 : s.wait_ssl_init = false) (h2 : s.wait_ssl_verify = false) :
    (mta_response w s line).status = .alive → G (mta_response w s line) := by
  obtain ⟨hp, hcap, hP, hT, hR⟩ := G_facts s hg hio
  unfold mta_response
  simp only [ha, ne_eq, not_true_eq_false, if_false]
  cases hs : s.state <;> simp only []
  case MTA_INIT => simp
  case MTA_READY => simp
  case MTA_BODY => simp
  case MTA_QUIT => simp
  case MTA_RCPT => exact G_mta_response_rcpt w s line ha hg hio hs
  case MTA_BANNER =>
    obtain ⟨hr, ht, hfd⟩ := hP (by simp [hs, pre_state])
    exact G_enter_state_pre w s _ ha hr ht hfd hcap (by simp [hp]) (by simp)
  case MTA_EHLO =>
    obtain ⟨hr, ht, hfd⟩ := hP (by simp [hs, pre_state])
    split_ifs
    all_goals first
      | (intro hal; exact absurd hal (fun h => mta_free_not_alive _ h))
      | (refine G_enter_state_pre w s _ ha hr ht hfd hcap ?_ ?_ <;> first | done | (simp [hp]; done))
      | (refine G_enter_state_neg w s _ ha hr ht hfd hio h1 h2 hcap hp ?_ <;> first | done | (simp; done))
      | exact G_enter_state_ready w s ha ht hfd hio h1 h2 hcap hp
  case MTA_HELO =>
    obtain ⟨hr, ht, hfd⟩ := hP (by simp [hs, pre_state])
    split_ifs
    all_goals first
      | (intro hal; exact absurd hal (fun h => mta_free_not_alive _ h))
      | exact G_enter_state_ready w s ha ht hfd hio h1 h2 hcap hp
  case MTA_STARTTLS =>
    obtain ⟨hr, ht, hfd⟩ := hP (by simp [hs, pre_state])
    split_ifs
    all_goals first
      | (intro hal; exact absurd hal (fun h => mta_free_not_alive _ h))
      | (refine G_enter_state_neg w s _ ha hr ht hfd hio h1 h2 hcap hp ?_ <;> first | done | (simp; done))
      | exact G_start_tls s ha hg hr hp
  case MTA_AUTH =>
    obtain ⟨hr, ht, hfd⟩ := hP (by simp [hs, pre_state])
    split_ifs
    all_goals first
      | (intro hal; exact absurd hal (fun h => mta_free_not_alive _ h))
      | exact G_enter_state_ready w s ha ht hfd hio h1 h2 hcap hp
  case MTA_MAIL =>
    obtain ⟨hr, htk, hfd, hm, _, _⟩ := hT (by simp [hs, task_state]) (by simp [hs])
    have htn : s.task ≠ none := by intro h; simp [h] at htk
    split_ifs
    all_goals first
      | (refine G_enter_state_task w _ _ ha htk hr hfd hio h1 h2 hm hp ?_ <;> first | done | (simp; done))
      | (refine G_enter_state_rset w _ ?_ ?_ ?_ ?_ ?_ ?_ ?_ ?_ ?_ <;> first | assumption | omega | (simp [*]; done) | (simp [*] <;> omega))
  case MTA_DATA =>
    obtain ⟨hr, htk, hfd, hm, _, _⟩ := hT (by simp [hs, task_state]) (by simp [hs])
    have htn : s.task ≠ none := by intro h; simp [h] at htk
    split_ifs
    all_goals first
      | (refine G_enter_state_task w _ _ ha htk hr hfd hio h1 h2 hm hp ?_ <;> first | done | (simp; done))
      | (refine G_enter_state_rset w _ ?_ ?_ ?_ ?_ ?_ ?_ ?_ ?_ ?_ <;> first | assumption | omega | (simp [*]; done) | (simp [*] <;> omega))
  case MTA_EOM =>
    obtain ⟨hr, htk, hfd, hm, _, _⟩ := hT (by simp [hs, task_state]) (by simp [hs])
    have htn : s.task ≠ none := by intro h; simp [h] at htk
    split_ifs
    all_goals
      (refine G_enter_state_ready w _ ?_ ?_ ?_ ?_ ?_ ?_ ?_ ?_ <;> first | assumption | omega | (simp [*]; done) | (simp [*] <;> omega))
  case MTA_RSET =>
    obtain ⟨hr, ht, hfd, _, _⟩ := hR hs
    exact G_enter_state_ready w s ha ht hfd hio h1 h2 hcap hp

theorem mta_io_ext_frame (s : mta_session) (msg : List Nat) :
    (mta_io_ext s msg).status = s.status ∧ (mta_io_ext s msg).state = s.state ∧
    (mta_io_ext s msg).io = s.io ∧ (mta_io_ext s msg).iobuf_in = s.iobuf_in ∧
    (mta_io_ext s msg).wait_ssl_init = s.wait_ssl_init ∧
    (mta_io_ext s msg).wait_ssl_verify = s.wait_ssl_verify ∧
    (mta_io_ext s msg).hist = s.hist ∧ (mta_io_ext s msg).task = s.task ∧
    (mta_io_ext s msg).msgcount = s.msgcount ∧ (mta_io_ext s msg).flags = s.flags ∧
    (mta_io_ext s msg).ready = s.ready ∧
    (G s → G (mta_io_ext s msg)) := by
  unfold mta_io_ext G
  split_ifs <;> simp

theorem G_mta_io_datain (w : World) : ∀ (fuel : Nat) (s : mta_session),
    s.status = .alive → G s → s.io = io_state.up → s.wait_ssl_init = false →
    s.wait_ssl_verify = false →
    (mta_io_datain fuel w s).status = .alive → G (mta_io_datain fuel w s) := by
  intro fuel
  induction fuel with
  | zero => intro s _ hg _ _ _ _; exact hg
  | succ fuel ih =>
    intro s ha hg hio h1 h2
    rw [mta_io_datain]
    cases hgl : iobuf_getline s.iobuf_in with
    | none =>
      simp only []
      split_ifs
      · intro hal; exact absurd hal (fun h => mta_free_not_alive _ h)
      · intro _; exact hg
    | some r =>
      obtain ⟨line, rest⟩ := r
      simp only []
      cases hpr : parse_smtp_response line with
      | error e =>
        simp only []
        intro hal; exact absurd hal (fun h => mta_free_not_alive _ h)
      | ok r2 =>
        obtain ⟨msg, cont⟩ := r2
        simp only []
        have hg0 : G { s with iobuf_in := rest } := by
          unfold G at hg ⊢; exact hg
        obtain ⟨e1, e2, e3, _, e5, e6, _, _, _, _, _, e12⟩ :=
          mta_io_ext_frame { s with iobuf_in := rest } (cstr msg)
        have hg1 := e12 hg0
        generalize mta_io_ext { s with iobuf_in := rest } (cstr msg) = s1 at *
        simp only [] at e1 e2 e3 e5 e6
        by_cases hcont : cont = true
        · simp only [hcont, if_true]
          exact ih s1 (by rw [e1, ha]) hg1 (by rw [e3, hio]) (by rw [e5, h1]) (by rw [e6, h2])
        · simp only [hcont, if_false, Bool.false_eq_true]
          by_cases hq : s1.state = MTA_QUIT
          · simp only [hq, if_true]
            intro hal; exact absurd hal (fun h => mta_free_not_alive _ h)
          · simp only [hq, if_false]
            have hr := G_mta_response w s1 (cstr line) (by rw [e1, ha]) hg1 (by rw [e3, hio])
              (by rw [e5, h1]) (by rw [e6, h2])
            generalize mta_response w s1 (cstr line) = s2 at *
            split
            · rename_i hst
              split_ifs
              · intro hal; exact absurd hal (fun h => mta_free_not_alive _ h)
              · intro _; exact hr hst
            · simp
            · rename_i h3 h4
              intro hal
              exact absurd hal h3

theorem G_pre_facts (s : mta_session) (hg : G s)
    (h : s.io ≠ io_state.up ∨ s.wait_ssl_init = true ∨ s.wait_ssl_verify = true) :
    s.ready = 0 ∧ s.task = none ∧ s.wait_fd = false ∧ s.msgcount ≤ MAX_MAIL := by
  unfold G at hg
  obtain ⟨g1, g2, g3, g4, g5, g6, g7⟩ := hg
  have hr : s.ready = 0 := by
    by_contra hne
    obtain ⟨_, a, b, c⟩ := g2 hne
    rcases h with h | h | h
    · exact h a
    · rw [b] at h; exact absurd h (by simp)
    · rw [c] at h; exact absurd h (by simp)
  have hp := g1 hr
  refine ⟨hr, ?_, ?_, g6⟩
  · cases hs : s.state <;> simp_all [pre_state, task_state]
  · cases hs : s.state <;> simp_all [pre_state, task_state]

theorem G_wait_ptr (s : mta_session) (hg : G s)
    (h : s.io ≠ io_state.down ∨ s.wait_ssl_init = true ∨ s.wait_ssl_verify = true) :
    s.wait_ptr = false := by
  unfold G at hg
  obtain ⟨_, _, _, _, _, _, g7⟩ := hg
  cases hp : s.wait_ptr with
  | false => rfl
  | true =>
    obtain ⟨a, b, c⟩ := g7 hp
    rcases h with h | h | h
    · exact absurd a h
    · rw [b] at h; exact absurd h (by simp)
    · rw [c] at h; exact absurd h (by simp)

theorem G_mta_io_fail (w : World) (s : mta_session) (msg : List Nat)
    (ha : s.status = .alive) (hg : G s) (hio : s.io ≠ io_state.down) :
    (mta_io_fail w s msg).status = .alive → G (mta_io_fail w s msg) := by
  unfold mta_io_fail
  simp only [mta_error_ready]
  split_ifs with hr
  · have hp := G_wait_ptr s hg (Or.inl hio)
    unfold G at hg
    obtain ⟨g1, g2, g3, g4, g5, g6, g7⟩ := hg
    have hpre := g1 hr
    have ht : s.task = none := by
      cases hs : s.state <;> simp_all [pre_state, task_state]
    have hfd : s.wait_fd = false := by
      cases hs : s.state <;> simp_all [pre_state, task_state]
    exact G_connect w _ (by simp [ha]) (by simp [hr]) (by simp [ht]) (by simp [hfd])
      (by simp [g6]) (by simp [hp])
  · intro hal; exact absurd hal (fun h => mta_free_not_alive _ h)

theorem G_mta_io_tlsverified (w : World) (s : mta_session)
    (ha : s.status = .alive) (hr : s.ready = 0) (ht : s.task = none) (hfd : s.wait_fd = false)
    (hm : s.msgcount ≤ MAX_MAIL)
    (hp : s.wait_ptr = true → s.io = io_state.down ∧ s.wait_ssl_init = false ∧
      s.wait_ssl_verify = false) :
    (mta_io_tlsverified w s).status = .alive → G (mta_io_tlsverified w s) := by
  unfold mta_io_tlsverified
  split_ifs
  · exact G_enter_state_pre w s _ ha hr ht hfd hm hp (Or.inr (Or.inl rfl))
  · exact G_enter_state_pre w s _ ha hr ht hfd hm hp (Or.inr (Or.inr (Or.inl rfl)))

set_option maxHeartbeats 1000000 in
theorem G_mta_io_switch (w : World) (s : mta_session) (evt : io_event) (ha : s.status = .alive)
    (hg : G s) (h1 : s.wait_ssl_init = false) (h2 : s.wait_ssl_verify = false)
    (hev : match evt with
      | IO_CONNECTED => s.io = io_state.up ∧ s.ready = 0 ∧ s.wait_ptr = false
      | IO_TLSREADY => s.io = io_state.up ∧ s.ready = 0 ∧ s.wait_ptr = false
      | IO_TLSVERIFIED => s.ready = 0
      | IO_DATAIN => s.io = io_state.up
      | IO_LOWAT => s.io = io_state.up
      | _ => s.io ≠ io_state.down) :
    (mta_io_switch w s evt).status = .alive → G (mta_io_switch w s evt) := by
  have hpf : s.ready = 0 → s.task = none ∧ s.wait_fd = false ∧ s.msgcount ≤ MAX_MAIL := by
    intro hr
    unfold G at hg
    obtain ⟨g1, g2, g3, g4, g5, g6, g7⟩ := hg
    have hpre := g1 hr
    refine ⟨?_, ?_, g6⟩
    · cases hs : s.state <;> simp_all [pre_state, task_state]
    · cases hs : s.state <;> simp_all [pre_state, task_state]
  have hg7 : s.wait_ptr = true → s.io = io_state.down ∧ s.wait_ssl_init = false ∧
      s.wait_ssl_verify = false := by
    unfold G at hg; exact hg.2.2.2.2.2.2
  unfold mta_io_switch
  cases evt <;> simp only [] at hev ⊢
  case IO_CONNECTED =>
    obtain ⟨hio, hr, hp⟩ := hev
    obtain ⟨ht, hfd, hm⟩ := hpf hr
    split_ifs
    all_goals first
      | exact G_start_tls _ ha hg hr hp
      | exact G_enter_state_pre w _ _ ha hr ht hfd hm hg7 (Or.inr (Or.inl rfl))
  case IO_TLSREADY =>
    obtain ⟨hio, hr, hp⟩ := hev
    obtain ⟨ht, hfd, hm⟩ := hpf hr
    unfold mta_verify_certificate tree_xset
    cases hpc : w.peer_cert with
    | false =>
      simp only [if_true, Bool.false_eq_true, if_false]
      exact G_mta_io_tlsverified w _ ha hr ht hfd hm hg7
    | true =>
      simp only [Bool.true_eq_false, if_false, if_true]
      cases hwv : s.wait_ssl_verify with
      | true => simp
      | false =>
        simp only [Bool.false_eq_true, if_false]
        intro _; unfold G at hg ⊢; simp_all
  case IO_TLSVERIFIED =>
    obtain ⟨ht, hfd, hm⟩ := hpf hev
    exact G_mta_io_tlsverified w _ ha hev ht hfd hm hg7
  case IO_DATAIN =>
    exact G_mta_io_datain w _ _ ha hg hev h1 h2
  case IO_LOWAT =>
    obtain ⟨hp, hcap, hP, hT, hR⟩ := G_facts s hg hev
    by_cases hst : s.state = MTA_BODY
    · simp only [hst, if_true]
      obtain ⟨hr, htk, hfd, hm, _, _⟩ := hT (by simp [hst, task_state]) (by simp [hst])
      have := G_enter_state_task w s MTA_BODY ha htk hr hfd hev h1 h2 hm hp (by simp)
      generalize mta_enter_state w s MTA_BODY = s1 at *
      split
      · simp
      · intro hal
        exact this hal
    · simp only [hst, if_false]
      split
      · simp
      · intro _; exact hg
  case IO_TIMEOUT => exact G_mta_io_fail w _ _ ha hg hev
  case IO_ERROR => exact G_mta_io_fail w _ _ ha hg hev
  case IO_DISCONNECTED => exact G_mta_io_fail w _ _ ha hg hev

theorem G_enter_verified (w : World) (s : mta_session)
    (ha : s.status = .alive) (hr : s.ready = 0) (ht : s.task = none) (hfd : s.wait_fd = false)
    (hm : s.msgcount ≤ MAX_MAIL) (hp : s.wait_ptr = false) :
    (mta_io_switch w s IO_TLSVERIFIED).status = .alive →
      G (mta_io_switch w s IO_TLSVERIFIED) := by
  unfold mta_io_switch
  exact G_mta_io_tlsverified w s ha hr ht hfd hm (by simp [hp])

theorem G_mta_io (w : World) (s : mta_session) (evt : io_event) (ha : s.status = .alive)
    (hg : G s) (h1 : s.wait_ssl_init = false) (h2 : s.wait_ssl_verify = false)
    (hev : match evt with
      | IO_CONNECTED => s.io = io_state.up ∧ s.ready = 0 ∧ s.wait_ptr = false
      | IO_TLSREADY => s.io = io_state.up ∧ s.ready = 0 ∧ s.wait_ptr = false
      | IO_TLSVERIFIED => s.ready = 0
      | IO_DATAIN => s.io = io_state.up
      | IO_LOWAT => s.io = io_state.up
      | _ => s.io ≠ io_state.down) :
    (mta_io w s evt).status = .alive → G (mta_io w s evt) := by
  unfold mta_io
  rw [if_neg (not_not.mpr ha)]
  refine G_mta_io_switch w _ evt ha ?_ h1 h2 ?_
  · unfold G at hg ⊢; exact hg
  · cases evt <;> exact hev

theorem G_mta_session_imsg (w : World) (s : mta_session) (m : imsg)
    (hg : s.status = .alive → G s) :
    (mta_session_imsg w s m).status = .alive → G (mta_session_imsg w s m) := by
  unfold mta_session_imsg tree_xpop
  cases m with
  | IMSG_QUEUE_MESSAGE_FD fd =>
    cases fd with
    | none => simp
    | some c =>
      obtain ⟨content, broken⟩ := c
      simp only []
      split_ifs with hw hf hl
      · simp
      · simp
      · -- loop detected
        have hw2 : s.wait_fd = true := by simpa using hw
        by_cases ha : s.status = .alive
        · have hgs := hg ha
          unfold G at hgs
          obtain ⟨g1, g2, g3, g4, g5, g6, g7⟩ := hgs
          have hst : s.state = MTA_READY := by rw [g4] at hw2; simpa using hw2
          have hr : s.ready ≠ 0 := by
            intro h0; have := g1 h0; simp [hst, pre_state] at this
          obtain ⟨_, hio, h1, h2⟩ := g2 hr
          have hp : s.wait_ptr = false := by
            cases hp : s.wait_ptr with
            | false => rfl
            | true => have := (g7 hp).1; rw [hio] at this; exact absurd this (by simp)
          refine G_enter_state_ready w _ ?_ ?_ ?_ ?_ ?_ ?_ ?_ ?_ <;> simp [*]
          cases ht : s.task with
          | none => rw [ht, hst] at g3; simp [task_state] at g3
          | some t => simp
        · rw [mta_enter_state_dead]
          · simp [ha]
          · simp [ha]
      · have hw2 : s.wait_fd = true := by simpa using hw
        by_cases ha : s.status = .alive
        · have hgs := hg ha
          unfold G at hgs
          obtain ⟨g1, g2, g3, g4, g5, g6, g7⟩ := hgs
          have hst : s.state = MTA_READY := by rw [g4] at hw2; simpa using hw2
          have hr : s.ready ≠ 0 := by
            intro h0; have := g1 h0; simp [hst, pre_state] at this
          obtain ⟨_, hio, h1, h2⟩ := g2 hr
          have hp : s.wait_ptr = false := by
            cases hp : s.wait_ptr with
            | false => rfl
            | true => have := (g7 hp).1; rw [hio] at this; exact absurd this (by simp)
          have hm := g5 (by simp [hst, task_state])
          refine G_enter_state_task w _ _ ?_ ?_ ?_ ?_ ?_ ?_ ?_ ?_ ?_ ?_ <;>
            first | assumption | rfl | (simp [*]; done) | (simp only []; rw [g3, hst]; rfl)
        · rw [mta_enter_state_dead]
          · simp [ha]
          · simp [ha]
  | IMSG_DNS_PTR =>
    simp only []
    split_ifs with hw hf
    · simp
    · simp
    · have hw2 : s.wait_ptr = true := by simpa using hw
      by_cases ha : s.status = .alive
      · have hgs := hg ha
        have hio : s.io = io_state.down := by
          unfold G at hgs; exact (hgs.2.2.2.2.2.2 hw2).1
        obtain ⟨hr, ht, hfd, hm⟩ := G_pre_facts s hgs (Or.inl (by rw [hio]; simp))
        unfold mta_on_ptr
        exact G_connect w _ ha hr ht hfd hm rfl
      · unfold mta_on_ptr mta_connect
        simp [ha]
  | IMSG_LKA_SSL_INIT ok =>
    simp only []
    split_ifs with hw hf hok
    · simp
    · simp
    · intro hal; exact absurd hal (fun h => mta_free_not_alive _ h)
    · have hw2 : s.wait_ssl_init = true := by simpa using hw
      simp only []
      intro ha
      have hgs := hg ha
      obtain ⟨hr, ht, hfd, hm⟩ := G_pre_facts s hgs (Or.inr (Or.inl hw2))
      have hp := G_wait_ptr s hgs (Or.inr (Or.inl hw2))
      unfold G at hgs ⊢
      simp_all
  | IMSG_LKA_SSL_VERIFY ok =>
    simp only []
    split_ifs with hw hf hok
    · simp
    · simp
    · have hw2 : s.wait_ssl_verify = true := by simpa using hw
      by_cases ha : s.status = .alive
      · have hgs := hg ha
        obtain ⟨hr, ht, hfd, hm⟩ := G_pre_facts s hgs (Or.inr (Or.inr hw2))
        have hp := G_wait_ptr s hgs (Or.inr (Or.inr hw2))
        have h1 : s.wait_ssl_init = false ∨ True := Or.inr trivial
        unfold mta_io
        rw [if_neg (not_not.mpr (by exact ha))]
        refine G_enter_verified w _ ?_ ?_ ?_ ?_ ?_ ?_ <;> first | assumption | (simp [*]; done)
      · unfold mta_io; simp [ha]
    · have hw2 : s.wait_ssl_verify = true := by simpa using hw
      by_cases ha : s.status = .alive
      · have hgs := hg ha
        obtain ⟨hr, ht, hfd, hm⟩ := G_pre_facts s hgs (Or.inr (Or.inr hw2))
        have hp := G_wait_ptr s hgs (Or.inr (Or.inr hw2))
        unfold mta_io
        rw [if_neg (not_not.mpr (by exact ha))]
        refine G_enter_verified w _ ?_ ?_ ?_ ?_ ?_ ?_ <;> first | assumption | (simp [*]; done)
      · unfold mta_io; simp [ha]

theorem G_step (s : mta_session) (we : World × Event) (hg : s.status = .alive → G s) :
    (step s we).status = .alive → G (step s we) := by
  obtain ⟨w, ev⟩ := we
  unfold step
  have hupd : ∀ (e : Nat) (o : List Nat), s.status = .alive →
      G { s with errno := e, iobuf_out := o } := by
    intro e o ha
    have := hg ha
    unfold G at this ⊢
    exact this
  split
  · rename_i m hm; intro h; rw [hm] at h; exact absurd h (by simp)
  · rename_i m hm; intro h; rw [hm] at h; exact absurd h (by simp)
  · simp only []
    split_ifs with hen
    · exact hg
    · have hen2 : enabled s ev = true := by simpa using hen
      cases ev with
      | msg m =>
        simp only []
        exact G_mta_session_imsg w _ m (fun ha => hupd _ _ ha)
      | io e input =>
        simp only []
        by_cases ha : s.status = .alive
        · have hgs := hg ha
          unfold enabled at hen2
          simp only [Bool.and_eq_true, Bool.not_eq_true', decide_eq_true_eq] at hen2
          obtain ⟨⟨h1, h2⟩, he⟩ := hen2
          have hG := hupd w.errno (List.drop w.written s.iobuf_out) ha
          cases e with
          | IO_CONNECTED =>
            simp only [] at he ⊢
            have he2 : s.io = io_state.connect := by simpa using he
            obtain ⟨hr, ht, hfd, hm⟩ := G_pre_facts s hgs (Or.inl (by rw [he2]; simp))
            have hp := G_wait_ptr s hgs (Or.inl (by rw [he2]; simp))
            refine G_mta_io w _ _ ha ?_ h1 h2 ⟨rfl, hr, hp⟩
            unfold G at hgs ⊢
            simp_all
          | IO_TLSREADY =>
            simp only [] at he ⊢
            have he2 : s.io = io_state.connect_ssl := by simpa using he
            obtain ⟨hr, ht, hfd, hm⟩ := G_pre_facts s hgs (Or.inl (by rw [he2]; simp))
            have hp := G_wait_ptr s hgs (Or.inl (by rw [he2]; simp))
            refine G_mta_io w _ _ ha ?_ h1 h2 ⟨rfl, hr, hp⟩
            unfold G at hgs ⊢
            simp_all
          | IO_TLSVERIFIED =>
            simp only [] at he ⊢
            simp at he
          | IO_DATAIN =>
            simp only [] at he ⊢
            have he2 : s.io = io_state.up := by simpa using he
            refine G_mta_io w _ _ ha ?_ h1 h2 he2
            unfold G at hgs ⊢
            exact hgs
          | IO_LOWAT =>
            simp only [] at he ⊢
            have he2 : s.io = io_state.up := by simpa using he
            exact G_mta_io w _ _ ha hG h1 h2 he2
          | IO_TIMEOUT =>
            simp only [] at he ⊢
            have he2 : s.io ≠ io_state.down := by simpa using he
            exact G_mta_io w _ _ ha hG h1 h2 he2
          | IO_ERROR =>
            simp only [] at he ⊢
            have he2 : s.io ≠ io_state.down := by simpa using he
            exact G_mta_io w _ _ ha hG h1 h2 he2
          | IO_DISCONNECTED =>
            simp only [] at he ⊢
            have he2 : s.io ≠ io_state.down := by simpa using he
            exact G_mta_io w _ _ ha hG h1 h2 he2
        · intro hal
          exfalso
          revert hal
          unfold mta_io
          cases e <;> simp [ha]

theorem G_run (evs : List (World × Event)) : ∀ (s : mta_session),
    (s.status = .alive → G s) → (run s evs).status = .alive → G (run s evs) := by
  induction evs with
  | nil => intro s hg; exact hg
  | cons e evs ih =>
    intro s hg
    unfold run
    simp only [List.foldl_cons]
    exact ih (step s e) (G_step s e hg)

theorem G_spawn (k : relay_flag_values) (relay : mta_relay) (hostname : List Nat)
    (ptr_known : Bool) (w : World) :
    (mta_session_spawn k relay hostname ptr_known w).status = .alive →
      G (mta_session_spawn k relay hostname ptr_known w) := by
  unfold mta_session_spawn
  simp only []
  cases ptr_known with
  | true =>
    simp only [if_true]
    unfold mta_on_ptr
    exact G_connect w _ rfl rfl rfl rfl (by simp) rfl
  | false =>
    simp only [Bool.false_eq_true, if_false]
    intro _
    unfold G
    simp [pre_state, task_state]

/-- The structural invariant holds in every state a session in use can reach. -/
theorem G_reachable (k : relay_flag_values) (relay : mta_relay) (hostname : List Nat)
    (ptr_known : Bool) (w : World) (evs : List (World × Event)) :
    (run (mta_session_spawn k relay hostname ptr_known w) evs).status = .alive →
      G (run (mta_session_spawn k relay hostname ptr_known w) evs) :=
  G_run evs _ (G_spawn k relay hostname ptr_known w)


/-! ## The invariant of the history -/

/-! ## Observations are additive -/

theorem lor_eq_zero (a b : Nat) (h : a ||| b = 0) : a = 0 ∧ b = 0 := by
  constructor
  · apply Nat.eq_of_testBit_eq
    intro i
    have := congrArg (fun n => n.testBit i) h
    simp only [Nat.testBit_or, Nat.zero_testBit, Bool.or_eq_false_iff] at this
    simp [this.1]
  · apply Nat.eq_of_testBit_eq
    intro i
    have := congrArg (fun n => n.testBit i) h
    simp only [Nat.testBit_or, Nat.zero_testBit, Bool.or_eq_false_iff] at this
    simp [this.2]
theorem or_and_ne (a x m : Nat) (h : a &&& m ≠ 0) : (a ||| x) &&& m ≠ 0 := by
  intro h2
  apply h
  rw [Nat.and_comm, Nat.and_or_distrib_left] at h2
  have := (lor_eq_zero _ _ h2).1
  rw [Nat.and_comm]; exact this
theorem or_and_ne2 (a x m : Nat) (h : (a ||| x) &&& m ≠ 0) : a &&& m ≠ 0 ∨ x &&& m ≠ 0 := by
  by_contra hc
  push_neg at hc
  apply h
  rw [Nat.and_comm, Nat.and_or_distrib_left, Nat.and_comm, hc.1, Nat.and_comm m x, hc.2]
  rfl
theorem count_map_eraseIdx {α β : Type} [DecidableEq β] (f : α → β) (e : β) :
    ∀ (l : List α) (i : Nat) (x : α), l.get? i = some x →
      ((l.eraseIdx i).map f).count e + (if f x = e then 1 else 0) = (l.map f).count e := by
  intro l
  induction l with
  | nil => intro i x h; simp at h
  | cons a l ih =>
    intro i x h
    cases i with
    | zero =>
      simp at h
      subst h
      simp [List.count_cons]
    | succ i =>
      simp at h
      have := ih i x (by simpa using h)
      simp [List.count_cons] at this ⊢
      omega


@[simp]
theorem verdict_count_append (e : envelope) (a b : List Effect) :
    verdict_count e (a ++ b) = verdict_count e a + verdict_count e b := by
  simp [verdict_count]

@[simp]
theorem acquire_count_append (e : envelope) (a b : List Effect) :
    acquire_count e (a ++ b) = acquire_count e a + acquire_count e b := by
  simp [acquire_count]

@[simp]
theorem delivered_count_append (a b : List Effect) :
    delivered_count (a ++ b) = delivered_count a + delivered_count b := by
  simp [delivered_count]

@[simp]
theorem ok_flush_count_append (a b : List Effect) :
    ok_flush_count (a ++ b) = ok_flush_count a + ok_flush_count b := by
  simp [ok_flush_count]

@[simp]
theorem auth_sent_append (a b : List Effect) :
    auth_sent (a ++ b) = (auth_sent a || auth_sent b) := by
  simp [auth_sent]

theorem auth_guard_cons (seen : Bool) (x : Effect) (h : List Effect) :
    auth_guard seen (x :: h) = ((!auth_effect x || seen) &&
      auth_guard (seen || decide (x = Effect.event IO_TLSREADY)) h) := by
  cases x
  case event e => cases e <;> cases seen <;> simp [auth_guard, auth_effect]
  all_goals cases seen <;> simp [auth_guard, auth_effect]

theorem auth_guard_quiet (b : List Effect) :
    ∀ seen : Bool, auth_sent b = false → auth_guard seen b = true := by
  induction b with
  | nil => intro seen _; rfl
  | cons x xs ih =>
    intro seen h
    simp only [auth_sent, List.any_cons, Bool.or_eq_false_iff] at h
    rw [auth_guard_cons, h.1, ih _ h.2]
    rfl

theorem auth_guard_append_quiet (b : List Effect) (hb : auth_sent b = false) :
    ∀ (a : List Effect) (seen : Bool), auth_guard seen (a ++ b) = auth_guard seen a := by
  intro a
  induction a with
  | nil => intro seen; rw [List.nil_append, auth_guard_quiet b seen hb]; rfl
  | cons x xs ih =>
    intro seen
    rw [List.cons_append, auth_guard_cons, auth_guard_cons, ih]

theorem auth_guard_append_send (cmd : List Nat) :
    ∀ (a : List Effect) (seen : Bool), auth_guard seen a = true →
      (seen = true ∨ Effect.event IO_TLSREADY ∈ a) →
      auth_guard seen (a ++ [Effect.send cmd]) = true := by
  intro a
  induction a with
  | nil =>
    intro seen _ h
    rcases h with h | h
    · rw [List.nil_append, auth_guard_cons, h]; simp [auth_guard]
    · simp at h
  | cons x xs ih =>
    intro seen hg h
    rw [auth_guard_cons, Bool.and_eq_true] at hg
    rw [List.cons_append, auth_guard_cons, Bool.and_eq_true]
    refine ⟨hg.1, ih _ hg.2 ?_⟩
    rcases h with h | h
    · left; rw [h]; rfl
    · rcases List.mem_cons.mp h with h | h
      · left; rw [← h]; simp
      · right; exact h

theorem auth_guard_before (cmd : List Nat) (post : List Effect)
    (hc : is_auth_cmd cmd = true) :
    ∀ (pre : List Effect) (seen : Bool),
      auth_guard seen (pre ++ Effect.send cmd :: post) = true →
      seen = true ∨ Effect.event IO_TLSREADY ∈ pre := by
  intro pre
  induction pre with
  | nil =>
    intro seen h
    rw [List.nil_append, auth_guard_cons, Bool.and_eq_true] at h
    left
    have h1 := h.1
    simp only [auth_effect, hc, Bool.not_true, Bool.false_or] at h1
    exact h1
  | cons x xs ih =>
    intro seen h
    rw [List.cons_append, auth_guard_cons, Bool.and_eq_true] at h
    rcases ih _ h.2 with h2 | h2
    · rw [Bool.or_eq_true] at h2
      rcases h2 with h2 | h2
      · exact Or.inl h2
      · right
        have := of_decide_eq_true h2
        rw [this]
        exact List.mem_cons_self _ _
    · exact Or.inr (List.mem_cons_of_mem _ h2)

theorem neutral_facts (x : Effect) (h : neutral x = true) :
    (∀ e, verdict_weight e x = 0) ∧ (∀ e, acquire_weight e x = 0) ∧ delivered_weight x = 0 ∧
      auth_effect x = false ∧ x ≠ Effect.mta_route_collect := by
  cases x <;> simp_all [neutral, verdict_weight, acquire_weight, delivered_weight, auth_effect]
  rename_i d err
  cases d <;> simp_all [neutral, delivered_weight]

/-- A session that is no longer in use. -/
theorem Kc_mono (h : List Effect) (t : Option mta_task) (m f : Nat) (a a1 : Prop)
    (hs : a1 → a) (hK : Kc h t m f a) : Kc h t m f a1 := by
  obtain ⟨k1, k2, k3, k4, k5, k6, k7⟩ := hK
  exact ⟨k1, fun h => ⟨(k2 h).1, fun h2 => (k2 h).2 (hs h2)⟩, k3, k4, k5, k6, k7⟩

/-- One more neutral effect in the history. -/
theorem Kc_neutral (h : List Effect) (t : Option mta_task) (m f : Nat) (a : Prop) (x : Effect)
    (hK : Kc h t m f a) (hx : neutral x = true) : Kc (h ++ [x]) t m f a := by
  obtain ⟨k1, k2, k3, k4, k5, k6, k7⟩ := hK
  obtain ⟨n1, n2, n3, n4, n5⟩ := neutral_facts x hx
  have hq : auth_sent [x] = false := by simp [auth_sent, n4]
  refine ⟨fun e => ?_, ?_, ?_, ?_, ?_, k6, (auth_guard_append_quiet _ hq _ _).trans k7⟩
  · simp [verdict_count, acquire_count, n1 e, n2 e] at k1 ⊢
    exact k1 e
  · intro h
    simp [n5.symm] at h
    exact k2 h
  · simp [delivered_count, n3] at k3 ⊢
    exact k3
  · intro h
    have h0 : auth_sent [x] = false := by simp [auth_sent, n4]
    rw [auth_sent_append, h0, Bool.or_false] at h
    exact k4 h
  · intro h
    simp
    exact Or.inl (k5 h)

theorem flush_effects_verdict_count (e : envelope) (t : mta_task) (d : delivery)
    (err : List Nat) :
    verdict_count e (mta_flush_task_effects t d err) = attached_count e (some t) := by
  unfold mta_flush_task_effects verdict_count attached_count
  simp only [List.map_cons, List.sum_cons, verdict_weight, zero_add]
  induction t.envelopes with
  | nil => simp
  | cons x xs ih =>
    simp only [List.flatMap_cons, List.map_append, List.sum_append, ih, List.map_cons,
      List.count_cons]
    simp [verdict_weight, envelope_clear, envelope_set_errormsg]
    omega

theorem flush_effects_acquire_count (e : envelope) (t : mta_task) (d : delivery)
    (err : List Nat) : acquire_count e (mta_flush_task_effects t d err) = 0 := by
  unfold mta_flush_task_effects acquire_count
  simp only [List.map_cons, List.sum_cons, acquire_weight, zero_add]
  induction t.envelopes with
  | nil => simp
  | cons x xs ih =>
    simp only [List.flatMap_cons, List.map_append, List.sum_append, ih]
    simp [acquire_weight]

theorem flush_effects_delivered_count (t : mta_task) (d : delivery) (err : List Nat) :
    delivered_count (mta_flush_task_effects t d err)
      = delivered_weight (Effect.flush_task d err) := by
  unfold mta_flush_task_effects delivered_count
  simp only [List.map_cons, List.sum_cons]
  induction t.envelopes with
  | nil => simp
  | cons x xs ih =>
    simp only [List.flatMap_cons, List.map_append, List.sum_append]
    simp [delivered_weight] at ih ⊢
    exact ih

theorem flush_effects_auth_sent (t : mta_task) (d : delivery) (err : List Nat) :
    auth_sent (mta_flush_task_effects t d err) = false := by
  unfold mta_flush_task_effects auth_sent
  simp only [List.any_cons, auth_effect, Bool.false_or]
  induction t.envelopes with
  | nil => simp
  | cons x xs ih =>
    simp only [List.flatMap_cons, List.any_append, ih]
    simp [auth_effect]

theorem flush_effects_mem (t : mta_task) (d : delivery) (err : List Nat) (x : Effect)
    (h : x ∈ mta_flush_task_effects t d err) :
    x ≠ Effect.mta_route_collect ∧ x ≠ Effect.event IO_TLSREADY := by
  unfold mta_flush_task_effects at h
  simp only [List.mem_cons, List.mem_flatMap, List.mem_singleton] at h
  rcases h with h | ⟨a, _, h | h | h⟩
  · subst h; simp
  · subst h; simp
  · subst h; simp
  · simp at h

theorem K_head (s : mta_session) (st : mta_state) (hK : K s) :
    K (mta_enter_state_head s st) :=
  Kc_neutral _ _ _ _ _ (Effect.log_trace s.state st) hK rfl

theorem K_send (s : mta_session) (cmd : List Nat) (hK : K s) (hc : is_auth_cmd cmd = false) :
    K (mta_send s cmd) := by
  unfold mta_send
  split_ifs
  · exact hK
  · exact Kc_neutral _ _ _ _ _ (Effect.send cmd) hK (by simp [neutral, hc])

theorem K_send_auth (s : mta_session) (cmd : List Nat) (hK : K s)
    (hf : s.flags &&& MTA_TLS ≠ 0) : K (mta_send s cmd) := by
  unfold mta_send
  split_ifs with ha
  · exact hK
  · obtain ⟨k1, k2, k3, k4, k5, k6, k7⟩ := hK
    refine ⟨fun e => ?_, ?_, ?_, fun _ => hf, ?_, k6,
      auth_guard_append_send cmd _ _ k7 (Or.inr (k5 hf))⟩
    · simp [verdict_count, acquire_count, verdict_weight, acquire_weight] at k1 ⊢
      exact k1 e
    · intro h
      simp at h
      exact k2 h
    · simp [delivered_count, delivered_weight] at k3 ⊢
      exact k3
    · intro h
      simp
      exact k5 h

theorem Kc_flush (h : List Effect) (t : mta_task) (m f : Nat) (a : Prop) (d : delivery)
    (err : List Nat) (hK : Kc h (some t) m f a)
    (hd : d = IMSG_DELIVERY_OK → err = str "No envelope") :
    Kc (h ++ mta_flush_task_effects t d err) none m f a := by
  obtain ⟨k1, k2, k3, k4, k5, k6, k7⟩ := hK
  refine ⟨fun e => ?_, ?_, ?_, ?_, ?_, k6,
    (auth_guard_append_quiet _ (flush_effects_auth_sent t d err) _ _).trans k7⟩
  · have := k1 e
    simp only [verdict_count_append, acquire_count_append, flush_effects_verdict_count,
      flush_effects_acquire_count]
    simp only [attached_count] at this ⊢
    omega
  · intro h
    rcases List.mem_append.mp h with h | h
    · exact absurd (k2 h).1 (by simp)
    · exact absurd rfl (flush_effects_mem t d err _ h).1
  · rw [delivered_count_append, flush_effects_delivered_count, ← k3]
    cases d <;> simp [delivered_weight]
    exact hd rfl
  · intro h
    rw [auth_sent_append, flush_effects_auth_sent, Bool.or_false] at h
    exact k4 h
  · intro h
    exact List.mem_append.mpr (Or.inl (k5 h))

theorem K_flush (s : mta_session) (d : delivery) (err : List Nat) (hK : K s)
    (hd : d = IMSG_DELIVERY_OK → err = str "No envelope") : K (mta_flush_task s d err) := by
  unfold mta_flush_task
  split_ifs with ha
  · exact hK
  · cases ht : s.task with
    | none =>
      have := hK
      unfold K at this
      rw [ht] at this
      exact Kc_mono _ _ _ _ _ _ (fun h => nomatch h) this
    | some t =>
      have := hK
      unfold K at this
      rw [ht] at this
      exact Kc_flush _ _ _ _ _ _ _ this hd

theorem K_deliver (s : mta_session) (t : mta_task) (err : List Nat) (hK : K s)
    (ha : s.status = .alive) (ht : s.task = some t) (hm : s.msgcount < MAX_MAIL)
    (he : err ≠ str "No envelope") :
    K (mta_flush_task { s with msgcount := s.msgcount + 1 } IMSG_DELIVERY_OK err) := by
  unfold mta_flush_task
  simp only [ha, ne_eq, not_true_eq_false, if_false, ht]
  obtain ⟨k1, k2, k3, k4, k5, k6, k7⟩ := hK
  refine ⟨fun e => ?_, ?_, ?_, ?_, ?_, hm,
    (auth_guard_append_quiet _ (flush_effects_auth_sent t _ err) _ _).trans k7⟩
  · have := k1 e
    rw [ht] at this
    simp only [verdict_count_append, acquire_count_append, flush_effects_verdict_count,
      flush_effects_acquire_count]
    simp only [attached_count] at this ⊢
    omega
  · intro h
    rcases List.mem_append.mp h with h | h
    · exact absurd ha (k2 h).2
    · exact absurd rfl (flush_effects_mem t _ err _ h).1
  · show s.msgcount + 1 = _
    rw [delivered_count_append, flush_effects_delivered_count, ← k3]
    simp [delivered_weight, he]
  · intro h
    rw [auth_sent_append, flush_effects_auth_sent, Bool.or_false] at h
    exact k4 h
  · intro h
    exact List.mem_append.mpr (Or.inl (k5 h))

theorem K_error (s : mta_session) (err : List Nat) (hK : K s) : K (mta_error s err) := by
  unfold mta_error
  dsimp only
  split_ifs
  · exact hK
  · exact hK
  · exact K_flush _ _ _ (Kc_neutral _ _ _ _ _ (Effect.mta_route_error err) hK rfl) (by simp)
  · exact Kc_neutral _ _ _ _ _ (Effect.mta_route_error err) hK rfl

theorem K_free (s : mta_session) (hK : K s) : K (mta_free s) := by
  unfold mta_free
  dsimp only
  split_ifs with h1 h2
  · exact hK
  · exact Kc_mono _ _ _ _ _ _ (fun h => nomatch h) hK
  · have ha : s.status = .alive := by simpa using h1
    have ht : s.task = none := by
      cases h : s.task with
      | none => rfl
      | some t => simp [h] at h2
    obtain ⟨k1, k2, k3, k4, k5, k6, k7⟩ := hK
    have hq : auth_sent [Effect.mta_route_collect] = false := by simp [auth_sent, auth_effect]
    refine ⟨fun e => ?_, ?_, ?_, ?_, ?_, k6, (auth_guard_append_quiet _ hq _ _).trans k7⟩
    · simp [verdict_count, acquire_count, verdict_weight, acquire_weight] at k1 ⊢
      exact k1 e
    · intro _
      exact ⟨ht, by simp⟩
    · simp [delivered_count, delivered_weight] at k3 ⊢
      exact k3
    · intro h
      have h0 : auth_sent [Effect.mta_route_collect] = false := by simp [auth_sent, auth_effect]
      rw [auth_sent_append, h0, Bool.or_false] at h
      exact k4 h
    · intro h
      exact List.mem_append.mpr (Or.inl (k5 h))

theorem K_queue_data (s : mta_session) (hK : K s) : K (mta_queue_data s).2 := by
  unfold mta_queue_data
  split_ifs with h1
  · exact hK
  · cases hd : s.datafp with
    | none => exact Kc_mono _ _ _ _ _ _ (fun h => nomatch h) hK
    | some fp =>
      simp only
      cases hl : mta_queue_data_loop (fp.data.length + 1) s.iobuf_out fp with
      | none => exact Kc_mono _ _ _ _ _ _ (fun h => nomatch h) hK
      | some r =>
        obtain ⟨out, fp1⟩ := r
        have hb : K { s with
            iobuf_out := out
            datafp := some fp1
            hist := s.hist ++ [Effect.body (out.drop s.iobuf_out.length)] } :=
          Kc_neutral _ _ _ _ _ (Effect.body (out.drop s.iobuf_out.length)) hK rfl
        simp only
        split_ifs
        · exact K_flush _ _ _ hb (by simp)
        · exact hb
        · exact hb

/-- The envelope under the cursor gets its verdict and leaves the list. -/
theorem Kc_envelope_fail (h : List Effect) (t : mta_task) (m f : Nat) (a : Prop) (i : Nat)
    (evp : envelope) (line : List Nat) (d : delivery) (hK : Kc h (some t) m f a)
    (hi : t.envelopes.get? i = some evp) :
    Kc (h ++ mta_envelope_fail (envelope_set_errormsg evp line) d)
      (some { t with envelopes := t.envelopes.eraseIdx i }) m f a := by
  obtain ⟨k1, k2, k3, k4, k5, k6, k7⟩ := hK
  have hq : auth_sent (mta_envelope_fail (envelope_set_errormsg evp line) d) = false := by
    simp [auth_sent, auth_effect, mta_envelope_fail]
  refine ⟨fun e => ?_, ?_, ?_, ?_, ?_, k6, (auth_guard_append_quiet _ hq _ _).trans k7⟩
  · have := k1 e
    have hc := count_map_eraseIdx envelope_clear e t.envelopes i evp hi
    have hv : verdict_count e (mta_envelope_fail (envelope_set_errormsg evp line) d)
        = (if envelope_clear evp = e then 1 else 0) := by
      simp [verdict_count, mta_envelope_fail, verdict_weight, envelope_clear,
        envelope_set_errormsg]
    have hq : acquire_count e (mta_envelope_fail (envelope_set_errormsg evp line) d) = 0 := by
      simp [acquire_count, mta_envelope_fail, acquire_weight]
    rw [verdict_count_append, acquire_count_append, hv, hq]
    simp only [attached_count] at this ⊢
    omega
  · intro h
    simp [mta_envelope_fail] at h
    exact absurd (k2 h).1 (by simp)
  · simp [delivered_count, delivered_weight, mta_envelope_fail] at k3 ⊢
    exact k3
  · intro h
    have h0 : auth_sent (mta_envelope_fail (envelope_set_errormsg evp line) d) = false := by
      simp [auth_sent, auth_effect, mta_envelope_fail]
    rw [auth_sent_append, h0, Bool.or_false] at h
    exact k4 h
  · intro h
    exact List.mem_append.mpr (Or.inl (k5 h))

/-- A task is taken from the route manager into the empty slot. -/
theorem Kc_acquire (h : List Effect) (m f : Nat) (a : Prop) (nt : Option mta_task)
    (hK : Kc h none m f a) (ha : a) :
    Kc (h ++ [Effect.mta_route_next_task nt]) nt m f a := by
  obtain ⟨k1, k2, k3, k4, k5, k6, k7⟩ := hK
  have hq : auth_sent [Effect.mta_route_next_task nt] = false := by
    simp [auth_sent, auth_effect]
  refine ⟨fun e => ?_, ?_, ?_, ?_, ?_, k6, (auth_guard_append_quiet _ hq _ _).trans k7⟩
  · have := k1 e
    simp only [verdict_count_append, acquire_count_append, attached_count] at this ⊢
    cases nt <;> simp [verdict_count, acquire_count, verdict_weight, acquire_weight] at this ⊢ <;>
      omega
  · intro h
    simp at h
    exact absurd ha (k2 h).2
  · simp [delivered_count, delivered_weight] at k3 ⊢
    exact k3
  · intro h
    have h0 : auth_sent [Effect.mta_route_next_task nt] = false := by
      simp [auth_sent, auth_effect]
    rw [auth_sent_append, h0, Bool.or_false] at h
    exact k4 h
  · intro h
    exact List.mem_append.mpr (Or.inl (k5 h))

/-- More flags. -/
theorem Kc_flags (h : List Effect) (t : Option mta_task) (m f : Nat) (a : Prop) (x : Nat)
    (hK : Kc h t m f a) (hx : x &&& MTA_TLS ≠ 0 → Effect.event IO_TLSREADY ∈ h) :
    Kc h t m (f ||| x) a := by
  obtain ⟨k1, k2, k3, k4, k5, k6, k7⟩ := hK
  refine ⟨k1, k2, k3, fun h => or_and_ne _ _ _ (k4 h), ?_, k6, k7⟩
  intro h
  rcases or_and_ne2 _ _ _ h with h | h
  · exact k5 h
  · exact hx h

theorem Kc_undefined (h : List Effect) (t : Option mta_task) (m f : Nat)
    (why : String) (hK : Kc h t m f True) :
    Kc h t m f (session_status.undefined why = session_status.alive) :=
  Kc_mono _ _ _ _ _ _ (fun _ => trivial) hK

theorem Kc_fatal (h : List Effect) (t : Option mta_task) (m f : Nat)
    (why : String) (hK : Kc h t m f True) :
    Kc h t m f (session_status.fatal why = session_status.alive) :=
  Kc_mono _ _ _ _ _ _ (fun _ => trivial) hK

theorem is_auth_cmd_E (x : List Nat) : is_auth_cmd (str "EHLO " ++ x) = false := rfl
theorem is_auth_cmd_H (x : List Nat) : is_auth_cmd (str "HELO " ++ x) = false := rfl
theorem is_auth_cmd_M (x : List Nat) : is_auth_cmd (str "MAIL FROM: <" ++ x) = false := rfl
theorem is_auth_cmd_R (x : List Nat) : is_auth_cmd (str "RCPT TO: <" ++ x) = false := rfl

theorem K_connect_mode (s s1 : mta_session) (h : mta_connect_mode s = some s1) (hK : K s) :
    K s1 := by
  unfold mta_connect_mode at h
  split_ifs at h <;> simp only [Option.some.injEq] at h <;> subst h <;> exact hK

theorem K_connect (w : World) (s : mta_session) (hK : K s) : K (mta_connect w s) := by
  unfold mta_connect
  split_ifs with ha
  · exact hK
  · dsimp only
    cases hm : mta_connect_mode { s with
        io := io_state.down, iobuf_in := [], iobuf_out := []
        use_smtps := 0, use_starttls := 0, use_smtp_tls := 0 } with
    | none => exact K_free _ (K_error _ _ hK)
    | some s1 =>
      have h1 : K s1 := K_connect_mode _ _ hm hK
      dsimp only
      cases hc : w.io_connect with
      | none =>
        dsimp only
        repeat' first
          | exact h1
          | apply K_head
          | (apply Kc_neutral <;> first | rfl | skip)
      | some e =>
        dsimp only
        by_cases he : e = EADDRNOTAVAIL
        · rw [if_pos he]
          repeat' first
            | exact h1
            | apply K_free
            | apply K_head
            | (apply Kc_neutral <;> first | rfl | skip)
        · rw [if_neg he]
          repeat' first
            | exact h1
            | apply K_free
            | apply K_error
            | apply K_head
            | (apply Kc_neutral <;> first | rfl | skip)

theorem K_enter_quit (s : mta_session) (hK : K s) : K (mta_enter_state_quit s) := by
  unfold mta_enter_state_quit
  split_ifs
  · exact hK
  · exact K_send _ _ (K_head _ _ hK) rfl

theorem Kc_head (s : mta_session) (st : mta_state) (t : Option mta_task) (m f : Nat)
    (a : Prop) (hK : Kc s.hist t m f a) : Kc (mta_enter_state_head s st).hist t m f a :=
  Kc_neutral _ _ _ _ _ (Effect.log_trace s.state st) hK rfl

theorem K_enter_ready (w : World) (s : mta_session) (hK : K s) (ht : s.task = none) :
    K (mta_enter_state_ready w s) := by
  unfold mta_enter_state_ready tree_xset
  by_cases ha : s.status = .alive
  · simp only [ha, ne_eq, not_true_eq_false, if_false]
    have hK0 : Kc s.hist none s.msgcount s.flags (s.status = .alive) := ht ▸ hK
    have hKT : Kc s.hist none s.msgcount s.flags True := Kc_mono _ _ _ _ _ _ (fun _ => ha) hK0
    cases hn : w.next_task <;> (try dsimp only) <;> split_ifs
    all_goals (try dsimp only)
    all_goals repeat' first
      | apply Kc_fatal
      | (refine Kc_acquire _ _ _ _ _ ?_ ha)
      | (refine Kc_acquire _ _ _ _ _ ?_ trivial)
      | (refine Kc_neutral _ _ _ _ _ _ ?_ rfl)
      | apply K_enter_quit
      | apply Kc_head
      | exact hK
      | exact hK0
      | exact hKT
  · simp only [ha, ne_eq, not_false_eq_true, if_true]
    exact hK

theorem K_enter_auth (w : World) (s : mta_session) (hK : K s) (ht : s.task = none) :
    K (mta_enter_state_auth w s) := by
  unfold mta_enter_state_auth
  split_ifs with ha
  · exact hK
  · dsimp only
    cases hs : (mta_enter_state_head s MTA_AUTH).relay.secret with
    | none => exact K_enter_ready w _ (K_head _ _ hK) ht
    | some secret =>
      dsimp only
      split_ifs with hf
      · exact K_send_auth _ _ (K_head _ _ hK) hf
      · exact K_connect _ _ (K_error _ _ (K_head _ _ hK))

theorem K_enter_starttls (w : World) (s : mta_session) (hK : K s) (ht : s.task = none) :
    K (mta_enter_state_starttls w s) := by
  unfold mta_enter_state_starttls
  split_ifs with ha
  · exact hK
  · dsimp only
    split_ifs
    · exact K_enter_auth w _ (K_head _ _ hK) ht
    · exact K_connect _ _ (K_error _ _ (K_head _ _ hK))
    · exact K_enter_auth w _ (K_head _ _ hK) ht
    · exact K_send _ _ (K_head _ _ hK) rfl

theorem K_enter_eom (s : mta_session) (hK : K s) : K (mta_enter_state_eom s) := by
  unfold mta_enter_state_eom
  split_ifs
  · exact hK
  · exact K_send _ _ (K_head _ _ hK) rfl

theorem K_enter_body (s : mta_session) (hK : K s) : K (mta_enter_state_body s) := by
  unfold mta_enter_state_body
  split_ifs with ha
  · exact hK
  · dsimp only
    cases hd : (mta_enter_state_head s MTA_BODY).datafp with
    | none => exact K_enter_eom _ (K_head _ _ hK)
    | some fp =>
      dsimp only
      split_ifs
      · exact K_free _ (K_queue_data _ (K_head _ _ hK))
      · exact K_queue_data _ (K_head _ _ hK)

theorem K_enter_state (w : World) (s : mta_session) (st : mta_state) (hK : K s)
    (ht : st = MTA_READY ∨ st = MTA_AUTH ∨ st = MTA_STARTTLS → s.task = none) :
    K (mta_enter_state w s st) := by
  unfold mta_enter_state
  by_cases ha : s.status = .alive
  · simp only [ha, ne_eq, not_true_eq_false, if_false]
    have hKT : Kc s.hist s.task s.msgcount s.flags True := Kc_mono _ _ _ _ _ _ (fun _ => ha) hK
    cases st <;> dsimp only
    · exact K_head _ _ hK
    · exact K_head _ _ hK
    · exact K_send _ _ (K_head _ _ hK) rfl
    · exact K_send _ _ (K_head _ _ hK) rfl
    · exact K_enter_starttls w s hK (ht (Or.inr (Or.inr rfl)))
    · exact K_enter_auth w s hK (ht (Or.inr (Or.inl rfl)))
    · exact K_enter_ready w s hK (ht (Or.inl rfl))
    · split
      · exact Kc_undefined _ _ _ _ _ (Kc_head _ _ _ _ _ _ hKT)
      · split_ifs
        · exact K_send _ _ (K_head _ _ hK) rfl
        · exact K_send _ _ (K_head _ _ hK) rfl
    · split
      · exact Kc_undefined _ _ _ _ _ (Kc_head _ _ _ _ _ _ hKT)
      · (try dsimp only)
        split <;> split_ifs <;> (try dsimp only)
        all_goals repeat' first
          | apply Kc_undefined
          | (refine K_send _ _ ?_ rfl)
          | apply K_head
          | apply Kc_head
          | exact hK
          | exact hKT
    · split
      · exact Kc_undefined _ _ _ _ _ (Kc_head _ _ _ _ _ _ hKT)
      · exact K_send _ _ (K_head _ _ hK) rfl
    · exact K_enter_body s hK
    · exact K_enter_eom s hK
    · exact K_send _ _ (K_head _ _ hK) rfl
    · exact K_enter_quit s hK
  · simp only [ha, ne_eq, not_false_eq_true, if_true]
    exact hK

theorem K_start_tls (s : mta_session) (hK : K s) : K (mta_start_tls s) := by
  unfold mta_start_tls tree_xset
  split_ifs with h0
  · exact hK
  have ha : s.status = .alive := not_not.mp h0
  have hKT : Kc s.hist s.task s.msgcount s.flags True := Kc_mono _ _ _ _ _ _ (fun _ => ha) hK
  split <;> (try dsimp only) <;> (try split_ifs) <;> (try dsimp only)
  all_goals repeat' first
    | apply Kc_fatal
    | (refine Kc_neutral _ _ _ _ _ _ ?_ rfl)
    | exact hK
    | exact hKT

theorem K_verify_certificate (w : World) (s : mta_session) (hK : K s)
    (ha : s.status = .alive) : K (mta_verify_certificate w s).2 := by
  unfold mta_verify_certificate tree_xset
  have hKT : Kc s.hist s.task s.msgcount s.flags True := Kc_mono _ _ _ _ _ _ (fun _ => ha) hK
  split_ifs <;> (try dsimp only)
  all_goals repeat' first
    | apply Kc_fatal
    | (refine Kc_neutral _ _ _ _ _ _ ?_ rfl)
    | exact hK
    | exact hKT

theorem mta_response_delivery_ne_ok (line : List Nat) :
    mta_response_delivery line = IMSG_DELIVERY_OK → line = str "No envelope" := by
  unfold mta_response_delivery
  split_ifs <;> intro h <;> cases h

theorem not_rset_pre (st : mta_state) (h : st = MTA_RSET ∨ st = MTA_DATA ∨ st = MTA_RCPT
    ∨ st = MTA_MAIL ∨ st = MTA_BODY ∨ st = MTA_EHLO ∨ st = MTA_HELO ∨ st = MTA_BANNER) :
    st = MTA_READY ∨ st = MTA_AUTH ∨ st = MTA_STARTTLS → False := by
  rcases h with h | h | h | h | h | h | h | h <;> subst h <;> intro h2 <;>
    rcases h2 with h2 | h2 | h2 <;> cases h2

theorem K_response_rcpt (w : World) (s : mta_session) (line : List Nat) (hK : K s)
    (ha : s.status = .alive) : K (mta_response_rcpt w s line) := by
  unfold mta_response_rcpt
  have hKT : Kc s.hist s.task s.msgcount s.flags True := Kc_mono _ _ _ _ _ _ (fun _ => ha) hK
  split
  · rename_i t i htk hcur
    split
    · exact Kc_undefined _ _ _ _ _ hKT
    · rename_i evp hevp
      have hKt : Kc s.hist (some t) s.msgcount s.flags (s.status = .alive) := by
        have := hK
        unfold K at this
        rw [htk] at this
        exact this
      have hfail := Kc_envelope_fail _ _ _ _ _ i evp line (mta_response_delivery line) hKt hevp
      dsimp only
      split_ifs
      all_goals repeat' first
        | (refine K_enter_state w _ _ ?_ (fun h => by rcases h with h | h | h <;> cases h))
        | (refine K_flush _ _ _ ?_ (fun _ => rfl))
        | exact hfail
        | exact hK
  · exact Kc_undefined _ _ _ _ _ hKT

theorem enter_free (st : mta_state) (s : mta_session)
    (h : decide (st = MTA_READY ∨ st = MTA_AUTH ∨ st = MTA_STARTTLS) = false) :
    st = MTA_READY ∨ st = MTA_AUTH ∨ st = MTA_STARTTLS → s.task = none := by
  intro h2
  simp only [decide_eq_false_iff_not] at h
  exact absurd h2 h

theorem task_none_of (s : mta_session) (h1 : s.task.isSome = task_state s.state)
    (h : task_state s.state = false) : s.task = none := by
  rw [h] at h1
  cases ht : s.task with
  | none => rfl
  | some t => rw [ht] at h1; cases h1

theorem K_response (w : World) (s : mta_session) (line : List Nat) (hK : K s)
    (h1 : s.task.isSome = task_state s.state)
    (h2 : task_state s.state = true → s.msgcount < MAX_MAIL) :
    K (mta_response w s line) := by
  unfold mta_response
  by_cases ha : s.status = .alive
  swap
  · rw [if_pos ha]; exact hK
  rw [if_neg (not_not.mpr ha)]
  have hKT : Kc s.hist s.task s.msgcount s.flags True := Kc_mono _ _ _ _ _ _ (fun _ => ha) hK
  split
  · exact K_enter_state w _ _ hK (enter_free _ _ rfl)
  · rename_i hst
    have htn := task_none_of s h1 (by rw [hst]; rfl)
    split_ifs
    · exact K_free _ (K_error _ _ hK)
    · exact K_enter_state w _ _ hK (enter_free _ _ rfl)
    · exact K_enter_state w _ _ hK (fun _ => htn)
    · exact K_enter_state w _ _ hK (fun _ => htn)
  · rename_i hst
    have htn := task_none_of s h1 (by rw [hst]; rfl)
    split_ifs
    · exact K_free _ (K_error _ _ hK)
    · exact K_enter_state w _ _ hK (fun _ => htn)
  · rename_i hst
    have htn := task_none_of s h1 (by rw [hst]; rfl)
    split_ifs
    · exact K_enter_state w _ _ hK (fun _ => htn)
    · exact K_free _ (K_error _ _ hK)
    · exact K_start_tls _ hK
  · rename_i hst
    have htn := task_none_of s h1 (by rw [hst]; rfl)
    split_ifs
    · exact K_free _ (K_error _ _ hK)
    · exact K_enter_state w _ _ hK (fun _ => htn)
  · split_ifs
    · exact K_enter_state w _ _ (K_flush _ _ _ hK (mta_response_delivery_ne_ok line))
        (enter_free _ _ rfl)
    · exact K_enter_state w _ _ hK (enter_free _ _ rfl)
  · exact K_response_rcpt w s line hK ha
  · split_ifs
    · exact K_enter_state w _ _ hK (enter_free _ _ rfl)
    · exact K_enter_state w _ _ (K_flush _ _ _ hK (mta_response_delivery_ne_ok line))
        (enter_free _ _ rfl)
  · rename_i hst
    have hts : s.task.isSome = true := by rw [h1, hst]; rfl
    have hm : s.msgcount < MAX_MAIL := h2 (by rw [hst]; rfl)
    obtain ⟨t, ht⟩ := Option.isSome_iff_exists.mp hts
    split_ifs with hl
    · have hne : line ≠ str "No envelope" := by
        intro h; rw [h] at hl; exact absurd hl (by decide)
      exact K_enter_state w _ _ (K_deliver s t line hK ha ht hm hne)
        (fun _ => by simp [ha])
    · exact K_enter_state w _ _ (K_flush _ _ _ hK (mta_response_delivery_ne_ok line))
        (fun _ => by simp [ha])
  · rename_i hst
    have htn := task_none_of s h1 (by rw [hst]; rfl)
    exact K_enter_state w _ _ hK (fun _ => htn)
  · exact Kc_fatal _ _ _ _ _ hKT

theorem K_io_ext (s : mta_session) (msg : List Nat) (hK : K s) : K (mta_io_ext s msg) := by
  unfold mta_io_ext
  split_ifs <;> exact hK

theorem K_io_datain (w : World) : ∀ (fuel : Nat) (s : mta_session), K s →
    s.status = .alive → s.task.isSome = task_state s.state →
    (task_state s.state = true → s.msgcount < MAX_MAIL) → K (mta_io_datain fuel w s) := by
  intro fuel
  induction fuel with
  | zero => intro s hK _ _ _; exact hK
  | succ fuel ih =>
    intro s hK ha h1 h2
    rw [mta_io_datain]
    split
    · split_ifs
      · exact K_free _ (K_error _ _ hK)
      · exact hK
    · rename_i line rest hgl
      dsimp only
      split
      · exact K_free _ (K_error _ _ hK)
      · rename_i msg cont hp
        obtain ⟨f1, f2, f3, f4, f5, f6, f7, f8, f9, f10, f11, f12⟩ :=
          mta_io_ext_frame { s with iobuf_in := rest } (cstr msg)
        have hK1 : K (mta_io_ext { s with iobuf_in := rest } (cstr msg)) := K_io_ext _ _ hK
        have ha1 : (mta_io_ext { s with iobuf_in := rest } (cstr msg)).status = .alive := by
          rw [f1]; exact ha
        have h11 : (mta_io_ext { s with iobuf_in := rest } (cstr msg)).task.isSome
            = task_state (mta_io_ext { s with iobuf_in := rest } (cstr msg)).state := by
          rw [f8, f2]; exact h1
        have h21 : task_state (mta_io_ext { s with iobuf_in := rest } (cstr msg)).state = true →
            (mta_io_ext { s with iobuf_in := rest } (cstr msg)).msgcount < MAX_MAIL := by
          rw [f9, f2]; exact h2
        by_cases hc : cont = true
        · rw [if_pos hc]
          exact ih _ hK1 ha1 h11 h21
        · rw [if_neg hc]
          by_cases hq : (mta_io_ext { s with iobuf_in := rest } (cstr msg)).state = MTA_QUIT
          · rw [if_pos hq]
            exact K_free _ hK1
          · rw [if_neg hq]
            have hK2 := K_response w _ (cstr line) hK1 h11 h21
            split
            · split_ifs
              · exact K_free _ (K_error _ _ hK2)
              · exact hK2
            · exact Kc_mono _ _ _ _ _ _ (fun h => nomatch h) hK2
            · exact hK2

theorem K_io_tlsverified (w : World) (s : mta_session) (hK : K s) :
    K (mta_io_tlsverified w s) := by
  unfold mta_io_tlsverified
  split_ifs
  · exact K_enter_state w _ _ hK (enter_free _ _ rfl)
  · exact K_enter_state w _ _ hK (enter_free _ _ rfl)

theorem K_io_fail (w : World) (s : mta_session) (msg : List Nat) (hK : K s) :
    K (mta_io_fail w s msg) := by
  unfold mta_io_fail
  dsimp only
  split_ifs
  · exact K_connect w _ (K_error _ _ hK)
  · exact K_free _ (K_error _ _ hK)

theorem K_io_switch (w : World) (s : mta_session) (evt : io_event) (hK : K s)
    (ha : s.status = .alive) (h1 : s.task.isSome = task_state s.state)
    (h2 : task_state s.state = true → s.msgcount < MAX_MAIL)
    (hev : Effect.event evt ∈ s.hist) : K (mta_io_switch w s evt) := by
  unfold mta_io_switch
  cases evt <;> dsimp only
  · split_ifs
    · exact K_start_tls _ hK
    · exact K_enter_state w _ _ hK (enter_free _ _ rfl)
  · have hKf : K { s with flags := s.flags ||| MTA_TLS } :=
      Kc_flags _ _ _ _ _ MTA_TLS hK (fun _ => hev)
    have hv := K_verify_certificate w _ hKf ha
    split_ifs
    · exact hv
    · exact K_io_tlsverified w _ hv
  · exact K_io_tlsverified w _ hK
  · exact K_io_datain w _ s hK ha h1 h2
  · have hK1 : K (if s.state = MTA_BODY then mta_enter_state w s MTA_BODY else s) := by
      split_ifs
      · exact K_enter_state w _ _ hK (enter_free _ _ rfl)
      · exact hK
    split
    · exact Kc_mono _ _ _ _ _ _ (fun h => nomatch h) hK1
    · exact hK1
  · exact K_io_fail w s _ hK
  · exact K_io_fail w s _ hK
  · exact K_io_fail w s _ hK

theorem K_io (w : World) (s : mta_session) (evt : io_event) (hK : K s)
    (h1 : s.status = .alive → s.task.isSome = task_state s.state)
    (h2 : s.status = .alive → task_state s.state = true → s.msgcount < MAX_MAIL) :
    K (mta_io w s evt) := by
  unfold mta_io
  split_ifs with h0
  · exact hK
  · have ha : s.status = .alive := not_not.mp h0
    exact K_io_switch w _ evt (Kc_neutral _ _ _ _ _ (Effect.event evt) hK rfl) ha (h1 ha) (h2 ha)
      (by simp)

theorem K_session_imsg (w : World) (s : mta_session) (m : imsg) (hK : K s)
    (hst : s.status = .alive ∨ s.status = .freed)
    (h1 : s.status = .alive → s.task.isSome = task_state s.state)
    (h2 : s.status = .alive → task_state s.state = true → s.msgcount < MAX_MAIL) :
    K (mta_session_imsg w s m) := by
  unfold mta_session_imsg tree_xpop
  have hdead : ∀ why : String,
      Kc s.hist s.task s.msgcount s.flags (session_status.fatal why = .alive) :=
    fun why => Kc_mono _ _ _ _ _ _ (fun h => nomatch h) hK
  have hdead2 : ∀ why : String,
      Kc s.hist s.task s.msgcount s.flags (session_status.undefined why = .alive) :=
    fun why => Kc_mono _ _ _ _ _ _ (fun h => nomatch h) hK
  cases m with
  | IMSG_QUEUE_MESSAGE_FD fd =>
    dsimp only
    split
    · exact hdead _
    · by_cases hp : s.wait_fd = false
      · rw [if_pos hp]; exact hdead _
      · rw [if_neg hp]
        by_cases hf : s.status = .freed
        · rw [if_pos hf]; exact hdead2 _
        · rw [if_neg hf]
          have ha : s.status = .alive := hst.resolve_right hf
          split_ifs
          · exact K_enter_state w _ _ (K_flush _ _ _ hK (fun h => nomatch h))
              (fun _ => by simp [ha])
          · exact K_enter_state w _ _ hK (enter_free _ _ rfl)
  | IMSG_DNS_PTR =>
    dsimp only
    split_ifs
    · exact hdead _
    · exact hdead2 _
    · exact K_connect w _ hK
  | IMSG_LKA_SSL_INIT ok =>
    dsimp only
    split_ifs
    · exact hdead _
    · exact hdead2 _
    · exact K_free _ hK
    · exact Kc_neutral _ _ _ _ _ _ hK rfl
  | IMSG_LKA_SSL_VERIFY ok =>
    dsimp only
    by_cases hp : s.wait_ssl_verify = false
    · rw [if_pos hp]; exact hdead _
    · rw [if_neg hp]
      by_cases hf : s.status = .freed
      · rw [if_pos hf]; exact hdead2 _
      · rw [if_neg hf]
        have ha : s.status = .alive := hst.resolve_right hf
        split_ifs
        · exact K_io w _ _ (Kc_flags _ _ _ _ _ MTA_VERIFIED hK (fun h => absurd rfl h)) h1 h2
        · exact K_io w _ _ hK h1 h2

theorem K_step (s : mta_session) (we : World × Event) (hK : K s)
    (hg : s.status = .alive → G s) : K (step s we) := by
  have h1 : s.status = .alive → s.task.isSome = task_state s.state := fun h => (hg h).2.2.1
  have h2 : s.status = .alive → task_state s.state = true → s.msgcount < MAX_MAIL :=
    fun h => (hg h).2.2.2.2.1
  unfold step
  split
  · exact hK
  · exact hK
  · rename_i hnf hnu
    have hst : s.status = .alive ∨ s.status = .freed := by
      cases hs : s.status with
      | alive => exact Or.inl rfl
      | freed => exact Or.inr rfl
      | fatal why => exact absurd hs (hnf why)
      | undefined why => exact absurd hs (hnu why)
    split_ifs
    · exact hK
    · dsimp only
      split
      · rename_i e input _
        cases e <;> exact K_io _ _ _ hK h1 h2
      · exact K_session_imsg _ _ _ hK hst h1 h2

theorem K_run (evs : List (World × Event)) : ∀ (s : mta_session), K s →
    (s.status = .alive → G s) → K (run s evs) := by
  induction evs with
  | nil => intro s hK _; exact hK
  | cons e es ih =>
    intro s hK hg
    have : run s (e :: es) = run (step s e) es := rfl
    rw [this]
    exact ih _ (K_step s e hK hg) (G_step s e hg)

theorem K_spawn (k : relay_flag_values) (relay : mta_relay) (hostname : List Nat)
    (ptr_known : Bool) (w : World) : K (mta_session_spawn k relay hostname ptr_known w) := by
  have h0 : ∀ f : Nat, f &&& MTA_TLS = 0 → Kc [] none 0 f (session_status.alive = .alive) := by
    intro f hf
    exact ⟨fun e => rfl, fun h => by simp at h, rfl, fun h => by simp [auth_sent] at h,
      fun h => absurd hf h, Nat.zero_le _, rfl⟩
  unfold mta_session_spawn mta_on_ptr
  dsimp only
  split_ifs
  all_goals first
    | (apply K_connect; apply h0; dsimp only; decide)
    | (refine Kc_neutral [] _ _ _ _ (Effect.dns_query_ptr) ?_ rfl; apply h0; dsimp only; decide)

theorem K_reachable (k : relay_flag_values) (relay : mta_relay) (hostname : List Nat)
    (ptr_known : Bool) (w : World) (evs : List (World × Event)) :
    K (run (mta_session_spawn k relay hostname ptr_known w) evs) :=
  K_run evs _ (K_spawn k relay hostname ptr_known w) (G_spawn k relay hostname ptr_known w)

/-! ## Teardown finds no task attached -/

theorem NF_status (s s1 : mta_session) (h : s1.status = s.status) (hN : ¬ free_aborted s) :
    ¬ free_aborted s1 := by
  unfold free_aborted at hN ⊢
  rw [h]; exact hN

theorem NF_alive (s : mta_session) (h : s.status = .alive) : ¬ free_aborted s := by
  unfold free_aborted
  rw [h]; intro h1; cases h1

theorem NF_free (s : mta_session) (hN : ¬ free_aborted s)
    (ht : s.status = .alive → s.task = none) : ¬ free_aborted (mta_free s) := by
  unfold free_aborted at hN ⊢
  rw [mta_free_status]
  by_cases ha : s.status = .alive
  · rw [if_pos ha, ht ha]
    simp
  · rw [if_neg ha]; exact hN

theorem mta_error_task_none (s : mta_session) (e : List Nat)
    (h : s.status = .alive → s.state = MTA_INIT → s.task = none) :
    (mta_error s e).status = .alive → (mta_error s e).task = none := by
  rw [mta_error_status]
  intro ha
  unfold mta_error mta_flush_task
  rw [if_neg (not_not.mpr ha)]
  dsimp only
  split_ifs with h1 h2 h3
  · exact h ha h1.1
  · exact absurd ha h3
  · cases ht : s.task with
    | none => simp [ht] at h2
    | some t => rfl
  · cases ht : s.task with
    | none => rfl
    | some t => simp [ht] at h2

theorem NF_free_error (s : mta_session) (e : List Nat) (hN : ¬ free_aborted s)
    (h : s.status = .alive → s.state = MTA_INIT → s.task = none) :
    ¬ free_aborted (mta_free (mta_error s e)) :=
  NF_free _ (NF_status _ _ (mta_error_status s e) hN) (mta_error_task_none s e h)

theorem NF_connect (w : World) (s : mta_session) (hN : ¬ free_aborted s)
    (ht : s.status = .alive → s.task = none) : ¬ free_aborted (mta_connect w s) := by
  unfold mta_connect
  by_cases ha : s.status = .alive
  · rw [if_neg (not_not.mpr ha)]
    dsimp only
    cases hm : mta_connect_mode { s with
        io := io_state.down, iobuf_in := [], iobuf_out := []
        use_smtps := 0, use_starttls := 0, use_smtp_tls := 0 } with
    | none =>
      exact NF_free_error _ _ (NF_alive _ ha) (fun _ _ => ht ha)
    | some s1 =>
      have hs1 : s1.status = .alive ∧ s1.task = none := by
        unfold mta_connect_mode at hm
        split_ifs at hm <;> simp only [Option.some.injEq] at hm <;> subst hm <;>
          exact ⟨ha, ht ha⟩
      dsimp only
      cases hc : w.io_connect with
      | none => exact NF_alive _ hs1.1
      | some e =>
        dsimp only
        by_cases he : e = EADDRNOTAVAIL
        · rw [if_pos he]
          refine NF_free _ (NF_alive _ ?_) (fun _ => ?_)
          · exact hs1.1
          · exact hs1.2
        · rw [if_neg he]
          refine NF_free_error _ _ (NF_alive _ ?_) (fun _ _ => ?_)
          · exact hs1.1
          · exact hs1.2
  · rw [if_pos ha]; exact hN

theorem NF_lit (s : mta_session)
    (h : s.status ≠ .fatal "current task should have been deleted already") :
    ¬ free_aborted s := h

theorem NF_send (s : mta_session) (cmd : List Nat) (hN : ¬ free_aborted s) :
    ¬ free_aborted (mta_send s cmd) :=
  NF_status _ _ (mta_send_status s cmd) hN

theorem NF_head (s : mta_session) (st : mta_state) (hN : ¬ free_aborted s) :
    ¬ free_aborted (mta_enter_state_head s st) := hN

theorem NF_flush (s : mta_session) (d : delivery) (e : List Nat) (hN : ¬ free_aborted s) :
    ¬ free_aborted (mta_flush_task s d e) := by
  unfold free_aborted at hN ⊢
  rw [mta_flush_task_status]
  split_ifs
  · simp
  · exact hN

theorem NF_error (s : mta_session) (e : List Nat) (hN : ¬ free_aborted s) :
    ¬ free_aborted (mta_error s e) :=
  NF_status _ _ (mta_error_status s e) hN

theorem NF_queue_data (s : mta_session) (hN : ¬ free_aborted s) :
    ¬ free_aborted (mta_queue_data s).2 := by
  unfold mta_queue_data
  repeat' first
    | exact hN
    | exact NF_flush _ _ _ hN
    | (apply NF_lit; dsimp only; decide)
    | dsimp only
    | split

theorem mta_queue_data_fail_task (s : mta_session) (h : (mta_queue_data s).1 = -1) :
    (mta_queue_data s).2.status = .alive → (mta_queue_data s).2.task = none := by
  intro hal
  by_cases ha : s.status = .alive
  · rcases mta_queue_data_cases s ha hal with ⟨b, hne, _, _⟩ | ⟨b, _, ht, _⟩
    · exact absurd h hne
    · exact ht
  · exfalso
    unfold mta_queue_data at hal
    rw [if_pos ha] at hal
    exact ha hal

theorem NF_enter_quit (s : mta_session) (hN : ¬ free_aborted s) :
    ¬ free_aborted (mta_enter_state_quit s) := by
  unfold mta_enter_state_quit
  split_ifs
  · exact hN
  · exact NF_send _ _ hN

theorem NF_enter_eom (s : mta_session) (hN : ¬ free_aborted s) :
    ¬ free_aborted (mta_enter_state_eom s) := by
  unfold mta_enter_state_eom
  split_ifs
  · exact hN
  · exact NF_send _ _ hN

theorem NF_enter_ready (w : World) (s : mta_session) (hN : ¬ free_aborted s) :
    ¬ free_aborted (mta_enter_state_ready w s) := by
  unfold mta_enter_state_ready tree_xset
  repeat' first
    | exact hN
    | exact NF_enter_quit _ hN
    | (apply NF_lit; dsimp only; decide)
    | dsimp only
    | split

theorem NF_enter_auth (w : World) (s : mta_session) (hN : ¬ free_aborted s)
    (ht : s.status = .alive → s.task = none) : ¬ free_aborted (mta_enter_state_auth w s) := by
  unfold mta_enter_state_auth
  split_ifs with h0
  · exact hN
  · have ha : s.status = .alive := not_not.mp h0
    dsimp only
    split
    · split_ifs
      · exact NF_send _ _ hN
      · refine NF_connect w _ (NF_error _ _ hN) (mta_error_task_none _ _ (fun _ _ => ?_))
        exact ht ha
    · exact NF_enter_ready w _ hN

theorem NF_enter_starttls (w : World) (s : mta_session) (hN : ¬ free_aborted s)
    (ht : s.status = .alive → s.task = none) :
    ¬ free_aborted (mta_enter_state_starttls w s) := by
  unfold mta_enter_state_starttls
  by_cases ha : s.status = .alive
  · rw [if_neg (not_not.mpr ha)]
    dsimp only
    split_ifs
    · exact NF_enter_auth w _ hN ht
    · refine NF_connect w _ (NF_error _ _ hN) (mta_error_task_none _ _ (fun _ _ => ?_))
      exact ht ha
    · exact NF_enter_auth w _ hN ht
    · exact NF_send _ _ hN
  · rw [if_pos ha]; exact hN

theorem NF_enter_body (s : mta_session) (hN : ¬ free_aborted s) :
    ¬ free_aborted (mta_enter_state_body s) := by
  unfold mta_enter_state_body
  split_ifs with h0
  · exact hN
  · dsimp only
    split
    · exact NF_enter_eom _ hN
    · split_ifs with hq
      · exact NF_free _ (NF_queue_data _ hN) (mta_queue_data_fail_task _ hq)
      · exact NF_queue_data _ hN

theorem NF_enter_state (w : World) (s : mta_session) (st : mta_state)
    (hN : ¬ free_aborted s)
    (ht : st = MTA_STARTTLS ∨ st = MTA_AUTH → s.status = .alive → s.task = none) :
    ¬ free_aborted (mta_enter_state w s st) := by
  unfold mta_enter_state
  by_cases ha : s.status = .alive
  · rw [if_neg (not_not.mpr ha)]
    cases st with
    | MTA_STARTTLS => exact NF_enter_starttls w s hN (ht (Or.inl rfl))
    | MTA_AUTH => exact NF_enter_auth w s hN (ht (Or.inr rfl))
    | MTA_READY => exact NF_enter_ready w s hN
    | MTA_BODY => exact NF_enter_body s hN
    | MTA_EOM => exact NF_enter_eom s hN
    | MTA_QUIT => exact NF_enter_quit s hN
    | _ =>
      dsimp only
      repeat' first
        | exact hN
        | apply NF_send
        | (apply NF_lit; dsimp only; decide)
        | split
  · rw [if_pos ha]; exact hN

theorem NF_enter_state_free (w : World) (s : mta_session) (st : mta_state)
    (hN : ¬ free_aborted s) (hst : st ≠ MTA_STARTTLS) (hst2 : st ≠ MTA_AUTH) :
    ¬ free_aborted (mta_enter_state w s st) :=
  NF_enter_state w s st hN (fun h => (h.elim (fun h1 => absurd h1 hst) (fun h1 => absurd h1 hst2)))

theorem NF_start_tls (s : mta_session) (hN : ¬ free_aborted s) :
    ¬ free_aborted (mta_start_tls s) := by
  unfold mta_start_tls tree_xset
  repeat' first
    | exact hN
    | (apply NF_lit; dsimp only; decide)
    | dsimp only
    | split

theorem NF_verify_certificate (w : World) (s : mta_session) (hN : ¬ free_aborted s) :
    ¬ free_aborted (mta_verify_certificate w s).2 := by
  unfold mta_verify_certificate tree_xset
  repeat' first
    | exact hN
    | (apply NF_lit; dsimp only; decide)
    | dsimp only
    | split

theorem NF_response_rcpt (w : World) (s : mta_session) (line : List Nat)
    (hN : ¬ free_aborted s) : ¬ free_aborted (mta_response_rcpt w s line) := by
  unfold mta_response_rcpt
  split
  · split
    · apply NF_lit; dsimp only; decide
    · dsimp only
      split_ifs
      all_goals repeat' first
        | exact hN
        | (refine NF_enter_state_free w _ _ ?_ (fun h => nomatch h) (fun h => nomatch h))
        | apply NF_flush
  · apply NF_lit; dsimp only; decide

theorem NF_response (w : World) (s : mta_session) (line : List Nat) (hN : ¬ free_aborted s)
    (h1 : s.status = .alive → s.task.isSome = task_state s.state) :
    ¬ free_aborted (mta_response w s line) := by
  unfold mta_response
  by_cases ha : s.status = .alive
  swap
  · rw [if_pos ha]; exact hN
  rw [if_neg (not_not.mpr ha)]
  have hfe : ∀ e, ¬ free_aborted (mta_free (mta_error s e)) := fun e =>
    NF_free_error s e hN (fun _ hi => task_none_of s (h1 ha) (by rw [hi]; rfl))
  have hfree : ∀ st, st ≠ MTA_STARTTLS → st ≠ MTA_AUTH →
      ¬ free_aborted (mta_enter_state w s st) := fun st a b => NF_enter_state_free w s st hN a b
  have hflush : ∀ d e st, st ≠ MTA_STARTTLS → st ≠ MTA_AUTH →
      ¬ free_aborted (mta_enter_state w (mta_flush_task s d e) st) := fun d e st a b =>
    NF_enter_state_free w _ st (NF_flush _ _ _ hN) a b
  split
  · exact hfree _ (fun h => nomatch h) (fun h => nomatch h)
  · rename_i hst
    have htn := task_none_of s (h1 ha) (by rw [hst]; rfl)
    split_ifs
    · exact hfe _
    · exact hfree _ (fun h => nomatch h) (fun h => nomatch h)
    · exact NF_enter_state w _ _ hN (fun _ _ => htn)
    · exact hfree _ (fun h => nomatch h) (fun h => nomatch h)
  · split_ifs
    · exact hfe _
    · exact hfree _ (fun h => nomatch h) (fun h => nomatch h)
  · rename_i hst
    have htn := task_none_of s (h1 ha) (by rw [hst]; rfl)
    split_ifs
    · exact NF_enter_state w _ _ hN (fun _ _ => htn)
    · exact hfe _
    · exact NF_start_tls _ hN
  · split_ifs
    · exact hfe _
    · exact hfree _ (fun h => nomatch h) (fun h => nomatch h)
  · split_ifs
    · exact hflush _ _ _ (fun h => nomatch h) (fun h => nomatch h)
    · exact hfree _ (fun h => nomatch h) (fun h => nomatch h)
  · exact NF_response_rcpt w s line hN
  · split_ifs
    · exact hfree _ (fun h => nomatch h) (fun h => nomatch h)
    · exact hflush _ _ _ (fun h => nomatch h) (fun h => nomatch h)
  · split_ifs
    · exact NF_enter_state_free w _ _ (NF_flush _ _ _ hN) (fun h => nomatch h)
        (fun h => nomatch h)
    · exact hflush _ _ _ (fun h => nomatch h) (fun h => nomatch h)
  · exact hfree _ (fun h => nomatch h) (fun h => nomatch h)
  · apply NF_lit; dsimp only; decide

theorem NF_io_ext (s : mta_session) (msg : List Nat) (hN : ¬ free_aborted s) :
    ¬ free_aborted (mta_io_ext s msg) := by
  unfold mta_io_ext
  split_ifs <;> exact hN

theorem NF_io_datain (w : World) : ∀ (fuel : Nat) (s : mta_session),
    s.status = .alive → G s → s.io = io_state.up → s.wait_ssl_init = false →
    s.wait_ssl_verify = false → ¬ free_aborted (mta_io_datain fuel w s) := by
  intro fuel
  induction fuel with
  | zero => intro s ha _ _ _ _; exact NF_alive s ha
  | succ fuel ih =>
    intro s ha hg hio h1 h2
    have hN : ¬ free_aborted s := NF_alive s ha
    have hts : s.task.isSome = task_state s.state := hg.2.2.1
    rw [mta_io_datain]
    split
    · split_ifs
      · exact NF_free_error s _ hN (fun _ hi => task_none_of s hts (by rw [hi]; rfl))
      · exact hN
    · rename_i line rest hgl
      dsimp only
      split
      · refine NF_free_error _ _ hN (fun _ hi => ?_)
        exact task_none_of s hts (by rw [show s.state = MTA_INIT from hi]; rfl)
      · rename_i msg cont hp
        have hg0 : G { s with iobuf_in := rest } := by
          unfold G at hg ⊢; exact hg
        obtain ⟨e1, e2, e3, _, e5, e6, _, e8, _, _, _, e12⟩ :=
          mta_io_ext_frame { s with iobuf_in := rest } (cstr msg)
        have hg1 := e12 hg0
        generalize mta_io_ext { s with iobuf_in := rest } (cstr msg) = s1 at *
        simp only [] at e1 e2 e3 e5 e6 e8
        have ha1 : s1.status = .alive := by rw [e1, ha]
        have hts1 : s1.task.isSome = task_state s1.state := hg1.2.2.1
        by_cases hc : cont = true
        · rw [if_pos hc]
          exact ih s1 ha1 hg1 (by rw [e3, hio]) (by rw [e5, h1]) (by rw [e6, h2])
        · rw [if_neg hc]
          by_cases hq : s1.state = MTA_QUIT
          · rw [if_pos hq]
            exact NF_free _ (NF_alive _ ha1) (fun _ => task_none_of s1 hts1 (by rw [hq]; rfl))
          · rw [if_neg hq]
            have hr := G_mta_response w s1 (cstr line) ha1 hg1 (by rw [e3, hio])
              (by rw [e5, h1]) (by rw [e6, h2])
            have hN2 := NF_response w s1 (cstr line) (NF_alive _ ha1) (fun _ => hts1)
            generalize mta_response w s1 (cstr line) = s2 at *
            split
            · rename_i hst
              split_ifs
              · exact NF_free_error s2 _ hN2
                  (fun _ hi => task_none_of s2 (hr hst).2.2.1 (by rw [hi]; rfl))
              · exact hN2
            · apply NF_lit; dsimp only; decide
            · exact hN2

theorem NF_io_tlsverified (w : World) (s : mta_session) (hN : ¬ free_aborted s) :
    ¬ free_aborted (mta_io_tlsverified w s) := by
  unfold mta_io_tlsverified
  split_ifs
  · exact NF_enter_state_free w _ _ hN (fun h => nomatch h) (fun h => nomatch h)
  · exact NF_enter_state_free w _ _ hN (fun h => nomatch h) (fun h => nomatch h)

theorem NF_io_fail (w : World) (s : mta_session) (msg : List Nat) (hN : ¬ free_aborted s)
    (h1 : s.status = .alive → s.task.isSome = task_state s.state) :
    ¬ free_aborted (mta_io_fail w s msg) := by
  unfold mta_io_fail
  dsimp only
  have ht : (mta_error s msg).status = .alive → (mta_error s msg).task = none :=
    mta_error_task_none s msg (fun ha hi => task_none_of s (h1 ha) (by rw [hi]; rfl))
  split_ifs
  · exact NF_connect w _ (NF_error _ _ hN) ht
  · exact NF_free _ (NF_error _ _ hN) ht

theorem NF_io_switch (w : World) (s : mta_session) (evt : io_event) (ha : s.status = .alive)
    (hts : s.task.isSome = task_state s.state)
    (hd : evt = IO_DATAIN →
      G s ∧ s.io = io_state.up ∧ s.wait_ssl_init = false ∧ s.wait_ssl_verify = false) :
    ¬ free_aborted (mta_io_switch w s evt) := by
  have hN : ¬ free_aborted s := NF_alive s ha
  unfold mta_io_switch
  cases evt <;> dsimp only
  · split_ifs
    · exact NF_start_tls _ hN
    · exact NF_enter_state_free w _ _ hN (fun h => nomatch h) (fun h => nomatch h)
  · have hv := NF_verify_certificate w { s with flags := s.flags ||| MTA_TLS } hN
    split_ifs
    · exact hv
    · exact NF_io_tlsverified w _ hv
  · exact NF_io_tlsverified w _ hN
  · obtain ⟨hg, a, b, c⟩ := hd rfl
    exact NF_io_datain w _ s ha hg a b c
  · have hN1 : ¬ free_aborted (if s.state = MTA_BODY then mta_enter_state w s MTA_BODY else s) := by
      split_ifs
      · exact NF_enter_state_free w _ _ hN (fun h => nomatch h) (fun h => nomatch h)
      · exact hN
    split
    · apply NF_lit; dsimp only; decide
    · exact hN1
  · exact NF_io_fail w s _ hN (fun _ => hts)
  · exact NF_io_fail w s _ hN (fun _ => hts)
  · exact NF_io_fail w s _ hN (fun _ => hts)

theorem NF_io (w : World) (s : mta_session) (evt : io_event) (hN : ¬ free_aborted s)
    (hts : s.status = .alive → s.task.isSome = task_state s.state)
    (hd : evt = IO_DATAIN → s.status = .alive →
      G s ∧ s.io = io_state.up ∧ s.wait_ssl_init = false ∧ s.wait_ssl_verify = false) :
    ¬ free_aborted (mta_io w s evt) := by
  unfold mta_io
  split_ifs with h0
  · exact hN
  · have ha : s.status = .alive := not_not.mp h0
    refine NF_io_switch w _ evt ha (hts ha) (fun he => ?_)
    obtain ⟨hg, a, b, c⟩ := hd he ha
    refine ⟨?_, a, b, c⟩
    unfold G at hg ⊢
    exact hg

theorem NF_session_imsg (w : World) (s : mta_session) (m : imsg) (hN : ¬ free_aborted s)
    (hst : s.status = .alive ∨ s.status = .freed)
    (hg : s.status = .alive → G s) :
    ¬ free_aborted (mta_session_imsg w s m) := by
  unfold mta_session_imsg tree_xpop
  cases m with
  | IMSG_QUEUE_MESSAGE_FD fd =>
    dsimp only
    split
    · apply NF_lit; dsimp only; decide
    · split_ifs
      · apply NF_lit; dsimp only; decide
      · apply NF_lit; dsimp only; decide
      · exact NF_enter_state_free w _ _ (NF_flush _ _ _ hN) (fun h => nomatch h)
          (fun h => nomatch h)
      · exact NF_enter_state_free w _ _ hN (fun h => nomatch h) (fun h => nomatch h)
  | IMSG_DNS_PTR =>
    dsimp only
    split_ifs with hw hf
    · apply NF_lit; dsimp only; decide
    · apply NF_lit; dsimp only; decide
    · have ha : s.status = .alive := hst.resolve_right hf
      have hw2 : s.wait_ptr = true := by simpa using hw
      have hgs := hg ha
      have hio : s.io = io_state.down := by
        unfold G at hgs; exact (hgs.2.2.2.2.2.2 hw2).1
      obtain ⟨hr, ht, hfd, hm⟩ := G_pre_facts s hgs (Or.inl (by rw [hio]; simp))
      unfold mta_on_ptr
      exact NF_connect w _ hN (fun _ => ht)
  | IMSG_LKA_SSL_INIT ok =>
    dsimp only
    split_ifs with hw hf hok
    · apply NF_lit; dsimp only; decide
    · apply NF_lit; dsimp only; decide
    · have ha : s.status = .alive := hst.resolve_right hf
      have hw2 : s.wait_ssl_init = true := by simpa using hw
      obtain ⟨hr, ht, hfd, hm⟩ := G_pre_facts s (hg ha) (Or.inr (Or.inl hw2))
      exact NF_free _ hN (fun _ => ht)
    · exact hN
  | IMSG_LKA_SSL_VERIFY ok =>
    dsimp only
    split_ifs with hw hf hok
    · apply NF_lit; dsimp only; decide
    · apply NF_lit; dsimp only; decide
    · exact NF_io w _ _ hN (fun ha => (hg ha).2.2.1) (fun h => nomatch h)
    · exact NF_io w _ _ hN (fun ha => (hg ha).2.2.1) (fun h => nomatch h)

theorem NF_step (s : mta_session) (we : World × Event) (hN : ¬ free_aborted s)
    (hg : s.status = .alive → G s) : ¬ free_aborted (step s we) := by
  obtain ⟨w, ev⟩ := we
  unfold step
  have hupd : ∀ (e : Nat) (o : List Nat), s.status = .alive →
      G { s with errno := e, iobuf_out := o } := by
    intro e o ha
    have := hg ha
    unfold G at this ⊢
    exact this
  split
  · exact hN
  · exact hN
  · rename_i hnf hnu
    have hst : s.status = .alive ∨ s.status = .freed := by
      cases hs : s.status with
      | alive => exact Or.inl rfl
      | freed => exact Or.inr rfl
      | fatal why => exact absurd hs (hnf why)
      | undefined why => exact absurd hs (hnu why)
    dsimp only
    split_ifs with hen
    · exact hN
    · have hen2 : enabled s ev = true := by simpa using hen
      cases ev with
      | msg m =>
        dsimp only
        exact NF_session_imsg w _ m hN hst (fun ha => hupd _ _ ha)
      | io e input =>
        dsimp only
        unfold enabled at hen2
        simp only [Bool.and_eq_true, Bool.not_eq_true', decide_eq_true_eq] at hen2
        obtain ⟨⟨h1, h2⟩, he⟩ := hen2
        cases e with
        | IO_DATAIN =>
          dsimp only at he ⊢
          have he2 : s.io = io_state.up := by simpa using he
          refine NF_io w _ _ hN (fun ha => (hg ha).2.2.1) (fun _ ha => ⟨?_, he2, h1, h2⟩)
          have := hg ha
          unfold G at this ⊢
          exact this
        | _ =>
          dsimp only
          exact NF_io w _ _ hN (fun ha => (hg ha).2.2.1) (fun h => nomatch h)

theorem NF_run (evs : List (World × Event)) : ∀ (s : mta_session), ¬ free_aborted s →
    (s.status = .alive → G s) → ¬ free_aborted (run s evs) := by
  induction evs with
  | nil => intro s hN _; exact hN
  | cons e es ih =>
    intro s hN hg
    have : run s (e :: es) = run (step s e) es := rfl
    rw [this]
    exact ih _ (NF_step s e hN hg) (G_step s e hg)

theorem NF_spawn (k : relay_flag_values) (relay : mta_relay) (hostname : List Nat)
    (ptr_known : Bool) (w : World) :
    ¬ free_aborted (mta_session_spawn k relay hostname ptr_known w) := by
  unfold mta_session_spawn mta_on_ptr
  dsimp only
  split_ifs
  all_goals first
    | (apply NF_connect
       · apply NF_alive; rfl
       · intro _; rfl)
    | (apply NF_alive; rfl)

/-- In no state a session can reach was the process ended by `mta_free` for
a task that was still attached. -/
theorem NF_reachable (k : relay_flag_values) (relay : mta_relay) (hostname : List Nat)
    (ptr_known : Bool) (w : World) (evs : List (World × Event)) :
    ¬ free_aborted (run (mta_session_spawn k relay hostname ptr_known w) evs) :=
  NF_run evs _ (NF_spawn k relay hostname ptr_known w) (G_spawn k relay hostname ptr_known w)

/-! ## Replies to the envelope commands -/

theorem verdicts_append (a b : List Effect) : verdicts (a ++ b) = verdicts a ++ verdicts b := by
  simp [verdicts, List.filterMap_append]

theorem sends_append (a b : List Effect) : sends (a ++ b) = sends a ++ sends b := by
  simp [sends, List.filterMap_append]

theorem verdicts_flush_effects (t : mta_task) (d : delivery) (e : List Nat) :
    verdicts (mta_flush_task_effects t d e)
      = t.envelopes.map (fun evp => (d, envelope_set_errormsg evp e)) := by
  unfold mta_flush_task_effects verdicts
  simp only [List.filterMap_cons]
  induction t.envelopes with
  | nil => simp
  | cons x xs ih => simp [List.flatMap_cons, List.filterMap_cons, ih]


theorem mta_response_rcpt_more (w : World) (s : mta_session) (t : mta_task) (i : Nat)
    (nxt : envelope) (line : List Nat)
    (halive : s.status = .alive) (hst : s.state = MTA_RCPT) (htask : s.task = some t)
    (hcur : s.currevp = some i) (hn : t.envelopes.get? (i + 1) = some nxt) :
    (mta_response w s line).status = .alive ∧ (mta_response w s line).state = MTA_RCPT ∧
    (mta_response w s line).datafp = s.datafp ∧
    sends (mta_response w s line).hist = sends s.hist ++ [rcpt_cmd nxt] ∧
    (line.headD 0 = 50 → (mta_response w s line).task = some t ∧
      (mta_response w s line).currevp = some (i + 1)) ∧
    (line.headD 0 ≠ 50 →
      (mta_response w s line).task = some { t with envelopes := t.envelopes.eraseIdx i } ∧
      (mta_response w s line).currevp = some i) := by
  have hlt : i + 1 < t.envelopes.length := by
    rcases Nat.lt_or_ge (i + 1) t.envelopes.length with h | h
    · exact h
    · rw [List.get?_eq_none.mpr h] at hn; cases hn
  have hevp : t.envelopes.get? i = some (t.envelopes.get ⟨i, by omega⟩) := List.get?_eq_get _
  have hresp : mta_response w s line = mta_response_rcpt w s line := by
    unfold mta_response
    simp only [halive, ne_eq, not_true_eq_false, if_false, hst]
  have hne : t.envelopes.eraseIdx i ≠ [] := by
    intro h
    have := congrArg List.length h
    rw [List.length_eraseIdx] at this
    simp only [List.length_nil] at this
    split_ifs at this <;> omega
  have hnxt2 : (t.envelopes.eraseIdx i)[i]? = some nxt := by
    rw [List.getElem?_eraseIdx]
    simp [← List.get?_eq_getElem?, hn]
  have hnxt4 : t.envelopes[i + 1]? = some nxt := by
    rw [← List.get?_eq_getElem?]; exact hn
  rw [hresp]
  unfold mta_response_rcpt
  simp only [htask, hcur, hevp, hlt, if_true]
  by_cases hl : line.headD 0 = 50
  · simp only [hl, ne_eq, not_true_eq_false, if_false]
    unfold mta_enter_state
    simp [hl, halive, htask, hst, mta_send, mta_enter_state_head, sends_append, sends, hnxt4,
      rcpt_cmd]
  · simp only [hl, ne_eq, not_false_eq_true, if_true, hne, if_false]
    unfold mta_enter_state
    simp [hl, halive, htask, hst, mta_send, mta_enter_state_head, sends_append, sends, hnxt2,
      rcpt_cmd, hne, mta_envelope_fail]

theorem mta_response_rcpt_last (w : World) (s : mta_session) (t : mta_task) (i : Nat)
    (fp : FILE) (line : List Nat)
    (halive : s.status = .alive) (hst : s.state = MTA_RCPT) (htask : s.task = some t)
    (hcur : s.currevp = some i) (hn : i + 1 = t.envelopes.length) (hfp : s.datafp = some fp) :
    sends (mta_response w s line).hist = sends s.hist ++
      [if line.headD 0 ≠ 50 ∧ i = 0 then str "RSET" else str "DATA"] := by
  have hevp : t.envelopes.get? i = some (t.envelopes.get ⟨i, by omega⟩) := List.get?_eq_get _
  have hresp : mta_response w s line = mta_response_rcpt w s line := by
    unfold mta_response
    simp only [halive, ne_eq, not_true_eq_false, if_false, hst]
  have hne : t.envelopes.eraseIdx i = [] ↔ i = 0 := by
    rw [← List.length_eq_zero, List.length_eraseIdx]
    split_ifs <;> omega
  have hlt : ¬ i + 1 < t.envelopes.length := by omega
  rw [hresp]
  unfold mta_response_rcpt
  simp only [htask, hcur, hevp, hlt, if_false]
  by_cases hl : line.headD 0 = 50
  · simp only [hl, ne_eq, not_true_eq_false, if_false]
    unfold mta_enter_state
    simp [hl, halive, htask, hst, mta_send, mta_enter_state_head, sends_append, sends, hfp]
  · simp only [hl, ne_eq, not_false_eq_true, if_true, true_and]
    by_cases h0 : i = 0
    · have he := hne.mpr h0
      simp only [he, if_true]
      unfold mta_enter_state
      simp [halive, htask, hst, mta_send, mta_enter_state_head, sends_append, sends, hfp,
        mta_flush_task, mta_flush_task_effects, mta_envelope_fail, he, h0]
    · have he := mt hne.mp h0
      simp only [he, if_false]
      unfold mta_enter_state
      simp [halive, htask, hst, mta_send, mta_enter_state_head, sends_append, sends, hfp,
        mta_envelope_fail, h0]

theorem rcpt_replies_sends (t0 : mta_task) (fp : FILE) :
    ∀ (replies : List (World × List Nat)) (s : mta_session) (acc : List envelope) (j : Nat)
      (t : mta_task),
      s.status = .alive → s.state = MTA_RCPT → s.task = some t →
      t.envelopes = acc ++ t0.envelopes.drop j → s.currevp = some acc.length →
      j < t0.envelopes.length → s.datafp = some fp →
      replies.length ≤ t0.envelopes.length - j →
      sends (rcpt_replies s replies).hist = sends s.hist
          ++ ((t0.envelopes.drop (j + 1)).take replies.length).map rcpt_cmd
          ++ (if j + replies.length = t0.envelopes.length then
              [if acc = [] ∧ replies.all (fun r => r.2.headD 0 != 50) = true
                then str "RSET" else str "DATA"]
            else []) ∧
        (j + replies.length < t0.envelopes.length →
          ∃ t1 i, (rcpt_replies s replies).task = some t1 ∧
            (rcpt_replies s replies).currevp = some i ∧
            (rcpt_replies s replies).state = MTA_RCPT ∧
            t1.envelopes.get? i = t0.envelopes.get? (j + replies.length)) := by
  intro replies
  induction replies with
  | nil =>
    intro s acc j t ha hst ht hl hc hj hfp hk
    refine ⟨?_, ?_⟩
    · have : ¬ j = t0.envelopes.length := by omega
      simp [rcpt_replies, this]
    · intro _
      refine ⟨t, acc.length, ht, hc, hst, ?_⟩
      simp [hl, List.get?_eq_getElem?, List.getElem?_append_right]
  | cons r rs ih =>
    intro s acc j t ha hst ht hl hc hj hfp hk
    have hrun : rcpt_replies s (r :: rs) = rcpt_replies (mta_response r.1 s r.2) rs := rfl
    rw [hrun]
    simp only [List.length_cons] at hk ⊢
    by_cases hlast : j + 1 = t0.envelopes.length
    · have hrs : rs = [] := by
        apply List.eq_nil_of_length_eq_zero; omega
      subst hrs
      have hlen : acc.length + 1 = t.envelopes.length := by
        rw [hl, List.length_append, List.length_drop]; omega
      have h := mta_response_rcpt_last r.1 s t acc.length fp r.2 ha hst ht hc hlen hfp
      refine ⟨?_, ?_⟩
      · have hd : List.drop (j + 1) t0.envelopes = [] := List.drop_eq_nil_of_le (by omega)
        simp only [rcpt_replies, List.foldl_nil, h, hd, List.take_nil, List.map_nil,
          List.append_nil, List.length_nil, List.all_cons, List.all_nil,
          Bool.and_true, zero_add]
        rw [if_pos hlast]
        congr 2
        have key : (r.2.headD 0 ≠ 50 ∧ acc.length = 0)
            ↔ (acc = [] ∧ (r.2.headD 0 != 50) = true) := by
          constructor <;> rintro ⟨h1, h2⟩ <;> refine ⟨?_, ?_⟩ <;>
            simp_all [List.length_eq_zero]
        split_ifs with c1 c2 c2
        · rfl
        · exact absurd (key.mp c1) c2
        · exact absurd (key.mpr c2) c1
        · rfl
      · intro hh; simp at hh; omega
    · have hj1 : j + 1 < t0.envelopes.length := by omega
      have hnx : t.envelopes.get? (acc.length + 1) = some (t0.envelopes.get ⟨j + 1, hj1⟩) := by
        rw [hl, List.get?_eq_getElem?, List.getElem?_append_right (by omega)]
        simp [List.getElem?_drop, List.getElem?_eq_getElem hj1]
      obtain ⟨h1, h2, h3, h4, h5, h6⟩ :=
        mta_response_rcpt_more r.1 s t acc.length (t0.envelopes.get ⟨j + 1, hj1⟩) r.2
          ha hst ht hc hnx
      have hdrop : List.drop (j + 1) t0.envelopes
          = t0.envelopes.get ⟨j + 1, hj1⟩ :: List.drop (j + 1 + 1) t0.envelopes := by
        rw [List.drop_eq_getElem_cons hj1]; rfl
      have hdropj : List.drop j t0.envelopes
          = t0.envelopes.get ⟨j, hj⟩ :: List.drop (j + 1) t0.envelopes := by
        rw [List.drop_eq_getElem_cons hj]; rfl
      by_cases hacc : r.2.headD 0 = 50
      · obtain ⟨h7, h8⟩ := h5 hacc
        have hl2 : t.envelopes = (acc ++ [t0.envelopes.get ⟨j, hj⟩])
            ++ t0.envelopes.drop (j + 1) := by
          rw [hl, hdropj]; simp
        have hc2 : (mta_response r.1 s r.2).currevp
            = some (acc ++ [t0.envelopes.get ⟨j, hj⟩]).length := by
          rw [h8]; simp
        obtain ⟨i1, i2⟩ := ih (mta_response r.1 s r.2) (acc ++ [t0.envelopes.get ⟨j, hj⟩])
          (j + 1) t h1 h2 h7 hl2 hc2 hj1 (h3.trans hfp) (by omega)
        refine ⟨?_, ?_⟩
        · rw [i1, h4, hdrop]
          have e1 : j + 1 + rs.length = j + (rs.length + 1) := by omega
          have hb : (r.2.headD 0 != 50) = false := by rw [hacc]; rfl
          simp only [List.take_succ_cons, List.map_cons, List.append_assoc,
            List.singleton_append, List.cons_append, e1, List.all_cons, hb, Bool.false_and,
            List.append_eq_nil, List.cons_ne_nil, and_false, false_and, Bool.false_eq_true,
            if_false, List.nil_append]
        · intro hh
          have e1 : j + 1 + rs.length = j + (rs.length + 1) := by omega
          rw [← e1]
          exact i2 (by omega)
      · obtain ⟨h7, h8⟩ := h6 hacc
        have hl2 : ({ t with envelopes := t.envelopes.eraseIdx acc.length } : mta_task).envelopes
            = acc ++ t0.envelopes.drop (j + 1) := by
          show t.envelopes.eraseIdx acc.length = _
          rw [hl, hdropj, List.eraseIdx_append_of_length_le (le_refl _)]
          simp
        obtain ⟨i1, i2⟩ := ih (mta_response r.1 s r.2) acc
          (j + 1) _ h1 h2 h7 hl2 h8 hj1 (h3.trans hfp) (by omega)
        refine ⟨?_, ?_⟩
        · rw [i1, h4, hdrop]
          have e1 : j + 1 + rs.length = j + (rs.length + 1) := by omega
          have hb : (r.2.headD 0 != 50) = true := by simpa using hacc
          simp only [List.take_succ_cons, List.map_cons, List.append_assoc,
            List.singleton_append, List.cons_append, e1, List.all_cons, hb, Bool.true_and,
            List.nil_append]
        · intro hh
          have e1 : j + 1 + rs.length = j + (rs.length + 1) := by omega
          rw [← e1]
          exact i2 (by omega)


/-! ## The claims on single functions -/

/-- C3: a reply to `MAIL` that does not start with `2`, a reply to `DATA`
that starts with neither `2` nor `3`, and a reply to the end of the message
that does not start with `2` flush the whole task, with the verdict
`IMSG_DELIVERY_PERMFAIL` when the reply starts with `5` and
`IMSG_DELIVERY_TEMPFAIL` otherwise, and with the reply line as the error
text; the session then enters `MTA_RSET` after `MAIL` and `DATA`, and
`MTA_READY` after the end of the message, with the delivered count
unchanged. -/
theorem mta_response_reject_task (w : World) (s : mta_session) (t : mta_task) (line : List Nat)
    (halive : s.status = .alive) (htask : s.task = some t) :
    (s.state = MTA_MAIL → line.headD 0 ≠ 50 →
      (mta_response w s line).hist = s.hist
          ++ mta_flush_task_effects t
            (if line.headD 0 = 53 then IMSG_DELIVERY_PERMFAIL else IMSG_DELIVERY_TEMPFAIL) line
          ++ [Effect.log_trace MTA_MAIL MTA_RSET, Effect.send (str "RSET")] ∧
        (mta_response w s line).state = MTA_RSET ∧ (mta_response w s line).task = none) ∧
    (s.state = MTA_DATA → line.headD 0 ≠ 50 → line.headD 0 ≠ 51 →
      (mta_response w s line).hist = s.hist
          ++ mta_flush_task_effects t
            (if line.headD 0 = 53 then IMSG_DELIVERY_PERMFAIL else IMSG_DELIVERY_TEMPFAIL) line
          ++ [Effect.log_trace MTA_DATA MTA_RSET, Effect.send (str "RSET")] ∧
        (mta_response w s line).state = MTA_RSET ∧ (mta_response w s line).task = none) ∧
    (s.state = MTA_EOM → line.headD 0 ≠ 50 →
      (s.hist
          ++ mta_flush_task_effects t
            (if line.headD 0 = 53 then IMSG_DELIVERY_PERMFAIL else IMSG_DELIVERY_TEMPFAIL) line
          ++ [Effect.log_trace MTA_EOM MTA_READY]) <+: (mta_response w s line).hist ∧
      verdicts (mta_response w s line).hist = verdicts s.hist ++ t.envelopes.map (fun evp =>
        ((if line.headD 0 = 53 then IMSG_DELIVERY_PERMFAIL else IMSG_DELIVERY_TEMPFAIL),
          envelope_set_errormsg evp line)) ∧
      (mta_response w s line).msgcount = s.msgcount) := by
  refine ⟨?_, ?_, ?_⟩
  · intro hst hl
    unfold mta_response
    simp only [halive, ne_eq, not_true_eq_false, if_false, hst, hl, not_false_eq_true, if_true]
    unfold mta_enter_state mta_response_delivery
    simp [halive, htask, mta_flush_slot_effects, hst]
  · intro hst hl hl2
    unfold mta_response
    simp only [halive, ne_eq, not_true_eq_false, if_false, hst, hl, hl2, or_self]
    unfold mta_enter_state mta_response_delivery
    simp [halive, htask, mta_flush_slot_effects, hst]
  · intro hst hl
    unfold mta_response
    simp only [halive, ne_eq, not_true_eq_false, if_false, hst, hl]
    unfold mta_enter_state mta_response_delivery
    simp only [mta_flush_task_status, halive, htask, ne_eq, not_true_eq_false, if_false,
      reduceCtorEq, and_false]
    unfold mta_enter_state_ready mta_enter_state_quit tree_xset
    simp only [mta_flush_task_status, halive, htask, ne_eq, not_true_eq_false, if_false,
      reduceCtorEq, and_false, mta_enter_state_head_status]
    cases hn : w.next_task <;> simp only [] <;> split_ifs <;>
      simp [halive, htask, hst, List.append_assoc, verdicts_append, verdicts_flush_effects,
        mta_flush_slot_effects] <;>
      simp [verdicts]

theorem mta_response_reject_task_witness :
    (demo_delivery MTA_MAIL demo_task none [] 0).status = .alive ∧
      (demo_delivery MTA_MAIL demo_task none [] 0).task = some demo_task ∧
      (demo_delivery MTA_MAIL demo_task none [] 0).state = MTA_MAIL ∧
      (str "550 rejected").headD 0 ≠ 50 ∧
      (mta_response (demo_world none) (demo_delivery MTA_MAIL demo_task none [] 0)
        (str "550 rejected")).state = MTA_RSET ∧
      (mta_response (demo_world none) (demo_delivery MTA_MAIL demo_task none [] 0)
        (str "550 rejected")).task = none :=
  ⟨rfl, rfl, rfl, by decide,
    ((mta_response_reject_task (demo_world none) (demo_delivery MTA_MAIL demo_task none [] 0)
      demo_task (str "550 rejected") rfl rfl).1 rfl (by decide)).2⟩

/-- C4: a reply to `RCPT` that does not start with `2` removes the envelope
under the cursor from the task and forwards it with the verdict
`IMSG_DELIVERY_PERMFAIL` when the reply starts with `5` and
`IMSG_DELIVERY_TEMPFAIL` otherwise, with the reply line as its error text;
this is the only verdict of the step and the other envelopes keep their
order. When the list becomes empty the task is flushed as Ok with the text
`No envelope` and the session enters `MTA_RSET`; otherwise the next
recipient is sent, or `DATA` after the last one. -/
theorem mta_response_rcpt_reject (w : World) (s : mta_session) (t : mta_task) (i : Nat)
    (evp : envelope) (line : List Nat)
    (halive : s.status = .alive) (hst : s.state = MTA_RCPT) (htask : s.task = some t)
    (hcur : s.currevp = some i) (hevp : t.envelopes.get? i = some evp)
    (hl : line.headD 0 ≠ 50) :
    verdicts (mta_response w s line).hist = verdicts s.hist
        ++ [((if line.headD 0 = 53 then IMSG_DELIVERY_PERMFAIL else IMSG_DELIVERY_TEMPFAIL),
          envelope_set_errormsg evp line)] ∧
    (t.envelopes.eraseIdx i = [] →
      (mta_response w s line).task = none ∧ (mta_response w s line).state = MTA_RSET ∧
      (mta_response w s line).hist = s.hist
        ++ mta_envelope_fail (envelope_set_errormsg evp line)
          (if line.headD 0 = 53 then IMSG_DELIVERY_PERMFAIL else IMSG_DELIVERY_TEMPFAIL)
        ++ [Effect.flush_task IMSG_DELIVERY_OK (str "No envelope"),
            Effect.log_trace MTA_RCPT MTA_RSET, Effect.send (str "RSET")]) ∧
    (t.envelopes.eraseIdx i ≠ [] →
      (mta_response w s line).task = some { t with envelopes := t.envelopes.eraseIdx i } ∧
      (∀ nxt, t.envelopes.get? (i + 1) = some nxt →
        (mta_response w s line).state = MTA_RCPT ∧
        (mta_response w s line).currevp = some i ∧
        (t.envelopes.eraseIdx i).get? i = some nxt ∧
        (mta_response w s line).hist = s.hist
          ++ mta_envelope_fail (envelope_set_errormsg evp line)
            (if line.headD 0 = 53 then IMSG_DELIVERY_PERMFAIL else IMSG_DELIVERY_TEMPFAIL)
          ++ [Effect.log_trace MTA_RCPT MTA_RCPT, Effect.send (rcpt_cmd nxt)]) ∧
      (t.envelopes.get? (i + 1) = none → ∀ fp, s.datafp = some fp →
        (mta_response w s line).state = MTA_DATA ∧
        (mta_response w s line).hist = s.hist
          ++ mta_envelope_fail (envelope_set_errormsg evp line)
            (if line.headD 0 = 53 then IMSG_DELIVERY_PERMFAIL else IMSG_DELIVERY_TEMPFAIL)
          ++ [Effect.log_trace MTA_RCPT MTA_DATA, Effect.send (str "DATA")])) := by
  have hlt : i < t.envelopes.length := by
    rcases Nat.lt_or_ge i t.envelopes.length with h | h
    · exact h
    · rw [List.get?_eq_none.mpr h] at hevp; cases hevp
  have hresp : mta_response w s line = mta_response_rcpt w s line := by
    unfold mta_response
    simp only [halive, ne_eq, not_true_eq_false, if_false, hst]
  rw [hresp]
  unfold mta_response_rcpt
  simp only [htask, hcur, hevp, hl, ne_eq, not_false_eq_true, if_true]
  by_cases he : t.envelopes.eraseIdx i = []
  · simp only [he, if_true]
    unfold mta_enter_state mta_response_delivery
    simp [halive, htask, hst, mta_flush_task, mta_flush_task_effects, he, mta_send,
      mta_enter_state_head, verdicts_append, mta_envelope_fail, verdicts, List.append_assoc]
  · simp only [he, if_false]
    by_cases hn : i + 1 < t.envelopes.length
    · have hnx : ∃ nxt, t.envelopes.get? (i + 1) = some nxt :=
        ⟨t.envelopes.get ⟨i + 1, hn⟩, List.get?_eq_get hn⟩
      obtain ⟨nxt, hnxt⟩ := hnx
      have hnxt2 : (t.envelopes.eraseIdx i).get? i = some nxt := by
        rw [List.get?_eq_getElem?, List.getElem?_eraseIdx]
        simp [← List.get?_eq_getElem?, hnxt]
      have hnxt3 : (t.envelopes.eraseIdx i)[i]? = some nxt := by
        rw [← List.get?_eq_getElem?]; exact hnxt2
      have hnxt4 : t.envelopes[i + 1]? = some nxt := by
        rw [← List.get?_eq_getElem?]; exact hnxt
      unfold mta_enter_state mta_response_delivery
      simp [halive, htask, hst, hn, mta_send, mta_enter_state_head, verdicts_append,
        mta_envelope_fail, verdicts, List.append_assoc, hnxt3, hnxt4, rcpt_cmd, he]
    · have hnone : t.envelopes.get? (i + 1) = none := List.get?_eq_none.mpr (by omega)
      unfold mta_enter_state mta_response_delivery
      simp only [hn, if_false, Option.map_none', if_true, halive, ne_eq, not_true_eq_false]
      have hnone2 : t.envelopes[i + 1]? = none := by
        rw [← List.get?_eq_getElem?]; exact hnone
      cases hfp : s.datafp <;>
      simp [halive, htask, hst, hn, mta_send, mta_enter_state_head, verdicts_append,
        mta_envelope_fail, verdicts, List.append_assoc, hnone2, he, hfp]

theorem mta_response_rcpt_reject_witness :
    (demo_delivery MTA_RCPT demo_task2 (some 0) [] 0).status = .alive ∧
      (demo_delivery MTA_RCPT demo_task2 (some 0) [] 0).state = MTA_RCPT ∧
      (demo_delivery MTA_RCPT demo_task2 (some 0) [] 0).task = some demo_task2 ∧
      (demo_delivery MTA_RCPT demo_task2 (some 0) [] 0).currevp = some 0 ∧
      demo_task2.envelopes.get? 0 = some demo_envelope ∧
      (str "450 try later").headD 0 ≠ 50 ∧
      verdicts (mta_response (demo_world none)
          (demo_delivery MTA_RCPT demo_task2 (some 0) [] 0) (str "450 try later")).hist
        = [(IMSG_DELIVERY_TEMPFAIL, envelope_set_errormsg demo_envelope (str "450 try later"))] :=
  ⟨rfl, rfl, rfl, rfl, rfl, by decide,
    (mta_response_rcpt_reject (demo_world none)
      (demo_delivery MTA_RCPT demo_task2 (some 0) [] 0) demo_task2 0 demo_envelope
      (str "450 try later") rfl rfl rfl rfl rfl (by decide)).1⟩

/-- C8: after `MAIL` is accepted for a task with the envelopes `e1..en`,
`n ≥ 1`, and `k ≤ n` replies to `RCPT` have been handled, the commands
queued are `RCPT` for the first `k + 1` envelopes (at most `n`) in list
order, the cursor is on the envelope `k + 1` while `k < n`, and after the
reply `n` one more command is queued: `DATA` when some recipient was
accepted, `RSET` when none was. -/
theorem rcpt_phase_sends (w : World) (s : mta_session) (t : mta_task) (fp : FILE)
    (m : List Nat) (replies : List (World × List Nat))
    (halive : s.status = .alive) (hst : s.state = MTA_MAIL) (htask : s.task = some t)
    (hcur : s.currevp = none) (hfp : s.datafp = some fp) (hne : t.envelopes ≠ [])
    (hm : m.headD 0 = 50) (hk : replies.length ≤ t.envelopes.length) :
    sends (rcpt_replies (mta_response w s m) replies).hist = sends s.hist
        ++ (t.envelopes.take (replies.length + 1)).map rcpt_cmd
        ++ (if replies.length = t.envelopes.length then
            [if replies.all (fun r => r.2.headD 0 != 50) = true
              then str "RSET" else str "DATA"]
          else []) ∧
      (replies.length < t.envelopes.length →
        ∃ t1 i, (rcpt_replies (mta_response w s m) replies).task = some t1 ∧
          (rcpt_replies (mta_response w s m) replies).currevp = some i ∧
          (rcpt_replies (mta_response w s m) replies).state = MTA_RCPT ∧
          t1.envelopes.get? i = t.envelopes.get? replies.length) := by
  obtain ⟨e, es, hes⟩ := List.exists_cons_of_ne_nil hne
  have h0 : (mta_response w s m).status = .alive ∧ (mta_response w s m).state = MTA_RCPT ∧
      (mta_response w s m).task = some t ∧ (mta_response w s m).currevp = some 0 ∧
      (mta_response w s m).datafp = some fp ∧
      sends (mta_response w s m).hist = sends s.hist ++ [rcpt_cmd e] := by
    unfold mta_response
    simp only [halive, ne_eq, not_true_eq_false, if_false, hst, hm]
    unfold mta_enter_state
    simp [halive, htask, hcur, hes, mta_send, mta_enter_state_head, sends_append, sends,
      rcpt_cmd, hfp]
  obtain ⟨a1, a2, a3, a4, a5, a6⟩ := h0
  obtain ⟨i1, i2⟩ := rcpt_replies_sends t fp replies (mta_response w s m) [] 0 t a1 a2 a3
    (by simp) a4 (by rw [hes]; simp) a5 (by omega)
  refine ⟨?_, ?_⟩
  · rw [i1, a6, hes]
    simp only [List.drop_succ_cons, List.drop_zero, List.take_succ_cons, List.map_cons,
      List.append_assoc, List.singleton_append, List.cons_append, zero_add, true_and,
      List.nil_append]
  · intro hh
    have := i2 (by omega)
    simpa using this

theorem rcpt_phase_sends_witness :
    (demo_delivery MTA_MAIL demo_task2 none [] 0).status = .alive ∧
      (demo_delivery MTA_MAIL demo_task2 none [] 0).state = MTA_MAIL ∧
      (demo_delivery MTA_MAIL demo_task2 none [] 0).task = some demo_task2 ∧
      (demo_delivery MTA_MAIL demo_task2 none [] 0).currevp = none ∧
      (demo_delivery MTA_MAIL demo_task2 none [] 0).datafp = some (fdopen [] false) ∧
      demo_task2.envelopes ≠ [] ∧ (str "250 ok").headD 0 = 50 ∧
      [(demo_world none, str "250 ok"), (demo_world none, str "550 no")].length
        ≤ demo_task2.envelopes.length ∧
      sends (rcpt_replies (mta_response (demo_world none)
          (demo_delivery MTA_MAIL demo_task2 none [] 0) (str "250 ok"))
          [(demo_world none, str "250 ok"), (demo_world none, str "550 no")]).hist
        = [rcpt_cmd demo_envelope, rcpt_cmd demo_envelope2, str "DATA"] :=
  ⟨rfl, rfl, rfl, rfl, rfl, by decide, by decide, by decide,
    (rcpt_phase_sends (demo_world none) (demo_delivery MTA_MAIL demo_task2 none [] 0)
      demo_task2 (fdopen [] false) (str "250 ok")
      [(demo_world none, str "250 ok"), (demo_world none, str "550 no")]
      rfl rfl rfl rfl rfl (by decide) (by decide) (by decide)).1⟩


/-! ## The claims on the content -/

set_option maxRecDepth 100000 in
/-- C5, as stated: a content whose first line holds a NUL byte before its
colon and is followed by `MAX_HOPS_COUNT` lines `Received: x` has that many
`Received: ` lines in its header region, and `mta_check_loop` returns 0. -/
theorem mta_check_loop_nul_line :
    MAX_HOPS_COUNT ≤ received_count
        ([97, 0, 58, 10] ++ (List.replicate 100 (str "Received: x\n")).flatten) ∧
      (mta_check_loop MAX_HOPS_COUNT
        (fdopen ([97, 0, 58, 10] ++ (List.replicate 100 (str "Received: x\n")).flatten)
          false)).1 = 0 := by
  decide

/-- C5, amended: for a content without NUL byte `mta_check_loop` returns 1
when the header region, the lines before the first line that neither starts
with whitespace nor contains a colon, has at least `MAX_HOPS_COUNT` lines
that begin with `Received: ` compared without case, and 0 otherwise; the
stream is at the start of the content afterwards. This holds for every
value of the cap from 1 up to the range of the `uint32_t` counter. -/
theorem mta_check_loop_counts_received (content : List Nat) (broken : Bool) (hops : Nat)
    (hnul : 0 ∉ content) (h0 : 0 < hops) (h32 : hops < 2 ^ 32) :
    (mta_check_loop hops (fdopen content broken)).1
        = (if hops ≤ received_count content then 1 else 0) ∧
      (mta_check_loop hops (fdopen content broken)).2.pos = 0 ∧
      (mta_check_loop hops (fdopen content broken)).2.data = content :=
  mta_check_loop_spec content broken hops hnul h0 h32

theorem mta_check_loop_counts_received_witness :
    0 ∉ str "Received: a\nSubject: x\n\nbody\n" ∧ 0 < MAX_HOPS_COUNT ∧
      MAX_HOPS_COUNT < 2 ^ 32 ∧
      (mta_check_loop MAX_HOPS_COUNT
        (fdopen (str "Received: a\nSubject: x\n\nbody\n") false)).1
        = (if MAX_HOPS_COUNT ≤ received_count (str "Received: a\nSubject: x\n\nbody\n")
            then 1 else 0) ∧
      (mta_check_loop MAX_HOPS_COUNT
        (fdopen (str "Received: a\nSubject: x\n\nbody\n") false)).2.pos = 0 ∧
      (mta_check_loop MAX_HOPS_COUNT
        (fdopen (str "Received: a\nSubject: x\n\nbody\n") false)).2.data
        = str "Received: a\nSubject: x\n\nbody\n" :=
  ⟨by decide, by decide, by decide,
    mta_check_loop_counts_received (str "Received: a\nSubject: x\n\nbody\n") false
      MAX_HOPS_COUNT (by decide) (by decide) (by decide)⟩

/-- C6, as stated: of the line `a`, NUL, `b` only `a` is queued, where the
stuffed line with its CR LF has five bytes. -/
theorem mta_queue_data_nul_line :
    (demo_delivery MTA_BODY demo_task none [97, 0, 98, 10] 0).datafp
        = some (fdopen (unlines [[97, 0, 98]]) false) ∧
      (mta_queue_data (demo_delivery MTA_BODY demo_task none [97, 0, 98, 10] 0)).2.iobuf_out
        = [97, 13, 10] ∧
      (mta_queue_data (demo_delivery MTA_BODY demo_task none [97, 0, 98, 10] 0)).1 = 3 ∧
      stuff [97, 0, 98] ++ CRLF = [97, 0, 98, 13, 10] := by
  decide

/-- C6, amended: for a content made of lines that end with a newline and
hold no NUL byte, all read in one call because the output queue is below
`MTA_HIWAT` before each of them, `mta_queue_data` appends to the output
queue the lines in order, each with a `.` before it when it starts with `.`
and followed by CR LF, and returns the number of bytes appended. -/
theorem mta_queue_data_dot_stuffing (s : mta_session) (fp : FILE) (ls : List (List Nat))
    (halive : s.status = .alive) (hfp : s.datafp = some fp)
    (hls : ∀ l ∈ ls, LF ∉ l ∧ 0 ∉ l)
    (hrest : fp.data.drop fp.pos = unlines ls)
    (hb : fp.broken = false) (he : fp.err = false) (hf : fp.eof = false)
    (hlow : ∀ j, j < ls.length →
      (s.iobuf_out ++ smtp_encode (ls.take j)).length < MTA_HIWAT) :
    (mta_queue_data s).2.iobuf_out = s.iobuf_out ++ smtp_encode ls ∧
      (mta_queue_data s).1 = ((smtp_encode ls).length : Int) ∧
      smtp_encode ls
        = ls.flatMap (fun l => (if l.head? = some 46 then 46 :: l else l) ++ [13, 10]) := by
  obtain ⟨k, hk, h1, h2, _, _, _, h6, _⟩ :=
    mta_queue_data_stuffs s fp ls halive hfp hls hrest hb he hf
  have hkl : k = ls.length := by
    by_contra hne
    have hlt : k < ls.length := Nat.lt_of_le_of_ne hk hne
    have := h6 hlt
    have := hlow k hlt
    omega
  subst hkl
  rw [List.take_length] at h1 h2
  exact ⟨h1, h2, rfl⟩

theorem mta_queue_data_dot_stuffing_witness :
    (demo_delivery MTA_BODY demo_task none (unlines [[46, 97], [98]]) 0).status = .alive ∧
      (demo_delivery MTA_BODY demo_task none (unlines [[46, 97], [98]]) 0).datafp
        = some (fdopen (unlines [[46, 97], [98]]) false) ∧
      (∀ l ∈ [[46, 97], [98]], LF ∉ l ∧ 0 ∉ l) ∧
      (mta_queue_data
        (demo_delivery MTA_BODY demo_task none (unlines [[46, 97], [98]]) 0)).2.iobuf_out
        = [46, 46, 97, 13, 10, 98, 13, 10] :=
  ⟨rfl, rfl, by decide,
    (mta_queue_data_dot_stuffing
      (demo_delivery MTA_BODY demo_task none (unlines [[46, 97], [98]]) 0)
      (fdopen (unlines [[46, 97], [98]]) false) [[46, 97], [98]] rfl rfl (by decide) rfl rfl
      rfl rfl (by decide)).1⟩

/-- C7, as stated: the content with the one line `a`, NUL, `b` is decoded
as the line `a`. -/
theorem mta_body_stream_nul_line :
    (demo_delivery MTA_BODY demo_task none [97, 0, 98, 10] 0).datafp
        = some (fdopen (unlines [[97, 0, 98]]) false) ∧
      smtp_decode (mta_body_stream 2 (demo_delivery MTA_BODY demo_task none [97, 0, 98, 10] 0))
        = [[97]] ∧
      [[97]] ≠ [[97, 0, 98]] := by
  decide

/-- C7, amended: for a content given as lines that end with a newline and
hold no NUL byte, the bytes queued by `mta_queue_data` over the body phase,
split at CR LF and with one leading `.` dropped from each line, are the
lines of the content; no line queued is a single `.`. -/
theorem mta_body_stream_round_trip (s : mta_session) (ls : List (List Nat))
    (halive : s.status = .alive)
    (hfp : s.datafp = some (fdopen (unlines ls) false))
    (hls : ∀ l ∈ ls, LF ∉ l ∧ 0 ∉ l) :
    smtp_decode (mta_body_stream (ls.length + 1) s) = ls ∧
      ∀ x ∈ split_crlf (mta_body_stream (ls.length + 1) s), x ≠ [46] :=
  mta_body_round_trip s ls halive hfp hls

theorem mta_body_stream_round_trip_witness :
    (demo_delivery MTA_BODY demo_task none (unlines [[46], [46, 97], []]) 0).status = .alive ∧
      (demo_delivery MTA_BODY demo_task none (unlines [[46], [46, 97], []]) 0).datafp
        = some (fdopen (unlines [[46], [46, 97], []]) false) ∧
      (∀ l ∈ [[46], [46, 97], []], LF ∉ l ∧ 0 ∉ l) ∧
      smtp_decode (mta_body_stream 4
        (demo_delivery MTA_BODY demo_task none (unlines [[46], [46, 97], []]) 0))
        = [[46], [46, 97], []] :=
  ⟨rfl, rfl, by decide,
    (mta_body_stream_round_trip
      (demo_delivery MTA_BODY demo_task none (unlines [[46], [46, 97], []]) 0)
      [[46], [46, 97], []] rfl rfl (by decide)).1⟩

/-! ## The claims on reachable sessions -/

theorem verdict_count_eq (e : envelope) (h : List Effect) :
    verdict_count e h = ((verdicts h).map (fun v => envelope_clear v.2)).count e := by
  induction h with
  | nil => rfl
  | cons x xs ih =>
    have hc : verdict_count e (x :: xs) = verdict_weight e x + verdict_count e xs := by
      simp [verdict_count]
    rw [hc, ih]
    cases x <;> simp [verdicts, verdict_weight, List.count_cons]
    omega

theorem acquire_count_eq (e : envelope) (h : List Effect) :
    acquire_count e h = ((acquired h).map envelope_clear).count e := by
  induction h with
  | nil => rfl
  | cons x xs ih =>
    have hc : acquire_count e (x :: xs) = acquire_weight e x + acquire_count e xs := by
      simp [acquire_count]
    rw [hc, ih]
    cases x <;> simp [acquired, acquire_weight, List.flatMap_cons]
    rename_i nt
    cases nt <;> simp [acquire_weight]

/-- C1: no session is ended by `mta_free` with a task still attached, and
when a session has been torn down by `mta_free`, its task slot is empty and
the envelopes that were forwarded to the queue with a verdict are exactly
the envelopes of the tasks it acquired, each one once. -/
theorem every_envelope_one_verdict (k : relay_flag_values) (relay : mta_relay)
    (hostname : List Nat) (ptr_known : Bool) (w : World) (evs : List (World × Event)) :
    ¬ free_aborted (run (mta_session_spawn k relay hostname ptr_known w) evs) ∧
    (Effect.mta_route_collect ∈ (run (mta_session_spawn k relay hostname ptr_known w) evs).hist →
      (run (mta_session_spawn k relay hostname ptr_known w) evs).task = none ∧
      List.Perm
        ((verdicts (run (mta_session_spawn k relay hostname ptr_known w) evs).hist).map
          (fun v => envelope_clear v.2))
        ((acquired (run (mta_session_spawn k relay hostname ptr_known w) evs).hist).map
          envelope_clear)) := by
  refine ⟨NF_reachable k relay hostname ptr_known w evs, fun hc => ?_⟩
  obtain ⟨k1, k2, _⟩ := K_reachable k relay hostname ptr_known w evs
  have ht := (k2 hc).1
  refine ⟨ht, List.perm_iff_count.mpr (fun e => ?_)⟩
  have := k1 e
  rw [ht] at this
  simp only [attached_count, Nat.add_zero] at this
  rw [← verdict_count_eq, ← acquire_count_eq]
  exact this

set_option maxRecDepth 100000 in
theorem every_envelope_one_verdict_witness :
    Effect.mta_route_collect ∈ demo_rejected_run.hist ∧
      ¬ free_aborted demo_rejected_run ∧
      demo_rejected_run.task = none ∧
      List.Perm ((verdicts demo_rejected_run.hist).map (fun v => envelope_clear v.2))
        ((acquired demo_rejected_run.hist).map envelope_clear) :=
  ⟨by decide,
    (every_envelope_one_verdict demo_flag_values demo_relay (str "mail.example.com") true
      (demo_world none) demo_rejected).1,
    (every_envelope_one_verdict demo_flag_values demo_relay (str "mail.example.com") true
      (demo_world none) demo_rejected).2 (by decide)⟩

theorem sends_flush_slot_effects (o : Option mta_task) (d : delivery) (e : List Nat) :
    sends (mta_flush_slot_effects o d e) = [] := by
  cases o with
  | none => rfl
  | some t =>
    unfold mta_flush_slot_effects mta_flush_task_effects sends
    simp only [List.filterMap_cons]
    induction t.envelopes with
    | nil => simp
    | cons x xs ih => simp [List.flatMap_cons, List.filterMap_cons, ih]

theorem sends_error (s : mta_session) (e : List Nat) :
    sends (mta_error s e).hist = sends s.hist := by
  rw [mta_error_hist, sends_append]
  split_ifs
  · rw [show sends (Effect.mta_route_error e
        :: mta_flush_slot_effects s.task IMSG_DELIVERY_TEMPFAIL e)
        = sends (mta_flush_slot_effects s.task IMSG_DELIVERY_TEMPFAIL e) from rfl,
      sends_flush_slot_effects, List.append_nil]
  · exact List.append_nil _

theorem sends_free (s : mta_session) : sends (mta_free s).hist = sends s.hist := by
  rw [mta_free_hist, sends_append]
  split_ifs <;> simp [sends]

theorem connect_mode_hist (s s1 : mta_session) (h : mta_connect_mode s = some s1) :
    s1.hist = s.hist := by
  unfold mta_connect_mode at h
  split_ifs at h <;> simp only [Option.some.injEq] at h <;> subst h <;> rfl

theorem sends_connect (w : World) (s : mta_session) :
    sends (mta_connect w s).hist = sends s.hist := by
  unfold mta_connect
  split_ifs with ha
  · rfl
  · dsimp only
    cases hm : mta_connect_mode { s with
        io := io_state.down, iobuf_in := [], iobuf_out := []
        use_smtps := 0, use_starttls := 0, use_smtp_tls := 0 } with
    | none => simp only [sends_free, sends_error]
    | some s1 =>
      have h1 := connect_mode_hist _ _ hm
      have e1 : ∀ a b, sends [Effect.log_trace a b] = [] := fun _ _ => rfl
      have e2 : ∀ p, sends [Effect.io_connect p] = [] := fun _ => rfl
      have e3 : ∀ m, sends [Effect.mta_source_error m] = [] := fun _ => rfl
      dsimp only at h1 ⊢
      cases hc : w.io_connect with
      | none =>
        dsimp only
        simp only [mta_enter_state_head_hist, sends_append, h1, e1, e2, List.append_nil]
      | some e =>
        dsimp only
        by_cases he : e = EADDRNOTAVAIL
        · rw [if_pos he, sends_free]
          dsimp only
          simp only [mta_enter_state_head_hist, sends_append, h1, e1, e2, e3, List.append_nil]
        · rw [if_neg he, sends_free, sends_error]
          dsimp only
          simp only [mta_enter_state_head_hist, sends_append, h1, e1, e2, e3, List.append_nil]

theorem hist_sub_free (s : mta_session) (x : Effect) (h : x ∈ s.hist) :
    x ∈ (mta_free s).hist := by
  rw [mta_free_hist]; exact List.mem_append.mpr (Or.inl h)

theorem hist_sub_error (s : mta_session) (e : List Nat) (x : Effect) (h : x ∈ s.hist) :
    x ∈ (mta_error s e).hist := by
  rw [mta_error_hist]; exact List.mem_append.mpr (Or.inl h)

theorem hist_sub_connect (w : World) (s : mta_session) (x : Effect) (h : x ∈ s.hist) :
    x ∈ (mta_connect w s).hist := by
  unfold mta_connect
  split_ifs with ha
  · exact h
  · dsimp only
    cases hm : mta_connect_mode { s with
        io := io_state.down, iobuf_in := [], iobuf_out := []
        use_smtps := 0, use_starttls := 0, use_smtp_tls := 0 } with
    | none => exact hist_sub_free _ _ (hist_sub_error _ _ _ h)
    | some s1 =>
      have h1 := connect_mode_hist _ _ hm
      dsimp only at h1 ⊢
      cases hc : w.io_connect with
      | none => simp [h1, h]
      | some e =>
        dsimp only
        by_cases he : e = EADDRNOTAVAIL
        · rw [if_pos he]
          apply hist_sub_free
          simp [h1, h]
        · rw [if_neg he]
          apply hist_sub_free
          apply hist_sub_error
          simp [h1, h]

/-- C2: in every reachable session every queued `AUTH PLAIN` command comes
after an `IO_TLSREADY` event of the session and the flag `MTA_TLS` is set;
entering `MTA_AUTH` with a secret queues `AUTH PLAIN` with the secret when
`MTA_TLS` is set, and otherwise queues nothing and records the route error
`Refuse to AUTH over unsecure channel`. -/
theorem auth_only_after_tls (k : relay_flag_values) (relay : mta_relay)
    (hostname : List Nat) (ptr_known : Bool) (w : World) (evs : List (World × Event)) :
    (∀ pre cmd post,
      (run (mta_session_spawn k relay hostname ptr_known w) evs).hist
          = pre ++ Effect.send cmd :: post →
        is_auth_cmd cmd = true →
        Effect.event IO_TLSREADY ∈ pre ∧
          (run (mta_session_spawn k relay hostname ptr_known w) evs).flags &&& MTA_TLS ≠ 0) ∧
    (∀ (w1 : World) (s : mta_session) (secret : List Nat), s.status = .alive →
      s.relay.secret = some secret →
      (s.flags &&& MTA_TLS ≠ 0 →
        sends (mta_enter_state w1 s MTA_AUTH).hist
          = sends s.hist ++ [str "AUTH PLAIN " ++ secret]) ∧
      (s.flags &&& MTA_TLS = 0 →
        sends (mta_enter_state w1 s MTA_AUTH).hist = sends s.hist ∧
        Effect.mta_route_error (str "Refuse to AUTH over unsecure channel")
          ∈ (mta_enter_state w1 s MTA_AUTH).hist)) := by
  refine ⟨?_, ?_⟩
  · intro pre cmd post hh hc
    obtain ⟨_, _, _, k4, _, _, k7⟩ := K_reachable k relay hostname ptr_known w evs
    rw [hh] at k4 k7
    refine ⟨?_, k4 ?_⟩
    · rcases auth_guard_before cmd post hc pre false k7 with h | h
      · cases h
      · exact h
    · simp [auth_sent, auth_effect, hc]
  · intro w1 s secret ha hs
    have he : mta_enter_state w1 s MTA_AUTH = mta_enter_state_auth w1 s := by
      unfold mta_enter_state
      simp only [ha, ne_eq, not_true_eq_false, if_false]
    rw [he]
    unfold mta_enter_state_auth
    simp only [ha, ne_eq, not_true_eq_false, if_false, mta_enter_state_head_relay, hs,
      mta_enter_state_head_flags]
    refine ⟨?_, ?_⟩
    · intro hf
      simp [hf, ha, sends_append, sends]
    · intro hf
      simp only [hf, not_true_eq_false, if_false]
      refine ⟨?_, ?_⟩
      · rw [sends_connect, sends_error]
        simp [sends_append, sends]
      · apply hist_sub_connect
        rw [mta_error_hist]
        simp [ha, mta_error_ignored]

set_option maxRecDepth 100000 in
theorem auth_only_after_tls_witness :
    (demo_auth_run.hist = demo_auth_run.hist.take 18
        ++ Effect.send (str "AUTH PLAIN AGJvYgBwdw==") :: demo_auth_run.hist.drop 19 ∧
      is_auth_cmd (str "AUTH PLAIN AGJvYgBwdw==") = true ∧
      Effect.event IO_TLSREADY ∈ demo_auth_run.hist.take 18 ∧
      demo_auth_run.flags &&& MTA_TLS ≠ 0) ∧
    ((demo_delivery MTA_STARTTLS demo_task none [] 0).status = .alive ∧
      ({ demo_delivery MTA_STARTTLS demo_task none [] 0 with relay := demo_relay_auth }
        : mta_session).relay.secret = some (str "AGJvYgBwdw==") ∧
      ({ demo_delivery MTA_STARTTLS demo_task none [] 0 with relay := demo_relay_auth }
        : mta_session).flags &&& MTA_TLS = 0 ∧
      sends (mta_enter_state (demo_world none)
          { demo_delivery MTA_STARTTLS demo_task none [] 0 with relay := demo_relay_auth }
          MTA_AUTH).hist = [] ∧
      Effect.mta_route_error (str "Refuse to AUTH over unsecure channel")
        ∈ (mta_enter_state (demo_world none)
          { demo_delivery MTA_STARTTLS demo_task none [] 0 with relay := demo_relay_auth }
          MTA_AUTH).hist) :=
  ⟨⟨by decide, by decide,
      (auth_only_after_tls demo_flag_values demo_relay_auth (str "mail.example.com") true
        (demo_world none) demo_auth).1 (demo_auth_run.hist.take 18)
          (str "AUTH PLAIN AGJvYgBwdw==") (demo_auth_run.hist.drop 19) (by decide) (by decide)⟩,
    rfl, rfl, by decide,
    ((auth_only_after_tls demo_flag_values demo_relay_auth (str "mail.example.com") true
        (demo_world none) demo_auth).2 (demo_world none)
          { demo_delivery MTA_STARTTLS demo_task none [] 0 with relay := demo_relay_auth }
          (str "AGJvYgBwdw==") rfl rfl).2 (by decide)⟩

/-- C9: in every reachable session the delivered count is at most
`MAX_MAIL`; a session that enters `MTA_READY` with the delivered count at
`MAX_MAIL` asks the route manager for no task, keeps its task slot as it is,
queues `QUIT` and is in `MTA_QUIT`. -/
theorem msgcount_le_MAX_MAIL (k : relay_flag_values) (relay : mta_relay)
    (hostname : List Nat) (ptr_known : Bool) (w : World) (evs : List (World × Event)) :
    (run (mta_session_spawn k relay hostname ptr_known w) evs).msgcount ≤ MAX_MAIL ∧
    MAX_MAIL = 100 ∧
    (∀ (w1 : World) (s : mta_session), s.status = .alive → s.msgcount = MAX_MAIL →
      (mta_enter_state w1 s MTA_READY).state = MTA_QUIT ∧
      (mta_enter_state w1 s MTA_READY).task = s.task ∧
      (mta_enter_state w1 s MTA_READY).msgcount = MAX_MAIL ∧
      (mta_enter_state w1 s MTA_READY).hist = s.hist
        ++ [Effect.log_trace s.state MTA_READY]
        ++ (if s.ready = 0 then [Effect.mta_route_ok] else [])
        ++ [Effect.log_trace MTA_READY MTA_QUIT, Effect.send (str "QUIT")]) := by
  refine ⟨(K_reachable k relay hostname ptr_known w evs).2.2.2.2.2.1, rfl, ?_⟩
  intro w1 s ha hm
  have he : mta_enter_state w1 s MTA_READY = mta_enter_state_ready w1 s := by
    unfold mta_enter_state
    simp only [ha, ne_eq, not_true_eq_false, if_false]
  rw [he]
  unfold mta_enter_state_ready mta_enter_state_quit
  simp only [ha, ne_eq, not_true_eq_false, if_false]
  by_cases hr : s.ready = 0
  · simp [hr, hm, ha, MAX_MAIL]
  · simp [hr, hm, ha, MAX_MAIL]

theorem msgcount_le_MAX_MAIL_witness :
    (demo_delivery MTA_EOM demo_task none [] 100).status = .alive ∧
      (demo_delivery MTA_EOM demo_task none [] 100).msgcount = MAX_MAIL ∧
      (mta_enter_state (demo_world (some demo_task2))
        (demo_delivery MTA_EOM demo_task none [] 100) MTA_READY).state = MTA_QUIT ∧
      (mta_enter_state (demo_world (some demo_task2))
        (demo_delivery MTA_EOM demo_task none [] 100) MTA_READY).task = some demo_task :=
  ⟨rfl, rfl,
    ((msgcount_le_MAX_MAIL demo_flag_values demo_relay [] true (demo_world none) []).2.2
      (demo_world (some demo_task2)) (demo_delivery MTA_EOM demo_task none [] 100) rfl rfl).1,
    ((msgcount_le_MAX_MAIL demo_flag_values demo_relay [] true (demo_world none) []).2.2
      (demo_world (some demo_task2)) (demo_delivery MTA_EOM demo_task none [] 100) rfl rfl).2.1⟩

set_option maxRecDepth 100000 in
/-- C10, as stated: a session whose only task ended with the verdict Ok on
an emptied envelope list has delivered nothing. -/
theorem msgcount_ne_ok_flush_count :
    demo_rejected_run.msgcount ≠ ok_flush_count demo_rejected_run.hist ∧
      demo_rejected_run.msgcount = 0 ∧ ok_flush_count demo_rejected_run.hist = 1 ∧
      Effect.flush_task IMSG_DELIVERY_OK (str "No envelope") ∈ demo_rejected_run.hist := by
  decide

/-- C10, amended: in every reachable session the delivered count is the
number of tasks that `mta_flush_task` ended with the verdict Ok and a text
other than `No envelope`, that is on an accepted end of message. -/
theorem msgcount_eq_delivered_count (k : relay_flag_values) (relay : mta_relay)
    (hostname : List Nat) (ptr_known : Bool) (w : World) (evs : List (World × Event)) :
    (run (mta_session_spawn k relay hostname ptr_known w) evs).msgcount
      = delivered_count (run (mta_session_spawn k relay hostname ptr_known w) evs).hist :=
  (K_reachable k relay hostname ptr_known w evs).2.2.1

/-! ## Teardown after an error, and the growth of the history -/

theorem mta_free_error_ok (s : mta_session) (e : List Nat) (ha : s.status = .alive)
    (hi : ¬ mta_error_ignored s) :
    (mta_free (mta_error s e)).status = .freed ∧
    (mta_free (mta_error s e)).hist = s.hist ++
      (Effect.mta_route_error e :: mta_flush_slot_effects s.task IMSG_DELIVERY_TEMPFAIL e) ++
      [Effect.mta_route_collect] ∧
    (mta_free (mta_error s e)).task = none ∧
    (mta_free (mta_error s e)).io = io_state.down ∧
    sends (mta_free (mta_error s e)).hist = sends s.hist := by
  have h1 : (mta_error s e).status = .alive := by rw [mta_error_status, ha]
  have h2 : (mta_error s e).task = none := by
    rw [mta_error_task, if_pos ⟨ha, hi⟩]
  have h3 : (mta_free (mta_error s e)).hist = s.hist ++
      (Effect.mta_route_error e :: mta_flush_slot_effects s.task IMSG_DELIVERY_TEMPFAIL e) ++
      [Effect.mta_route_collect] := by
    rw [mta_free_hist, if_pos ⟨h1, h2⟩, mta_error_hist, if_pos ⟨ha, hi⟩]
  refine ⟨?_, h3, ?_, ?_, ?_⟩
  · rw [mta_free_status, if_pos h1, h2]; rfl
  · rw [mta_free_task, h2]
  · rw [mta_free_io, if_pos h1]
  · rw [sends_free, sends_error]

theorem not_ignored_of_state (s : mta_session) (h : s.state ≠ MTA_INIT) :
    ¬ mta_error_ignored s := fun hi => h hi.1

theorem hist_prefix_send (s : mta_session) (cmd : List Nat) :
    s.hist <+: (mta_send s cmd).hist := by
  rw [mta_send_hist]; exact List.prefix_append _ _

theorem hist_prefix_error (s : mta_session) (e : List Nat) :
    s.hist <+: (mta_error s e).hist := by
  rw [mta_error_hist]; exact List.prefix_append _ _

theorem hist_prefix_free (s : mta_session) : s.hist <+: (mta_free s).hist := by
  rw [mta_free_hist]; exact List.prefix_append _ _

theorem hist_prefix_connect (w : World) (s : mta_session) :
    s.hist <+: (mta_connect w s).hist := by
  unfold mta_connect
  split_ifs with ha
  · exact List.prefix_refl _
  · dsimp only
    cases hm : mta_connect_mode { s with
        io := io_state.down, iobuf_in := [], iobuf_out := []
        use_smtps := 0, use_starttls := 0, use_smtp_tls := 0 } with
    | none =>
      dsimp only
      refine List.IsPrefix.trans ?_ (hist_prefix_free _)
      refine List.IsPrefix.trans ?_ (hist_prefix_error _ _)
      exact List.prefix_refl _
    | some s1 =>
      have h1 := connect_mode_hist _ _ hm
      dsimp only at h1 ⊢
      cases hc : w.io_connect with
      | none =>
        dsimp only
        simp only [mta_enter_state_head_hist, h1, List.append_assoc]
        exact List.prefix_append _ _
      | some e =>
        dsimp only
        by_cases he : e = EADDRNOTAVAIL
        · rw [if_pos he]
          refine List.IsPrefix.trans ?_ (hist_prefix_free _)
          dsimp only
          simp only [mta_enter_state_head_hist, h1, List.append_assoc]
          exact List.prefix_append _ _
        · rw [if_neg he]
          refine List.IsPrefix.trans ?_ (hist_prefix_free _)
          refine List.IsPrefix.trans ?_ (hist_prefix_error _ _)
          dsimp only
          simp only [mta_enter_state_head_hist, h1, List.append_assoc]
          exact List.prefix_append _ _

theorem hist_prefix_enter_quit (s : mta_session) :
    s.hist <+: (mta_enter_state_quit s).hist := by
  unfold mta_enter_state_quit
  split_ifs
  · exact List.prefix_refl _
  · refine List.IsPrefix.trans ?_ (hist_prefix_send _ _)
    rw [mta_enter_state_head_hist]; exact List.prefix_append _ _

theorem hist_prefix_cons (a b : List Effect) (x : Effect)
    (h : a <+: b) : a <+: b ++ [x] :=
  h.trans (List.prefix_append _ _)

theorem enter_ready_hist (w : World) (s : mta_session) (ha : s.status = .alive) :
    (s.hist ++ [Effect.log_trace s.state MTA_READY]) <+: (mta_enter_state_ready w s).hist := by
  unfold mta_enter_state_ready tree_xset
  rw [if_neg (not_not.mpr ha)]
  have h0 : (s.hist ++ [Effect.log_trace s.state MTA_READY])
      <+: (mta_enter_state_head s MTA_READY).hist := by
    rw [mta_enter_state_head_hist]
  dsimp only
  repeat' first
    | exact h0
    | exact List.prefix_refl _
    | (refine List.IsPrefix.trans ?_ (hist_prefix_enter_quit _))
    | (refine hist_prefix_cons _ _ _ ?_)
    | dsimp only
    | split

theorem enter_auth_hist (w : World) (s : mta_session) (ha : s.status = .alive) :
    (s.hist ++ [Effect.log_trace s.state MTA_AUTH]) <+: (mta_enter_state_auth w s).hist := by
  unfold mta_enter_state_auth
  rw [if_neg (not_not.mpr ha)]
  have h0 : (s.hist ++ [Effect.log_trace s.state MTA_AUTH])
      <+: (mta_enter_state_head s MTA_AUTH).hist := by
    rw [mta_enter_state_head_hist]
  dsimp only
  split
  · split_ifs
    · exact h0.trans (hist_prefix_send _ _)
    · exact h0.trans ((hist_prefix_error _ _).trans (hist_prefix_connect w _))
  · refine h0.trans (List.IsPrefix.trans ?_ (enter_ready_hist w _ ha))
    exact List.prefix_append _ _

theorem enter_starttls_hist (w : World) (s : mta_session) (ha : s.status = .alive) :
    (s.hist ++ [Effect.log_trace s.state MTA_STARTTLS])
      <+: (mta_enter_state_starttls w s).hist := by
  unfold mta_enter_state_starttls
  rw [if_neg (not_not.mpr ha)]
  have h0 : (s.hist ++ [Effect.log_trace s.state MTA_STARTTLS])
      <+: (mta_enter_state_head s MTA_STARTTLS).hist := by
    rw [mta_enter_state_head_hist]
  have h1 : (mta_enter_state_head s MTA_STARTTLS).hist
      <+: (mta_enter_state_auth w (mta_enter_state_head s MTA_STARTTLS)).hist :=
    List.IsPrefix.trans (List.prefix_append _ _) (enter_auth_hist w _ ha)
  dsimp only
  split_ifs
  · exact h0.trans h1
  · exact h0.trans ((hist_prefix_error _ _).trans (hist_prefix_connect w _))
  · exact h0.trans h1
  · exact h0.trans (hist_prefix_send _ _)

/-! ## The flags during the negotiation -/

theorem connect_mode_flags (s s1 : mta_session) (h : mta_connect_mode s = some s1) :
    s1.flags = s.flags ∧ s1.ready = s.ready ∧ s1.task = s.task ∧ s1.status = s.status ∧
      s1.attempt = s.attempt ∧ s1.state = s.state := by
  unfold mta_connect_mode at h
  split_ifs at h <;> simp only [Option.some.injEq] at h <;> subst h <;>
    exact ⟨rfl, rfl, rfl, rfl, rfl, rfl⟩

theorem mta_connect_flags (w : World) (s : mta_session) :
    (mta_connect w s).flags = s.flags := by
  unfold mta_connect
  split_ifs with ha
  · rfl
  · dsimp only
    cases hm : mta_connect_mode { s with
        io := io_state.down, iobuf_in := [], iobuf_out := []
        use_smtps := 0, use_starttls := 0, use_smtp_tls := 0 } with
    | none => simp only [mta_free_flags, mta_error_flags]
    | some s1 =>
      have h1 := (connect_mode_flags _ _ hm).1
      dsimp only at h1 ⊢
      cases hc : w.io_connect with
      | none => exact h1
      | some e =>
        dsimp only
        by_cases he : e = EADDRNOTAVAIL
        · rw [if_pos he, mta_free_flags]; exact h1
        · rw [if_neg he, mta_free_flags, mta_error_flags]; exact h1

theorem mta_enter_state_quit_flags (s : mta_session) :
    (mta_enter_state_quit s).flags = s.flags := by
  unfold mta_enter_state_quit
  split_ifs
  · rfl
  · rw [mta_send_flags, mta_enter_state_head_flags]

theorem mta_enter_state_ready_flags (w : World) (s : mta_session) :
    (mta_enter_state_ready w s).flags = s.flags := by
  unfold mta_enter_state_ready tree_xset
  repeat' first
    | rfl
    | rw [mta_enter_state_quit_flags]
    | dsimp only
    | split

theorem mta_enter_state_auth_flags (w : World) (s : mta_session) :
    (mta_enter_state_auth w s).flags = s.flags := by
  unfold mta_enter_state_auth
  split_ifs with h0
  · rfl
  · dsimp only
    split
    · split_ifs
      · rw [mta_send_flags, mta_enter_state_head_flags]
      · rw [mta_connect_flags, mta_error_flags, mta_enter_state_head_flags]
    · rw [mta_enter_state_ready_flags, mta_enter_state_head_flags]

/-! ## After a reply the input buffer of a session in `MTA_INIT` is empty -/

theorem IQ_dead (s : mta_session) (h : s.status ≠ .alive) : init_quiet s :=
  fun ha => absurd ha h

theorem IQ_state (s : mta_session) (h : s.state ≠ MTA_INIT) : init_quiet s :=
  fun _ hs => absurd hs h

theorem IQ_free (s : mta_session) : init_quiet (mta_free s) :=
  fun ha => (mta_free_not_alive s ha).elim

theorem connect_mode_iobuf_in (s s1 : mta_session) (h : mta_connect_mode s = some s1) :
    s1.iobuf_in = s.iobuf_in := by
  unfold mta_connect_mode at h
  split_ifs at h <;> simp only [Option.some.injEq] at h <;> subst h <;> rfl

theorem IQ_connect (w : World) (s : mta_session) : init_quiet (mta_connect w s) := by
  unfold mta_connect
  by_cases ha : s.status = .alive
  · rw [if_neg (not_not.mpr ha)]
    dsimp only
    cases hm : mta_connect_mode { s with
        io := io_state.down, iobuf_in := [], iobuf_out := []
        use_smtps := 0, use_starttls := 0, use_smtp_tls := 0 } with
    | none => exact IQ_free _
    | some s1 =>
      have h1 := connect_mode_iobuf_in _ _ hm
      dsimp only at h1 ⊢
      cases hc : w.io_connect with
      | none =>
        dsimp only
        intro _ _
        exact h1
      | some e =>
        dsimp only
        by_cases he : e = EADDRNOTAVAIL
        · rw [if_pos he]; exact IQ_free _
        · rw [if_neg he]; exact IQ_free _
  · rw [if_pos ha]; exact IQ_dead s ha

theorem IQ_enter_quit (s : mta_session) : init_quiet (mta_enter_state_quit s) := by
  unfold mta_enter_state_quit
  by_cases ha : s.status = .alive
  · rw [if_neg (not_not.mpr ha)]
    apply IQ_state
    simp only [mta_send_state, mta_enter_state_head_state]
    decide
  · rw [if_pos ha]; exact IQ_dead s ha

theorem IQ_enter_eom (s : mta_session) : init_quiet (mta_enter_state_eom s) := by
  unfold mta_enter_state_eom
  by_cases ha : s.status = .alive
  · rw [if_neg (not_not.mpr ha)]
    apply IQ_state
    simp only [mta_send_state, mta_enter_state_head_state]
    decide
  · rw [if_pos ha]; exact IQ_dead s ha

theorem IQ_enter_ready (w : World) (s : mta_session) :
    init_quiet (mta_enter_state_ready w s) := by
  unfold mta_enter_state_ready tree_xset
  by_cases ha : s.status = .alive
  · rw [if_neg (not_not.mpr ha)]
    dsimp only
    repeat' first
      | exact IQ_enter_quit _
      | (apply IQ_state; dsimp only; simp only [mta_enter_state_head_state]; decide)
      | split
  · rw [if_pos ha]; exact IQ_dead s ha

theorem IQ_enter_auth (w : World) (s : mta_session) :
    init_quiet (mta_enter_state_auth w s) := by
  unfold mta_enter_state_auth
  by_cases ha : s.status = .alive
  · rw [if_neg (not_not.mpr ha)]
    dsimp only
    split
    · split_ifs
      · apply IQ_state
        simp only [mta_send_state, mta_enter_state_head_state]
        decide
      · exact IQ_connect w _
    · exact IQ_enter_ready w _
  · rw [if_pos ha]; exact IQ_dead s ha

theorem IQ_enter_starttls (w : World) (s : mta_session) :
    init_quiet (mta_enter_state_starttls w s) := by
  unfold mta_enter_state_starttls
  by_cases ha : s.status = .alive
  · rw [if_neg (not_not.mpr ha)]
    dsimp only
    split_ifs
    · exact IQ_enter_auth w _
    · exact IQ_connect w _
    · exact IQ_enter_auth w _
    · apply IQ_state
      simp only [mta_send_state, mta_enter_state_head_state]
      decide
  · rw [if_pos ha]; exact IQ_dead s ha

theorem IQ_enter_body (s : mta_session) : init_quiet (mta_enter_state_body s) := by
  unfold mta_enter_state_body
  by_cases ha : s.status = .alive
  · rw [if_neg (not_not.mpr ha)]
    dsimp only
    split
    · exact IQ_enter_eom _
    · split_ifs
      · exact IQ_free _
      · apply IQ_state
        simp only [mta_queue_data_state, mta_enter_state_head_state]
        decide
  · rw [if_pos ha]; exact IQ_dead s ha

theorem IQ_enter_state (w : World) (s : mta_session) (st : mta_state) (hst : st ≠ MTA_INIT) :
    init_quiet (mta_enter_state w s st) := by
  unfold mta_enter_state
  by_cases ha : s.status = .alive
  · rw [if_neg (not_not.mpr ha)]
    cases st with
    | MTA_INIT => exact absurd rfl hst
    | MTA_STARTTLS => exact IQ_enter_starttls w s
    | MTA_AUTH => exact IQ_enter_auth w s
    | MTA_READY => exact IQ_enter_ready w s
    | MTA_BODY => exact IQ_enter_body s
    | MTA_EOM => exact IQ_enter_eom s
    | MTA_QUIT => exact IQ_enter_quit s
    | _ =>
      dsimp only
      repeat' first
        | (apply IQ_state; dsimp only;
           simp only [mta_send_state, mta_enter_state_head_state]; decide)
        | (apply IQ_dead; dsimp only; decide)
        | split
  · rw [if_pos ha]; exact IQ_dead s ha

theorem IQ_response_rcpt (w : World) (s : mta_session) (line : List Nat) :
    init_quiet (mta_response_rcpt w s line) := by
  unfold mta_response_rcpt
  split
  · split
    · apply IQ_dead; dsimp only; decide
    · dsimp only
      split_ifs <;> exact IQ_enter_state w _ _ (fun h => nomatch h)
  · apply IQ_dead; dsimp only; decide

theorem mta_start_tls_state (s : mta_session) : (mta_start_tls s).state = s.state := by
  unfold mta_start_tls tree_xset
  repeat' first
    | rfl
    | dsimp only
    | split

theorem IQ_response (w : World) (s : mta_session) (line : List Nat) :
    init_quiet (mta_response w s line) := by
  unfold mta_response
  by_cases ha : s.status = .alive
  swap
  · rw [if_pos ha]; exact IQ_dead s ha
  rw [if_neg (not_not.mpr ha)]
  split
  all_goals first
    | exact IQ_response_rcpt w s line
    | (apply IQ_dead; dsimp only; decide)
    | skip
  all_goals repeat' first
    | exact IQ_free _
    | exact IQ_enter_state w _ _ (fun h => nomatch h)
    | (apply IQ_state; rw [mta_start_tls_state]; simp only [*]; try decide)
    | split

/-! ## The invariant of the route signal -/

theorem route_ok_count_append (a b : List Effect) :
    route_ok_count (a ++ b) = route_ok_count a + route_ok_count b := by
  simp [route_ok_count]

theorem route_ok_guard_quiet (x : Effect) (hx : route_ok_weight x = 0) :
    ∀ (h : List Effect) (p : Bool), route_ok_guard p (h ++ [x]) = route_ok_guard p h := by
  intro h
  induction h with
  | nil =>
    intro p
    cases x <;> first | rfl | (simp [route_ok_weight] at hx)
  | cons e tl ih =>
    intro p
    rw [List.cons_append]
    cases e <;> simp only [route_ok_guard] <;> rw [ih]

theorem route_ok_guard_quiet_list (l : List Effect) :
    (∀ x ∈ l, route_ok_weight x = 0) →
    ∀ (h : List Effect) (p : Bool), route_ok_guard p (h ++ l) = route_ok_guard p h := by
  induction l with
  | nil => intro _ h p; rw [List.append_nil]
  | cons x tl ih =>
    intro hl h p
    have : h ++ x :: tl = (h ++ [x]) ++ tl := by simp
    rw [this, ih (fun y hy => hl y (List.mem_cons_of_mem _ hy)),
      route_ok_guard_quiet x (hl x (List.mem_cons_self _ _))]

theorem route_ok_guard_signal (old : mta_state) :
    ∀ (h : List Effect) (p : Bool),
      route_ok_guard p ((h ++ [Effect.log_trace old MTA_READY]) ++ [Effect.mta_route_ok])
        = route_ok_guard p h := by
  intro h
  induction h with
  | nil => intro p; rfl
  | cons e tl ih =>
    intro p
    rw [List.cons_append, List.cons_append]
    cases e <;> simp only [route_ok_guard] <;> rw [ih]

theorem route_ok_count_quiet_list (l : List Effect) (hl : ∀ x ∈ l, route_ok_weight x = 0) :
    route_ok_count l = 0 := by
  unfold route_ok_count
  induction l with
  | nil => rfl
  | cons x tl ih =>
    simp only [List.map_cons, List.sum_cons]
    rw [hl x (List.mem_cons_self _ _), ih (fun y hy => hl y (List.mem_cons_of_mem _ hy))]

theorem Wc_quiet_list (h : List Effect) (r f p : Nat) (l : List Effect)
    (hW : Wc h r f p) (hl : ∀ x ∈ l, route_ok_weight x = 0) : Wc (h ++ l) r f p := by
  obtain ⟨w1, w2, w3⟩ := hW
  refine ⟨?_, ?_, w3⟩
  · rw [route_ok_count_append, route_ok_count_quiet_list l hl, Nat.add_zero]; exact w1
  · rw [route_ok_guard_quiet_list l hl]; exact w2

theorem Wc_quiet (h : List Effect) (r f p : Nat) (x : Effect)
    (hW : Wc h r f p) (hx : route_ok_weight x = 0) : Wc (h ++ [x]) r f p :=
  Wc_quiet_list h r f p [x] hW (fun y hy => by
    rw [List.mem_singleton] at hy; rw [hy]; exact hx)

theorem Wc_signal (h : List Effect) (old : mta_state) (f p : Nat) (hW : Wc h 0 f p) :
    Wc ((h ++ [Effect.log_trace old MTA_READY]) ++ [Effect.mta_route_ok]) 1 f p := by
  obtain ⟨w1, w2, w3⟩ := hW
  refine ⟨?_, ?_, w3⟩
  · rw [route_ok_count_append, route_ok_count_append, w1]
    rfl
  · rw [route_ok_guard_signal]; exact w2

theorem and_mask_or (x b : Nat) (hb : b &&& policy_mask = 0) :
    (x ||| b) &&& policy_mask = x &&& policy_mask := by
  rw [Nat.and_comm, Nat.and_or_distrib_left, Nat.and_comm policy_mask b, hb, Nat.and_comm]
  exact Nat.or_zero _

theorem Wc_flags (h : List Effect) (r f p b : Nat) (hW : Wc h r f p)
    (hb : b &&& policy_mask = 0) : Wc h r (f ||| b) p := by
  obtain ⟨w1, w2, w3⟩ := hW
  exact ⟨w1, w2, by rw [and_mask_or f b hb]; exact w3⟩

theorem flush_effects_quiet (t : mta_task) (d : delivery) (e : List Nat) :
    ∀ x ∈ mta_flush_task_effects t d e, route_ok_weight x = 0 := by
  intro x hx
  unfold mta_flush_task_effects at hx
  simp only [List.mem_cons, List.mem_flatMap, List.mem_singleton, List.not_mem_nil,
    or_false] at hx
  rcases hx with h | ⟨a, _, h | h⟩ <;> rw [h] <;> rfl

theorem W_send (p : Nat) (s : mta_session) (cmd : List Nat) (hW : W p s) :
    W p (mta_send s cmd) := by
  unfold mta_send
  split_ifs
  · exact hW
  · exact Wc_quiet _ _ _ _ _ hW rfl

theorem W_head (p : Nat) (s : mta_session) (st : mta_state) (hW : W p s) :
    W p (mta_enter_state_head s st) :=
  Wc_quiet _ _ _ _ (Effect.log_trace s.state st) hW rfl

theorem W_flush (p : Nat) (s : mta_session) (d : delivery) (e : List Nat) (hW : W p s) :
    W p (mta_flush_task s d e) := by
  unfold mta_flush_task
  split_ifs
  · exact hW
  · split
    · exact hW
    · exact Wc_quiet_list _ _ _ _ _ hW (flush_effects_quiet _ _ _)

theorem W_error (p : Nat) (s : mta_session) (e : List Nat) (hW : W p s) :
    W p (mta_error s e) := by
  unfold mta_error
  dsimp only
  split_ifs
  · exact hW
  · exact hW
  · exact W_flush p _ _ _ (Wc_quiet _ _ _ _ (Effect.mta_route_error e) hW rfl)
  · exact Wc_quiet _ _ _ _ (Effect.mta_route_error e) hW rfl

theorem W_free (p : Nat) (s : mta_session) (hW : W p s) : W p (mta_free s) := by
  unfold mta_free
  dsimp only
  split_ifs
  · exact hW
  · exact hW
  · exact Wc_quiet _ _ _ _ Effect.mta_route_collect hW rfl

theorem W_queue_data (p : Nat) (s : mta_session) (hW : W p s) :
    W p (mta_queue_data s).2 := by
  unfold mta_queue_data
  split_ifs with h1
  · exact hW
  · cases hd : s.datafp with
    | none => exact hW
    | some fp =>
      simp only
      cases hl : mta_queue_data_loop (fp.data.length + 1) s.iobuf_out fp with
      | none => exact hW
      | some r =>
        obtain ⟨out, fp1⟩ := r
        have hb : W p { s with
            iobuf_out := out
            datafp := some fp1
            hist := s.hist ++ [Effect.body (out.drop s.iobuf_out.length)] } :=
          Wc_quiet _ _ _ _ (Effect.body (out.drop s.iobuf_out.length)) hW rfl
        simp only
        split_ifs
        · exact W_flush p _ _ _ hb
        · exact hb
        · exact hb

theorem W_connect_mode (p : Nat) (s s1 : mta_session) (h : mta_connect_mode s = some s1)
    (hW : W p s) : W p s1 := by
  unfold mta_connect_mode at h
  split_ifs at h <;> simp only [Option.some.injEq] at h <;> subst h <;> exact hW

theorem W_connect (p : Nat) (w : World) (s : mta_session) (hW : W p s) :
    W p (mta_connect w s) := by
  unfold mta_connect
  split_ifs with ha
  · exact hW
  · dsimp only
    cases hm : mta_connect_mode { s with
        io := io_state.down, iobuf_in := [], iobuf_out := []
        use_smtps := 0, use_starttls := 0, use_smtp_tls := 0 } with
    | none => exact W_free p _ (W_error p _ _ hW)
    | some s1 =>
      have h1 : W p s1 := W_connect_mode p _ _ hm hW
      dsimp only
      cases hc : w.io_connect with
      | none =>
        dsimp only
        repeat' first
          | exact h1
          | apply W_head
          | (apply Wc_quiet <;> first | rfl | skip)
      | some e =>
        dsimp only
        by_cases he : e = EADDRNOTAVAIL
        · rw [if_pos he]
          repeat' first
            | exact h1
            | apply W_free
            | apply W_head
            | (apply Wc_quiet <;> first | rfl | skip)
        · rw [if_neg he]
          repeat' first
            | exact h1
            | apply W_free
            | apply W_error
            | apply W_head
            | (apply Wc_quiet <;> first | rfl | skip)

theorem W_enter_quit (p : Nat) (s : mta_session) (hW : W p s) :
    W p (mta_enter_state_quit s) := by
  unfold mta_enter_state_quit
  split_ifs
  · exact hW
  · exact W_send p _ _ (W_head p _ _ hW)

theorem W_enter_ready (p : Nat) (w : World) (s : mta_session) (hW : W p s) :
    W p (mta_enter_state_ready w s) := by
  unfold mta_enter_state_ready tree_xset
  by_cases ha : s.status = .alive
  · simp only [ha, ne_eq, not_true_eq_false, if_false]
    have hs : W p (if (mta_enter_state_head s MTA_READY).ready = 0 then
        { mta_enter_state_head s MTA_READY with
          ready := 1
          hist := (mta_enter_state_head s MTA_READY).hist ++ [Effect.mta_route_ok] }
        else mta_enter_state_head s MTA_READY) := by
      by_cases hr : (mta_enter_state_head s MTA_READY).ready = 0
      · rw [if_pos hr]
        have hr2 : s.ready = 0 := hr
        have hW0 : Wc s.hist 0 s.flags p := hr2 ▸ hW
        exact Wc_signal _ s.state _ _ hW0
      · rw [if_neg hr]
        exact W_head p _ _ hW
    generalize (if (mta_enter_state_head s MTA_READY).ready = 0 then
        { mta_enter_state_head s MTA_READY with
          ready := 1
          hist := (mta_enter_state_head s MTA_READY).hist ++ [Effect.mta_route_ok] }
        else mta_enter_state_head s MTA_READY) = s1 at hs ⊢
    cases hn : w.next_task <;> (try dsimp only) <;> split_ifs
    all_goals (try dsimp only)
    all_goals repeat' first
      | exact hs
      | apply W_enter_quit
      | (refine Wc_quiet _ _ _ _ _ ?_ rfl)
  · simp only [ha, ne_eq, not_false_eq_true, if_true]
    exact hW

theorem W_enter_auth (p : Nat) (w : World) (s : mta_session) (hW : W p s) :
    W p (mta_enter_state_auth w s) := by
  unfold mta_enter_state_auth
  split_ifs with ha
  · exact hW
  · dsimp only
    cases hs : (mta_enter_state_head s MTA_AUTH).relay.secret with
    | none => exact W_enter_ready p w _ (W_head p _ _ hW)
    | some secret =>
      dsimp only
      split_ifs with hf
      · exact W_send p _ _ (W_head p _ _ hW)
      · exact W_connect p _ _ (W_error p _ _ (W_head p _ _ hW))

theorem W_enter_starttls (p : Nat) (w : World) (s : mta_session) (hW : W p s) :
    W p (mta_enter_state_starttls w s) := by
  unfold mta_enter_state_starttls
  split_ifs with ha
  · exact hW
  · dsimp only
    split_ifs
    · exact W_enter_auth p w _ (W_head p _ _ hW)
    · exact W_connect p _ _ (W_error p _ _ (W_head p _ _ hW))
    · exact W_enter_auth p w _ (W_head p _ _ hW)
    · exact W_send p _ _ (W_head p _ _ hW)

theorem W_enter_eom (p : Nat) (s : mta_session) (hW : W p s) :
    W p (mta_enter_state_eom s) := by
  unfold mta_enter_state_eom
  split_ifs
  · exact hW
  · exact W_send p _ _ (W_head p _ _ hW)

theorem W_enter_body (p : Nat) (s : mta_session) (hW : W p s) :
    W p (mta_enter_state_body s) := by
  unfold mta_enter_state_body
  split_ifs with ha
  · exact hW
  · dsimp only
    cases hd : (mta_enter_state_head s MTA_BODY).datafp with
    | none => exact W_enter_eom p _ (W_head p _ _ hW)
    | some fp =>
      dsimp only
      split_ifs
      · exact W_free p _ (W_queue_data p _ (W_head p _ _ hW))
      · exact W_queue_data p _ (W_head p _ _ hW)

theorem W_enter_state (p : Nat) (w : World) (s : mta_session) (st : mta_state) (hW : W p s) :
    W p (mta_enter_state w s st) := by
  unfold mta_enter_state
  by_cases ha : s.status = .alive
  · simp only [ha, ne_eq, not_true_eq_false, if_false]
    have hH : ∀ st1, Wc (mta_enter_state_head s st1).hist s.ready s.flags p :=
      fun st1 => W_head p s st1 hW
    cases st <;> dsimp only
    · exact W_head p _ _ hW
    · exact W_head p _ _ hW
    · exact W_send p _ _ (W_head p _ _ hW)
    · exact W_send p _ _ (W_head p _ _ hW)
    · exact W_enter_starttls p w s hW
    · exact W_enter_auth p w s hW
    · exact W_enter_ready p w s hW
    · split
      · exact hH _
      · split_ifs
        · exact W_send p _ _ (W_head p _ _ hW)
        · exact W_send p _ _ (W_head p _ _ hW)
    · split
      · exact hH _
      · (try dsimp only)
        split <;> split_ifs <;> (try dsimp only)
        all_goals repeat' first
          | exact hH _
          | exact hW
          | apply W_send
          | apply W_head
    · split
      · exact hH _
      · exact W_send p _ _ (W_head p _ _ hW)
    · exact W_enter_body p s hW
    · exact W_enter_eom p s hW
    · exact W_send p _ _ (W_head p _ _ hW)
    · exact W_enter_quit p s hW
  · simp only [ha, ne_eq, not_false_eq_true, if_true]
    exact hW

theorem W_start_tls (p : Nat) (s : mta_session) (hW : W p s) : W p (mta_start_tls s) := by
  unfold mta_start_tls tree_xset
  split_ifs with h0
  · exact hW
  split <;> (try dsimp only) <;> (try split_ifs) <;> (try dsimp only)
  all_goals repeat' first
    | exact hW
    | (refine Wc_quiet _ _ _ _ _ ?_ rfl)

theorem W_verify_certificate (p : Nat) (w : World) (s : mta_session) (hW : W p s) :
    W p (mta_verify_certificate w s).2 := by
  unfold mta_verify_certificate tree_xset
  split_ifs <;> (try dsimp only)
  all_goals repeat' first
    | exact hW
    | (refine Wc_quiet _ _ _ _ _ ?_ rfl)

theorem envelope_fail_quiet (evp : envelope) (d : delivery) :
    ∀ x ∈ mta_envelope_fail evp d, route_ok_weight x = 0 := by
  intro x hx
  unfold mta_envelope_fail at hx
  simp only [List.mem_cons, List.mem_singleton, List.not_mem_nil, or_false] at hx
  rcases hx with h | h <;> rw [h] <;> rfl

theorem W_response_rcpt (p : Nat) (w : World) (s : mta_session) (line : List Nat)
    (hW : W p s) : W p (mta_response_rcpt w s line) := by
  unfold mta_response_rcpt
  split
  · split
    · exact hW
    · rename_i evp hevp
      dsimp only
      have hfail : ∀ d, Wc (s.hist ++ mta_envelope_fail (envelope_set_errormsg evp line) d)
          s.ready s.flags p := fun d => Wc_quiet_list _ _ _ _ _ hW (envelope_fail_quiet _ _)
      split_ifs
      all_goals repeat' first
        | exact hW
        | exact hfail _
        | apply W_enter_state
        | apply W_flush
  · exact hW

theorem W_response (p : Nat) (w : World) (s : mta_session) (line : List Nat) (hW : W p s) :
    W p (mta_response w s line) := by
  unfold mta_response
  by_cases ha : s.status = .alive
  swap
  · rw [if_pos ha]; exact hW
  rw [if_neg (not_not.mpr ha)]
  have hm : W p { s with msgcount := s.msgcount + 1 } := hW
  split
  all_goals (try split_ifs)
  all_goals first
    | exact hW
    | exact W_enter_state p w _ _ hW
    | exact W_free p _ (W_error p _ _ hW)
    | exact W_start_tls p _ hW
    | exact W_response_rcpt p w s line hW
    | exact W_enter_state p w _ _ (W_flush p _ _ _ hW)
    | exact W_enter_state p w _ _ (W_flush p _ _ _ hm)

theorem W_io_ext (p : Nat) (s : mta_session) (msg : List Nat) (hW : W p s) :
    W p (mta_io_ext s msg) := by
  unfold mta_io_ext
  split_ifs <;> exact hW

theorem W_io_datain (p : Nat) (w : World) : ∀ (fuel : Nat) (s : mta_session), W p s →
    W p (mta_io_datain fuel w s) := by
  intro fuel
  induction fuel with
  | zero => intro s hW; exact hW
  | succ fuel ih =>
    intro s hW
    rw [mta_io_datain]
    split
    · split_ifs
      · exact W_free p _ (W_error p _ _ hW)
      · exact hW
    · rename_i line rest hgl
      dsimp only
      split
      · exact W_free p _ (W_error p _ _ hW)
      · rename_i msg cont hp
        have hW1 : W p (mta_io_ext { s with iobuf_in := rest } (cstr msg)) :=
          W_io_ext p _ _ hW
        by_cases hc : cont = true
        · rw [if_pos hc]
          exact ih _ hW1
        · rw [if_neg hc]
          by_cases hq : (mta_io_ext { s with iobuf_in := rest } (cstr msg)).state = MTA_QUIT
          · rw [if_pos hq]
            exact W_free p _ hW1
          · rw [if_neg hq]
            have hW2 := W_response p w _ (cstr line) hW1
            split
            · split_ifs
              · exact W_free p _ (W_error p _ _ hW2)
              · exact hW2
            · exact hW2
            · exact hW2

theorem W_io_tlsverified (p : Nat) (w : World) (s : mta_session) (hW : W p s) :
    W p (mta_io_tlsverified w s) := by
  unfold mta_io_tlsverified
  split_ifs
  · exact W_enter_state p w _ _ hW
  · exact W_enter_state p w _ _ hW

theorem W_io_fail (p : Nat) (w : World) (s : mta_session) (msg : List Nat) (hW : W p s) :
    W p (mta_io_fail w s msg) := by
  unfold mta_io_fail
  dsimp only
  split_ifs
  · exact W_connect p w _ (W_error p _ _ hW)
  · exact W_free p _ (W_error p _ _ hW)

theorem W_io_switch (p : Nat) (w : World) (s : mta_session) (evt : io_event) (hW : W p s) :
    W p (mta_io_switch w s evt) := by
  unfold mta_io_switch
  cases evt <;> dsimp only
  · split_ifs
    · exact W_start_tls p _ hW
    · exact W_enter_state p w _ _ hW
  · have hWf : W p { s with flags := s.flags ||| MTA_TLS } :=
      Wc_flags _ _ _ _ MTA_TLS hW (by decide)
    have hv := W_verify_certificate p w _ hWf
    split_ifs
    · exact hv
    · exact W_io_tlsverified p w _ hv
  · exact W_io_tlsverified p w _ hW
  · exact W_io_datain p w _ s hW
  · have hW1 : W p (if s.state = MTA_BODY then mta_enter_state w s MTA_BODY else s) := by
      split_ifs
      · exact W_enter_state p w _ _ hW
      · exact hW
    split
    · exact hW1
    · exact hW1
  · exact W_io_fail p w s _ hW
  · exact W_io_fail p w s _ hW
  · exact W_io_fail p w s _ hW

theorem W_io (p : Nat) (w : World) (s : mta_session) (evt : io_event) (hW : W p s) :
    W p (mta_io w s evt) := by
  unfold mta_io
  split_ifs with h0
  · exact hW
  · exact W_io_switch p w _ evt (Wc_quiet _ _ _ _ (Effect.event evt) hW rfl)

theorem W_session_imsg (p : Nat) (w : World) (s : mta_session) (m : imsg) (hW : W p s) :
    W p (mta_session_imsg w s m) := by
  unfold mta_session_imsg tree_xpop
  cases m with
  | IMSG_QUEUE_MESSAGE_FD fd =>
    dsimp only
    split
    · exact hW
    · split_ifs
      · exact hW
      · exact hW
      · exact W_enter_state p w _ _ (W_flush p _ _ _ hW)
      · exact W_enter_state p w _ _ hW
  | IMSG_DNS_PTR =>
    dsimp only
    split_ifs
    · exact hW
    · exact hW
    · exact W_connect p w _ hW
  | IMSG_LKA_SSL_INIT ok =>
    dsimp only
    split_ifs
    · exact hW
    · exact hW
    · exact W_free p _ hW
    · exact Wc_quiet _ _ _ _ _ hW rfl
  | IMSG_LKA_SSL_VERIFY ok =>
    dsimp only
    split_ifs
    · exact hW
    · exact hW
    · exact W_io p w _ _ (Wc_flags _ _ _ _ MTA_VERIFIED hW (by decide))
    · exact W_io p w _ _ hW

theorem W_step (p : Nat) (s : mta_session) (we : World × Event) (hW : W p s) :
    W p (step s we) := by
  unfold step
  split
  · exact hW
  · exact hW
  · split_ifs
    · exact hW
    · dsimp only
      split
      · rename_i e input _
        cases e <;> exact W_io p _ _ _ hW
      · exact W_session_imsg p _ _ _ hW

theorem W_run (p : Nat) (evs : List (World × Event)) : ∀ (s : mta_session), W p s →
    W p (run s evs) := by
  induction evs with
  | nil => intro s hW; exact hW
  | cons e es ih =>
    intro s hW
    have : run s (e :: es) = run (step s e) es := rfl
    rw [this]
    exact ih _ (W_step p s e hW)

/-- The policy flags of a new session: with `MTA_FORCE_TLS` there is
`MTA_WANT_SECURE` (as with every other `MTA_FORCE_` flag but
`MTA_FORCE_PLAIN`). -/
theorem spawn_policy (k : relay_flag_values) (relay : mta_relay) (hostname : List Nat)
    (ptr_known : Bool) (w : World) :
    (mta_session_spawn k relay hostname ptr_known w).flags &&& MTA_FORCE_TLS ≠ 0 →
      (mta_session_spawn k relay hostname ptr_known w).flags &&& MTA_WANT_SECURE ≠ 0 := by
  unfold mta_session_spawn mta_on_ptr
  dsimp only
  by_cases hp : ptr_known = true
  · rw [if_pos hp, mta_connect_flags]
    dsimp only
    split_ifs <;> decide
  · rw [if_neg hp]
    dsimp only
    split_ifs <;> decide

theorem W_spawn (k : relay_flag_values) (relay : mta_relay) (hostname : List Nat)
    (ptr_known : Bool) (w : World) :
    W ((mta_session_spawn k relay hostname ptr_known w).flags &&& policy_mask)
      (mta_session_spawn k relay hostname ptr_known w) := by
  have h0 : ∀ s : mta_session, s.hist = [] → s.ready = 0 → W (s.flags &&& policy_mask) s :=
    fun s h1 h2 => ⟨by rw [h1, h2]; rfl, by rw [h1]; rfl, rfl⟩
  unfold mta_session_spawn mta_on_ptr
  dsimp only
  by_cases hp : ptr_known = true
  · rw [if_pos hp, mta_connect_flags]
    exact W_connect _ w _ (h0 _ rfl rfl)
  · rw [if_neg hp]
    exact ⟨rfl, rfl, rfl⟩

theorem W_reachable (k : relay_flag_values) (relay : mta_relay) (hostname : List Nat)
    (ptr_known : Bool) (w : World) (evs : List (World × Event)) :
    W ((mta_session_spawn k relay hostname ptr_known w).flags &&& policy_mask)
      (run (mta_session_spawn k relay hostname ptr_known w) evs) :=
  W_run _ evs _ (W_spawn k relay hostname ptr_known w)

theorem policy_bit (f g b : Nat) (h : f &&& policy_mask = g &&& policy_mask)
    (hb : b &&& policy_mask = b) : f &&& b = g &&& b := by
  rw [← hb, ← Nat.and_assoc, ← Nat.and_assoc, Nat.and_comm f b, Nat.and_comm g b,
    Nat.and_assoc, Nat.and_assoc, h]

/-- In a run, `MTA_FORCE_TLS` comes with `MTA_WANT_SECURE`. -/
theorem force_tls_want_secure (k : relay_flag_values) (relay : mta_relay)
    (hostname : List Nat) (ptr_known : Bool) (w : World) (evs : List (World × Event)) :
    (run (mta_session_spawn k relay hostname ptr_known w) evs).flags &&& MTA_FORCE_TLS ≠ 0 →
    (run (mta_session_spawn k relay hostname ptr_known w) evs).flags &&& MTA_WANT_SECURE ≠ 0 := by
  have h := (W_reachable k relay hostname ptr_known w evs).2.2
  rw [policy_bit _ _ MTA_FORCE_TLS h (by decide), policy_bit _ _ MTA_WANT_SECURE h (by decide)]
  exact spawn_policy k relay hostname ptr_known w

/-! ## The route signal -/

theorem route_ok_guard_tail (p : Bool) (e : Effect) (tl : List Effect)
    (h : route_ok_guard p (e :: tl) = true) : route_ok_guard (is_ready_trace e) tl = true := by
  cases e <;> first
    | exact h
    | (simp only [route_ok_guard, Bool.and_eq_true] at h; exact h.2)

theorem route_ok_guard_first (p : Bool) (tl : List Effect)
    (h : route_ok_guard p (Effect.mta_route_ok :: tl) = true) : p = true := by
  simp only [route_ok_guard, Bool.and_eq_true] at h
  exact h.1

theorem is_ready_trace_eq (e : Effect) (h : is_ready_trace e = true) :
    ∃ old, e = Effect.log_trace old MTA_READY := by
  cases e with
  | log_trace a b =>
    cases b <;> first
      | exact ⟨a, rfl⟩
      | (exact absurd h Bool.false_ne_true)
  | _ => exact absurd h Bool.false_ne_true

/-- What the guard says about the positions of the history. -/
theorem route_ok_guard_get : ∀ (h : List Effect) (p : Bool) (i : Nat),
    route_ok_guard p h = true → h.get? i = some Effect.mta_route_ok →
    (i = 0 ∧ p = true) ∨
      ∃ j old, i = j + 1 ∧ h.get? j = some (Effect.log_trace old MTA_READY) := by
  intro h
  induction h with
  | nil => intro p i _ hi; cases hi
  | cons e tl ih =>
    intro p i hg hi
    cases i with
    | zero =>
      simp only [List.get?_cons_zero, Option.some.injEq] at hi
      subst hi
      exact Or.inl ⟨rfl, route_ok_guard_first p tl hg⟩
    | succ n =>
      simp only [List.get?_cons_succ] at hi
      rcases ih (is_ready_trace e) n (route_ok_guard_tail p e tl hg) hi with ⟨h0, hp⟩ | ⟨j, old, hj, hget⟩
      · obtain ⟨old, he⟩ := is_ready_trace_eq e hp
        refine Or.inr ⟨0, old, by rw [h0], ?_⟩
        rw [he]
        rfl
      · refine Or.inr ⟨j + 1, old, by rw [hj], ?_⟩
        simp only [List.get?_cons_succ]
        exact hget

/-- C11: in every run of a session, whatever the events and the answers of
the environment, `mta_route_ok` is signalled at most once, reconnections
included: it was signalled once when `ready` is set and never when it is
not. Every `mta_route_ok` of the history comes right after the trace of an
entry into `MTA_READY`. -/
theorem mta_route_ok_once (k : relay_flag_values) (relay : mta_relay) (hostname : List Nat)
    (ptr_known : Bool) (w : World) (evs : List (World × Event)) (s : mta_session)
    (hr : s = run (mta_session_spawn k relay hostname ptr_known w) evs) :
    route_ok_count s.hist ≤ 1 ∧
      route_ok_count s.hist = (if s.ready = 0 then 0 else 1) ∧
      ∀ i, s.hist.get? i = some Effect.mta_route_ok →
        ∃ j old, i = j + 1 ∧ s.hist.get? j = some (Effect.log_trace old MTA_READY) := by
  have hW := W_reachable k relay hostname ptr_known w evs
  rw [← hr] at hW
  obtain ⟨w1, w2, _⟩ := hW
  refine ⟨?_, w1, ?_⟩
  · rw [w1]
    split_ifs
    · exact Nat.zero_le _
    · exact Nat.le_refl _
  · intro i hi
    rcases route_ok_guard_get s.hist false i w2 hi with ⟨_, hp⟩ | h
    · cases hp
    · exact h

set_option maxRecDepth 100000 in
theorem mta_route_ok_once_witness :
    route_ok_count (demo_run demo_relay demo_await_content).hist = 1 ∧
      (demo_run demo_relay demo_await_content).hist.get? 9 = some Effect.mta_route_ok ∧
      ∃ j old, 9 = j + 1 ∧ (demo_run demo_relay demo_await_content).hist.get? j
        = some (Effect.log_trace old MTA_READY) :=
  ⟨by decide, by decide,
    (mta_route_ok_once demo_flag_values demo_relay (str "mail.example.com") true
      (demo_world none) demo_await_content (demo_run demo_relay demo_await_content) rfl).2.2 9
      (by decide)⟩

/-! ## The replies of the negotiation -/

/-- C12: a reply in `MTA_BANNER` is not examined. Whatever its first byte,
`mta_response` enters `MTA_EHLO` and queues `EHLO` with the host name; the
session stays in use and nothing else is recorded. -/
theorem mta_response_banner_unchecked (w : World) (s : mta_session) (line : List Nat)
    (ha : s.status = .alive) (hst : s.state = MTA_BANNER) :
    (mta_response w s line).state = MTA_EHLO ∧
      (mta_response w s line).status = .alive ∧
      (mta_response w s line).hist = s.hist ++
        [Effect.log_trace MTA_BANNER MTA_EHLO, Effect.send (str "EHLO " ++ s.hostname)] ∧
      sends (mta_response w s line).hist = sends s.hist ++ [str "EHLO " ++ s.hostname] := by
  have h : mta_response w s line = mta_enter_state w s MTA_EHLO := by
    unfold mta_response
    rw [if_neg (not_not.mpr ha), hst]
  have hh : (mta_response w s line).hist = s.hist ++
      [Effect.log_trace MTA_BANNER MTA_EHLO, Effect.send (str "EHLO " ++ s.hostname)] := by
    rw [h]
    unfold mta_enter_state
    rw [if_neg (not_not.mpr ha)]
    simp only [mta_send_hist, mta_enter_state_head_hist, mta_enter_state_head_hostname, hst,
      List.append_assoc, List.singleton_append, mta_enter_state_head_status, ha, if_true]
  refine ⟨?_, ?_, hh, ?_⟩
  · rw [h]
    unfold mta_enter_state
    rw [if_neg (not_not.mpr ha)]
    simp only [mta_send_state, mta_enter_state_head_state]
  · rw [h]
    unfold mta_enter_state
    rw [if_neg (not_not.mpr ha)]
    simp only [mta_send_status, mta_enter_state_head_status, ha]
  · rw [hh, sends_append]
    rfl

set_option maxRecDepth 100000 in
theorem mta_response_banner_unchecked_witness :
    (demo_run demo_relay (demo_banner_refused.take 1)).status = .alive ∧
      (demo_run demo_relay (demo_banner_refused.take 1)).state = MTA_BANNER ∧
      (str "554 no service").headD 0 ≠ 50 ∧
      (demo_run demo_relay demo_banner_refused).state = MTA_EHLO ∧
      sends (demo_run demo_relay demo_banner_refused).hist = [str "EHLO mail.example.com"] ∧
      (mta_response (demo_world none) (demo_run demo_relay (demo_banner_refused.take 1))
        (str "554 no service")).state = MTA_EHLO :=
  ⟨by decide, by decide, by decide, by decide, by decide,
    (mta_response_banner_unchecked (demo_world none)
      (demo_run demo_relay (demo_banner_refused.take 1)) (str "554 no service")
      (by decide) (by decide)).1⟩

/-- C18: a reply to `EHLO` that does not start with `2` tears the session
down, after the route error `EHLO rejected` with the reply line, when
`MTA_USE_AUTH` or `MTA_WANT_SECURE` is set, and nothing is queued; otherwise
the session enters `MTA_HELO` and queues `HELO` with the host name, and
nothing else. A reply that starts with `2` enters `MTA_STARTTLS` when
`MTA_FORCE_PLAIN` is clear and `MTA_READY` when it is set. -/
theorem mta_response_ehlo (w : World) (s : mta_session) (line : List Nat)
    (ha : s.status = .alive) (hst : s.state = MTA_EHLO) :
    (line.headD 0 ≠ 50 →
      s.flags &&& MTA_USE_AUTH ≠ 0 ∨ s.flags &&& MTA_WANT_SECURE ≠ 0 →
      (mta_response w s line).status = .freed ∧
      (mta_response w s line).hist = s.hist ++
        (Effect.mta_route_error (str "EHLO rejected: " ++ line) ::
          mta_flush_slot_effects s.task IMSG_DELIVERY_TEMPFAIL (str "EHLO rejected: " ++ line))
        ++ [Effect.mta_route_collect] ∧
      sends (mta_response w s line).hist = sends s.hist) ∧
    (line.headD 0 ≠ 50 →
      ¬ (s.flags &&& MTA_USE_AUTH ≠ 0 ∨ s.flags &&& MTA_WANT_SECURE ≠ 0) →
      (mta_response w s line).status = .alive ∧
      (mta_response w s line).state = MTA_HELO ∧
      (mta_response w s line).hist = s.hist ++
        [Effect.log_trace MTA_EHLO MTA_HELO, Effect.send (str "HELO " ++ s.hostname)] ∧
      sends (mta_response w s line).hist = sends s.hist ++ [str "HELO " ++ s.hostname]) ∧
    (line.headD 0 = 50 → s.flags &&& MTA_FORCE_PLAIN = 0 →
      mta_response w s line = mta_enter_state w s MTA_STARTTLS ∧
      (s.hist ++ [Effect.log_trace MTA_EHLO MTA_STARTTLS]) <+: (mta_response w s line).hist) ∧
    (line.headD 0 = 50 → s.flags &&& MTA_FORCE_PLAIN ≠ 0 →
      mta_response w s line = mta_enter_state w s MTA_READY ∧
      (s.hist ++ [Effect.log_trace MTA_EHLO MTA_READY]) <+: (mta_response w s line).hist) := by
  have hni : ¬ mta_error_ignored s := not_ignored_of_state s (by rw [hst]; decide)
  refine ⟨?_, ?_, ?_, ?_⟩
  · intro hl hf
    have h : mta_response w s line = mta_free (mta_error s (str "EHLO rejected: " ++ line)) := by
      unfold mta_response
      rw [if_neg (not_not.mpr ha), hst]
      dsimp only
      rw [if_pos hl, if_pos hf]
    obtain ⟨e1, e2, _, _, e5⟩ := mta_free_error_ok s (str "EHLO rejected: " ++ line) ha hni
    rw [h]
    exact ⟨e1, e2, e5⟩
  · intro hl hf
    have h : mta_response w s line = mta_enter_state w s MTA_HELO := by
      unfold mta_response
      rw [if_neg (not_not.mpr ha), hst]
      dsimp only
      rw [if_pos hl, if_neg hf]
    have hh : (mta_response w s line).hist = s.hist ++
        [Effect.log_trace MTA_EHLO MTA_HELO, Effect.send (str "HELO " ++ s.hostname)] := by
      rw [h]
      unfold mta_enter_state
      rw [if_neg (not_not.mpr ha)]
      simp only [mta_send_hist, mta_enter_state_head_hist, mta_enter_state_head_hostname, hst,
        List.append_assoc, List.singleton_append, mta_enter_state_head_status, ha, if_true]
    refine ⟨?_, ?_, hh, ?_⟩
    · rw [h]
      unfold mta_enter_state
      rw [if_neg (not_not.mpr ha)]
      simp only [mta_send_status, mta_enter_state_head_status, ha]
    · rw [h]
      unfold mta_enter_state
      rw [if_neg (not_not.mpr ha)]
      simp only [mta_send_state, mta_enter_state_head_state]
    · rw [hh, sends_append]
      rfl
  · intro hl hf
    have h : mta_response w s line = mta_enter_state w s MTA_STARTTLS := by
      unfold mta_response
      rw [if_neg (not_not.mpr ha), hst]
      dsimp only
      rw [if_neg (not_not.mpr hl), if_pos hf]
    refine ⟨h, ?_⟩
    rw [h]
    unfold mta_enter_state
    rw [if_neg (not_not.mpr ha)]
    have := enter_starttls_hist w s ha
    rw [hst] at this
    exact this
  · intro hl hf
    have h : mta_response w s line = mta_enter_state w s MTA_READY := by
      unfold mta_response
      rw [if_neg (not_not.mpr ha), hst]
      dsimp only
      rw [if_neg (not_not.mpr hl), if_neg hf]
    refine ⟨h, ?_⟩
    rw [h]
    unfold mta_enter_state
    rw [if_neg (not_not.mpr ha)]
    have := enter_ready_hist w s ha
    rw [hst] at this
    exact this

set_option maxRecDepth 100000 in
theorem mta_response_ehlo_witness :
    ((demo_run demo_relay_auth demo_greeted).status = .alive ∧
      (demo_run demo_relay_auth demo_greeted).state = MTA_EHLO ∧
      (str "500 unknown command").headD 0 ≠ 50 ∧
      (demo_run demo_relay_auth demo_greeted).flags &&& MTA_WANT_SECURE ≠ 0 ∧
      (mta_response (demo_world none) (demo_run demo_relay_auth demo_greeted)
        (str "500 unknown command")).status = .freed ∧
      sends (mta_response (demo_world none) (demo_run demo_relay_auth demo_greeted)
        (str "500 unknown command")).hist = [str "EHLO mail.example.com"]) ∧
    ((demo_run demo_relay demo_greeted).status = .alive ∧
      (demo_run demo_relay demo_greeted).state = MTA_EHLO ∧
      ¬ ((demo_run demo_relay demo_greeted).flags &&& MTA_USE_AUTH ≠ 0 ∨
        (demo_run demo_relay demo_greeted).flags &&& MTA_WANT_SECURE ≠ 0) ∧
      (mta_response (demo_world none) (demo_run demo_relay demo_greeted)
        (str "500 unknown command")).state = MTA_HELO ∧
      sends (mta_response (demo_world none) (demo_run demo_relay demo_greeted)
        (str "500 unknown command")).hist
        = [str "EHLO mail.example.com", str "HELO mail.example.com"]) :=
  ⟨⟨by decide, by decide, by decide, by decide,
      ((mta_response_ehlo (demo_world none) (demo_run demo_relay_auth demo_greeted)
        (str "500 unknown command") (by decide) (by decide)).1 (by decide)
        (Or.inr (by decide))).1,
      by decide⟩,
    ⟨by decide, by decide, by decide,
      ((mta_response_ehlo (demo_world none) (demo_run demo_relay demo_greeted)
        (str "500 unknown command") (by decide) (by decide)).2.1 (by decide)
        (by decide)).2.1,
      by decide⟩⟩

/-- C19: a reply to `STARTTLS` that does not start with `2` on a session with
`MTA_WANT_SECURE`, and a reply to `AUTH` that does not start with `2`, record
the route error with the reply line and tear the session down: nothing is
queued, no connection is opened and the attempt counter stays. A refused
`STARTTLS` on a session without `MTA_WANT_SECURE` enters `MTA_AUTH`, with the
flags as they were. -/
theorem mta_response_negotiation_refused (w : World) (s : mta_session) (line : List Nat)
    (ha : s.status = .alive) (hl : line.headD 0 ≠ 50) :
    (s.state = MTA_STARTTLS → s.flags &&& MTA_WANT_SECURE ≠ 0 →
      (mta_response w s line).status = .freed ∧
      (mta_response w s line).hist = s.hist ++
        (Effect.mta_route_error (str "STARTTLS rejected: " ++ line) ::
          mta_flush_slot_effects s.task IMSG_DELIVERY_TEMPFAIL
            (str "STARTTLS rejected: " ++ line))
        ++ [Effect.mta_route_collect] ∧
      sends (mta_response w s line).hist = sends s.hist ∧
      (mta_response w s line).attempt = s.attempt ∧
      (mta_response w s line).io = io_state.down) ∧
    (s.state = MTA_AUTH →
      (mta_response w s line).status = .freed ∧
      (mta_response w s line).hist = s.hist ++
        (Effect.mta_route_error (str "AUTH rejected: " ++ line) ::
          mta_flush_slot_effects s.task IMSG_DELIVERY_TEMPFAIL (str "AUTH rejected: " ++ line))
        ++ [Effect.mta_route_collect] ∧
      sends (mta_response w s line).hist = sends s.hist ∧
      (mta_response w s line).attempt = s.attempt ∧
      (mta_response w s line).io = io_state.down) ∧
    (s.state = MTA_STARTTLS → s.flags &&& MTA_WANT_SECURE = 0 →
      mta_response w s line = mta_enter_state w s MTA_AUTH ∧
      (s.hist ++ [Effect.log_trace MTA_STARTTLS MTA_AUTH]) <+: (mta_response w s line).hist ∧
      (mta_response w s line).flags = s.flags) := by
  refine ⟨?_, ?_, ?_⟩
  · intro hst hf
    have hni : ¬ mta_error_ignored s := not_ignored_of_state s (by rw [hst]; decide)
    have h : mta_response w s line
        = mta_free (mta_error s (str "STARTTLS rejected: " ++ line)) := by
      unfold mta_response
      rw [if_neg (not_not.mpr ha), hst]
      dsimp only
      rw [if_pos hl, if_neg hf]
    obtain ⟨e1, e2, _, e4, e5⟩ := mta_free_error_ok s (str "STARTTLS rejected: " ++ line) ha hni
    rw [h]
    exact ⟨e1, e2, e5, by rw [mta_free_attempt, mta_error_attempt], e4⟩
  · intro hst
    have hni : ¬ mta_error_ignored s := not_ignored_of_state s (by rw [hst]; decide)
    have h : mta_response w s line = mta_free (mta_error s (str "AUTH rejected: " ++ line)) := by
      unfold mta_response
      rw [if_neg (not_not.mpr ha), hst]
      dsimp only
      rw [if_pos hl]
    obtain ⟨e1, e2, _, e4, e5⟩ := mta_free_error_ok s (str "AUTH rejected: " ++ line) ha hni
    rw [h]
    exact ⟨e1, e2, e5, by rw [mta_free_attempt, mta_error_attempt], e4⟩
  · intro hst hf
    have h : mta_response w s line = mta_enter_state w s MTA_AUTH := by
      unfold mta_response
      rw [if_neg (not_not.mpr ha), hst]
      dsimp only
      rw [if_pos hl, if_pos hf]
    have h2 : mta_enter_state w s MTA_AUTH = mta_enter_state_auth w s := by
      unfold mta_enter_state
      rw [if_neg (not_not.mpr ha)]
    refine ⟨h, ?_, ?_⟩
    · rw [h, h2]
      have := enter_auth_hist w s ha
      rw [hst] at this
      exact this
    · rw [h, h2, mta_enter_state_auth_flags]

set_option maxRecDepth 100000 in
theorem mta_response_negotiation_refused_witness :
    (demo_run demo_relay_auth demo_starttls_sent).status = .alive ∧
      (str "454 TLS not available").headD 0 ≠ 50 ∧
      (demo_run demo_relay_auth demo_starttls_sent).state = MTA_STARTTLS ∧
      (demo_run demo_relay_auth demo_starttls_sent).flags &&& MTA_WANT_SECURE ≠ 0 ∧
      (mta_response (demo_world none) (demo_run demo_relay_auth demo_starttls_sent)
        (str "454 TLS not available")).status = .freed ∧
      (mta_response (demo_world none) (demo_run demo_relay_auth demo_starttls_sent)
        (str "454 TLS not available")).attempt = 1 ∧
      sends (mta_response (demo_world none) (demo_run demo_relay_auth demo_starttls_sent)
        (str "454 TLS not available")).hist
        = [str "EHLO mail.example.com", str "STARTTLS"] ∧
      Effect.mta_route_error (str "STARTTLS rejected: 454 TLS not available")
        ∈ (mta_response (demo_world none) (demo_run demo_relay_auth demo_starttls_sent)
          (str "454 TLS not available")).hist :=
  ⟨by decide, by decide, by decide, by decide,
    ((mta_response_negotiation_refused (demo_world none)
      (demo_run demo_relay_auth demo_starttls_sent) (str "454 TLS not available")
      (by decide) (by decide)).1 (by decide) (by decide)).1,
    by decide, by decide, by decide⟩

/-! ## Replies without a transition -/

/-- C14: `mta_response` has no transition for a reply in `MTA_INIT`,
`MTA_READY` or `MTA_BODY`: the reply reaches `fatalx("mta_response() bad
state")`, which ends the process. A complete reply line that `mta_io` finds
in the input in one of these states is passed to `mta_response`: the process
ends with the task still attached, no verdict and no route error. -/
theorem mta_response_bad_state (w : World) (s : mta_session) (line : List Nat)
    (ha : s.status = .alive)
    (hst : s.state = MTA_INIT ∨ s.state = MTA_READY ∨ s.state = MTA_BODY) :
    (mta_response w s line).status = .fatal "mta_response() bad state" ∧
    (mta_response w s line).hist = s.hist ∧
    (mta_response w s line).task = s.task ∧
    (∀ (fuel : Nat) (reply rest msg : List Nat),
      iobuf_getline s.iobuf_in = some (reply, rest) →
      parse_smtp_response reply = .ok (msg, false) →
      (mta_io_datain (fuel + 1) w s).status = .fatal "mta_response() bad state" ∧
      (mta_io_datain (fuel + 1) w s).hist = s.hist ∧
      (mta_io_datain (fuel + 1) w s).task = s.task) := by
  have hr : ∀ (x : mta_session) (l : List Nat), x.status = .alive → x.state = s.state →
      mta_response w x l = { x with status := .fatal "mta_response() bad state" } := by
    intro x l hx hxs
    unfold mta_response
    rw [if_neg (not_not.mpr hx), hxs]
    rcases hst with h | h | h <;> rw [h]
  refine ⟨?_, ?_, ?_, ?_⟩
  · rw [hr s line ha rfl]
  · rw [hr s line ha rfl]
  · rw [hr s line ha rfl]
  · intro fuel reply rest msg hgl hp
    have hne : s.state ≠ MTA_EHLO := by
      rcases hst with h | h | h <;> rw [h] <;> decide
    have hnq : s.state ≠ MTA_QUIT := by
      rcases hst with h | h | h <;> rw [h] <;> decide
    have hext : mta_io_ext { s with iobuf_in := rest } (cstr msg) = { s with iobuf_in := rest } := by
      unfold mta_io_ext
      rw [if_neg hne]
    have hd : mta_io_datain (fuel + 1) w s
        = { s with iobuf_in := rest, status := .fatal "mta_response() bad state" } := by
      rw [mta_io_datain, hgl]
      dsimp only
      rw [hp]
      dsimp only
      rw [hext, if_neg (by simp), if_neg hnq, hr { s with iobuf_in := rest } (cstr reply) ha rfl]
    rw [hd]
    exact ⟨rfl, rfl, rfl⟩

set_option maxRecDepth 100000 in
theorem mta_response_bad_state_witness :
    (demo_run demo_relay demo_await_content).status = .alive ∧
      (demo_run demo_relay demo_await_content).state = MTA_READY ∧
      (demo_run demo_relay demo_await_content).task = some demo_task ∧
      enabled (demo_run demo_relay demo_await_content)
        (Event.io IO_DATAIN (str "421 closing connection" ++ CRLF)) = true ∧
      (demo_run demo_relay demo_unsolicited).status = .fatal "mta_response() bad state" ∧
      (demo_run demo_relay demo_unsolicited).task = some demo_task ∧
      verdicts (demo_run demo_relay demo_unsolicited).hist = [] ∧
      (mta_response (demo_world none) (demo_run demo_relay demo_await_content)
        (str "421 closing connection")).status = .fatal "mta_response() bad state" :=
  ⟨by decide, by decide, by decide, by decide, by decide, by decide, by decide,
    (mta_response_bad_state (demo_world none) (demo_run demo_relay demo_await_content)
      (str "421 closing connection") (by decide) (Or.inr (Or.inl (by decide)))).1⟩

/-! ## Input after a reply -/

theorem mta_free_iobuf_in (s : mta_session) (ha : s.status = .alive) :
    (mta_free s).iobuf_in = [] := by
  unfold mta_free
  rw [if_neg (not_not.mpr ha)]
  dsimp only
  split <;> rfl

theorem step_io_down (s : mta_session) (hio : s.io = io_state.down) (w : World)
    (e : io_event) (input : List Nat) : step s (w, Event.io e input) = s := by
  have hen : enabled s (Event.io e input) = false := by
    unfold enabled
    cases e <;> simp [hio]
  unfold step
  split
  · rfl
  · rfl
  · dsimp only
    rw [if_pos hen]

/-- C13: when `mta_io` has handled a complete reply in a state other than
`MTA_QUIT`, the session is still in use and its input buffer is not empty,
`mta_error` is called with `Remote host sent too much data`, which records
the route error and flushes the task, and the session is torn down: its
buffers are discarded and its stream is closed. In particular an accepted
reply to `STARTTLS` that comes with more bytes ends the session, and no event
of the stream is handled after that. -/
theorem mta_io_too_much_data (w : World) (s : mta_session) (fuel : Nat)
    (line rest msg : List Nat) (ha : s.status = .alive)
    (hgl : iobuf_getline s.iobuf_in = some (line, rest))
    (hp : parse_smtp_response line = .ok (msg, false)) (hq : s.state ≠ MTA_QUIT) :
    ((mta_response w (mta_io_ext { s with iobuf_in := rest } (cstr msg)) (cstr line)).status
        = .alive →
      (mta_response w (mta_io_ext { s with iobuf_in := rest } (cstr msg)) (cstr line)).iobuf_in
        ≠ [] →
      mta_io_datain (fuel + 1) w s
        = mta_free (mta_error
            (mta_response w (mta_io_ext { s with iobuf_in := rest } (cstr msg)) (cstr line))
            (str "Remote host sent too much data")) ∧
      (mta_io_datain (fuel + 1) w s).status = .freed ∧
      (mta_io_datain (fuel + 1) w s).hist
        = (mta_response w (mta_io_ext { s with iobuf_in := rest } (cstr msg)) (cstr line)).hist
          ++ (Effect.mta_route_error (str "Remote host sent too much data") ::
            mta_flush_slot_effects
              (mta_response w (mta_io_ext { s with iobuf_in := rest } (cstr msg))
                (cstr line)).task
              IMSG_DELIVERY_TEMPFAIL (str "Remote host sent too much data"))
          ++ [Effect.mta_route_collect] ∧
      (mta_io_datain (fuel + 1) w s).task = none ∧
      (mta_io_datain (fuel + 1) w s).iobuf_in = [] ∧
      (mta_io_datain (fuel + 1) w s).io = io_state.down) ∧
    (s.state = MTA_STARTTLS → (cstr line).headD 0 = 50 → rest ≠ [] →
      s.wait_ssl_init = false →
      (mta_io_datain (fuel + 1) w s).status = .freed ∧
      Effect.mta_route_error (str "Remote host sent too much data")
        ∈ (mta_io_datain (fuel + 1) w s).hist ∧
      (mta_io_datain (fuel + 1) w s).iobuf_in = [] ∧
      (mta_io_datain (fuel + 1) w s).io = io_state.down ∧
      ∀ (w1 : World) (e : io_event) (input : List Nat),
        step (mta_io_datain (fuel + 1) w s) (w1, Event.io e input)
          = mta_io_datain (fuel + 1) w s) := by
  have main : (mta_response w (mta_io_ext { s with iobuf_in := rest } (cstr msg))
        (cstr line)).status = .alive →
      (mta_response w (mta_io_ext { s with iobuf_in := rest } (cstr msg)) (cstr line)).iobuf_in
        ≠ [] →
      mta_io_datain (fuel + 1) w s
        = mta_free (mta_error
            (mta_response w (mta_io_ext { s with iobuf_in := rest } (cstr msg)) (cstr line))
            (str "Remote host sent too much data")) ∧
      (mta_io_datain (fuel + 1) w s).status = .freed ∧
      (mta_io_datain (fuel + 1) w s).hist
        = (mta_response w (mta_io_ext { s with iobuf_in := rest } (cstr msg)) (cstr line)).hist
          ++ (Effect.mta_route_error (str "Remote host sent too much data") ::
            mta_flush_slot_effects
              (mta_response w (mta_io_ext { s with iobuf_in := rest } (cstr msg))
                (cstr line)).task
              IMSG_DELIVERY_TEMPFAIL (str "Remote host sent too much data"))
          ++ [Effect.mta_route_collect] ∧
      (mta_io_datain (fuel + 1) w s).task = none ∧
      (mta_io_datain (fuel + 1) w s).iobuf_in = [] ∧
      (mta_io_datain (fuel + 1) w s).io = io_state.down := by
    have hs1 : (mta_io_ext { s with iobuf_in := rest } (cstr msg)).state = s.state :=
      (mta_io_ext_frame { s with iobuf_in := rest } (cstr msg)).2.1
    have hiq := IQ_response w (mta_io_ext { s with iobuf_in := rest } (cstr msg)) (cstr line)
    have hd0 : ∀ x : mta_session,
        mta_response w (mta_io_ext { s with iobuf_in := rest } (cstr msg)) (cstr line) = x →
        x.status = .alive → x.iobuf_in ≠ [] →
        mta_io_datain (fuel + 1) w s
          = mta_free (mta_error x (str "Remote host sent too much data")) := by
      intro x hx h2 hne
      rw [mta_io_datain, hgl]
      dsimp only
      rw [hp]
      dsimp only
      rw [if_neg (by simp), if_neg (by rw [hs1]; exact hq), hx]
      split
      · rw [if_pos hne]
      · rename_i h3; rw [h2] at h3; cases h3
      · rename_i h3 _; exact absurd h2 h3
    generalize hx : mta_response w (mta_io_ext { s with iobuf_in := rest } (cstr msg))
      (cstr line) = s2 at hiq ⊢
    replace hd0 := hd0 s2 hx
    intro h2 hne
    have hni : ¬ mta_error_ignored s2 := fun hi => hne (hiq h2 hi.1)
    have hd : mta_io_datain (fuel + 1) w s
        = mta_free (mta_error s2 (str "Remote host sent too much data")) := hd0 h2 hne
    obtain ⟨e1, e2, e3, e4, _⟩ :=
      mta_free_error_ok s2 (str "Remote host sent too much data") h2 hni
    rw [hd]
    exact ⟨rfl, e1, e2, e3,
      mta_free_iobuf_in _ (by rw [mta_error_status]; exact h2), e4⟩
  refine ⟨main, ?_⟩
  intro hst hl hrest hw
  have hext : mta_io_ext { s with iobuf_in := rest } (cstr msg) = { s with iobuf_in := rest } := by
    unfold mta_io_ext
    rw [if_neg (by dsimp only; rw [hst]; decide)]
  have hr : mta_response w { s with iobuf_in := rest } (cstr line)
      = mta_start_tls { s with iobuf_in := rest } := by
    unfold mta_response
    rw [if_neg (not_not.mpr (by exact ha))]
    dsimp only
    rw [hst]
    dsimp only
    rw [if_neg (not_not.mpr hl)]
  have hal : (mta_start_tls { s with iobuf_in := rest }).status = .alive ∧
      (mta_start_tls { s with iobuf_in := rest }).iobuf_in = rest := by
    unfold mta_start_tls tree_xset
    rw [if_neg (not_not.mpr (by exact ha))]
    split
    · dsimp only
      rw [if_neg (by rw [hw]; decide)]
      exact ⟨ha, rfl⟩
    · exact ⟨ha, rfl⟩
  rw [hext, hr] at main
  obtain ⟨m1, m2, m3, m4, m5, m6⟩ := main hal.1 (by rw [hal.2]; exact hrest)
  refine ⟨m2, ?_, m5, m6, fun w1 e input => step_io_down _ m6 w1 e input⟩
  rw [m3]
  simp

set_option maxRecDepth 100000 in
theorem mta_io_too_much_data_witness :
    (demo_run demo_relay_auth demo_starttls_sent).status = .alive ∧
      (demo_run demo_relay_auth demo_starttls_sent).state = MTA_STARTTLS ∧
      (demo_run demo_relay_auth demo_starttls_injection).status = .freed ∧
      Effect.mta_route_error (str "Remote host sent too much data")
        ∈ (demo_run demo_relay_auth demo_starttls_injection).hist ∧
      sends (demo_run demo_relay_auth demo_starttls_injection).hist
        = [str "EHLO mail.example.com", str "STARTTLS"] ∧
      (demo_run demo_relay_auth
        (demo_starttls_injection ++ [(demo_world none, Event.io IO_TLSREADY [])]))
        = demo_run demo_relay_auth demo_starttls_injection ∧
      (mta_io_datain 1 (demo_world none)
        { demo_run demo_relay_auth demo_starttls_sent with
          iobuf_in := str "220 go ahead" ++ CRLF ++ str "250 injected" ++ CRLF }).status
        = .freed :=
  ⟨by decide, by decide, by decide, by decide, by decide, by decide,
    ((mta_io_too_much_data (demo_world none)
      { demo_run demo_relay_auth demo_starttls_sent with
        iobuf_in := str "220 go ahead" ++ CRLF ++ str "250 injected" ++ CRLF } 0
      (str "220 go ahead") (str "250 injected" ++ CRLF) (str "go ahead")
      (by decide) (by decide) rfl (by decide)).2
      (by decide) (by decide) (by decide) (by decide)).1⟩

/-! ## The connection -/

theorem and_or_ne_iff (x a b : Nat) : x &&& (a ||| b) ≠ 0 ↔ x &&& a ≠ 0 ∨ x &&& b ≠ 0 := by
  rw [Nat.and_or_distrib_left]
  constructor
  · intro h
    by_contra hc
    push_neg at hc
    apply h
    rw [hc.1, hc.2]
    rfl
  · intro h h0
    obtain ⟨h1, h2⟩ := lor_eq_zero _ _ h0
    rcases h with h | h
    · exact h h1
    · exact h h2

theorem connect_mode_select (s : mta_session) :
    (select_mode s.flags s.attempt = none → mta_connect_mode s = none) ∧
    (∀ m, select_mode s.flags s.attempt = some m →
      ∃ s1, mta_connect_mode s = some s1 ∧
        s1.use_smtps = (if m = connection_mode.implicit_smtps then 1 else s.use_smtps) ∧
        s1.use_starttls = (if m = connection_mode.required_starttls then 1
          else s.use_starttls) ∧
        s1.use_smtp_tls = (if m = connection_mode.opportunistic_starttls then 1
          else s.use_smtp_tls)) := by
  constructor
  · intro h
    unfold select_mode at h
    unfold mta_connect_mode
    simp only [and_or_ne_iff]
    split_ifs at h ⊢ <;> first | rfl | cases h
  · intro m h
    unfold select_mode at h
    unfold mta_connect_mode
    simp only [and_or_ne_iff]
    split_ifs at h <;> simp only [Option.some.injEq] at h <;> subst h <;> simp [*]

theorem mta_connect_some (w : World) (s s1 : mta_session) (ha : s.status = .alive)
    (hm : mta_connect_mode { s with
        io := io_state.down, iobuf_in := [], iobuf_out := []
        use_smtps := 0, use_starttls := 0, use_smtp_tls := 0 } = some s1) :
    (mta_connect w s).use_smtps = s1.use_smtps ∧
    (mta_connect w s).use_starttls = s1.use_starttls ∧
    (mta_connect w s).use_smtp_tls = s1.use_smtp_tls ∧
    (mta_connect w s).attempt = s.attempt + 1 ∧
    (s.hist ++ [Effect.log_trace s.state MTA_INIT,
        Effect.io_connect (if s.relay.port ≠ 0 then s.relay.port
          else if s1.use_smtps ≠ 0 then 465 else 25)]) <+: (mta_connect w s).hist := by
  have hf := connect_mode_flags _ _ hm
  have hh := connect_mode_hist _ _ hm
  have hr : s1.relay = s.relay := by
    unfold mta_connect_mode at hm
    split_ifs at hm <;> simp only [Option.some.injEq] at hm <;> subst hm <;> rfl
  dsimp only at hf hh hr
  have hat := hf.2.2.2.2.1
  have hst := hf.2.2.2.2.2
  unfold mta_connect
  rw [if_neg (not_not.mpr ha)]
  dsimp only
  rw [hm]
  dsimp only
  have hbase : (s.hist ++ [Effect.log_trace s.state MTA_INIT,
        Effect.io_connect (if s.relay.port ≠ 0 then s.relay.port
          else if s1.use_smtps ≠ 0 then 465 else 25)]) <+:
      (mta_enter_state_head { s1 with attempt := s1.attempt + 1 } MTA_INIT).hist ++
        [Effect.io_connect (if s1.relay.port ≠ 0 then s1.relay.port
          else if s1.use_smtps ≠ 0 then 465 else 25)] := by
    rw [mta_enter_state_head_hist]
    dsimp only
    rw [hh, hst, hr, List.append_assoc]
    exact List.prefix_refl _
  cases hc : w.io_connect with
  | none =>
    dsimp only
    exact ⟨rfl, rfl, rfl, by simp only [mta_enter_state_head_attempt, hat], hbase⟩
  | some e =>
    dsimp only
    by_cases he : e = EADDRNOTAVAIL
    · rw [if_pos he]
      refine ⟨(mta_free_use_smtps _).trans rfl, (mta_free_use_starttls _).trans rfl,
        (mta_free_use_smtp_tls _).trans rfl,
        by simp only [mta_free_attempt, mta_enter_state_head_attempt, hat], ?_⟩
      refine List.IsPrefix.trans ?_ (hist_prefix_free _)
      exact hist_prefix_cons _ _ _ hbase
    · rw [if_neg he]
      refine ⟨((mta_free_use_smtps _).trans (mta_error_use_smtps _ _)).trans rfl,
        ((mta_free_use_starttls _).trans (mta_error_use_starttls _ _)).trans rfl,
        ((mta_free_use_smtp_tls _).trans (mta_error_use_smtp_tls _ _)).trans rfl,
        by simp only [mta_free_attempt, mta_error_attempt, mta_enter_state_head_attempt, hat], ?_⟩
      refine List.IsPrefix.trans ?_ (hist_prefix_free _)
      refine List.IsPrefix.trans ?_ (hist_prefix_error _ _)
      exact hbase

theorem mta_connect_none (w : World) (s : mta_session) (ha : s.status = .alive)
    (hm : mta_connect_mode { s with
        io := io_state.down, iobuf_in := [], iobuf_out := []
        use_smtps := 0, use_starttls := 0, use_smtp_tls := 0 } = none) :
    mta_connect w s = mta_free (mta_error { s with
        io := io_state.down, iobuf_in := [], iobuf_out := []
        use_smtps := 0, use_starttls := 0, use_smtp_tls := 0 } (str "Could not connect")) := by
  unfold mta_connect
  rw [if_neg (not_not.mpr ha)]
  dsimp only
  rw [hm]

theorem mta_error_of_ignored (s : mta_session) (e : List Nat) (hi : mta_error_ignored s) :
    mta_error s e = s := by
  unfold mta_error
  unfold mta_error_ignored at hi
  split_ifs <;> rfl

/-- C15: `mta_connect` selects the mode of the specification. When the flags
and the attempt counter give a mode, the three indicators are those of the
mode, the attempt counter is incremented and a connection to the port of the
mode is opened. When they give none, nothing is opened and the attempt
counter stays: `mta_error` is called with `Could not connect` and the session
is torn down; the route error is recorded unless `mta_error` ignores it. At
most one indicator is set. -/
theorem mta_connect_selects_mode (w : World) (s : mta_session) (ha : s.status = .alive) :
    (∀ m, select_mode s.flags s.attempt = some m →
      ((mta_connect w s).use_smtps, (mta_connect w s).use_starttls,
        (mta_connect w s).use_smtp_tls) = mode_indicators m ∧
      (mta_connect w s).attempt = s.attempt + 1 ∧
      (s.hist ++ [Effect.log_trace s.state MTA_INIT,
        Effect.io_connect (connect_port s.relay m)]) <+: (mta_connect w s).hist) ∧
    (select_mode s.flags s.attempt = none →
      mta_connect w s = mta_free (mta_error { s with
        io := io_state.down, iobuf_in := [], iobuf_out := []
        use_smtps := 0, use_starttls := 0, use_smtp_tls := 0 } (str "Could not connect")) ∧
      (mta_connect w s).attempt = s.attempt ∧
      ((mta_connect w s).use_smtps, (mta_connect w s).use_starttls,
        (mta_connect w s).use_smtp_tls) = (0, 0, 0) ∧
      (¬ mta_error_ignored s →
        (mta_connect w s).status = .freed ∧
        (mta_connect w s).hist = s.hist ++
          (Effect.mta_route_error (str "Could not connect") ::
            mta_flush_slot_effects s.task IMSG_DELIVERY_TEMPFAIL (str "Could not connect"))
          ++ [Effect.mta_route_collect]) ∧
      (mta_error_ignored s → s.task = none →
        (mta_connect w s).status = .freed ∧
        (mta_connect w s).hist = s.hist ++ [Effect.mta_route_collect])) ∧
    (mta_connect w s).use_smtps + (mta_connect w s).use_starttls
      + (mta_connect w s).use_smtp_tls ≤ 1 := by
  obtain ⟨hn, hs⟩ := connect_mode_select { s with
      io := io_state.down, iobuf_in := [], iobuf_out := []
      use_smtps := 0, use_starttls := 0, use_smtp_tls := 0 }
  dsimp only at hn hs
  have hsome : ∀ m, select_mode s.flags s.attempt = some m →
      ((mta_connect w s).use_smtps, (mta_connect w s).use_starttls,
        (mta_connect w s).use_smtp_tls) = mode_indicators m ∧
      (mta_connect w s).attempt = s.attempt + 1 ∧
      (s.hist ++ [Effect.log_trace s.state MTA_INIT,
        Effect.io_connect (connect_port s.relay m)]) <+: (mta_connect w s).hist := by
    intro m hsel
    obtain ⟨s1, hm, i1, i2, i3⟩ := hs m hsel
    obtain ⟨c1, c2, c3, c4, c5⟩ := mta_connect_some w s s1 ha hm
    refine ⟨?_, c4, ?_⟩
    · rw [c1, c2, c3, i1, i2, i3]
      cases m <;> rfl
    · have hp : connect_port s.relay m
          = (if s.relay.port ≠ 0 then s.relay.port else if s1.use_smtps ≠ 0 then 465 else 25) := by
        unfold connect_port
        rw [i1]
        cases m <;> simp
      rw [hp]
      exact c5
  have hnone : select_mode s.flags s.attempt = none →
      mta_connect w s = mta_free (mta_error { s with
        io := io_state.down, iobuf_in := [], iobuf_out := []
        use_smtps := 0, use_starttls := 0, use_smtp_tls := 0 } (str "Could not connect")) :=
    fun hsel => mta_connect_none w s ha (hn hsel)
  refine ⟨hsome, ?_, ?_⟩
  · intro hsel
    have h := hnone hsel
    refine ⟨h, ?_, ?_, ?_, ?_⟩
    · rw [h, mta_free_attempt, mta_error_attempt]
    · rw [h, mta_free_use_smtps, mta_error_use_smtps, mta_free_use_starttls,
        mta_error_use_starttls, mta_free_use_smtp_tls, mta_error_use_smtp_tls]
    · intro hi
      obtain ⟨e1, e2, _⟩ := mta_free_error_ok { s with
        io := io_state.down, iobuf_in := [], iobuf_out := []
        use_smtps := 0, use_starttls := 0, use_smtp_tls := 0 } (str "Could not connect") ha hi
      rw [h]
      exact ⟨e1, e2⟩
    · intro hi ht
      rw [h]
      have hi0 : mta_error_ignored { s with
          io := io_state.down, iobuf_in := [], iobuf_out := []
          use_smtps := 0, use_starttls := 0, use_smtp_tls := 0 } := hi
      rw [mta_error_of_ignored _ _ hi0]
      constructor
      · rw [mta_free_status]
        dsimp only
        rw [if_pos ha, ht]
        rfl
      · rw [mta_free_hist]
        dsimp only
        rw [if_pos ⟨ha, ht⟩]
  · cases hsel : select_mode s.flags s.attempt with
    | none =>
      rw [hnone hsel, mta_free_use_smtps, mta_error_use_smtps, mta_free_use_starttls,
        mta_error_use_starttls, mta_free_use_smtp_tls, mta_error_use_smtp_tls]
      dsimp only
      decide
    | some m =>
      have h3 := (hsome m hsel).1
      have a : (mta_connect w s).use_smtps = (mode_indicators m).1 := by rw [← h3]
      have b : (mta_connect w s).use_starttls = (mode_indicators m).2.1 := by rw [← h3]
      have c : (mta_connect w s).use_smtp_tls = (mode_indicators m).2.2 := by rw [← h3]
      rw [a, b, c]
      cases m <;> decide

set_option maxRecDepth 100000 in
theorem mta_connect_selects_mode_witness :
    ((demo_run demo_relay_auth demo_greeted).status = .alive ∧
      (demo_run demo_relay_auth demo_greeted).attempt = 1 ∧
      (demo_run demo_relay_auth demo_greeted).flags &&& MTA_FORCE_ANYSSL ≠ 0 ∧
      select_mode (demo_run demo_relay_auth demo_greeted).flags
        (demo_run demo_relay_auth demo_greeted).attempt = some connection_mode.implicit_smtps ∧
      (((mta_connect (demo_world none) (demo_run demo_relay_auth demo_greeted)).use_smtps,
          (mta_connect (demo_world none) (demo_run demo_relay_auth demo_greeted)).use_starttls,
          (mta_connect (demo_world none) (demo_run demo_relay_auth demo_greeted)).use_smtp_tls)
          = mode_indicators connection_mode.implicit_smtps ∧
        (mta_connect (demo_world none) (demo_run demo_relay_auth demo_greeted)).attempt
          = (demo_run demo_relay_auth demo_greeted).attempt + 1 ∧
        ((demo_run demo_relay_auth demo_greeted).hist ++
          [Effect.log_trace (demo_run demo_relay_auth demo_greeted).state MTA_INIT,
            Effect.io_connect (connect_port (demo_run demo_relay_auth demo_greeted).relay
              connection_mode.implicit_smtps)])
          <+: (mta_connect (demo_world none) (demo_run demo_relay_auth demo_greeted)).hist) ∧
      connect_port (demo_run demo_relay_auth demo_greeted).relay
        connection_mode.implicit_smtps = 465) ∧
    ((demo_run demo_relay demo_greeted).status = .alive ∧
      (demo_run demo_relay demo_greeted).attempt = 1 ∧
      select_mode (demo_run demo_relay demo_greeted).flags
        (demo_run demo_relay demo_greeted).attempt = none ∧
      (mta_connect (demo_world none) (demo_run demo_relay demo_greeted)).status = .freed ∧
      Effect.mta_route_error (str "Could not connect")
        ∈ (mta_connect (demo_world none) (demo_run demo_relay demo_greeted)).hist ∧
      (mta_connect (demo_world none) (demo_run demo_relay demo_greeted)).attempt = 1) :=
  ⟨⟨by decide, by decide, by decide, by decide,
      (mta_connect_selects_mode (demo_world none) (demo_run demo_relay_auth demo_greeted)
        (by decide)).1 connection_mode.implicit_smtps (by decide),
      by decide⟩,
    ⟨by decide, by decide, by decide,
      ((((mta_connect_selects_mode (demo_world none) (demo_run demo_relay demo_greeted)
        (by decide)).2.1 (by decide)).2.2.2.1) (by decide)).1,
      by decide, by decide⟩⟩

/-! ## The entry into `MTA_STARTTLS` -/

theorem verdicts_error_none (s : mta_session) (e : List Nat) (ht : s.task = none) :
    verdicts (mta_error s e).hist = verdicts s.hist := by
  rw [mta_error_hist, verdicts_append, ht]
  split_ifs
  · exact List.append_nil _
  · exact List.append_nil _

theorem verdicts_free (s : mta_session) : verdicts (mta_free s).hist = verdicts s.hist := by
  rw [mta_free_hist, verdicts_append]
  split_ifs
  · exact List.append_nil _
  · exact List.append_nil _

theorem mta_error_keeps_none (s : mta_session) (e : List Nat) (ht : s.task = none) :
    (mta_error s e).task = none := by
  rw [mta_error_task]
  split_ifs
  · rfl
  · exact ht

theorem mta_free_freed (s : mta_session) (ha : s.status = .alive) (ht : s.task = none) :
    (mta_free s).status = .freed := by
  unfold mta_free
  rw [if_neg (not_not.mpr ha)]
  dsimp only
  rw [ht]
  rfl

/-- With an empty task slot `mta_connect` emits no verdict and attaches no
task; the session is torn down, or it is in `MTA_INIT` with the next attempt
and a connection in progress. -/
theorem mta_connect_idle (w : World) (s : mta_session) (ha : s.status = .alive)
    (ht : s.task = none) :
    verdicts (mta_connect w s).hist = verdicts s.hist ∧
    (mta_connect w s).task = none ∧
    ((mta_connect w s).status = .freed ∨
      ((mta_connect w s).status = .alive ∧ (mta_connect w s).state = MTA_INIT ∧
        (mta_connect w s).attempt = s.attempt + 1 ∧
        (mta_connect w s).io = io_state.connect)) := by
  unfold mta_connect
  rw [if_neg (not_not.mpr ha)]
  dsimp only
  cases hm : mta_connect_mode { s with
      io := io_state.down, iobuf_in := [], iobuf_out := []
      use_smtps := 0, use_starttls := 0, use_smtp_tls := 0 } with
  | none =>
    dsimp only
    refine ⟨?_, ?_, Or.inl ?_⟩
    · rw [verdicts_free]
      exact verdicts_error_none _ _ ht
    · rw [mta_free_task]; exact mta_error_keeps_none _ _ ht
    · exact mta_free_freed _ ((mta_error_status _ _).trans ha) (mta_error_keeps_none _ _ ht)
  | some s1 =>
    have hf := connect_mode_flags _ _ hm
    have hh := connect_mode_hist _ _ hm
    dsimp only at hf hh
    obtain ⟨_, _, ht1, ha1, hat, _⟩ := hf
    have ht2 : s1.task = none := ht1.trans ht
    have ha2 : s1.status = .alive := ha1.trans ha
    have e1 : ∀ a b, verdicts [Effect.log_trace a b] = [] := fun _ _ => rfl
    have e2 : ∀ p, verdicts [Effect.io_connect p] = [] := fun _ => rfl
    have e3 : ∀ m, verdicts [Effect.mta_source_error m] = [] := fun _ => rfl
    dsimp only
    cases hc : w.io_connect with
    | none =>
      dsimp only
      refine ⟨?_, ht2, Or.inr ⟨ha2, rfl, ?_, rfl⟩⟩
      · simp only [mta_enter_state_head_hist, verdicts_append, hh, e1, e2, List.append_nil]
      · simp only [mta_enter_state_head_attempt, hat]
    | some e =>
      dsimp only
      by_cases he : e = EADDRNOTAVAIL
      · rw [if_pos he]
        refine ⟨?_, ?_, Or.inl ?_⟩
        · rw [verdicts_free]
          dsimp only
          simp only [mta_enter_state_head_hist, verdicts_append, hh, e1, e2, e3,
            List.append_nil]
        · rw [mta_free_task]; exact ht2
        · exact mta_free_freed _ ha2 ht2
      · rw [if_neg he]
        refine ⟨?_, ?_, Or.inl ?_⟩
        · rw [verdicts_free]
          refine (verdicts_error_none _ _ ?_).trans ?_
          · exact ht2
          dsimp only
          simp only [mta_enter_state_head_hist, verdicts_append, hh, e1, e2, List.append_nil]
        · rw [mta_free_task]; exact mta_error_keeps_none _ _ ht2
        · exact mta_free_freed _ ((mta_error_status _ _).trans ha2)
            (mta_error_keeps_none _ _ ht2)

/-- C16: the entry into `MTA_STARTTLS`, which is made in `MTA_EHLO`. The
session `r` is that of a run, and `s` is `r` as the handler of the reply
finds it: state, task and flags are those of `r` (buffers, `errno`,
extensions and the mark of the event may differ). With `MTA_TLS` the machine moves on to
the entry into `MTA_AUTH` and has sent nothing. Without it, when the peer did
not advertise `STARTTLS` and the session has `MTA_WANT_SECURE`, the route
error is recorded and `mta_connect` goes to the next attempt: no command is
sent, no task is attached, no verdict is emitted, and the session is torn
down or awaits the new connection. When the peer did not advertise
`STARTTLS` and the session has no `MTA_WANT_SECURE`, the machine moves on to
the entry into `MTA_AUTH`. In the remaining case `STARTTLS` is the one command
sent. -/
theorem mta_enter_state_starttls_cases (k : relay_flag_values) (relay : mta_relay)
    (hostname : List Nat) (ptr_known : Bool) (w : World) (evs : List (World × Event))
    (r s : mta_session) (w1 : World)
    (hr : r = run (mta_session_spawn k relay hostname ptr_known w) evs)
    (hra : r.status = .alive) (hrs : r.state = MTA_EHLO)
    (hf : s.status = r.status ∧ s.state = r.state ∧ s.task = r.task ∧ s.flags = r.flags) :
    (s.flags &&& MTA_TLS ≠ 0 →
      mta_enter_state w1 s MTA_STARTTLS
        = mta_enter_state w1 (mta_enter_state_head s MTA_STARTTLS) MTA_AUTH ∧
      (mta_enter_state_head s MTA_STARTTLS).hist
        = s.hist ++ [Effect.log_trace MTA_EHLO MTA_STARTTLS]) ∧
    (s.flags &&& MTA_TLS = 0 → s.ext &&& MTA_EXT_STARTTLS = 0 →
      s.flags &&& MTA_WANT_SECURE ≠ 0 →
      mta_enter_state w1 s MTA_STARTTLS
        = mta_connect w1 (mta_error (mta_enter_state_head s MTA_STARTTLS)
            (str "TLS required but not supported by remote host")) ∧
      (s.hist ++ [Effect.log_trace MTA_EHLO MTA_STARTTLS,
          Effect.mta_route_error (str "TLS required but not supported by remote host")])
        <+: (mta_enter_state w1 s MTA_STARTTLS).hist ∧
      sends (mta_enter_state w1 s MTA_STARTTLS).hist = sends s.hist ∧
      verdicts (mta_enter_state w1 s MTA_STARTTLS).hist = verdicts s.hist ∧
      (mta_enter_state w1 s MTA_STARTTLS).task = none ∧
      ((mta_enter_state w1 s MTA_STARTTLS).status = .freed ∨
        ((mta_enter_state w1 s MTA_STARTTLS).status = .alive ∧
          (mta_enter_state w1 s MTA_STARTTLS).state = MTA_INIT ∧
          (mta_enter_state w1 s MTA_STARTTLS).attempt = s.attempt + 1 ∧
          (mta_enter_state w1 s MTA_STARTTLS).io = io_state.connect))) ∧
    (s.flags &&& MTA_TLS = 0 → s.ext &&& MTA_EXT_STARTTLS = 0 →
      s.flags &&& MTA_WANT_SECURE = 0 →
      mta_enter_state w1 s MTA_STARTTLS
        = mta_enter_state w1 (mta_enter_state_head s MTA_STARTTLS) MTA_AUTH ∧
      (mta_enter_state_head s MTA_STARTTLS).hist
        = s.hist ++ [Effect.log_trace MTA_EHLO MTA_STARTTLS]) ∧
    (s.flags &&& MTA_TLS = 0 → s.ext &&& MTA_EXT_STARTTLS ≠ 0 →
      (mta_enter_state w1 s MTA_STARTTLS).hist
        = s.hist ++ [Effect.log_trace MTA_EHLO MTA_STARTTLS, Effect.send (str "STARTTLS")] ∧
      sends (mta_enter_state w1 s MTA_STARTTLS).hist = sends s.hist ++ [str "STARTTLS"] ∧
      (mta_enter_state w1 s MTA_STARTTLS).state = MTA_STARTTLS ∧
      (mta_enter_state w1 s MTA_STARTTLS).status = .alive ∧
      (mta_enter_state w1 s MTA_STARTTLS).task = none) := by
  have hg : G r := by
    rw [hr] at hra ⊢
    exact G_reachable k relay hostname ptr_known w evs hra
  have ha : s.status = .alive := hf.1.trans hra
  have hst : s.state = MTA_EHLO := hf.2.1.trans hrs
  have ht : s.task = none := hf.2.2.1.trans (task_none_of r hg.2.2.1 (by rw [hrs]; rfl))
  have hfw : s.flags &&& MTA_FORCE_TLS ≠ 0 → s.flags &&& MTA_WANT_SECURE ≠ 0 := by
    rw [hf.2.2.2, hr]
    exact force_tls_want_secure k relay hostname ptr_known w evs
  have ha0 : (mta_enter_state_head s MTA_STARTTLS).status = .alive := ha
  have hh : (mta_enter_state_head s MTA_STARTTLS).hist
      = s.hist ++ [Effect.log_trace MTA_EHLO MTA_STARTTLS] := by
    rw [mta_enter_state_head_hist, hst]
  have hE : mta_enter_state w1 s MTA_STARTTLS = mta_enter_state_starttls w1 s := by
    unfold mta_enter_state
    rw [if_neg (not_not.mpr ha)]
  have hA : mta_enter_state w1 (mta_enter_state_head s MTA_STARTTLS) MTA_AUTH
      = mta_enter_state_auth w1 (mta_enter_state_head s MTA_STARTTLS) := by
    unfold mta_enter_state
    rw [if_neg (not_not.mpr ha0)]
  refine ⟨?_, ?_, ?_, ?_⟩
  · intro htls
    refine ⟨?_, hh⟩
    rw [hE, hA]
    unfold mta_enter_state_starttls
    rw [if_neg (not_not.mpr ha)]
    dsimp only
    simp only [mta_enter_state_head_flags, mta_enter_state_head_ext]
    rw [if_pos htls]
  · intro htls hext hws
    have hEq : mta_enter_state w1 s MTA_STARTTLS
        = mta_connect w1 (mta_error (mta_enter_state_head s MTA_STARTTLS)
            (str "TLS required but not supported by remote host")) := by
      rw [hE]
      unfold mta_enter_state_starttls
      rw [if_neg (not_not.mpr ha)]
      dsimp only
      simp only [mta_enter_state_head_flags, mta_enter_state_head_ext]
      rw [if_neg (not_not.mpr htls), if_pos hext, if_pos (Or.inr hws)]
    have hni : ¬ mta_error_ignored (mta_enter_state_head s MTA_STARTTLS) :=
      not_ignored_of_state _ (by rw [mta_enter_state_head_state]; decide)
    have hEh : (mta_error (mta_enter_state_head s MTA_STARTTLS)
        (str "TLS required but not supported by remote host")).hist
        = s.hist ++ [Effect.log_trace MTA_EHLO MTA_STARTTLS,
          Effect.mta_route_error (str "TLS required but not supported by remote host")] := by
      rw [mta_error_hist, if_pos ⟨ha0, hni⟩, hh, mta_enter_state_head_task, ht,
        List.append_assoc]
      rfl
    have hEt : (mta_error (mta_enter_state_head s MTA_STARTTLS)
        (str "TLS required but not supported by remote host")).task = none :=
      mta_error_keeps_none _ _ ht
    have hEa : (mta_error (mta_enter_state_head s MTA_STARTTLS)
        (str "TLS required but not supported by remote host")).status = .alive :=
      (mta_error_status _ _).trans ha0
    obtain ⟨c1, c2, c3⟩ := mta_connect_idle w1 _ hEa hEt
    rw [hEq]
    refine ⟨rfl, ?_, ?_, ?_, c2, ?_⟩
    · rw [← hEh]
      exact hist_prefix_connect w1 _
    · rw [sends_connect, sends_error, hh, sends_append]
      exact List.append_nil _
    · rw [c1]
      refine (verdicts_error_none _ _ ?_).trans ?_
      · exact ht
      · rw [hh, verdicts_append]
        exact List.append_nil _
    · rw [mta_error_attempt, mta_enter_state_head_attempt] at c3
      exact c3
  · intro htls hext hws
    refine ⟨?_, hh⟩
    have hft : ¬ (s.flags &&& MTA_FORCE_TLS ≠ 0 ∨ s.flags &&& MTA_WANT_SECURE ≠ 0) := by
      intro h
      rcases h with h | h
      · exact hfw h hws
      · exact h hws
    rw [hE, hA]
    unfold mta_enter_state_starttls
    rw [if_neg (not_not.mpr ha)]
    dsimp only
    simp only [mta_enter_state_head_flags, mta_enter_state_head_ext]
    rw [if_neg (not_not.mpr htls), if_pos hext, if_neg hft]
  · intro htls hext
    have hEq : mta_enter_state w1 s MTA_STARTTLS
        = mta_send (mta_enter_state_head s MTA_STARTTLS) (str "STARTTLS") := by
      rw [hE]
      unfold mta_enter_state_starttls
      rw [if_neg (not_not.mpr ha)]
      dsimp only
      simp only [mta_enter_state_head_flags, mta_enter_state_head_ext]
      rw [if_neg (not_not.mpr htls), if_neg hext]
    have hH : (mta_enter_state w1 s MTA_STARTTLS).hist
        = s.hist ++ [Effect.log_trace MTA_EHLO MTA_STARTTLS, Effect.send (str "STARTTLS")] := by
      rw [hEq, mta_send_hist, if_pos ha0, hh, List.append_assoc]
      rfl
    refine ⟨hH, ?_, ?_, ?_, ?_⟩
    · rw [hH, sends_append]
      rfl
    · rw [hEq, mta_send_state, mta_enter_state_head_state]
    · rw [hEq, mta_send_status]
      exact ha0
    · rw [hEq, mta_send_task, mta_enter_state_head_task]
      exact ht

set_option maxRecDepth 100000 in
theorem mta_enter_state_starttls_cases_witness :
    (demo_run demo_relay_secure demo_greeted).status = .alive ∧
      (demo_run demo_relay_secure demo_greeted).state = MTA_EHLO ∧
      (demo_run demo_relay_secure demo_greeted).flags &&& MTA_TLS = 0 ∧
      (demo_run demo_relay_secure demo_greeted).ext &&& MTA_EXT_STARTTLS = 0 ∧
      (demo_run demo_relay_secure demo_greeted).flags &&& MTA_WANT_SECURE ≠ 0 ∧
      sends (mta_enter_state (demo_world none) (demo_run demo_relay_secure demo_greeted)
        MTA_STARTTLS).hist = sends (demo_run demo_relay_secure demo_greeted).hist ∧
      (mta_enter_state (demo_world none) (demo_run demo_relay_secure demo_greeted)
        MTA_STARTTLS).attempt = 2 :=
  ⟨by decide, by decide, by decide, by decide, by decide,
    ((mta_enter_state_starttls_cases demo_flag_values demo_relay_secure
      (str "mail.example.com") true (demo_world none) demo_greeted
      (demo_run demo_relay_secure demo_greeted) (demo_run demo_relay_secure demo_greeted)
      (demo_world none) rfl (by decide) (by decide) ⟨rfl, rfl, rfl, rfl⟩).2.1
      (by decide) (by decide) (by decide)).2.2.1,
    by decide⟩

/-! ## The content handle -/

/-- C17: `mta_flush_task` does not touch the content handle. When `MAIL` or
`DATA` is refused the task is flushed and the session enters `MTA_RSET` with
the handle still open, and the handle that arrives for the next task is
stored over it. -/
theorem mta_flush_task_keeps_datafp (w : World) (s : mta_session) (d : delivery)
    (e line : List Nat) :
    (mta_flush_task s d e).datafp = s.datafp ∧
    (s.status = .alive → s.task.isSome = true →
      (s.state = MTA_MAIL ∧ line.headD 0 ≠ 50) ∨
        (s.state = MTA_DATA ∧ line.headD 0 ≠ 50 ∧ line.headD 0 ≠ 51) →
      (mta_response w s line).datafp = s.datafp ∧
      (mta_response w s line).task = none ∧
      (mta_response w s line).state = MTA_RSET ∧
      (mta_response w s line).status = .alive) ∧
    (∀ content broken, s.status = .alive → s.wait_fd = true →
      (mta_check_loop MAX_HOPS_COUNT (fdopen content broken)).1 = 0 →
      (mta_session_imsg w s (IMSG_QUEUE_MESSAGE_FD (some (content, broken)))).datafp
        = some (mta_check_loop MAX_HOPS_COUNT (fdopen content broken)).2 ∨
      (mta_session_imsg w s (IMSG_QUEUE_MESSAGE_FD (some (content, broken)))).status
        ≠ .alive) := by
  refine ⟨mta_flush_task_datafp s d e, ?_, ?_⟩
  · intro ha ht hc
    obtain ⟨t, htk⟩ := Option.isSome_iff_exists.mp ht
    have hfa : (mta_flush_task s (mta_response_delivery line) line).status = .alive := by
      rw [mta_flush_task_status, if_neg (by simp [htk]), ha]
    have h : mta_response w s line
        = mta_enter_state w (mta_flush_task s (mta_response_delivery line) line) MTA_RSET := by
      unfold mta_response
      rw [if_neg (not_not.mpr ha)]
      rcases hc with ⟨hs, hl⟩ | ⟨hs, hl, hl2⟩
      · rw [hs]; dsimp only; rw [if_pos hl]
      · rw [hs]; dsimp only; rw [if_neg (not_or.mpr ⟨hl, hl2⟩)]
    rw [h]
    unfold mta_enter_state
    rw [if_neg (not_not.mpr hfa)]
    dsimp only
    simp only [mta_send_datafp, mta_enter_state_head_datafp, mta_flush_task_datafp,
      mta_send_task, mta_enter_state_head_task, mta_flush_task_task, ha, if_true,
      mta_send_state, mta_enter_state_head_state, mta_send_status,
      mta_enter_state_head_status, hfa, and_self]
  · intro content broken ha hw hl
    unfold mta_session_imsg tree_xpop
    dsimp only
    rw [if_neg (by simp [hw]), if_neg (by simp [ha]), if_neg (by simp [hl])]
    unfold mta_enter_state
    rw [if_neg (not_not.mpr (by exact ha))]
    dsimp only
    split
    · right; simp
    · left
      split_ifs <;> simp only [mta_send_datafp, mta_enter_state_head_datafp]

set_option maxRecDepth 100000 in
theorem mta_flush_task_keeps_datafp_witness :
    (demo_run demo_relay (demo_second_task.take 4)).status = .alive ∧
      (demo_run demo_relay (demo_second_task.take 4)).state = MTA_MAIL ∧
      (demo_run demo_relay (demo_second_task.take 4)).datafp
        = some (fdopen (str "Subject: one\n\nfirst\n") false) ∧
      (demo_run demo_relay (demo_second_task.take 5)).datafp
        = some (fdopen (str "Subject: one\n\nfirst\n") false) ∧
      (demo_run demo_relay (demo_second_task.take 5)).task = none ∧
      (demo_run demo_relay (demo_second_task.take 6)).datafp
        = some (fdopen (str "Subject: one\n\nfirst\n") false) ∧
      (demo_run demo_relay (demo_second_task.take 6)).state = MTA_READY ∧
      (demo_run demo_relay demo_second_task).datafp
        = some (fdopen (str "Subject: two\n\nsecond\n") false) ∧
      ((mta_response (demo_world none) (demo_run demo_relay (demo_second_task.take 4))
          (str "550 sender refused")).datafp
        = (demo_run demo_relay (demo_second_task.take 4)).datafp ∧
      (mta_response (demo_world none) (demo_run demo_relay (demo_second_task.take 4))
          (str "550 sender refused")).task = none ∧
      (mta_response (demo_world none) (demo_run demo_relay (demo_second_task.take 4))
          (str "550 sender refused")).state = MTA_RSET ∧
      (mta_response (demo_world none) (demo_run demo_relay (demo_second_task.take 4))
          (str "550 sender refused")).status = .alive) :=
  ⟨by decide, by decide, by decide, by decide, by decide, by decide, by decide, by decide,
    (mta_flush_task_keeps_datafp (demo_world none)
      (demo_run demo_relay (demo_second_task.take 4)) IMSG_DELIVERY_PERMFAIL
      (str "550 sender refused") (str "550 sender refused")).2.1
      (by decide) (by decide) (Or.inl ⟨by decide, by decide⟩)⟩

/-! ## The task slot -/

/-- C20: the task slot of a session of a run. The slot holds at most one
task by its type. The check of `mta_free`, which ends the process with
`current task should have been deleted already` exactly when the slot is
filled, never fires in a run. For a session `r` of a run that is in use, and
`s` being `r` as a handler finds it (status, state, task and the wait for the
content are those of `r`): the slot is filled exactly in the states from
`MTA_READY` to `MTA_EOM`; a teardown after `mta_error` and the teardown in
`MTA_QUIT` find it empty; it is empty in the states whose replies enter
`MTA_READY` with the session as it is, and the two other entries, after the
reply to the end of the message and after a loop was detected, flush the task
first. -/
theorem task_slot_discipline (k : relay_flag_values) (relay : mta_relay)
    (hostname : List Nat) (ptr_known : Bool) (w : World) (evs : List (World × Event))
    (r s : mta_session) (w1 : World) (line e content : List Nat) (broken : Bool)
    (hr : r = run (mta_session_spawn k relay hostname ptr_known w) evs)
    (hf : s.status = r.status ∧ s.state = r.state ∧ s.task = r.task ∧
      s.wait_fd = r.wait_fd) :
    ¬ free_aborted r ∧
    (r.status = .alive →
      r.task.isSome = task_state r.state ∧
      (free_aborted (mta_free s) ↔ s.task.isSome = true) ∧
      (mta_free (mta_error s e)).status = .freed ∧
      (r.state = MTA_QUIT → (mta_free s).status = .freed) ∧
      (r.state = MTA_EHLO ∨ r.state = MTA_HELO ∨ r.state = MTA_STARTTLS ∨
        r.state = MTA_AUTH ∨ r.state = MTA_RSET → s.task = none) ∧
      (r.state = MTA_EOM →
        mta_response w1 s line =
          mta_enter_state w1
            (mta_flush_task
              (if line.headD 0 = 50 then { s with msgcount := s.msgcount + 1 } else s)
              (if line.headD 0 = 50 then IMSG_DELIVERY_OK else mta_response_delivery line)
              line) MTA_READY ∧
        (mta_flush_task
          (if line.headD 0 = 50 then { s with msgcount := s.msgcount + 1 } else s)
          (if line.headD 0 = 50 then IMSG_DELIVERY_OK else mta_response_delivery line)
          line).task = none) ∧
      (r.state = MTA_READY →
        (mta_check_loop MAX_HOPS_COUNT (fdopen content broken)).1 ≠ 0 →
        mta_session_imsg w1 s (IMSG_QUEUE_MESSAGE_FD (some (content, broken))) =
          mta_enter_state w1
            (mta_flush_task { s with wait_fd := false, datafp := none } IMSG_DELIVERY_LOOP
              (str "Loop detected")) MTA_READY ∧
        (mta_flush_task { s with wait_fd := false, datafp := none } IMSG_DELIVERY_LOOP
          (str "Loop detected")).task = none)) := by
  obtain ⟨f1, f2, f3, f4⟩ := hf
  refine ⟨?_, ?_⟩
  · rw [hr]
    exact NF_reachable k relay hostname ptr_known w evs
  intro hra
  have hg : G r := by
    rw [hr] at hra ⊢
    exact G_reachable k relay hostname ptr_known w evs hra
  have ha : s.status = .alive := f1.trans hra
  have hnone : task_state r.state = false → s.task = none := fun h =>
    f3.trans (task_none_of r hg.2.2.1 h)
  refine ⟨hg.2.2.1, ?_, ?_, ?_, ?_, ?_, ?_⟩
  · unfold free_aborted
    rw [mta_free_status, if_pos ha]
    constructor
    · intro h
      by_contra hc
      rw [if_neg hc] at h
      cases h
    · intro h
      rw [if_pos h]
  · by_cases hi : mta_error_ignored s
    · exact mta_free_freed _ ((mta_error_status _ _).trans ha)
        (mta_error_keeps_none _ _ (hnone (by rw [← f2, hi.1]; rfl)))
    · exact (mta_free_error_ok s e ha hi).1
  · intro hq
    exact mta_free_freed s ha (hnone (by rw [hq]; rfl))
  · intro h
    rcases h with h | h | h | h | h <;> exact hnone (by rw [h]; rfl)
  · intro hst
    have hs : s.state = MTA_EOM := f2.trans hst
    constructor
    · unfold mta_response
      rw [if_neg (not_not.mpr ha), hs]
      dsimp only
      by_cases hl : line.headD 0 = 50
      · rw [if_pos hl, if_pos hl, if_pos hl]
      · rw [if_neg hl, if_neg hl, if_neg hl]
    · rw [mta_flush_task_task]
      by_cases hl : line.headD 0 = 50
      · rw [if_pos hl, if_pos ha]
      · rw [if_neg hl, if_pos ha]
  · intro hst hloop
    have hw : s.wait_fd = true := by
      rw [f4, hg.2.2.2.1, hst]
      rfl
    constructor
    · unfold mta_session_imsg tree_xpop
      dsimp only
      rw [if_neg (by rw [hw]; decide), if_neg (by rw [ha]; decide), if_pos hloop]
    · rw [mta_flush_task_task, if_pos ha]

set_option maxRecDepth 100000 in
theorem task_slot_discipline_witness :
    ¬ free_aborted (demo_run demo_relay demo_unsolicited) ∧
      (demo_run demo_relay demo_await_content).status = .alive ∧
      (demo_run demo_relay demo_await_content).task = some demo_task ∧
      (demo_run demo_relay demo_await_content).state = MTA_READY ∧
      (mta_free (mta_error (demo_run demo_relay demo_await_content)
        (str "Connection closed unexpectedly"))).status = .freed :=
  ⟨by unfold free_aborted; decide, by decide, by decide, by decide,
    ((task_slot_discipline demo_flag_values demo_relay (str "mail.example.com") true
      (demo_world none) demo_await_content (demo_run demo_relay demo_await_content)
      (demo_run demo_relay demo_await_content) (demo_world none) []
      (str "Connection closed unexpectedly") [] false rfl ⟨rfl, rfl, rfl, rfl⟩).2
      (by decide)).2.2.1⟩

/-! ## No connection attempt after the route signal -/

theorem connect_guard_neutral (x : Effect) (hx : connect_neutral x = true) :
    ∀ (h : List Effect) (p : Bool), connect_guard p (h ++ [x]) = connect_guard p h := by
  intro h
  induction h with
  | nil =>
    intro p
    cases x <;> first
      | (simp [connect_neutral, route_ok_weight] at hx; done)
      | (simp only [connect_neutral, Bool.and_eq_true, Bool.not_eq_true',
          decide_eq_true_eq] at hx
         simp [connect_guard, hx.2])
  | cons e tl ih =>
    intro p
    rw [List.cons_append]
    cases e <;> simp only [connect_guard] <;> rw [ih]

theorem connect_guard_neutral_list (l : List Effect) :
    (∀ x ∈ l, connect_neutral x = true) →
    ∀ (h : List Effect) (p : Bool), connect_guard p (h ++ l) = connect_guard p h := by
  induction l with
  | nil => intro _ h p; rw [List.append_nil]
  | cons x tl ih =>
    intro hl h p
    have : h ++ x :: tl = (h ++ [x]) ++ tl := by simp
    rw [this, ih (fun y hy => hl y (List.mem_cons_of_mem _ hy)),
      connect_guard_neutral x (hl x (List.mem_cons_self _ _))]

theorem connect_guard_signal :
    ∀ (h : List Effect) (p : Bool),
      connect_guard p (h ++ [Effect.mta_route_ok]) = connect_guard p h := by
  intro h
  induction h with
  | nil => intro p; rfl
  | cons e tl ih =>
    intro p
    rw [List.cons_append]
    cases e <;> simp only [connect_guard] <;> rw [ih]

theorem route_ok_count_cons (e : Effect) (tl : List Effect) :
    route_ok_count (e :: tl) = route_ok_weight e + route_ok_count tl := by
  simp [route_ok_count]

theorem connect_guard_before (x : Effect) (hx : route_ok_weight x = 0) :
    ∀ (h : List Effect), route_ok_count h = 0 → connect_guard false (h ++ [x]) = true := by
  intro h
  induction h with
  | nil =>
    intro _
    cases x <;> first
      | rfl
      | (simp [route_ok_weight] at hx; done)
      | simp [connect_guard]
  | cons e tl ih =>
    intro hc
    rw [route_ok_count_cons] at hc
    have h1 : route_ok_weight e = 0 := by omega
    have h2 : route_ok_count tl = 0 := by omega
    rw [List.cons_append]
    cases e <;> first
      | (simp [route_ok_weight] at h1; done)
      | (simp only [connect_guard, Bool.false_and, Bool.not_false, Bool.true_and]
         exact ih h2)

theorem neutral_weight (x : Effect) (hx : connect_neutral x = true) :
    route_ok_weight x = 0 := by
  simp only [connect_neutral, Bool.and_eq_true, decide_eq_true_eq] at hx
  exact hx.1

theorem Xc_neutral_list (h : List Effect) (r : Nat) (l : List Effect)
    (hX : Xc h r) (hl : ∀ x ∈ l, connect_neutral x = true) : Xc (h ++ l) r := by
  obtain ⟨x1, x2⟩ := hX
  refine ⟨?_, ?_⟩
  · rw [route_ok_count_append,
      route_ok_count_quiet_list l (fun x hx => neutral_weight x (hl x hx)), Nat.add_zero]
    exact x1
  · rw [connect_guard_neutral_list l hl]; exact x2

theorem Xc_neutral (h : List Effect) (r : Nat) (x : Effect)
    (hX : Xc h r) (hx : connect_neutral x = true) : Xc (h ++ [x]) r :=
  Xc_neutral_list h r [x] hX (fun y hy => by
    rw [List.mem_singleton] at hy; rw [hy]; exact hx)

/-- While `ready` is clear every effect but `mta_route_ok` keeps the
invariant. -/
theorem Xc_before (h : List Effect) (x : Effect) (hX : Xc h 0)
    (hx : route_ok_weight x = 0) : Xc (h ++ [x]) 0 := by
  obtain ⟨x1, _⟩ := hX
  have hc : route_ok_count h = 0 := x1
  refine ⟨?_, connect_guard_before x hx h hc⟩
  rw [route_ok_count_append, hc]
  simp [route_ok_count, hx]

theorem Xc_signal (h : List Effect) (old : mta_state) (hX : Xc h 0) :
    Xc ((h ++ [Effect.log_trace old MTA_READY]) ++ [Effect.mta_route_ok]) 1 := by
  have h1 := Xc_neutral h 0 (Effect.log_trace old MTA_READY) hX rfl
  obtain ⟨x1, x2⟩ := h1
  refine ⟨?_, ?_⟩
  · rw [route_ok_count_append, x1]
    rfl
  · rw [connect_guard_signal]; exact x2

theorem flush_effects_neutral (t : mta_task) (d : delivery) (e : List Nat) :
    ∀ x ∈ mta_flush_task_effects t d e, connect_neutral x = true := by
  intro x hx
  unfold mta_flush_task_effects at hx
  simp only [List.mem_cons, List.mem_flatMap, List.mem_singleton, List.not_mem_nil,
    or_false] at hx
  rcases hx with h | ⟨a, _, h | h⟩ <;> rw [h] <;> rfl

theorem envelope_fail_neutral (evp : envelope) (d : delivery) :
    ∀ x ∈ mta_envelope_fail evp d, connect_neutral x = true := by
  intro x hx
  unfold mta_envelope_fail at hx
  simp only [List.mem_cons, List.mem_singleton, List.not_mem_nil, or_false] at hx
  rcases hx with h | h <;> rw [h] <;> rfl

theorem X_send (s : mta_session) (cmd : List Nat) (hX : X s) : X (mta_send s cmd) := by
  unfold mta_send
  split_ifs
  · exact hX
  · exact Xc_neutral _ _ _ hX rfl

theorem X_head (s : mta_session) (st : mta_state) (hX : X s) (hst : st ≠ MTA_INIT) :
    X (mta_enter_state_head s st) := by
  refine Xc_neutral _ _ (Effect.log_trace s.state st) hX ?_
  cases st <;> first
    | rfl
    | exact absurd rfl hst

theorem X_flush (s : mta_session) (d : delivery) (e : List Nat) (hX : X s) :
    X (mta_flush_task s d e) := by
  unfold mta_flush_task
  split_ifs
  · exact hX
  · split
    · exact hX
    · exact Xc_neutral_list _ _ _ hX (flush_effects_neutral _ _ _)

theorem X_error (s : mta_session) (e : List Nat) (hX : X s) : X (mta_error s e) := by
  unfold mta_error
  dsimp only
  split_ifs
  · exact hX
  · exact hX
  · exact X_flush _ _ _ (Xc_neutral _ _ (Effect.mta_route_error e) hX rfl)
  · exact Xc_neutral _ _ (Effect.mta_route_error e) hX rfl

theorem X_free (s : mta_session) (hX : X s) : X (mta_free s) := by
  unfold mta_free
  dsimp only
  split_ifs
  · exact hX
  · exact hX
  · exact Xc_neutral _ _ Effect.mta_route_collect hX rfl

theorem X_queue_data (s : mta_session) (hX : X s) : X (mta_queue_data s).2 := by
  unfold mta_queue_data
  split_ifs with h1
  · exact hX
  · cases hd : s.datafp with
    | none => exact hX
    | some fp =>
      simp only
      cases hl : mta_queue_data_loop (fp.data.length + 1) s.iobuf_out fp with
      | none => exact hX
      | some r =>
        obtain ⟨out, fp1⟩ := r
        have hb : X { s with
            iobuf_out := out
            datafp := some fp1
            hist := s.hist ++ [Effect.body (out.drop s.iobuf_out.length)] } :=
          Xc_neutral _ _ (Effect.body (out.drop s.iobuf_out.length)) hX rfl
        simp only
        split_ifs
        · exact X_flush _ _ _ hb
        · exact hb
        · exact hb

theorem X_connect (w : World) (s : mta_session) (hX : X s) (hr : s.ready = 0) :
    X (mta_connect w s) := by
  unfold mta_connect
  split_ifs with ha
  · exact hX
  · dsimp only
    cases hm : mta_connect_mode { s with
        io := io_state.down, iobuf_in := [], iobuf_out := []
        use_smtps := 0, use_starttls := 0, use_smtp_tls := 0 } with
    | none => exact X_free _ (X_error _ _ hX)
    | some s1 =>
      have hf := connect_mode_flags _ _ hm
      have hh := connect_mode_hist _ _ hm
      dsimp only at hf hh
      have hr1 : s1.ready = 0 := hf.2.1.trans hr
      have h1 : Xc s1.hist 0 := by
        rw [hh]
        have := hX
        unfold X at this
        rw [hr] at this
        exact this
      have h2 : Xc (s1.hist ++ [Effect.log_trace s1.state MTA_INIT]) 0 :=
        Xc_before _ _ h1 rfl
      have h3 : ∀ p, Xc ((s1.hist ++ [Effect.log_trace s1.state MTA_INIT])
          ++ [Effect.io_connect p]) 0 := fun p => Xc_before _ _ h2 rfl
      have h4 : ∀ p, Xc ((s1.hist ++ [Effect.log_trace s1.state MTA_INIT])
          ++ [Effect.io_connect p]) s1.ready := fun p => hr1 ▸ h3 p
      dsimp only
      cases hc : w.io_connect with
      | none =>
        dsimp only
        exact h4 _
      | some e =>
        dsimp only
        by_cases he : e = EADDRNOTAVAIL
        · rw [if_pos he]
          refine X_free _ ?_
          exact Xc_neutral _ _ (Effect.mta_source_error w.io_error) (h4 _) rfl
        · rw [if_neg he]
          refine X_free _ (X_error _ _ ?_)
          exact h4 _

theorem X_enter_quit (s : mta_session) (hX : X s) : X (mta_enter_state_quit s) := by
  unfold mta_enter_state_quit
  split_ifs
  · exact hX
  · exact X_send _ _ (X_head _ _ hX (by decide))

theorem X_enter_ready (w : World) (s : mta_session) (hX : X s) :
    X (mta_enter_state_ready w s) := by
  unfold mta_enter_state_ready tree_xset
  by_cases ha : s.status = .alive
  · simp only [ha, ne_eq, not_true_eq_false, if_false]
    have hs : X (if (mta_enter_state_head s MTA_READY).ready = 0 then
        { mta_enter_state_head s MTA_READY with
          ready := 1
          hist := (mta_enter_state_head s MTA_READY).hist ++ [Effect.mta_route_ok] }
        else mta_enter_state_head s MTA_READY) := by
      by_cases hr : (mta_enter_state_head s MTA_READY).ready = 0
      · rw [if_pos hr]
        have hr2 : s.ready = 0 := hr
        have hX0 : Xc s.hist 0 := hr2 ▸ hX
        exact Xc_signal _ s.state hX0
      · rw [if_neg hr]
        exact X_head _ _ hX (by decide)
    generalize (if (mta_enter_state_head s MTA_READY).ready = 0 then
        { mta_enter_state_head s MTA_READY with
          ready := 1
          hist := (mta_enter_state_head s MTA_READY).hist ++ [Effect.mta_route_ok] }
        else mta_enter_state_head s MTA_READY) = s1 at hs ⊢
    cases hn : w.next_task <;> (try dsimp only) <;> split_ifs
    all_goals (try dsimp only)
    all_goals repeat' first
      | exact hs
      | apply X_enter_quit
      | (refine Xc_neutral _ _ _ ?_ rfl)
  · simp only [ha, ne_eq, not_false_eq_true, if_true]
    exact hX

theorem X_enter_auth (w : World) (s : mta_session) (hX : X s) (hr : s.ready = 0) :
    X (mta_enter_state_auth w s) := by
  unfold mta_enter_state_auth
  split_ifs with ha
  · exact hX
  · dsimp only
    cases hs : (mta_enter_state_head s MTA_AUTH).relay.secret with
    | none => exact X_enter_ready w _ (X_head _ _ hX (by decide))
    | some secret =>
      dsimp only
      split_ifs with hf
      · exact X_send _ _ (X_head _ _ hX (by decide))
      · exact X_connect _ _ (X_error _ _ (X_head _ _ hX (by decide)))
          ((mta_error_ready _ _).trans hr)

theorem X_enter_starttls (w : World) (s : mta_session) (hX : X s) (hr : s.ready = 0) :
    X (mta_enter_state_starttls w s) := by
  unfold mta_enter_state_starttls
  split_ifs with ha
  · exact hX
  · dsimp only
    split_ifs
    · exact X_enter_auth w _ (X_head _ _ hX (by decide)) hr
    · exact X_connect _ _ (X_error _ _ (X_head _ _ hX (by decide)))
        ((mta_error_ready _ _).trans hr)
    · exact X_enter_auth w _ (X_head _ _ hX (by decide)) hr
    · exact X_send _ _ (X_head _ _ hX (by decide))

theorem X_enter_eom (s : mta_session) (hX : X s) : X (mta_enter_state_eom s) := by
  unfold mta_enter_state_eom
  split_ifs
  · exact hX
  · exact X_send _ _ (X_head _ _ hX (by decide))

theorem X_enter_body (s : mta_session) (hX : X s) : X (mta_enter_state_body s) := by
  unfold mta_enter_state_body
  split_ifs with ha
  · exact hX
  · dsimp only
    cases hd : (mta_enter_state_head s MTA_BODY).datafp with
    | none => exact X_enter_eom _ (X_head _ _ hX (by decide))
    | some fp =>
      dsimp only
      split_ifs
      · exact X_free _ (X_queue_data _ (X_head _ _ hX (by decide)))
      · exact X_queue_data _ (X_head _ _ hX (by decide))

theorem X_enter_state (w : World) (s : mta_session) (st : mta_state) (hX : X s)
    (hi : st ≠ MTA_INIT) (hr : st = MTA_AUTH ∨ st = MTA_STARTTLS → s.ready = 0) :
    X (mta_enter_state w s st) := by
  unfold mta_enter_state
  by_cases ha : s.status = .alive
  · simp only [ha, ne_eq, not_true_eq_false, if_false]
    have hH : ∀ st1, st1 ≠ MTA_INIT → Xc (mta_enter_state_head s st1).hist s.ready :=
      fun st1 h => X_head s st1 hX h
    cases st <;> dsimp only
    · exact absurd rfl hi
    · exact X_head _ _ hX (by decide)
    · exact X_send _ _ (X_head _ _ hX (by decide))
    · exact X_send _ _ (X_head _ _ hX (by decide))
    · exact X_enter_starttls w s hX (hr (Or.inr rfl))
    · exact X_enter_auth w s hX (hr (Or.inl rfl))
    · exact X_enter_ready w s hX
    · split
      · exact hH _ (by decide)
      · split_ifs
        · exact X_send _ _ (X_head _ _ hX (by decide))
        · exact X_send _ _ (X_head _ _ hX (by decide))
    · split
      · exact hH _ (by decide)
      · (try dsimp only)
        split <;> split_ifs <;> (try dsimp only)
        all_goals first
          | exact hH _ (by decide)
          | exact X_send _ _ (X_head _ _ hX (by decide))
          | exact X_send _ _ (hH _ (by decide))
    · split
      · exact hH _ (by decide)
      · exact X_send _ _ (X_head _ _ hX (by decide))
    · exact X_enter_body s hX
    · exact X_enter_eom s hX
    · exact X_send _ _ (X_head _ _ hX (by decide))
    · exact X_enter_quit s hX
  · simp only [ha, ne_eq, not_false_eq_true, if_true]
    exact hX

theorem X_start_tls (s : mta_session) (hX : X s) : X (mta_start_tls s) := by
  unfold mta_start_tls tree_xset
  split_ifs with h0
  · exact hX
  split <;> (try dsimp only) <;> (try split_ifs) <;> (try dsimp only)
  all_goals repeat' first
    | exact hX
    | (refine Xc_neutral _ _ _ ?_ rfl)

theorem X_verify_certificate (w : World) (s : mta_session) (hX : X s) :
    X (mta_verify_certificate w s).2 := by
  unfold mta_verify_certificate tree_xset
  split_ifs <;> (try dsimp only)
  all_goals repeat' first
    | exact hX
    | (refine Xc_neutral _ _ _ ?_ rfl)

theorem enter_plain (st : mta_state) (s : mta_session)
    (h : decide (st = MTA_AUTH ∨ st = MTA_STARTTLS) = false) :
    st = MTA_AUTH ∨ st = MTA_STARTTLS → s.ready = 0 := by
  intro h2
  simp only [decide_eq_false_iff_not] at h
  exact absurd h2 h

theorem X_response_rcpt (w : World) (s : mta_session) (line : List Nat) (hX : X s) :
    X (mta_response_rcpt w s line) := by
  unfold mta_response_rcpt
  split
  · split
    · exact hX
    · rename_i evp hevp
      dsimp only
      have hfail : ∀ d, Xc (s.hist ++ mta_envelope_fail (envelope_set_errormsg evp line) d)
          s.ready := fun d => Xc_neutral_list _ _ _ hX (envelope_fail_neutral _ _)
      split_ifs
      all_goals first
        | exact X_enter_state w _ _ hX (by decide) (enter_plain _ _ rfl)
        | exact X_enter_state w _ _ (hfail _) (by decide) (enter_plain _ _ rfl)
        | exact X_enter_state w _ _ (X_flush _ _ _ (hfail _)) (by decide) (enter_plain _ _ rfl)
  · exact hX

theorem X_response (w : World) (s : mta_session) (line : List Nat) (hX : X s)
    (hp : pre_state s.state = true → s.ready = 0) :
    X (mta_response w s line) := by
  unfold mta_response
  by_cases ha : s.status = .alive
  swap
  · rw [if_pos ha]; exact hX
  rw [if_neg (not_not.mpr ha)]
  have hm : X { s with msgcount := s.msgcount + 1 } := hX
  split
  · exact X_enter_state w _ _ hX (by decide) (enter_plain _ _ rfl)
  · rename_i hst
    have h0 : s.ready = 0 := hp (by rw [hst]; rfl)
    split_ifs
    · exact X_free _ (X_error _ _ hX)
    · exact X_enter_state w _ _ hX (by decide) (enter_plain _ _ rfl)
    · exact X_enter_state w _ _ hX (by decide) (fun _ => h0)
    · exact X_enter_state w _ _ hX (by decide) (enter_plain _ _ rfl)
  · split_ifs
    · exact X_free _ (X_error _ _ hX)
    · exact X_enter_state w _ _ hX (by decide) (enter_plain _ _ rfl)
  · rename_i hst
    have h0 : s.ready = 0 := hp (by rw [hst]; rfl)
    split_ifs
    · exact X_enter_state w _ _ hX (by decide) (fun _ => h0)
    · exact X_free _ (X_error _ _ hX)
    · exact X_start_tls _ hX
  · split_ifs
    · exact X_free _ (X_error _ _ hX)
    · exact X_enter_state w _ _ hX (by decide) (enter_plain _ _ rfl)
  · split_ifs
    · exact X_enter_state w _ _ (X_flush _ _ _ hX) (by decide) (enter_plain _ _ rfl)
    · exact X_enter_state w _ _ hX (by decide) (enter_plain _ _ rfl)
  · exact X_response_rcpt w s line hX
  · split_ifs
    · exact X_enter_state w _ _ hX (by decide) (enter_plain _ _ rfl)
    · exact X_enter_state w _ _ (X_flush _ _ _ hX) (by decide) (enter_plain _ _ rfl)
  · split_ifs
    · exact X_enter_state w _ _ (X_flush _ _ _ hm) (by decide) (enter_plain _ _ rfl)
    · exact X_enter_state w _ _ (X_flush _ _ _ hX) (by decide) (enter_plain _ _ rfl)
  · exact X_enter_state w _ _ hX (by decide) (enter_plain _ _ rfl)
  · exact hX

theorem X_io_ext (s : mta_session) (msg : List Nat) (hX : X s) : X (mta_io_ext s msg) := by
  unfold mta_io_ext
  split_ifs <;> exact hX

theorem X_io_datain (w : World) : ∀ (fuel : Nat) (s : mta_session), X s →
    (pre_state s.state = true → s.ready = 0) → X (mta_io_datain fuel w s) := by
  intro fuel
  induction fuel with
  | zero => intro s hX _; exact hX
  | succ fuel ih =>
    intro s hX hp
    rw [mta_io_datain]
    split
    · split_ifs
      · exact X_free _ (X_error _ _ hX)
      · exact hX
    · rename_i line rest hgl
      dsimp only
      split
      · exact X_free _ (X_error _ _ hX)
      · rename_i msg cont hpr
        obtain ⟨f1, f2, f3, f4, f5, f6, f7, f8, f9, f10, f11, f12⟩ :=
          mta_io_ext_frame { s with iobuf_in := rest } (cstr msg)
        have hX1 : X (mta_io_ext { s with iobuf_in := rest } (cstr msg)) := X_io_ext _ _ hX
        have hp1 : pre_state (mta_io_ext { s with iobuf_in := rest } (cstr msg)).state = true →
            (mta_io_ext { s with iobuf_in := rest } (cstr msg)).ready = 0 := by
          rw [f2, f11]; exact hp
        by_cases hc : cont = true
        · rw [if_pos hc]
          exact ih _ hX1 hp1
        · rw [if_neg hc]
          by_cases hq : (mta_io_ext { s with iobuf_in := rest } (cstr msg)).state = MTA_QUIT
          · rw [if_pos hq]
            exact X_free _ hX1
          · rw [if_neg hq]
            have hX2 := X_response w _ (cstr line) hX1 hp1
            split
            · split_ifs
              · exact X_free _ (X_error _ _ hX2)
              · exact hX2
            · exact hX2
            · exact hX2

theorem X_io_tlsverified (w : World) (s : mta_session) (hX : X s) :
    X (mta_io_tlsverified w s) := by
  unfold mta_io_tlsverified
  split_ifs
  · exact X_enter_state w _ _ hX (by decide) (enter_plain _ _ rfl)
  · exact X_enter_state w _ _ hX (by decide) (enter_plain _ _ rfl)

theorem X_io_fail (w : World) (s : mta_session) (msg : List Nat) (hX : X s) :
    X (mta_io_fail w s msg) := by
  unfold mta_io_fail
  dsimp only
  split_ifs with hr
  · exact X_connect w _ (X_error _ _ hX) hr
  · exact X_free _ (X_error _ _ hX)

theorem X_io_switch (w : World) (s : mta_session) (evt : io_event) (hX : X s)
    (hp : pre_state s.state = true → s.ready = 0) : X (mta_io_switch w s evt) := by
  unfold mta_io_switch
  cases evt <;> dsimp only
  · split_ifs
    · exact X_start_tls _ hX
    · exact X_enter_state w _ _ hX (by decide) (enter_plain _ _ rfl)
  · have hXf : X { s with flags := s.flags ||| MTA_TLS } := hX
    have hv := X_verify_certificate w _ hXf
    split_ifs
    · exact hv
    · exact X_io_tlsverified w _ hv
  · exact X_io_tlsverified w _ hX
  · exact X_io_datain w _ s hX hp
  · have hX1 : X (if s.state = MTA_BODY then mta_enter_state w s MTA_BODY else s) := by
      split_ifs
      · exact X_enter_state w _ _ hX (by decide) (enter_plain _ _ rfl)
      · exact hX
    split
    · exact hX1
    · exact hX1
  · exact X_io_fail w s _ hX
  · exact X_io_fail w s _ hX
  · exact X_io_fail w s _ hX

theorem X_io (w : World) (s : mta_session) (evt : io_event) (hX : X s)
    (hp : s.status = .alive → pre_state s.state = true → s.ready = 0) :
    X (mta_io w s evt) := by
  unfold mta_io
  split_ifs with h0
  · exact hX
  · exact X_io_switch w _ evt (Xc_neutral _ _ (Effect.event evt) hX rfl)
      (hp (not_not.mp h0))

theorem X_session_imsg (w : World) (s : mta_session) (m : imsg) (hX : X s)
    (hst : s.status = .alive ∨ s.status = .freed)
    (hp : s.status = .alive → pre_state s.state = true → s.ready = 0)
    (hptr : s.status = .alive → s.wait_ptr = true → s.ready = 0) :
    X (mta_session_imsg w s m) := by
  unfold mta_session_imsg tree_xpop mta_on_ptr
  cases m with
  | IMSG_QUEUE_MESSAGE_FD fd =>
    dsimp only
    split
    · exact hX
    · split_ifs
      · exact hX
      · exact hX
      · exact X_enter_state w _ _ (X_flush _ _ _ hX) (by decide) (enter_plain _ _ rfl)
      · exact X_enter_state w _ _ hX (by decide) (enter_plain _ _ rfl)
  | IMSG_DNS_PTR =>
    dsimp only
    by_cases hw : s.wait_ptr = false
    · rw [if_pos hw]; exact hX
    · rw [if_neg hw]
      by_cases hf : s.status = .freed
      · rw [if_pos hf]; exact hX
      · rw [if_neg hf]
        have ha : s.status = .alive := hst.resolve_right hf
        have hwt : s.wait_ptr = true := by
          cases h : s.wait_ptr with
          | false => exact absurd h hw
          | true => rfl
        exact X_connect w _ hX (hptr ha hwt)
  | IMSG_LKA_SSL_INIT ok =>
    dsimp only
    split_ifs
    · exact hX
    · exact hX
    · exact X_free _ hX
    · exact Xc_neutral _ _ _ hX rfl
  | IMSG_LKA_SSL_VERIFY ok =>
    dsimp only
    split_ifs
    · exact hX
    · exact hX
    · exact X_io w _ _ hX hp
    · exact X_io w _ _ hX hp

theorem G_ready_pre (s : mta_session) (hg : G s) :
    (pre_state s.state = true → s.ready = 0) ∧ (s.wait_ptr = true → s.ready = 0) := by
  unfold G at hg
  obtain ⟨g1, g2, g3, g4, g5, g6, g7⟩ := hg
  constructor
  · intro hp
    by_contra hne
    have := (g2 hne).1
    rw [hp] at this
    cases this
  · intro hw
    by_contra hne
    have h1 := (g2 hne).2.1
    have h2 := (g7 hw).1
    rw [h1] at h2
    cases h2

theorem X_step (s : mta_session) (we : World × Event) (hX : X s)
    (hg : s.status = .alive → G s) : X (step s we) := by
  have hp : s.status = .alive → pre_state s.state = true → s.ready = 0 :=
    fun h => (G_ready_pre s (hg h)).1
  have hptr : s.status = .alive → s.wait_ptr = true → s.ready = 0 :=
    fun h => (G_ready_pre s (hg h)).2
  unfold step
  split
  · exact hX
  · exact hX
  · rename_i hnf hnu
    have hst : s.status = .alive ∨ s.status = .freed := by
      cases hs : s.status with
      | alive => exact Or.inl rfl
      | freed => exact Or.inr rfl
      | fatal why => exact absurd hs (hnf why)
      | undefined why => exact absurd hs (hnu why)
    split_ifs
    · exact hX
    · dsimp only
      split
      · rename_i e input _
        cases e <;> exact X_io _ _ _ hX hp
      · exact X_session_imsg _ _ _ hX hst hp hptr

theorem X_run (evs : List (World × Event)) : ∀ (s : mta_session), X s →
    (s.status = .alive → G s) → X (run s evs) := by
  induction evs with
  | nil => intro s hX _; exact hX
  | cons e es ih =>
    intro s hX hg
    have : run s (e :: es) = run (step s e) es := rfl
    rw [this]
    exact ih _ (X_step s e hX hg) (G_step s e hg)

theorem X_spawn (k : relay_flag_values) (relay : mta_relay) (hostname : List Nat)
    (ptr_known : Bool) (w : World) : X (mta_session_spawn k relay hostname ptr_known w) := by
  unfold mta_session_spawn mta_on_ptr
  dsimp only
  by_cases hp : ptr_known = true
  · rw [if_pos hp]
    exact X_connect w _ ⟨rfl, rfl⟩ rfl
  · rw [if_neg hp]
    exact ⟨rfl, rfl⟩

theorem X_reachable (k : relay_flag_values) (relay : mta_relay) (hostname : List Nat)
    (ptr_known : Bool) (w : World) (evs : List (World × Event)) :
    X (run (mta_session_spawn k relay hostname ptr_known w) evs) :=
  X_run evs _ (X_spawn k relay hostname ptr_known w) (G_spawn k relay hostname ptr_known w)

/-! ## The error funnel -/

/-- C21: `mta_error` on a session in use. In `MTA_INIT` with `errno`
`ETIMEDOUT` or `ECONNREFUSED` it returns the session as it is. In every other
case it reports one route error with the message and then, when a task is
attached, flushes it with `IMSG_DELIVERY_TEMPFAIL` and the same message: the
history grows by the route error and the effects of the flush, each envelope
of the task gets the verdict, the slot is empty afterwards and nothing else
of the session changes. -/
theorem mta_error_funnel (s : mta_session) (e : List Nat) (ha : s.status = .alive) :
    (s.state = MTA_INIT ∧ (s.errno = ETIMEDOUT ∨ s.errno = ECONNREFUSED) →
      mta_error s e = s) ∧
    (¬ (s.state = MTA_INIT ∧ (s.errno = ETIMEDOUT ∨ s.errno = ECONNREFUSED)) →
      mta_error s e = { s with
        task := none
        hist := s.hist ++ Effect.mta_route_error e ::
          mta_flush_slot_effects s.task IMSG_DELIVERY_TEMPFAIL e } ∧
      (∀ t, s.task = some t →
        (mta_error s e).hist = s.hist ++ Effect.mta_route_error e ::
          mta_flush_task_effects t IMSG_DELIVERY_TEMPFAIL e ∧
        verdicts (mta_error s e).hist = verdicts s.hist ++
          t.envelopes.map (fun evp => (IMSG_DELIVERY_TEMPFAIL, envelope_set_errormsg evp e))) ∧
      (s.task = none →
        (mta_error s e).hist = s.hist ++ [Effect.mta_route_error e] ∧
        verdicts (mta_error s e).hist = verdicts s.hist) ∧
      (mta_error s e).task = none ∧
      (mta_error s e).status = .alive) := by
  constructor
  · intro hi
    exact mta_error_of_ignored s e hi
  · intro hi
    have hh : (mta_error s e).hist = s.hist ++ Effect.mta_route_error e ::
        mta_flush_slot_effects s.task IMSG_DELIVERY_TEMPFAIL e := by
      rw [mta_error_hist, if_pos ⟨ha, hi⟩]
    have hv : ∀ l, verdicts (Effect.mta_route_error e :: l) = verdicts l := fun _ => rfl
    refine ⟨?_, ?_, ?_, ?_, ?_⟩
    · unfold mta_error mta_flush_task mta_flush_slot_effects
      rw [if_neg (not_not.mpr ha), if_neg hi]
      dsimp only
      cases ht : s.task with
      | none =>
        simp only [Option.isSome_none, Bool.false_eq_true, if_false]
      | some t =>
        simp only [Option.isSome_some, if_true, ha, ne_eq, not_true_eq_false, if_false,
          List.append_assoc, List.singleton_append]
    · intro t ht
      rw [hh, ht]
      refine ⟨rfl, ?_⟩
      rw [verdicts_append, hv]
      exact congrArg _ (verdicts_flush_effects t IMSG_DELIVERY_TEMPFAIL e)
    · intro ht
      rw [hh, ht]
      refine ⟨rfl, ?_⟩
      rw [verdicts_append]
      exact List.append_nil _
    · rw [mta_error_task, if_pos ⟨ha, hi⟩]
    · rw [mta_error_status, ha]

set_option maxRecDepth 100000 in
theorem mta_error_funnel_witness :
    (demo_run demo_relay demo_await_content).status = .alive ∧
      (demo_run demo_relay demo_await_content).state = MTA_READY ∧
      (demo_run demo_relay demo_await_content).task = some demo_task ∧
      verdicts (mta_error (demo_run demo_relay demo_await_content)
          (str "Connection timeout")).hist
        = verdicts (demo_run demo_relay demo_await_content).hist ++
          demo_task.envelopes.map (fun evp =>
            (IMSG_DELIVERY_TEMPFAIL, envelope_set_errormsg evp (str "Connection timeout"))) :=
  ⟨by decide, by decide, by decide,
    (((mta_error_funnel (demo_run demo_relay demo_await_content) (str "Connection timeout")
      (by decide)).2 (by decide)).2.1 demo_task (by decide)).2⟩

theorem connect_guard_seen : ∀ (h : List Effect), connect_guard true h = true →
    ∀ x ∈ h, is_connect_mark x = false := by
  intro h
  induction h with
  | nil => intro _ x hx; cases hx
  | cons e tl ih =>
    intro hg x hx
    have h2 : is_connect_mark e = false ∧ connect_guard true tl = true := by
      cases e <;> first
        | exact ⟨rfl, hg⟩
        | (simp only [connect_guard, Bool.true_and, Bool.and_eq_true,
            Bool.not_eq_true'] at hg
           exact hg)
    rcases List.mem_cons.mp hx with h1 | h1
    · rw [h1]; exact h2.1
    · exact ih h2.2 x h1

theorem connect_guard_tail (p : Bool) (e : Effect) (tl : List Effect)
    (h : connect_guard p (e :: tl) = true) : ∃ q, connect_guard q tl = true := by
  cases e <;> first
    | exact ⟨true, h⟩
    | (simp only [connect_guard, Bool.and_eq_true] at h
       exact ⟨p, h.2⟩)

theorem connect_guard_first (p : Bool) (tl : List Effect)
    (h : connect_guard p (Effect.mta_route_ok :: tl) = true) : connect_guard true tl = true :=
  h

/-- What the guard says about the positions of the history. -/
theorem connect_guard_after : ∀ (h : List Effect) (p : Bool) (i : Nat),
    connect_guard p h = true → h.get? i = some Effect.mta_route_ok →
    ∀ x ∈ h.drop (i + 1), is_connect_mark x = false := by
  intro h
  induction h with
  | nil => intro p i _ hi; cases hi
  | cons e tl ih =>
    intro p i hg hi
    cases i with
    | zero =>
      simp only [List.get?_cons_zero, Option.some.injEq] at hi
      subst hi
      exact connect_guard_seen tl (connect_guard_first p tl hg)
    | succ n =>
      simp only [List.get?_cons_succ] at hi
      obtain ⟨q, hq⟩ := connect_guard_tail p e tl hg
      exact ih q n hq hi

theorem route_ok_count_pos : ∀ (h : List Effect),
    route_ok_count h ≠ 0 ↔ Effect.mta_route_ok ∈ h := by
  intro h
  induction h with
  | nil => simp [route_ok_count]
  | cons e tl ih =>
    rw [route_ok_count_cons, List.mem_cons]
    cases e <;> first
      | (simp only [route_ok_weight, reduceCtorEq, false_or, Nat.zero_add]; exact ih)
      | simp [route_ok_weight]

/-- C22: reconnection after a failure of the stream. The cases `IO_TIMEOUT`,
`IO_ERROR` and `IO_DISCONNECTED` of `mta_io` call `mta_error` and then
`mta_connect` when `ready` is clear and `mta_free` when it is set. For the
session `r` of a run, `ready` is set exactly when `mta_route_ok` was
signalled, and no mark of `mta_connect` (the trace of the entry into
`MTA_INIT`, the connection attempt) follows an `mta_route_ok` in the history.
The states whose handlers call `mta_connect` otherwise (the negotiation
states and the wait for the PTR) have `ready` clear. With `ready` set the
handler, on `s` being `r` as it finds it, records the route error and tears
the session down: the attempt counter stays and the history ends with the
teardown. -/
theorem mta_io_fail_reconnects (k : relay_flag_values) (relay : mta_relay)
    (hostname : List Nat) (ptr_known : Bool) (w : World) (evs : List (World × Event))
    (r s : mta_session) (w1 : World) (msg : List Nat)
    (hr : r = run (mta_session_spawn k relay hostname ptr_known w) evs)
    (hf : s.status = r.status ∧ s.state = r.state ∧ s.ready = r.ready) :
    (mta_io_switch w1 s IO_TIMEOUT = mta_io_fail w1 s (str "Connection timeout") ∧
      mta_io_switch w1 s IO_ERROR = mta_io_fail w1 s (str "IO Error: " ++ w1.io_error) ∧
      mta_io_switch w1 s IO_DISCONNECTED
        = mta_io_fail w1 s (str "Connection closed unexpectedly")) ∧
    mta_io_fail w1 s msg =
      (if s.ready = 0 then mta_connect w1 (mta_error s msg) else mta_free (mta_error s msg)) ∧
    (r.ready ≠ 0 ↔ Effect.mta_route_ok ∈ r.hist) ∧
    (∀ i, r.hist.get? i = some Effect.mta_route_ok →
      ∀ x ∈ r.hist.drop (i + 1), is_connect_mark x = false) ∧
    (r.status = .alive →
      (pre_state r.state = true → r.ready = 0) ∧ (r.wait_ptr = true → r.ready = 0) ∧
      (r.ready ≠ 0 →
        (mta_io_fail w1 s msg).status = .freed ∧
        (mta_io_fail w1 s msg).attempt = s.attempt ∧
        (mta_io_fail w1 s msg).hist = s.hist ++
          (Effect.mta_route_error msg ::
            mta_flush_slot_effects s.task IMSG_DELIVERY_TEMPFAIL msg) ++
          [Effect.mta_route_collect])) := by
  obtain ⟨f1, f2, f3⟩ := hf
  have hX := X_reachable k relay hostname ptr_known w evs
  rw [← hr] at hX
  obtain ⟨x1, x2⟩ := hX
  have hfail : mta_io_fail w1 s msg =
      (if s.ready = 0 then mta_connect w1 (mta_error s msg)
        else mta_free (mta_error s msg)) := by
    unfold mta_io_fail
    dsimp only
    rw [mta_error_ready]
  refine ⟨⟨rfl, rfl, rfl⟩, hfail, ?_, ?_, ?_⟩
  · rw [← route_ok_count_pos, x1]
    by_cases h0 : r.ready = 0
    · rw [if_pos h0]
      exact ⟨fun h => absurd h0 h, fun h => absurd rfl h⟩
    · rw [if_neg h0]
      exact ⟨fun _ => by decide, fun _ => h0⟩
  · intro i hi
    exact connect_guard_after r.hist false i x2 hi
  · intro hra
    have hg : G r := by
      rw [hr] at hra ⊢
      exact G_reachable k relay hostname ptr_known w evs hra
    obtain ⟨p1, p2⟩ := G_ready_pre r hg
    refine ⟨p1, p2, ?_⟩
    intro hne
    have ha : s.status = .alive := f1.trans hra
    have hni : ¬ mta_error_ignored s := by
      apply not_ignored_of_state
      rw [f2]
      intro hi
      exact hne (p1 (by rw [hi]; rfl))
    have hs : ¬ s.ready = 0 := by rw [f3]; exact hne
    rw [hfail, if_neg hs]
    obtain ⟨e1, e2, _, _, _⟩ := mta_free_error_ok s msg ha hni
    refine ⟨e1, ?_, e2⟩
    rw [mta_free_attempt, mta_error_attempt]

set_option maxRecDepth 100000 in
theorem mta_io_fail_reconnects_witness :
    (demo_run demo_relay demo_await_content).ready ≠ 0 ∧
      (demo_run demo_relay demo_greeted).ready = 0 ∧
      (mta_io_fail (demo_world none) (demo_run demo_relay demo_greeted)
        (str "Connection timeout")).status = .freed ∧
      (mta_io_fail (demo_world none) (demo_run demo_relay demo_await_content)
        (str "Connection timeout")).status = .freed ∧
      (mta_io_fail (demo_world none) (demo_run demo_relay demo_await_content)
        (str "Connection timeout")).attempt
        = (demo_run demo_relay demo_await_content).attempt :=
  ⟨by decide, by decide, by decide,
    (((mta_io_fail_reconnects demo_flag_values demo_relay (str "mail.example.com") true
      (demo_world none) demo_await_content (demo_run demo_relay demo_await_content)
      (demo_run demo_relay demo_await_content) (demo_world none) (str "Connection timeout")
      rfl ⟨rfl, rfl, rfl⟩).2.2.2.2 (by decide)).2.2 (by decide)).1,
    (((mta_io_fail_reconnects demo_flag_values demo_relay (str "mail.example.com") true
      (demo_world none) demo_await_content (demo_run demo_relay demo_await_content)
      (demo_run demo_relay demo_await_content) (demo_world none) (str "Connection timeout")
      rfl ⟨rfl, rfl, rfl⟩).2.2.2.2 (by decide)).2.2 (by decide)).2.1⟩

/-! ## A loop is detected -/

theorem mta_session_imsg_loop_eq (w : World) (s : mta_session) (t : mta_task)
    (content : List Nat) (broken : Bool) (ha : s.status = .alive) (hwait : s.wait_fd = true)
    (htask : s.task = some t)
    (hloop : (mta_check_loop MAX_HOPS_COUNT (fdopen content broken)).1 ≠ 0) :
    mta_session_imsg w s (IMSG_QUEUE_MESSAGE_FD (some (content, broken))) =
      mta_enter_state_ready w { s with
        wait_fd := false, datafp := none, task := none
        hist := s.hist ++
          mta_flush_task_effects t IMSG_DELIVERY_LOOP (str "Loop detected") } := by
  unfold mta_session_imsg tree_xpop
  dsimp only
  rw [if_neg (by rw [hwait]; decide), if_neg (by rw [ha]; decide), if_pos hloop]
  unfold mta_flush_task
  dsimp only
  rw [if_neg (not_not.mpr ha), htask]
  dsimp only
  unfold mta_enter_state
  rw [if_neg (not_not.mpr ha)]

/-- C23: the content handle arrives for the task `t` of a session that awaits
it, and `mta_check_loop` reports a loop. Every envelope of `t` is stamped with
`Loop detected`, logged with the prefix `PermFail` and forwarded to the queue
with the verdict `IMSG_DELIVERY_LOOP`; the content handle is closed; the
session enters `MTA_READY` again and asks the route manager for a task: with
a task it requests the content and waits in `MTA_READY`, without one it
queues `QUIT`. No other command is queued, in particular no `MAIL`. -/
theorem mta_session_imsg_loop (w : World) (s : mta_session) (t : mta_task)
    (content : List Nat) (broken : Bool) (ha : s.status = .alive) (hwait : s.wait_fd = true)
    (htask : s.task = some t) (hr : s.ready ≠ 0) (hm : s.msgcount < MAX_MAIL)
    (hloop : (mta_check_loop MAX_HOPS_COUNT (fdopen content broken)).1 ≠ 0) :
    (s.hist ++ (Effect.flush_task IMSG_DELIVERY_LOOP (str "Loop detected") ::
        t.envelopes.flatMap (fun e =>
          [Effect.log_envelope (envelope_set_errormsg e (str "Loop detected"))
              (str "PermFail") (str "Loop detected"),
            Effect.queue_delivery IMSG_DELIVERY_LOOP
              (envelope_set_errormsg e (str "Loop detected"))])) ++
        [Effect.log_trace s.state MTA_READY, Effect.mta_route_next_task w.next_task])
      <+: (mta_session_imsg w s (IMSG_QUEUE_MESSAGE_FD (some (content, broken)))).hist ∧
    verdicts (mta_session_imsg w s (IMSG_QUEUE_MESSAGE_FD (some (content, broken)))).hist
      = verdicts s.hist ++ t.envelopes.map (fun e =>
          (IMSG_DELIVERY_LOOP, envelope_set_errormsg e (str "Loop detected"))) ∧
    (mta_session_imsg w s (IMSG_QUEUE_MESSAGE_FD (some (content, broken)))).datafp = none ∧
    (mta_session_imsg w s (IMSG_QUEUE_MESSAGE_FD (some (content, broken)))).status = .alive ∧
    (w.next_task = none →
      sends (mta_session_imsg w s (IMSG_QUEUE_MESSAGE_FD (some (content, broken)))).hist
        = sends s.hist ++ [str "QUIT"] ∧
      (mta_session_imsg w s (IMSG_QUEUE_MESSAGE_FD (some (content, broken)))).state
        = MTA_QUIT ∧
      (mta_session_imsg w s (IMSG_QUEUE_MESSAGE_FD (some (content, broken)))).task = none) ∧
    (∀ t2, w.next_task = some t2 →
      sends (mta_session_imsg w s (IMSG_QUEUE_MESSAGE_FD (some (content, broken)))).hist
        = sends s.hist ∧
      (mta_session_imsg w s (IMSG_QUEUE_MESSAGE_FD (some (content, broken)))).state
        = MTA_READY ∧
      (mta_session_imsg w s (IMSG_QUEUE_MESSAGE_FD (some (content, broken)))).task
        = some t2 ∧
      (mta_session_imsg w s (IMSG_QUEUE_MESSAGE_FD (some (content, broken)))).wait_fd
        = true ∧
      (mta_session_imsg w s (IMSG_QUEUE_MESSAGE_FD (some (content, broken)))).hist
        = s.hist ++ mta_flush_task_effects t IMSG_DELIVERY_LOOP (str "Loop detected") ++
          [Effect.log_trace s.state MTA_READY, Effect.mta_route_next_task (some t2),
            Effect.queue_message_fd t2.msgid]) := by
  have hE := mta_session_imsg_loop_eq w s t content broken ha hwait htask hloop
  have hv := verdicts_flush_effects t IMSG_DELIVERY_LOOP (str "Loop detected")
  have hsf : sends (mta_flush_task_effects t IMSG_DELIVERY_LOOP (str "Loop detected")) = [] :=
    sends_flush_slot_effects (some t) IMSG_DELIVERY_LOOP (str "Loop detected")
  have hnm : ¬ s.msgcount ≥ MAX_MAIL := Nat.not_le.mpr hm
  have hF : (Effect.flush_task IMSG_DELIVERY_LOOP (str "Loop detected") ::
        t.envelopes.flatMap (fun e =>
          [Effect.log_envelope (envelope_set_errormsg e (str "Loop detected"))
              (str "PermFail") (str "Loop detected"),
            Effect.queue_delivery IMSG_DELIVERY_LOOP
              (envelope_set_errormsg e (str "Loop detected"))]))
      = mta_flush_task_effects t IMSG_DELIVERY_LOOP (str "Loop detected") := rfl
  rw [hF, hE]
  generalize mta_flush_task_effects t IMSG_DELIVERY_LOOP (str "Loop detected") = F at hv hsf ⊢
  unfold mta_enter_state_ready tree_xset mta_enter_state_quit
  dsimp only
  rw [if_neg (not_not.mpr ha)]
  simp only [mta_enter_state_head_ready, mta_enter_state_head_msgcount, if_neg hr,
    if_neg hnm, mta_enter_state_head_status, mta_enter_state_head_wait_fd]
  have e1 : ∀ a b, verdicts [Effect.log_trace a b] = [] := fun _ _ => rfl
  have e2 : ∀ x, verdicts [Effect.mta_route_next_task x] = [] := fun _ => rfl
  have e3 : ∀ x, verdicts [Effect.queue_message_fd x] = [] := fun _ => rfl
  have e4 : ∀ x, verdicts [Effect.send x] = [] := fun _ => rfl
  have f1 : ∀ a b, sends [Effect.log_trace a b] = [] := fun _ _ => rfl
  have f2 : ∀ x, sends [Effect.mta_route_next_task x] = [] := fun _ => rfl
  have f3 : ∀ x, sends [Effect.queue_message_fd x] = [] := fun _ => rfl
  have f4 : ∀ x, sends [Effect.send x] = [x] := fun _ => rfl
  cases hn : w.next_task with
  | none =>
    simp only [ha, ne_eq, not_true_eq_false, if_false, if_true, mta_send_hist,
      mta_send_datafp, mta_send_status, mta_send_state, mta_send_task,
      mta_enter_state_head_hist, mta_enter_state_head_datafp, mta_enter_state_head_status,
      mta_enter_state_head_state, mta_enter_state_head_task, reduceCtorEq, false_implies,
      implies_true, forall_const, true_and, and_true, verdicts_append, sends_append, hv, hsf,
      e1, e2, e4, f1, f2, f4, List.append_nil, List.append_assoc]
    refine ⟨⟨[Effect.log_trace MTA_READY MTA_QUIT, Effect.send (str "QUIT")], by
      simp only [List.append_assoc, List.cons_append, List.nil_append]⟩, ?_⟩
    simp only [List.nil_append]
  | some t2 =>
    simp only [Bool.false_eq_true, if_false, reduceCtorEq, false_implies, true_and, and_true,
      Option.some.injEq, forall_eq', mta_enter_state_head_hist, ha, verdicts_append,
      sends_append, hv, hsf, e1, e2, e3, f1, f2, f3, List.append_nil, List.append_assoc,
      List.cons_append, List.nil_append, mta_enter_state_head_state]
    refine ⟨⟨[Effect.queue_message_fd t2.msgid], by
      simp only [List.append_assoc, List.cons_append, List.nil_append]⟩, ?_⟩
    have e5 : ∀ a b x y, verdicts [Effect.log_trace a b, Effect.mta_route_next_task x,
        Effect.queue_message_fd y] = [] := fun _ _ _ _ => rfl
    have f5 : ∀ a b x y, sends [Effect.log_trace a b, Effect.mta_route_next_task x,
        Effect.queue_message_fd y] = [] := fun _ _ _ _ => rfl
    simp only [e5, f5, List.append_nil, mta_enter_state_head_datafp, and_self]

set_option maxRecDepth 1000000 in
theorem mta_session_imsg_loop_witness :
    (demo_run demo_relay demo_await_content).state = MTA_READY ∧
      verdicts (step (demo_run demo_relay demo_await_content)
        (demo_world none,
          Event.msg (IMSG_QUEUE_MESSAGE_FD (some (demo_loop_content, false))))).hist
        = [(IMSG_DELIVERY_LOOP, envelope_set_errormsg demo_envelope (str "Loop detected"))] ∧
      sends (mta_session_imsg (demo_world none) (demo_run demo_relay demo_await_content)
        (IMSG_QUEUE_MESSAGE_FD (some (demo_loop_content, false)))).hist
        = sends (demo_run demo_relay demo_await_content).hist ++ [str "QUIT"] :=
  ⟨by decide, by decide,
    ((mta_session_imsg_loop (demo_world none) (demo_run demo_relay demo_await_content)
      demo_task demo_loop_content false (by decide) (by decide) (by decide) (by decide)
      (by decide) (by decide)).2.2.2.2.1 rfl).1⟩

/-! ## The envelope commands on the wire -/

theorem mta_enter_state_mail_eq (w : World) (s : mta_session) (t : mta_task)
    (ha : s.status = .alive) (htask : s.task = some t) :
    mta_enter_state w s MTA_MAIL =
      mta_send (mta_enter_state_head s MTA_MAIL)
        (if t.sender_user.headD 0 ≠ 0 ∧ t.sender_domain.headD 0 ≠ 0 then
          str "MAIL FROM: <" ++ t.sender_user ++ str "@" ++ t.sender_domain ++ str ">"
        else str "MAIL FROM: <>") := by
  unfold mta_enter_state
  rw [if_neg (not_not.mpr ha)]
  dsimp only
  rw [mta_enter_state_head_task, htask]
  dsimp only
  split_ifs <;> rfl

theorem mta_enter_state_rcpt_eq (w : World) (s : mta_session) (t : mta_task) (i : Nat)
    (evp : envelope) (ha : s.status = .alive) (htask : s.task = some t)
    (hcur : s.currevp = some i) (hevp : t.envelopes.get? i = some evp) :
    mta_enter_state w s MTA_RCPT =
      mta_send (mta_enter_state_head s MTA_RCPT)
        (str "RCPT TO: <" ++ evp.dest_user ++ str "@" ++ evp.dest_domain ++ str ">") := by
  unfold mta_enter_state
  rw [if_neg (not_not.mpr ha)]
  dsimp only
  rw [mta_enter_state_head_task, htask]
  dsimp only
  simp only [mta_enter_state_head_currevp, hcur, reduceCtorEq, if_false, Option.bind_some,
    Option.some_bind, hevp]

theorem mta_send_iobuf_out_alive (s : mta_session) (cmd : List Nat) (ha : s.status = .alive) :
    (mta_send s cmd).iobuf_out = s.iobuf_out ++ (cmd ++ CRLF) := by
  unfold mta_send
  rw [if_neg (not_not.mpr ha)]

/-- C24: the bytes that the envelope commands put on the wire. `mta_send`
queues the command and CR LF. On entering `MTA_MAIL` with a sender whose user
and domain are not empty the bytes are `MAIL FROM: <u@d>` CR LF, and on
entering `MTA_RCPT` with the cursor on an envelope they are `RCPT TO: <u@d>`
CR LF: in both a space follows the colon, so they are not the bytes
`MAIL FROM:<u@d>` CR LF and `RCPT TO:<u@d>` CR LF. -/
theorem mta_enter_state_mail_rcpt_bytes (w : World) (s : mta_session) (t : mta_task)
    (i : Nat) (evp : envelope) (ha : s.status = .alive) (htask : s.task = some t)
    (hu : t.sender_user.headD 0 ≠ 0) (hd : t.sender_domain.headD 0 ≠ 0)
    (hcur : s.currevp = some i) (hevp : t.envelopes.get? i = some evp) :
    (∀ cmd, (mta_send s cmd).iobuf_out = s.iobuf_out ++ (cmd ++ CRLF)) ∧
    (mta_enter_state w s MTA_MAIL).iobuf_out = s.iobuf_out ++
      (str "MAIL FROM: <" ++ t.sender_user ++ str "@" ++ t.sender_domain ++ str ">" ++ CRLF) ∧
    (mta_enter_state w s MTA_MAIL).iobuf_out ≠ s.iobuf_out ++
      (str "MAIL FROM:<" ++ t.sender_user ++ str "@" ++ t.sender_domain ++ str ">" ++ CRLF) ∧
    (mta_enter_state w s MTA_RCPT).iobuf_out = s.iobuf_out ++
      (str "RCPT TO: <" ++ evp.dest_user ++ str "@" ++ evp.dest_domain ++ str ">" ++ CRLF) ∧
    (mta_enter_state w s MTA_RCPT).iobuf_out ≠ s.iobuf_out ++
      (str "RCPT TO:<" ++ evp.dest_user ++ str "@" ++ evp.dest_domain ++ str ">" ++ CRLF) := by
  have hm : (mta_enter_state w s MTA_MAIL).iobuf_out = s.iobuf_out ++
      (str "MAIL FROM: <" ++ t.sender_user ++ str "@" ++ t.sender_domain ++ str ">" ++ CRLF) := by
    rw [mta_enter_state_mail_eq w s t ha htask, if_pos ⟨hu, hd⟩]
    exact mta_send_iobuf_out_alive _ _ ha
  have hr : (mta_enter_state w s MTA_RCPT).iobuf_out = s.iobuf_out ++
      (str "RCPT TO: <" ++ evp.dest_user ++ str "@" ++ evp.dest_domain ++ str ">" ++ CRLF) := by
    rw [mta_enter_state_rcpt_eq w s t i evp ha htask hcur hevp]
    exact mta_send_iobuf_out_alive _ _ ha
  have e1 : str "MAIL FROM: <" = 77 :: 65 :: 73 :: 76 :: 32 :: 70 :: 82 :: 79 :: 77 :: 58 ::
      32 :: [60] := by decide
  have e2 : str "MAIL FROM:<" = 77 :: 65 :: 73 :: 76 :: 32 :: 70 :: 82 :: 79 :: 77 :: 58 ::
      [60] := by decide
  have e3 : str "RCPT TO: <" = 82 :: 67 :: 80 :: 84 :: 32 :: 84 :: 79 :: 58 :: 32 :: [60] := by
    decide
  have e4 : str "RCPT TO:<" = 82 :: 67 :: 80 :: 84 :: 32 :: 84 :: 79 :: 58 :: [60] := by
    decide
  refine ⟨fun cmd => mta_send_iobuf_out_alive s cmd ha, hm, ?_, hr, ?_⟩
  · rw [hm, e1, e2]
    intro h
    have h2 := List.append_cancel_left h
    simp only [List.cons_append, List.cons.injEq, true_and] at h2
    exact absurd h2.1 (by decide)
  · rw [hr, e3, e4]
    intro h
    have h2 := List.append_cancel_left h
    simp only [List.cons_append, List.cons.injEq, true_and] at h2
    exact absurd h2.1 (by decide)

set_option maxRecDepth 100000 in
theorem mta_enter_state_mail_rcpt_bytes_witness :
    (mta_enter_state (demo_world none) (demo_delivery MTA_READY demo_task (some 0) [] 0)
        MTA_MAIL).iobuf_out = str "MAIL FROM: <alice@example.com>\r\n" ∧
      (mta_enter_state (demo_world none) (demo_delivery MTA_READY demo_task (some 0) [] 0)
        MTA_RCPT).iobuf_out = str "RCPT TO: <bob@example.org>\r\n" ∧
      (mta_enter_state (demo_world none) (demo_delivery MTA_READY demo_task (some 0) [] 0)
        MTA_MAIL).iobuf_out ≠ [] ++
          (str "MAIL FROM:<" ++ demo_task.sender_user ++ str "@" ++ demo_task.sender_domain
            ++ str ">" ++ CRLF) :=
  ⟨by decide, by decide,
    (mta_enter_state_mail_rcpt_bytes (demo_world none)
      (demo_delivery MTA_READY demo_task (some 0) [] 0) demo_task 0 demo_envelope
      rfl rfl (by decide) (by decide) rfl rfl).2.2.1⟩

/-- C26: the reverse path of `MAIL`. On entering `MTA_MAIL` the command
queued is `MAIL FROM: <>` when the user or the domain of the sender is empty,
in particular when both are, and the user, `@` and the domain between the
angle brackets when none is empty; the latter is never the empty path. -/
theorem mta_enter_state_mail_reverse_path (w : World) (s : mta_session) (t : mta_task)
    (ha : s.status = .alive) (htask : s.task = some t) :
    (t.sender_user.headD 0 = 0 ∨ t.sender_domain.headD 0 = 0 →
      sends (mta_enter_state w s MTA_MAIL).hist = sends s.hist ++ [str "MAIL FROM: <>"]) ∧
    (t.sender_user.headD 0 ≠ 0 ∧ t.sender_domain.headD 0 ≠ 0 →
      sends (mta_enter_state w s MTA_MAIL).hist = sends s.hist ++
        [str "MAIL FROM: <" ++ t.sender_user ++ str "@" ++ t.sender_domain ++ str ">"] ∧
      str "MAIL FROM: <" ++ t.sender_user ++ str "@" ++ t.sender_domain ++ str ">"
        ≠ str "MAIL FROM: <>") := by
  have hs : ∀ cmd, sends (mta_send (mta_enter_state_head s MTA_MAIL) cmd).hist
      = sends s.hist ++ [cmd] := by
    intro cmd
    rw [mta_send_hist, if_pos (show (mta_enter_state_head s MTA_MAIL).status = .alive from ha),
      mta_enter_state_head_hist, sends_append, sends_append,
      show sends [Effect.log_trace s.state MTA_MAIL] = [] from rfl,
      show sends [Effect.send cmd] = [cmd] from rfl, List.append_nil]
  constructor
  · intro h
    rw [mta_enter_state_mail_eq w s t ha htask, hs, if_neg]
    intro hc
    rcases h with h | h
    · exact hc.1 h
    · exact hc.2 h
  · intro h
    refine ⟨?_, ?_⟩
    · rw [mta_enter_state_mail_eq w s t ha htask, hs, if_pos h]
    · intro hc
      have hlen := congrArg List.length hc
      simp only [List.length_append] at hlen
      have h1 : (str "MAIL FROM: <").length = 12 := by decide
      have h2 : (str "MAIL FROM: <>").length = 13 := by decide
      have h3 : (str ">").length = 1 := by decide
      have h4 : (str "@").length = 1 := by decide
      omega

set_option maxRecDepth 100000 in
theorem mta_enter_state_mail_reverse_path_witness :
    sends (mta_enter_state (demo_world none) (demo_delivery MTA_READY demo_task (some 0) [] 0)
        MTA_MAIL).hist = [str "MAIL FROM: <alice@example.com>"] ∧
      sends (mta_enter_state (demo_world none)
        (demo_delivery MTA_READY { demo_task with sender_domain := [] } (some 0) [] 0)
        MTA_MAIL).hist = [] ++ [str "MAIL FROM: <>"] :=
  ⟨by decide,
    (mta_enter_state_mail_reverse_path (demo_world none)
      (demo_delivery MTA_READY { demo_task with sender_domain := [] } (some 0) [] 0)
      { demo_task with sender_domain := [] } rfl rfl).1 (Or.inr rfl)⟩

/-! ## The extensions of the peer -/

theorem bit_or_ne (x a b : Nat) : (x ||| a) &&& b ≠ 0 ↔ x &&& b ≠ 0 ∨ a &&& b ≠ 0 := by
  rw [Nat.and_comm, and_or_ne_iff, Nat.and_comm b x, Nat.and_comm b a]

/-- One line of a reply in `MTA_EHLO`: the bit that the text sets. -/
theorem mta_io_ext_bits (s : mta_session) (msg : List Nat) (hst : s.state = MTA_EHLO) :
    ((mta_io_ext s msg).ext &&& MTA_EXT_STARTTLS ≠ 0 ↔
      s.ext &&& MTA_EXT_STARTTLS ≠ 0 ∨ msg = str "STARTTLS") ∧
    ((mta_io_ext s msg).ext &&& MTA_EXT_AUTH ≠ 0 ↔
      s.ext &&& MTA_EXT_AUTH ≠ 0 ∨ msg.take 4 = str "AUTH") ∧
    ((mta_io_ext s msg).ext &&& MTA_EXT_PIPELINING ≠ 0 ↔
      s.ext &&& MTA_EXT_PIPELINING ≠ 0 ∨ msg = str "PIPELINING") := by
  unfold mta_io_ext
  rw [if_pos hst]
  by_cases h1 : msg = str "STARTTLS"
  · rw [if_pos h1]
    dsimp only
    have h2 : ¬ msg.take 4 = str "AUTH" := by rw [h1]; decide
    have h3 : ¬ msg = str "PIPELINING" := by rw [h1]; decide
    rw [bit_or_ne, bit_or_ne, bit_or_ne]
    exact ⟨or_congr Iff.rfl (iff_of_true (by decide) h1),
      or_congr Iff.rfl (iff_of_false (by decide) h2),
      or_congr Iff.rfl (iff_of_false (by decide) h3)⟩
  · rw [if_neg h1]
    by_cases h2 : msg.take 4 = str "AUTH"
    · rw [if_pos h2]
      dsimp only
      have h3 : ¬ msg = str "PIPELINING" := by
        intro h; rw [h] at h2; exact absurd h2 (by decide)
      rw [bit_or_ne, bit_or_ne, bit_or_ne]
      exact ⟨or_congr Iff.rfl (iff_of_false (by decide) h1),
        or_congr Iff.rfl (iff_of_true (by decide) h2),
        or_congr Iff.rfl (iff_of_false (by decide) h3)⟩
    · rw [if_neg h2]
      by_cases h3 : msg = str "PIPELINING"
      · rw [if_pos h3]
        dsimp only
        rw [bit_or_ne, bit_or_ne, bit_or_ne]
        exact ⟨or_congr Iff.rfl (iff_of_false (by decide) h1),
          or_congr Iff.rfl (iff_of_false (by decide) h2),
          or_congr Iff.rfl (iff_of_true (by decide) h3)⟩
      · rw [if_neg h3]
        exact ⟨⟨Or.inl, fun h => h.resolve_right h1⟩, ⟨Or.inl, fun h => h.resolve_right h2⟩,
          ⟨Or.inl, fun h => h.resolve_right h3⟩⟩

theorem mta_io_ext_state (s : mta_session) (msg : List Nat) :
    (mta_io_ext s msg).state = s.state := (mta_io_ext_frame s msg).2.1

theorem foldl_ext_state (texts : List (List Nat)) : ∀ (s : mta_session),
    (texts.foldl mta_io_ext s).state = s.state := by
  induction texts with
  | nil => intro s; rfl
  | cons t ts ih =>
    intro s
    rw [List.foldl_cons, ih, mta_io_ext_state]

/-- The lines of a reply in `MTA_EHLO`: the bits that the texts set. -/
theorem foldl_ext_bits (texts : List (List Nat)) : ∀ (s : mta_session),
    s.state = MTA_EHLO →
    ((texts.foldl mta_io_ext s).ext &&& MTA_EXT_STARTTLS ≠ 0 ↔
      s.ext &&& MTA_EXT_STARTTLS ≠ 0 ∨ ∃ t ∈ texts, t = str "STARTTLS") ∧
    ((texts.foldl mta_io_ext s).ext &&& MTA_EXT_AUTH ≠ 0 ↔
      s.ext &&& MTA_EXT_AUTH ≠ 0 ∨ ∃ t ∈ texts, t.take 4 = str "AUTH") ∧
    ((texts.foldl mta_io_ext s).ext &&& MTA_EXT_PIPELINING ≠ 0 ↔
      s.ext &&& MTA_EXT_PIPELINING ≠ 0 ∨ ∃ t ∈ texts, t = str "PIPELINING") := by
  induction texts with
  | nil => intro s _; simp
  | cons t ts ih =>
    intro s hst
    obtain ⟨a1, a2, a3⟩ := mta_io_ext_bits s t hst
    obtain ⟨b1, b2, b3⟩ := ih (mta_io_ext s t) ((mta_io_ext_state s t).trans hst)
    rw [List.foldl_cons]
    refine ⟨?_, ?_, ?_⟩
    · rw [b1, a1]; simp only [List.mem_cons, exists_eq_or_imp, or_assoc]
    · rw [b2, a2]; simp only [List.mem_cons, exists_eq_or_imp, or_assoc]
    · rw [b3, a3]; simp only [List.mem_cons, exists_eq_or_imp, or_assoc]

theorem mta_io_ext_iobuf (s : mta_session) (msg b : List Nat) :
    { mta_io_ext s msg with iobuf_in := b } = mta_io_ext { s with iobuf_in := b } msg := by
  unfold mta_io_ext
  split_ifs <;> rfl

/-- The case `IO_DATAIN` on a complete reply: the extensions of the lines are
read in order, then the last line is handled. -/
theorem mta_io_datain_reply (w : World) : ∀ (fuel : Nat) (s : mta_session)
    (texts : List (List Nat)) (last rest : List Nat),
    complete_reply fuel s.iobuf_in = some (texts, last, rest) →
    mta_io_datain fuel w s
      = mta_io_reply w (texts.foldl mta_io_ext { s with iobuf_in := rest }) last := by
  intro fuel
  induction fuel with
  | zero => intro s texts last rest h; cases h
  | succ fuel ih =>
    intro s texts last rest h
    rw [complete_reply] at h
    rw [mta_io_datain]
    cases hgl : iobuf_getline s.iobuf_in with
    | none => rw [hgl] at h; cases h
    | some lr =>
      obtain ⟨line, rest1⟩ := lr
      rw [hgl] at h
      dsimp only at h ⊢
      cases hp : parse_smtp_response line with
      | error e => rw [hp] at h; cases h
      | ok mc =>
        obtain ⟨msg, cont⟩ := mc
        rw [hp] at h
        dsimp only at h ⊢
        by_cases hc : cont = true
        · rw [if_pos hc] at h
          rw [if_pos hc]
          cases hcr : complete_reply fuel rest1 with
          | none => rw [hcr] at h; cases h
          | some r =>
            obtain ⟨ts, l2, r2⟩ := r
            rw [hcr] at h
            simp only [Option.map_some', Option.some.injEq, Prod.mk.injEq] at h
            obtain ⟨h1, h2, h3⟩ := h
            subst h1 h2 h3
            have hi : (mta_io_ext { s with iobuf_in := rest1 } (cstr msg)).iobuf_in = rest1 :=
              (mta_io_ext_frame _ _).2.2.2.1
            rw [ih _ ts l2 r2 (by rw [hi]; exact hcr), List.foldl_cons,
              mta_io_ext_iobuf]
        · rw [if_neg hc] at h
          rw [if_neg hc]
          simp only [Option.some.injEq, Prod.mk.injEq] at h
          obtain ⟨h1, h2, h3⟩ := h
          subst h1 h2 h3
          rfl

/-- C25: the extensions of the peer. Entering `MTA_EHLO` or `MTA_HELO` clears
them, and so does the event that ends the handshake of a session that did not
start with TLS. For a session in `MTA_EHLO` with the extensions clear and a
complete reply at the head of its input, `mta_io` hands the last line to the
reply handling with the bit of `STARTTLS` set exactly when the text of some
line of the reply is `STARTTLS`, the bit of `PIPELINING` exactly when the
text of some line is `PIPELINING`, and the bit of `AUTH` exactly when the
text of some line starts with `AUTH`; the texts are compared as C strings, the
last line included. -/
theorem mta_io_extensions (w : World) (s : mta_session) (fuel : Nat)
    (texts : List (List Nat)) (last rest : List Nat) (ha : s.status = .alive) :
    (mta_enter_state w s MTA_EHLO).ext = 0 ∧
    (mta_enter_state w s MTA_HELO).ext = 0 ∧
    (s.use_smtps = 0 → (mta_io_tlsverified w s).ext = 0) ∧
    (s.state = MTA_EHLO →
      complete_reply fuel s.iobuf_in = some (texts, last, rest) →
      mta_io_datain fuel w s
        = mta_io_reply w (texts.foldl mta_io_ext { s with iobuf_in := rest }) last ∧
      (texts.foldl mta_io_ext { s with iobuf_in := rest }).state = MTA_EHLO) ∧
    (s.state = MTA_EHLO → s.ext = 0 →
      ((texts.foldl mta_io_ext { s with iobuf_in := rest }).ext &&& MTA_EXT_STARTTLS ≠ 0 ↔
        ∃ t ∈ texts, t = str "STARTTLS") ∧
      ((texts.foldl mta_io_ext { s with iobuf_in := rest }).ext &&& MTA_EXT_PIPELINING ≠ 0 ↔
        ∃ t ∈ texts, t = str "PIPELINING") ∧
      ((texts.foldl mta_io_ext { s with iobuf_in := rest }).ext &&& MTA_EXT_AUTH ≠ 0 ↔
        ∃ t ∈ texts, t.take 4 = str "AUTH")) := by
  have hE : (mta_enter_state w s MTA_EHLO).ext = 0 := by
    unfold mta_enter_state
    rw [if_neg (not_not.mpr ha)]
    dsimp only
    rw [mta_send_ext]
  have hH : (mta_enter_state w s MTA_HELO).ext = 0 := by
    unfold mta_enter_state
    rw [if_neg (not_not.mpr ha)]
    dsimp only
    rw [mta_send_ext]
  refine ⟨hE, hH, ?_, ?_, ?_⟩
  · intro hu
    unfold mta_io_tlsverified
    rw [if_neg (not_not.mpr hu)]
    exact hE
  · intro hst hcr
    exact ⟨mta_io_datain_reply w fuel s texts last rest hcr,
      (foldl_ext_state texts _).trans hst⟩
  · intro hst hx
    have hst1 : ({ s with iobuf_in := rest } : mta_session).state = MTA_EHLO := hst
    obtain ⟨b1, b2, b3⟩ := foldl_ext_bits texts { s with iobuf_in := rest } hst1
    have z : ∀ b : Nat, ¬ (({ s with iobuf_in := rest } : mta_session).ext &&& b ≠ 0) := by
      intro b
      show ¬ (s.ext &&& b ≠ 0)
      rw [hx]
      simp
    refine ⟨?_, ?_, ?_⟩
    · rw [b1]; exact ⟨fun h => h.resolve_left (z _), Or.inr⟩
    · rw [b3]; exact ⟨fun h => h.resolve_left (z _), Or.inr⟩
    · rw [b2]; exact ⟨fun h => h.resolve_left (z _), Or.inr⟩

set_option maxRecDepth 100000 in
theorem mta_io_extensions_witness :
    (demo_run demo_relay demo_greeted).state = MTA_EHLO ∧
      (demo_run demo_relay demo_greeted).ext = 0 ∧
      complete_reply 3 (str "250-STARTTLS\r\n250 AUTH PLAIN\r\n")
        = some ([str "STARTTLS", str "AUTH PLAIN"], str "250 AUTH PLAIN", []) ∧
      (([str "STARTTLS", str "AUTH PLAIN"].foldl mta_io_ext
        { demo_run demo_relay demo_greeted with iobuf_in := [] }).ext
          &&& MTA_EXT_STARTTLS ≠ 0 ↔
        ∃ t ∈ [str "STARTTLS", str "AUTH PLAIN"], t = str "STARTTLS") :=
  ⟨by decide, by decide, by decide,
    ((mta_io_extensions (demo_world none)
      { demo_run demo_relay demo_greeted with
        iobuf_in := str "250-STARTTLS\r\n250 AUTH PLAIN\r\n" } 3
      [str "STARTTLS", str "AUTH PLAIN"] (str "250 AUTH PLAIN") [] (by decide)).2.2.2.2
      (by decide) (by decide)).1⟩

/-! ## The answer of the table helper -/

theorem table_proc_lookup_msg_some (k : Option (List Nat)) (lk : Bool)
    (hkl : k ≠ none ∨ lk = true) :
    table_proc_lookup_msg k lk
      = some (if k = none then PROC_TABLE_FETCH
          else if lk = true then PROC_TABLE_LOOKUP else PROC_TABLE_CHECK) := by
  cases k with
  | none =>
    have hl : lk = true := hkl.resolve_left (fun h => h rfl)
    subst hl
    rfl
  | some key =>
    cases lk <;> rfl

/-- C27: `table_proc_lookup` checks the answer of the helper. When the
backend is not running, or when there is neither a key nor a result slot, it
returns -1 and composes no message. When `table_proc_call` accepts a reply
with the payload `payload`: it returns -1 for a payload shorter than an
`int`; else, with `r` the leading `int`, when `r` is 1 and a result slot is
given, it returns -1 for a remaining payload that is empty or does not end
with NUL and the result of `table_parse_lookup` on the remaining payload
otherwise; in all other cases it returns `r`. -/
theorem table_proc_lookup_checks (parse : Nat → Option (List Nat) → List Nat → Int)
    (priv : table_proc_priv) (k : Option (List Nat)) (s : Nat) (lk : Bool)
    (flush_ok : Bool) (script : List imsg_step) (payload : List Nat) :
    (priv.running = false →
      table_proc_lookup parse priv k s lk flush_ok script = some (-1, priv)) ∧
    (k = none → lk = false →
      table_proc_lookup parse priv k s lk flush_ok script = some (-1, priv)) ∧
    (priv.running = true → (k ≠ none ∨ lk = true) →
      table_proc_call { priv with sent := priv.sent ++
          [(if k = none then PROC_TABLE_FETCH
            else if lk = true then PROC_TABLE_LOOKUP else PROC_TABLE_CHECK, s, k)] }
        none flush_ok script
        = some (1, { priv with sent := priv.sent ++
          [(if k = none then PROC_TABLE_FETCH
            else if lk = true then PROC_TABLE_LOOKUP else PROC_TABLE_CHECK, s, k)] }, payload) →
      ∃ r, table_proc_lookup parse priv k s lk flush_ok script
          = some (r, { priv with sent := priv.sent ++
            [(if k = none then PROC_TABLE_FETCH
              else if lk = true then PROC_TABLE_LOOKUP else PROC_TABLE_CHECK, s, k)] }) ∧
        (payload.length < 4 → r = -1) ∧
        (4 ≤ payload.length → int_of_bytes payload = 1 → lk = true →
          (payload.drop 4 = [] ∨ (payload.drop 4).getLast? ≠ some 0) → r = -1) ∧
        (4 ≤ payload.length → int_of_bytes payload = 1 → lk = true →
          payload.drop 4 ≠ [] → (payload.drop 4).getLast? = some 0 →
          r = parse s k (payload.drop 4)) ∧
        (4 ≤ payload.length → ¬ (int_of_bytes payload = 1 ∧ lk = true) →
          r = int_of_bytes payload)) := by
  refine ⟨?_, ?_, ?_⟩
  · intro h
    unfold table_proc_lookup
    rw [if_pos h]
  · intro hk hl
    unfold table_proc_lookup
    subst hk hl
    by_cases hrun : priv.running = false
    · rw [if_pos hrun]
    · rw [if_neg hrun]
      rfl
  · intro hrun hkl hcall
    have hmsg := table_proc_lookup_msg_some k lk hkl
    unfold table_proc_lookup
    rw [if_neg (by rw [hrun]; decide)]
    dsimp only
    rw [hmsg]
    dsimp only
    rw [hcall]
    dsimp only
    rw [if_neg (by decide)]
    by_cases h4 : payload.length < 4
    · rw [if_pos h4]
      exact ⟨-1, rfl, fun _ => rfl, fun h => absurd h4 (Nat.not_lt.mpr h),
        fun h => absurd h4 (Nat.not_lt.mpr h), fun h => absurd h4 (Nat.not_lt.mpr h)⟩
    · rw [if_neg h4]
      by_cases hr : int_of_bytes payload = 1 ∧ lk = true
      · rw [if_pos hr]
        by_cases he : (payload.drop 4).length = 0
        · rw [if_pos he]
          have he2 : payload.drop 4 = [] := List.length_eq_zero.mp he
          exact ⟨-1, rfl, fun _ => rfl, fun _ _ _ _ => rfl,
            fun _ _ _ h => absurd he2 h, fun _ h => absurd hr h⟩
        · rw [if_neg he]
          have he2 : payload.drop 4 ≠ [] := fun h => he (by rw [h]; rfl)
          by_cases hn : (payload.drop 4).getLast? ≠ some 0
          · rw [if_pos hn]
            exact ⟨-1, rfl, fun _ => rfl, fun _ _ _ _ => rfl,
              fun _ _ _ _ h => absurd h hn, fun _ h => absurd hr h⟩
          · rw [if_neg hn]
            exact ⟨_, rfl, fun h => absurd h h4,
              fun _ _ _ h => h.elim (fun h1 => absurd h1 he2) (fun h1 => absurd h1 hn),
              fun _ _ _ _ _ => rfl, fun _ h => absurd hr h⟩
      · rw [if_neg hr]
        exact ⟨_, rfl, fun h => absurd h h4, fun _ h1 h2 _ => absurd ⟨h1, h2⟩ hr,
          fun _ h1 h2 _ _ => absurd ⟨h1, h2⟩ hr, fun _ _ => rfl⟩

theorem table_proc_lookup_checks_witness :
    table_proc_call { running := true, sent := [(PROC_TABLE_LOOKUP, 3, some (str "bob"))] }
        none true [imsg_step.read_more, imsg_step.get_msg PROC_TABLE_OK [1, 0, 0, 0, 120, 0]]
      = some (1, { running := true, sent := [(PROC_TABLE_LOOKUP, 3, some (str "bob"))] },
          [1, 0, 0, 0, 120, 0]) ∧
    table_proc_lookup (fun _ _ data => data.length) { running := true, sent := [] }
        (some (str "bob")) 3 true true
        [imsg_step.read_more, imsg_step.get_msg PROC_TABLE_OK [1, 0, 0, 0, 120, 0]]
      = some (2, { running := true, sent := [(PROC_TABLE_LOOKUP, 3, some (str "bob"))] }) ∧
    ∃ r, table_proc_lookup (fun _ _ data => data.length) { running := true, sent := [] }
        (some (str "bob")) 3 true true
        [imsg_step.read_more, imsg_step.get_msg PROC_TABLE_OK [1, 0, 0, 0, 120]]
      = some (r, { running := true, sent := [] ++
          [(if some (str "bob") = none then PROC_TABLE_FETCH
            else if true = true then PROC_TABLE_LOOKUP else PROC_TABLE_CHECK, 3,
            some (str "bob"))] }) ∧ r = -1 :=
  ⟨by decide, by decide,
    (fun ⟨r, h1, _, h3, _⟩ => ⟨r, h1, h3 (by decide) (by decide) rfl (Or.inr (by decide))⟩)
      ((table_proc_lookup_checks (fun _ _ data => data.length) { running := true, sent := [] }
        (some (str "bob")) 3 true true
        [imsg_step.read_more, imsg_step.get_msg PROC_TABLE_OK [1, 0, 0, 0, 120]]
        [1, 0, 0, 0, 120]).2.2 rfl (Or.inr rfl) (by decide))⟩

end OpenSMTPD
